import Mathlib

/-!
# The McSAAB link protocol engine

A shallow embedding of `drivers/misc/mcsaab/ssi_mcsaab_imp.c`.

* The global `ssi_protocol` (a `struct mcsaab_imp`) is the record `mcsaab_imp`;
  every C function that reads or writes it is a function on `World`, which
  pairs the record with the network device and with the list of calls made
  to the outside (SSI driver, clock, timers, network stack), oldest first.
* Machine integers are natural numbers; `u32` results are reduced modulo
  `2 ^ 32` where the C expression can exceed the width.
* A pointer that may be `NULL` is a `Bool` (channel handles) or an `Option`
  (`skb_peek`).  Dereferencing the `NULL` result of `skb_peek` is the value
  `none` of the enclosing function.
* A timer is the `Bool` "pending"; `mod_timer` sets it, `del_timer` clears it.
* Values the environment returns (the level read by an ioctl, the success of
  an allocation) are extra arguments of the function that asks for them.
* Debug logging (`DBG`, `printk`, `pr_*`) is not modelled.
-/

namespace McSAAB

/-! ## Constants -/

abbrev CMT_ONLINE : Nat := 0x01
abbrev CLK_ENABLE : Nat := 0x02
abbrev WAKEDOWN_TEST : Nat := 0x04
abbrev READY_SENT : Nat := 0x08

abbrev LOCAL_D_VER_ID : Nat := 0x01
abbrev MCSAAB_TX_QUEUE_LEN : Nat := 100
abbrev C_QUEUE_LEN : Nat := 4
abbrev SSI_MAX_MTU : Nat := 65535
abbrev SSI_DEFAULT_MTU : Nat := 4000
abbrev CMT_DEFAULT_TX_SPEED : Nat := 110
abbrev PN_MEDIA_SOS : Nat := 21

/-- The width of `u32` and `unsigned int`. -/
abbrev U32 : Nat := 4294967296

/-- The C operator `~` on a 32-bit unsigned value. -/
def bnot32 (x : Nat) : Nat := 0xffffffff ^^^ x

/-! ## Command words -/

def COMMAND (data : Nat) : Nat := data >>> 28
def PAYLOAD (data : Nat) : Nat := data &&& 0x0fffffff

abbrev SW_BREAK : Nat := 0x0
abbrev BOOT_INFO_REQ : Nat := 0x1
abbrev BOOT_INFO_RESP : Nat := 0x2
abbrev WAKE_TEST_RES : Nat := 0x3
abbrev START_TRANS : Nat := 0x4
abbrev READY : Nat := 0x5
abbrev FQ_CHANGE_REQ : Nat := 0x8
abbrev FQ_CHANGE_DONE : Nat := 0x9
abbrev ACK : Nat := 0xa
abbrev DUMMY : Nat := 0xc

abbrev RESERVED : Nat := 0x0000000
abbrev DATA_VERSION_MASK : Nat := 0xff
def DATA_VERSION (data : Nat) : Nat := data &&& DATA_VERSION_MASK
abbrev DATA_RESULT_MASK : Nat := 0x0f
def DATA_RESULT (data : Nat) : Nat := data &&& DATA_RESULT_MASK
abbrev WAKE_TEST_OK : Nat := 0x0
abbrev WAKE_TEST_FAILED : Nat := 0x1
abbrev PDU_LENGTH_MASK : Nat := 0xffff
def PDU_LENGTH (data : Nat) : Nat := (data >>> 8) &&& PDU_LENGTH_MASK
abbrev MSG_ID_MASK : Nat := 0xff
def MSG_ID (data : Nat) : Nat := data &&& MSG_ID_MASK
abbrev ACK_TO_CMD_MASK : Nat := 0x0f
def ACK_TO_CMD (data : Nat) : Nat := data &&& ACK_TO_CMD_MASK
abbrev DUMMY_PAYLOAD : Nat := 0xaaccaaa

/-- The macro `CMD(command, payload)`, as a `u32`. -/
def CMD (command payload : Nat) : Nat :=
  ((command <<< 28) ||| (payload &&& 0x0fffffff)) % U32

def SWBREAK_CMD : Nat := CMD SW_BREAK 0x000000
def BOOT_INFO_REQ_CMD (verid : Nat) : Nat := CMD BOOT_INFO_REQ (verid &&& DATA_VERSION_MASK)
def BOOT_INFO_RESP_CMD (verid : Nat) : Nat := CMD BOOT_INFO_RESP (verid &&& DATA_VERSION_MASK)
/-- The macro `START_TRANS_CMD(pdu_len, message_id)`; `pdu_len` is an
`unsigned int`, so the shift is reduced to 32 bits. -/
def START_TRANS_CMD (pdu_len message_id : Nat) : Nat :=
  CMD START_TRANS (((pdu_len <<< 8) % U32) ||| message_id)
def READY_CMD : Nat := CMD READY RESERVED
def FQ_CHANGE_REQ_CMD (max_tx_speed : Nat) : Nat := CMD FQ_CHANGE_REQ max_tx_speed
def FQ_CHANGE_DONE_CMD : Nat := CMD FQ_CHANGE_DONE RESERVED

abbrev SKIP : Nat := 0xf0030006

/-! ## States of the three machines -/

abbrev INIT : Nat := 0
abbrev HANDSHAKE : Nat := 1
abbrev ACTIVE : Nat := 2

abbrev WAIT4READY : Nat := 0
abbrev SEND_READY : Nat := 1
abbrev SENDING : Nat := 2
abbrev SENDING_SWBREAK : Nat := 3

abbrev RECV_READY : Nat := 0
abbrev RECEIVING : Nat := 1
abbrev RECV_BUSY : Nat := 2

/-! ## Data model -/

/-- A socket buffer: its bytes (`skb->data`, `skb->len` of them) and its
protocol tag. -/
structure sk_buff where
  data : List Nat
  protocol : Nat
  deriving DecidableEq

/-- The field `skb->len`. -/
def sk_buff.len (skb : sk_buff) : Nat := skb.data.length

/-- The counters of `dev->stats` the engine touches. -/
structure net_device_stats where
  rx_packets : Nat
  rx_bytes : Nat
  rx_dropped : Nat
  rx_errors : Nat
  rx_length_errors : Nat
  tx_packets : Nat
  tx_bytes : Nat
  tx_dropped : Nat
  deriving DecidableEq

structure net_device where
  mtu : Nat
  hard_header_len : Nat
  addr_len : Nat
  tx_queue_len : Nat
  stats : net_device_stats
  deriving DecidableEq

/-- The record `struct mcsaab_imp`.  `head` and `tail` index `c_queue`, an
array of `C_QUEUE_LEN` words; the three timers are their pending bits; the
two channel handles are present or `NULL`. -/
structure mcsaab_imp where
  main_state : Nat
  send_state : Nat
  recv_state : Nat
  flags : Nat
  rcv_c_msg : Nat
  c_queue : List Nat
  head : Nat
  tail : Nat
  rcv_msg_id : Nat
  send_msg_id : Nat
  cmt_default_tx_speed : Nat
  cmt_tx_speed : Nat
  dev_d_ch : Bool
  dev_c_ch : Bool
  boot_wd : Bool
  tx_wd : Bool
  rx_wd : Bool
  tx_queue : List sk_buff
  rx_queue : List sk_buff
  deriving DecidableEq

inductive Timer
  | boot_wd
  | tx_wd
  | rx_wd
  deriving DecidableEq

/-- The ioctl commands of the SSI driver the engine issues. -/
inductive Ioctl
  | WAKE
  | CAWAKE
  | WAKE_UP
  | WAKE_DOWN
  | FLUSH_RX
  | FLUSH_TX
  deriving DecidableEq

/-- The port events the SSI driver reports. -/
inductive ssi_event
  | BREAK_DETECTED
  | CAWAKE_UP
  | CAWAKE_DOWN
  | other
  deriving DecidableEq

/-- The two channel devices of the driver. -/
inductive Chan
  | control
  | data
  deriving DecidableEq

/-- A call made to the outside of the engine. -/
inductive Effect
  | ssi_write_c (word : Nat)
  | ssi_write_d (data : List Nat) (count : Nat)
  | ssi_read_c
  | ssi_read_d (count : Nat)
  | ssi_read_cancel_d
  | ssi_write_cancel_d
  | ssi_write_cancel_c
  | ssi_ioctl (cmd : Ioctl)
  | ssi_open (ch : Chan)
  | ssi_close (ch : Chan)
  | clk_enable
  | clk_disable
  | mod_timer (t : Timer)
  | del_timer (t : Timer)
  | netif_carrier_on
  | netif_carrier_off
  | netif_wake_queue
  | netif_stop_queue
  | netif_rx (skb : sk_buff)
  | dev_kfree_skb (skb : sk_buff)
  deriving DecidableEq

/-- The engine `ssi_protocol`, its network device, and the calls made so far. -/
structure World where
  prot : mcsaab_imp
  netdev : net_device
  trace : List Effect
  deriving DecidableEq

def emit (e : Effect) (w : World) : World :=
  { w with trace := w.trace ++ [e] }

def upd (f : mcsaab_imp → mcsaab_imp) (w : World) : World :=
  { w with prot := f w.prot }

def updStats (f : net_device_stats → net_device_stats) (w : World) : World :=
  { w with netdev := { w.netdev with stats := f w.netdev.stats } }

def mod_timer (t : Timer) (w : World) : World :=
  emit (.mod_timer t)
    (match t with
     | .boot_wd => upd (fun p => { p with boot_wd := true }) w
     | .tx_wd => upd (fun p => { p with tx_wd := true }) w
     | .rx_wd => upd (fun p => { p with rx_wd := true }) w)

def del_timer (t : Timer) (w : World) : World :=
  emit (.del_timer t)
    (match t with
     | .boot_wd => upd (fun p => { p with boot_wd := false }) w
     | .tx_wd => upd (fun p => { p with tx_wd := false }) w
     | .rx_wd => upd (fun p => { p with rx_wd := false }) w)

/-- The call `skb_queue_purge`: every buffer of the queue is freed. -/
def purge (q : List sk_buff) (w : World) : World :=
  { w with trace := w.trace ++ q.map Effect.dev_kfree_skb }

/-! ## The engine -/

def mcsaab_clk_enable (w : World) : World :=
  if w.prot.flags &&& CLK_ENABLE = 0 then
    emit .clk_enable (upd (fun p => { p with flags := p.flags ||| CLK_ENABLE }) w)
  else w

def mcsaab_clk_disable (w : World) : World :=
  if w.prot.flags &&& CLK_ENABLE ≠ 0 then
    emit .clk_disable (upd (fun p => { p with flags := p.flags &&& bnot32 CLK_ENABLE }) w)
  else w

def reset_mcsaab (w : World) : World :=
  let w := mcsaab_clk_disable w
  let w := del_timer .boot_wd w
  let w := del_timer .rx_wd w
  let w := del_timer .tx_wd w
  let w := upd (fun p => { p with main_state := INIT }) w
  let w := upd (fun p => { p with send_msg_id := 0 }) w
  let w := upd (fun p => { p with rcv_msg_id := 0 }) w
  let w := upd (fun p => { p with send_state := RECV_READY }) w
  let w := upd (fun p => { p with recv_state := SEND_READY }) w
  let w := upd (fun p => { p with flags := 0 }) w
  let w := upd (fun p => { p with head := 0 }) w
  let w := upd (fun p => { p with tail := 0 }) w
  let w := if w.prot.dev_d_ch then emit .ssi_write_cancel_d (emit .ssi_read_cancel_d w) else w
  let w := if w.prot.dev_c_ch then emit .ssi_write_cancel_c w else w
  let w := upd (fun p => { p with tx_queue := [] }) (purge w.prot.tx_queue w)
  let w := upd (fun p => { p with rx_queue := [] }) (purge w.prot.rx_queue w)
  emit .netif_carrier_off w

def send_c_msg (c_msg : Nat) (w : World) : World :=
  let size := (C_QUEUE_LEN + w.prot.tail - w.prot.head) % C_QUEUE_LEN
  if size ≥ C_QUEUE_LEN - 1 then w
  else
    let w := upd (fun p => { p with c_queue := p.c_queue.set p.tail c_msg }) w
    let w := upd (fun p => { p with tail := (p.tail + 1) % C_QUEUE_LEN }) w
    if size = 0 then emit (.ssi_write_c (w.prot.c_queue.getD w.prot.head 0)) w else w

/-- The function `mcsaab_start_rx`; `alloc_ok` says whether `netdev_alloc_skb`
returned a buffer.  The fresh buffer has `len * 4` bytes, here zeroes. -/
def mcsaab_start_rx (len : Nat) (alloc_ok : Bool) (w : World) : World :=
  if !alloc_ok then reset_mcsaab w
  else
    let skb : sk_buff := { data := List.replicate (len * 4) 0, protocol := 0 }
    let w := upd (fun p => { p with rx_queue := p.rx_queue ++ [skb] }) w
    if w.prot.rx_queue.length = 1 then
      let w := mod_timer .rx_wd w
      let w := upd (fun p => { p with recv_state := RECEIVING }) w
      emit (.ssi_read_d len) w
    else w

/-- The function `mcsaab_start_tx`; `none` when `skb_peek` returns `NULL`,
which the code dereferences. -/
def mcsaab_start_tx (w : World) : Option World :=
  match w.prot.tx_queue.head? with
  | none => none
  | some skb =>
    let w := upd (fun p => { p with send_state := SENDING }) w
    let w := mod_timer .tx_wd w
    some (send_c_msg (START_TRANS_CMD ((skb.len + 3) % U32 / 4) w.prot.send_msg_id) w)

/-! ### Watchdogs -/

/-- The function `mcsaab_watchdog_dump`: it reads the two wake lines and
prints the state. -/
def mcsaab_watchdog_dump (w : World) : World :=
  emit (.ssi_ioctl .CAWAKE) (emit (.ssi_ioctl .WAKE) w)

def mcsaab_watchdog (w : World) : World :=
  let w := mcsaab_watchdog_dump w
  let w := reset_mcsaab w
  emit (.ssi_ioctl .WAKE_DOWN) w

def mcsaab_watchdog_rx (w : World) : World :=
  let w := emit (.ssi_ioctl .FLUSH_RX) w
  let w := emit (.ssi_ioctl .FLUSH_TX) w
  mcsaab_watchdog w

def mcsaab_watchdog_tx (w : World) : World :=
  let w := emit (.ssi_ioctl .FLUSH_RX) w
  let w := emit (.ssi_ioctl .FLUSH_TX) w
  mcsaab_watchdog w

/-! ### Network device callbacks -/

/-- The 16-bit conversion `htons` of a little-endian host (the byte swaps of
the file are under `__LITTLE_ENDIAN`). -/
def htons (x : Nat) : Nat := (x % 256) * 256 + (x / 256) % 256

/-- The constant `ETH_P_PHONET` of `linux/if_ether.h`. -/
abbrev ETH_P_PHONET : Nat := 0x00F5

/-- The bytes at offsets 4 and 5 exchanged (the assignments through `buf`
in `ssi_pn_xmit`, `swab16` of the third 16-bit word in `ssi_pn_rx`). -/
def swap45 (d : List Nat) : List Nat :=
  (d.set 4 (d.getD 5 0)).set 5 (d.getD 4 0)

/-- The label `drop` of `ssi_pn_xmit`: the packet is counted as dropped and
freed. -/
def ssi_pn_xmit_drop (skb : sk_buff) (w : World) : World :=
  emit (.dev_kfree_skb skb) (updStats (fun s => { s with tx_dropped := s.tx_dropped + 1 }) w)

/-- The label `out` of `ssi_pn_xmit`: the packet is counted as transmitted. -/
def ssi_pn_xmit_out (skb : sk_buff) (w : World) : World :=
  updStats (fun s => { s with tx_packets := s.tx_packets + 1,
                              tx_bytes := s.tx_bytes + skb.len }) w

/-- The byte swap of `ssi_pn_xmit` under `__LITTLE_ENDIAN`, for a packet of
at least 6 bytes. -/
def ssi_pn_xmit_swap (skb : sk_buff) : sk_buff :=
  if skb.len ≥ 6 then { skb with data := swap45 skb.data } else skb

/-- The end of `ssi_pn_xmit`, reached when the packet is the only one queued:
the wake line is read (`acwake`) and raised, and the transmission starts or
the TX watchdog is armed. -/
def ssi_pn_xmit_wake (skb : sk_buff) (acwake : Nat) (w : World) : Option World :=
  let w := emit (.ssi_ioctl .WAKE) w
  let w := if acwake = 0 then upd (fun p => { p with send_state := WAIT4READY }) w else w
  let w := emit (.ssi_ioctl .WAKE_UP) w
  let w := upd (fun p => { p with main_state := ACTIVE }) w
  if w.prot.send_state = SEND_READY then (mcsaab_start_tx w).map (ssi_pn_xmit_out skb)
  else some (ssi_pn_xmit_out skb (mod_timer .tx_wd w))

/-- The part of `ssi_pn_xmit` from `skb_queue_tail` on. -/
def ssi_pn_xmit_queue (skb : sk_buff) (acwake : Nat) (w : World) : Option World :=
  let w := upd (fun p => { p with tx_queue := p.tx_queue ++ [skb] }) w
  let qlen := w.prot.tx_queue.length
  if w.netdev.tx_queue_len > 1 ∧ qlen ≥ w.netdev.tx_queue_len then
    some (ssi_pn_xmit_out skb (emit .netif_stop_queue w))
  else if qlen > 1 then some (ssi_pn_xmit_out skb w)
  else ssi_pn_xmit_wake skb acwake w

/-- The function `ssi_pn_xmit`.  `pad_ok` and `cow_ok` say whether `skb_pad`
and `skb_cow_head` succeeded, `acwake` is the level `SSI_IOCTL_WAKE` reads.
`skb_pad` zeroes the tail room and leaves `skb->len` as it is. -/
def ssi_pn_xmit (skb : sk_buff) (acwake : Nat) (pad_ok cow_ok : Bool) (w : World) :
    Option World :=
  if skb.protocol ≠ htons ETH_P_PHONET then some (ssi_pn_xmit_drop skb w)
  else if skb.len &&& 3 ≠ 0 ∧ pad_ok = false then
    some (updStats (fun s => { s with tx_dropped := s.tx_dropped + 1 }) w)
  else if cow_ok = false then some (ssi_pn_xmit_drop skb w)
  else if w.prot.flags &&& CMT_ONLINE = 0 then some (ssi_pn_xmit_drop (ssi_pn_xmit_swap skb) w)
  else ssi_pn_xmit_queue (ssi_pn_xmit_swap skb) acwake w

/-- The function `ssi_pn_set_mtu`; `PHONET_MIN_MTU` is a constant of
`linux/if_phonet.h`, taken as an argument.  The result is the device and the
return value. -/
def ssi_pn_set_mtu (PHONET_MIN_MTU : Int) (dev : net_device) (new_mtu : Int) :
    net_device × Int :=
  if new_mtu > (SSI_MAX_MTU : Int) ∨ new_mtu < PHONET_MIN_MTU then (dev, -22)
  else ({ dev with mtu := new_mtu.toNat }, 0)

/-- The function `ssi_pn_setup`, on the fields the model keeps. -/
def ssi_pn_setup (dev : net_device) : net_device :=
  { dev with mtu := SSI_DEFAULT_MTU, hard_header_len := 1, addr_len := 1,
             tx_queue_len := MCSAAB_TX_QUEUE_LEN }

/-- The function `ssi_pn_rx`; `running` is the value of `netif_running(dev)`.
`pskb_may_pull(skb, 6)` holds when the buffer has at least 6 bytes. -/
def ssi_pn_rx (skb : sk_buff) (running : Bool) (w : World) : World :=
  if !running then
    emit (.dev_kfree_skb skb) (updStats (fun s => { s with rx_dropped := s.rx_dropped + 1 }) w)
  else if skb.len < 6 then
    emit (.dev_kfree_skb skb)
      (updStats (fun s => { s with rx_errors := s.rx_errors + 1,
                                   rx_length_errors := s.rx_length_errors + 1 }) w)
  else
    let w := updStats (fun s => { s with rx_packets := s.rx_packets + 1,
                                         rx_bytes := s.rx_bytes + skb.len }) w
    let skb : sk_buff := if skb.len ≥ 6 then { skb with data := swap45 skb.data } else skb
    let skb : sk_buff := { skb with protocol := htons ETH_P_PHONET }
    let skb : sk_buff := { skb with data := skb.data.drop 1 }
    emit (.netif_rx skb) w

/-! ### Incoming commands -/

def boot_info_req_h (_msg : Nat) (w : World) : World :=
  if w.prot.main_state = INIT then
    let w := mcsaab_clk_enable w
    let w := send_c_msg (BOOT_INFO_RESP_CMD LOCAL_D_VER_ID) w
    let w := upd (fun p => { p with main_state := HANDSHAKE }) w
    mod_timer .boot_wd w
  else if w.prot.main_state = HANDSHAKE then
    let w := send_c_msg (BOOT_INFO_RESP_CMD LOCAL_D_VER_ID) w
    mod_timer .boot_wd w
  else if w.prot.main_state = ACTIVE then
    let w := mcsaab_watchdog_dump w
    let w := reset_mcsaab w
    let w := mcsaab_clk_enable w
    let w := emit (.ssi_ioctl .WAKE_UP) w
    let w := send_c_msg (BOOT_INFO_RESP_CMD LOCAL_D_VER_ID) w
    let w := upd (fun p => { p with main_state := HANDSHAKE }) w
    mod_timer .boot_wd w
  else w

def boot_info_resp_h (_msg : Nat) (w : World) : World :=
  if w.prot.main_state ≠ INIT then w
  else
    let w := mcsaab_clk_enable w
    upd (fun p => { p with main_state := HANDSHAKE }) w

/-- The function `wakelines_test_result_h`, compiled with
`__HANDSHAKE_FQ_CHANGE__` (the file defines it). -/
def wakelines_test_result_h (msg : Nat) (w : World) : World :=
  if w.prot.main_state ≠ HANDSHAKE then w
  else if PAYLOAD msg &&& WAKE_TEST_FAILED ≠ 0 then
    let w := mcsaab_watchdog_dump w
    let w := reset_mcsaab w
    let w := emit (.ssi_ioctl .WAKE_DOWN) w
    let w := mcsaab_clk_disable w
    del_timer .boot_wd w
  else
    send_c_msg (FQ_CHANGE_REQ_CMD w.prot.cmt_tx_speed) w

/-- The function `ack_to_cmd_h`; `cmd_id` is a `u8`. -/
def ack_to_cmd_h (msg : Nat) (w : World) : World :=
  let cmd_id := ACK_TO_CMD msg % 256
  if cmd_id = FQ_CHANGE_REQ then
    if w.prot.main_state = HANDSHAKE then send_c_msg FQ_CHANGE_DONE_CMD w else w
  else w

/-- The function `start_trans_h`; `r_msg_id` is a `u8`. -/
def start_trans_h (msg : Nat) (alloc_ok : Bool) (w : World) : World :=
  let r_msg_id := (msg &&& MSG_ID_MASK) % 256
  if w.prot.main_state ≠ ACTIVE then w
  else if r_msg_id ≠ w.prot.rcv_msg_id then
    let w := mcsaab_watchdog_dump w
    reset_mcsaab w
  else
    let w := upd (fun p => { p with rcv_msg_id := (p.rcv_msg_id + 1) &&& 0xff }) w
    let w := upd (fun p => { p with flags := p.flags &&& bnot32 READY_SENT }) w
    mcsaab_start_rx (PDU_LENGTH msg) alloc_ok w

def ready_h (_msg : Nat) (w : World) : Option World :=
  if w.prot.main_state ≠ ACTIVE ∨ w.prot.send_state ≥ SENDING then some w
  else if w.prot.tx_queue.length > 0 then mcsaab_start_tx w
  else some (upd (fun p => { p with send_state := SEND_READY }) w)

def swbreak_h (w : World) : World :=
  if w.prot.main_state ≠ ACTIVE then w
  else mcsaab_clk_disable w

/-! ### Callbacks of the SSI driver -/

/-- The function `c_send_done_cb`, compiled with `__HANDSHAKE_FQ_CHANGE__`;
`acwake` is the level `SSI_IOCTL_WAKE` reads.  `none` when the head of an
empty `tx_queue` is dereferenced. -/
def c_send_done_cb (acwake : Nat) (w : World) : Option World :=
  let cmd := w.prot.c_queue.getD w.prot.head 0
  let handled : Option World :=
    if COMMAND cmd = START_TRANS ∧ w.prot.send_state = SENDING then
      match w.prot.tx_queue.head? with
      | none => none
      | some skb => some (emit (.ssi_write_d skb.data ((skb.len + 3) % U32 / 4)) w)
    else if COMMAND cmd = SW_BREAK ∧ w.prot.send_state = SENDING_SWBREAK then
      (if w.prot.tx_queue.length > 0 then mcsaab_start_tx w
       else
         let w := emit (.ssi_ioctl .WAKE_DOWN) w
         let w := emit (.ssi_ioctl .WAKE) w
         if acwake = 0 then some (upd (fun p => { p with send_state := WAIT4READY }) w)
         else some (upd (fun p => { p with send_state := SEND_READY }) w)).map
        (emit .netif_wake_queue)
    else if COMMAND cmd = FQ_CHANGE_DONE ∧ w.prot.main_state = HANDSHAKE then
      let w := upd (fun p => { p with main_state := ACTIVE }) w
      let w := upd (fun p => { p with flags := p.flags &&& bnot32 WAKEDOWN_TEST }) w
      let w := upd (fun p => { p with flags := p.flags ||| CMT_ONLINE }) w
      let w := emit .netif_carrier_on w
      let w := emit .netif_wake_queue w
      let w := emit (.ssi_ioctl .WAKE_DOWN) w
      let w := mcsaab_clk_disable w
      some (del_timer .boot_wd w)
    else some w
  handled.map fun w =>
    let w := upd (fun p => { p with head := (p.head + 1) % C_QUEUE_LEN }) w
    if w.prot.tail ≠ w.prot.head then
      emit (.ssi_write_c (w.prot.c_queue.getD w.prot.head 0)) w
    else w

def d_send_done_cb (w : World) : Option World :=
  match w.prot.tx_queue with
  | [] => some w
  | skb :: rest =>
    let w := upd (fun p => { p with tx_queue := rest }) w
    let w := del_timer .tx_wd w
    let w := emit (.dev_kfree_skb skb) w
    let w := upd (fun p => { p with send_msg_id := ((p.send_msg_id + 1) % 256) &&& 0xff }) w
    if w.prot.tx_queue.length ≤ 0 then
      let w := send_c_msg SWBREAK_CMD w
      some (upd (fun p => { p with send_state := SENDING_SWBREAK }) w)
    else mcsaab_start_tx w

/-- The function `c_rcv_done_cb`: the word received is `rcv_c_msg`; the next
control read is issued before the word is handled. -/
def c_rcv_done_cb (alloc_ok : Bool) (w : World) : Option World :=
  let message := w.prot.rcv_c_msg
  let command := COMMAND message
  let w := emit .ssi_read_c w
  if command = SW_BREAK then some (swbreak_h w)
  else if command = BOOT_INFO_REQ then some (boot_info_req_h message w)
  else if command = BOOT_INFO_RESP then some (boot_info_resp_h message w)
  else if command = WAKE_TEST_RES then some (wakelines_test_result_h message w)
  else if command = START_TRANS then some (start_trans_h message alloc_ok w)
  else if command = READY then ready_h message w
  else if command = ACK then some (ack_to_cmd_h message w)
  else if command = DUMMY then some w
  else some w

/-- The function `d_rcv_done_cb`; `running` is the value of
`netif_running(dev)` seen by `ssi_pn_rx`. -/
def d_rcv_done_cb (running : Bool) (w : World) : World :=
  match w.prot.rx_queue with
  | [] => w
  | skb :: rest =>
    let w := upd (fun p => { p with rx_queue := rest }) w
    let w := del_timer .rx_wd w
    let w := upd (fun p => { p with recv_state := RECV_READY }) w
    let w := ssi_pn_rx skb running w
    match w.prot.rx_queue.head? with
    | some skb =>
      let w := mod_timer .rx_wd w
      let w := upd (fun p => { p with recv_state := RECEIVING }) w
      emit (.ssi_read_d (skb.len / 4)) w
    | none => w

def wake_up_event (w : World) : World :=
  if w.prot.main_state = INIT then emit (.ssi_ioctl .WAKE_UP) w
  else if w.prot.main_state = HANDSHAKE then
    if w.prot.flags &&& WAKEDOWN_TEST ≠ 0 then emit (.ssi_ioctl .WAKE_UP) w else w
  else if w.prot.main_state = ACTIVE then
    if w.prot.flags &&& READY_SENT ≠ 0 then
      upd (fun p => { p with flags := p.flags &&& bnot32 READY_SENT }) w
    else
      let w := upd (fun p => { p with flags := p.flags ||| READY_SENT }) w
      let w := mcsaab_clk_enable w
      let w := send_c_msg READY_CMD w
      mod_timer .rx_wd w
  else w

def wake_down_event (w : World) : World :=
  if w.prot.main_state = INIT then w
  else if w.prot.main_state = HANDSHAKE then
    if w.prot.flags &&& WAKEDOWN_TEST = 0 then
      let w := emit (.ssi_ioctl .WAKE_DOWN) w
      upd (fun p => { p with flags := p.flags ||| WAKEDOWN_TEST }) w
    else w
  else w

def port_event_cb (event : ssi_event) (w : World) : World :=
  match event with
  | .BREAK_DETECTED =>
    let w := mcsaab_watchdog_dump w
    let w := reset_mcsaab w
    let w := emit (.ssi_ioctl .WAKE_UP) w
    send_c_msg SKIP w
  | .CAWAKE_UP => wake_up_event w
  | .CAWAKE_DOWN => wake_down_event w
  | .other => w

/-! ### Module and device life cycle -/

/-- The function `open_ssi_hw_drv`; `err_c`, `err_d` and `err_r` are the
results of the two `ssi_open` calls and of the first control read, `cawake`
the level `SSI_IOCTL_CAWAKE` reads. -/
def open_ssi_hw_drv (err_c err_d err_r : Int) (cawake : Nat) (w : World) : World × Int :=
  let w := emit (.ssi_open .control) w
  if err_c < 0 then (w, err_c)
  else
    let w := emit (.ssi_open .data) w
    if err_d < 0 then (emit (.ssi_close .control) w, err_d)
    else
      let w := emit .ssi_read_c w
      if err_r < 0 then (emit (.ssi_close .control) (emit (.ssi_close .data) w), err_r)
      else
        let w := emit (.ssi_ioctl .CAWAKE) w
        if cawake ≠ 0 then
          let w := mod_timer .boot_wd w
          let w := emit (.ssi_ioctl .WAKE_UP) w
          (send_c_msg (BOOT_INFO_REQ_CMD 0x1) w, 0)
        else (w, 0)

/-- The function `mcsaab_probe` for the device of channel `n_ch` on port
`n_p`; `-6` is `-ENXIO`. -/
def mcsaab_probe (n_ch n_p : Nat) (err_c err_d err_r : Int) (cawake : Nat) (w : World) :
    World × Int :=
  let bound : Option World :=
    if n_ch = 0 ∧ n_p = 0 then some (upd (fun p => { p with dev_c_ch := true }) w)
    else if n_ch = 3 ∧ n_p = 0 then some (upd (fun p => { p with dev_d_ch := true }) w)
    else none
  match bound with
  | none => (w, -6)
  | some w =>
    if w.prot.dev_d_ch ∧ w.prot.dev_c_ch then open_ssi_hw_drv err_c err_d err_r cawake w
    else (w, 0)

/-- The function `mcsaab_remove` for the device `ssi_dev`; the device equals
a handle of the engine when the handle is set and names the same channel. -/
def mcsaab_remove (ssi_dev : Chan) (w : World) : World :=
  let w := if w.prot.flags &&& CMT_ONLINE ≠ 0 then emit .netif_carrier_off w else w
  let w :=
    if ssi_dev = .control ∧ w.prot.dev_c_ch then
      upd (fun p => { p with main_state := INIT, send_state := SEND_READY,
                             recv_state := RECV_READY, flags := 0, head := 0, tail := 0,
                             dev_c_ch := false }) w
    else if ssi_dev = .data ∧ w.prot.dev_d_ch then
      upd (fun p => { p with dev_d_ch := false }) w
    else w
  emit (.ssi_close ssi_dev) w

/-- The static storage of the module before `ssi_proto_init` runs. -/
def static_storage : World :=
  { prot := { main_state := 0, send_state := 0, recv_state := 0, flags := 0, rcv_c_msg := 0,
              c_queue := [0, 0, 0, 0], head := 0, tail := 0, rcv_msg_id := 0,
              send_msg_id := 0, cmt_default_tx_speed := 0, cmt_tx_speed := 0,
              dev_d_ch := false, dev_c_ch := false, boot_wd := false, tx_wd := false,
              rx_wd := false, tx_queue := [], rx_queue := [] },
    netdev := { mtu := 0, hard_header_len := 0, addr_len := 0, tx_queue_len := 0,
                stats := { rx_packets := 0, rx_bytes := 0, rx_dropped := 0, rx_errors := 0,
                           rx_length_errors := 0, tx_packets := 0, tx_bytes := 0,
                           tx_dropped := 0 } },
    trace := [] }

/-- The function `ssi_proto_init` on the path where every registration
succeeds: the constructed engine. -/
def ssi_proto_init : World :=
  let w := static_storage
  let w := upd (fun p => { p with cmt_default_tx_speed := CMT_DEFAULT_TX_SPEED }) w
  let w := upd (fun p => { p with cmt_tx_speed := 55 }) w
  let w := upd (fun p => { p with main_state := INIT }) w
  let w := upd (fun p => { p with send_state := SEND_READY }) w
  let w := upd (fun p => { p with recv_state := RECV_READY }) w
  let w := upd (fun p => { p with flags := 0 }) w
  let w := upd (fun p => { p with head := 0 }) w
  let w := upd (fun p => { p with tail := 0 }) w
  let w := upd (fun p => { p with dev_c_ch := false }) w
  let w := upd (fun p => { p with dev_d_ch := false }) w
  let w := upd (fun p => { p with tx_queue := [], rx_queue := [] }) w
  let w : World := { w with netdev := ssi_pn_setup w.netdev }
  emit .netif_carrier_off w

def ssi_proto_exit (w : World) : World :=
  reset_mcsaab w

/-! ### Events -/

/-- What the environment can make the engine do: a control word received
(with the outcome of the buffer allocation it may cause), a completed control
or data write, a completed data read (with the bytes the channel stored in
the buffer and the running state of the interface), a port event, a watchdog
expiry, a packet handed down by the network stack. -/
inductive Event
  | c_rcv_done (message : Nat) (alloc_ok : Bool)
  | c_send_done (acwake : Nat)
  | d_send_done
  | d_rcv_done (fill : List Nat) (running : Bool)
  | port_event (event : ssi_event)
  | watchdog_boot
  | watchdog_rx
  | watchdog_tx
  | xmit (skb : sk_buff) (acwake : Nat) (pad_ok cow_ok : Bool)

/-- The channel stores the received bytes in the buffer at the head of
`rx_queue`, which the pending data read points to. -/
def dma_rx_fill (fill : List Nat) (w : World) : World :=
  upd (fun p =>
    match p.rx_queue with
    | [] => p
    | skb :: rest =>
      { p with rx_queue :=
          { skb with data := (fill ++ skb.data.drop fill.length).take skb.data.length } :: rest })
    w

/-- One event handled by the engine; `none` when the handling dereferences
the head of an empty `tx_queue`. -/
def step (e : Event) (w : World) : Option World :=
  match e with
  | .c_rcv_done message alloc_ok =>
    c_rcv_done_cb alloc_ok (upd (fun p => { p with rcv_c_msg := message }) w)
  | .c_send_done acwake => c_send_done_cb acwake w
  | .d_send_done => d_send_done_cb w
  | .d_rcv_done fill running => some (d_rcv_done_cb running (dma_rx_fill fill w))
  | .port_event event => some (port_event_cb event w)
  | .watchdog_boot => some (mcsaab_watchdog w)
  | .watchdog_rx => some (mcsaab_watchdog_rx w)
  | .watchdog_tx => some (mcsaab_watchdog_tx w)
  | .xmit skb acwake pad_ok cow_ok => ssi_pn_xmit skb acwake pad_ok cow_ok w

/-- The control words written so far, oldest first. -/
def c_writes (tr : List Effect) : List Nat :=
  tr.filterMap fun e => match e with
    | .ssi_write_c word => some word
    | _ => none

/-! ### Scenarios and observations -/

/-- A sequence of events handled one after the other. -/
def run_events : List Event → World → Option World
  | [], w => some w
  | e :: es, w => (step e w).bind (run_events es)

/-- The calls made between the world `w` and the later world `w2`. -/
def new_effects (w w2 : World) : List Effect :=
  w2.trace.drop w.trace.length

/-- The observable outcome of a full reset between `w` and `w2`: link state
`INIT`, no flag, both sequence counters zero, both packet queues empty, and
carrier-down reported in between. -/
def FullReset (w w2 : World) : Prop :=
  w2.prot.main_state = INIT ∧ w2.prot.flags = 0 ∧
  w2.prot.send_msg_id = 0 ∧ w2.prot.rcv_msg_id = 0 ∧
  w2.prot.tx_queue = [] ∧ w2.prot.rx_queue = [] ∧
  Effect.netif_carrier_off ∈ new_effects w w2

/-- The words `ws` handed to `send_c_msg` back to back. -/
def enqueue_all (ws : List Nat) (w : World) : World :=
  ws.foldl (fun w c_msg => send_c_msg c_msg w) w

/-- One control write completion for each element of the list, which gives
the wake-line level that completion reads. -/
def complete_all : List Nat → World → Option World
  | [], w => some w
  | acwake :: rest, w => (c_send_done_cb acwake w).bind (complete_all rest)

/-- The slot `i` of the control queue. -/
def slot (w : World) (i : Nat) : Nat :=
  w.prot.c_queue.getD i 0

/-- The world in which the handler of the received word `msg` runs: the word
is in `rcv_c_msg` and the next control read has been issued. -/
def rcvd (msg : Nat) (w : World) : World :=
  emit .ssi_read_c (upd (fun p => { p with rcv_c_msg := msg }) w)

/-- The buffer of a frame of `len` words once the data channel has stored the
bytes `fill` in it. -/
def rx_buffer (len : Nat) (fill : List Nat) : sk_buff :=
  { data := (fill ++ (List.replicate (len * 4) 0).drop fill.length).take (len * 4),
    protocol := 0 }

/-- The calls `reset_mcsaab` makes from the engine state `p`, in the order of
its statements. -/
def reset_calls (p : mcsaab_imp) : List Effect :=
  (if p.flags &&& CLK_ENABLE ≠ 0 then [Effect.clk_disable] else [])
    ++ [.del_timer .boot_wd, .del_timer .rx_wd, .del_timer .tx_wd]
    ++ (if p.dev_d_ch then [.ssi_read_cancel_d, .ssi_write_cancel_d] else [])
    ++ (if p.dev_c_ch then [.ssi_write_cancel_c] else [])
    ++ p.tx_queue.map Effect.dev_kfree_skb
    ++ p.rx_queue.map Effect.dev_kfree_skb
    ++ [.netif_carrier_off]

/-! ### The wake lines -/

/-- The levels of the two wake lines at the time an ioctl reads them: `acwake`,
the line of this side, which `SSI_IOCTL_WAKE` reads and `SSI_IOCTL_WAKE_UP` and
`SSI_IOCTL_WAKE_DOWN` drive, and `cawake`, the line of the peer, which
`SSI_IOCTL_CAWAKE` reads and whose edges are the port events `CAWAKE_UP` and
`CAWAKE_DOWN`; `mcsaab_watchdog_dump` prints the two readings as "ACWake line"
and "CAWake line". -/
structure wake_lines where
  acwake : Nat
  cawake : Nat
  deriving DecidableEq

/-- The callback `c_send_done_cb` run while the wake lines are at the levels
`lines`: its one read is `ssi_ioctl(c_dev, SSI_IOCTL_WAKE, &acwake)`. -/
def c_send_done_lines (lines : wake_lines) (w : World) : Option World :=
  c_send_done_cb lines.acwake w

/-! ### The two parts of `c_send_done_cb` -/

/-- The first part of `c_send_done_cb`: the side effect of the word whose
write has completed. -/
def c_send_handle (acwake : Nat) (w : World) : Option World :=
  let cmd := w.prot.c_queue.getD w.prot.head 0
  if COMMAND cmd = START_TRANS ∧ w.prot.send_state = SENDING then
    match w.prot.tx_queue.head? with
    | none => none
    | some skb => some (emit (.ssi_write_d skb.data ((skb.len + 3) % U32 / 4)) w)
  else if COMMAND cmd = SW_BREAK ∧ w.prot.send_state = SENDING_SWBREAK then
    (if w.prot.tx_queue.length > 0 then mcsaab_start_tx w
     else
       let w := emit (.ssi_ioctl .WAKE_DOWN) w
       let w := emit (.ssi_ioctl .WAKE) w
       if acwake = 0 then some (upd (fun p => { p with send_state := WAIT4READY }) w)
       else some (upd (fun p => { p with send_state := SEND_READY }) w)).map
      (emit .netif_wake_queue)
  else if COMMAND cmd = FQ_CHANGE_DONE ∧ w.prot.main_state = HANDSHAKE then
    let w := upd (fun p => { p with main_state := ACTIVE }) w
    let w := upd (fun p => { p with flags := p.flags &&& bnot32 WAKEDOWN_TEST }) w
    let w := upd (fun p => { p with flags := p.flags ||| CMT_ONLINE }) w
    let w := emit .netif_carrier_on w
    let w := emit .netif_wake_queue w
    let w := emit (.ssi_ioctl .WAKE_DOWN) w
    let w := mcsaab_clk_disable w
    some (del_timer .boot_wd w)
  else some w

/-- The last part of `c_send_done_cb`: the head advances and the next queued
word, if there is one, is written. -/
def c_send_next (w : World) : World :=
  let w := upd (fun p => { p with head := (p.head + 1) % C_QUEUE_LEN }) w
  if w.prot.tail ≠ w.prot.head then
    emit (.ssi_write_c (w.prot.c_queue.getD w.prot.head 0)) w
  else w

/-! ### Relations between the world before and after a step -/

/-- No completion of a word of `held` takes the transmit path of
`c_send_done_cb`: no `SW_BREAK` completes in `SENDING_SWBREAK` with a packet
queued (which starts a transmission and enqueues a `START_TRANSFER`), and no
`START_TRANSFER` completes in `SENDING` with an empty `tx_queue`. -/
def no_tx_restart (w : World) (held : List Nat) : Prop :=
  ¬ (w.prot.send_state = SENDING_SWBREAK ∧ w.prot.tx_queue ≠ [] ∧
      ∃ c ∈ held, COMMAND c = SW_BREAK) ∧
  ¬ (w.prot.send_state = SENDING ∧ w.prot.tx_queue = [] ∧
      ∃ c ∈ held, COMMAND c = START_TRANS)

/-- The world `w2` comes after `w` with the same sequence counters; every slot
of the control queue is unchanged or holds a word that satisfies `P`. -/
def RelQ (P : Nat → Prop) (w w2 : World) : Prop :=
  (∃ es, w2.trace = w.trace ++ es) ∧
  w2.prot.send_msg_id = w.prot.send_msg_id ∧ w2.prot.rcv_msg_id = w.prot.rcv_msg_id ∧
  ∀ i, slot w2 i = slot w i ∨ P (slot w2 i)

/-- As `RelQ`, or both sequence counters are zero and carrier-down has been
reported in between. -/
def Rel (P : Nat → Prop) (w w2 : World) : Prop :=
  ∃ es, w2.trace = w.trace ++ es ∧
    ((w2.prot.send_msg_id = w.prot.send_msg_id ∧ w2.prot.rcv_msg_id = w.prot.rcv_msg_id) ∨
      (w2.prot.send_msg_id = 0 ∧ w2.prot.rcv_msg_id = 0 ∧ Effect.netif_carrier_off ∈ es)) ∧
    ∀ i, slot w2 i = slot w i ∨ P (slot w2 i)

/-- The word is no `START_TRANSFER`. -/
def NonStart (c : Nat) : Prop := COMMAND c ≠ START_TRANS

/-- The word, if it is a `START_TRANSFER`, carries the message id `id`. -/
def TxOk (id : Nat) (c : Nat) : Prop := COMMAND c = START_TRANS → MSG_ID c = id % 256

/-- What one event `e` may do to the sequence counters and the control queue. -/
def IdStep (e : Event) (w w2 : World) : Prop :=
  (w2.prot.send_msg_id = w.prot.send_msg_id ∨
    (e = .d_send_done ∧ w.prot.tx_queue ≠ [] ∧
      w2.prot.send_msg_id = (w.prot.send_msg_id + 1) % 256) ∨
    (w2.prot.send_msg_id = 0 ∧ Effect.netif_carrier_off ∈ new_effects w w2)) ∧
  (w2.prot.rcv_msg_id = w.prot.rcv_msg_id ∨
    ((∃ msg alloc_ok, e = .c_rcv_done msg alloc_ok ∧ COMMAND msg = START_TRANS ∧
        MSG_ID msg = w.prot.rcv_msg_id) ∧ w.prot.main_state = ACTIVE ∧
      w2.prot.rcv_msg_id = (w.prot.rcv_msg_id + 1) % 256) ∨
    (w2.prot.rcv_msg_id = 0 ∧ Effect.netif_carrier_off ∈ new_effects w w2)) ∧
  (∀ i, slot w2 i ≠ slot w i →
    COMMAND (slot w2 i) = START_TRANS → MSG_ID (slot w2 i) = w2.prot.send_msg_id % 256)

/-! ### Example states -/

/-- A Phonet packet of four bytes, one word on the data channel. -/
def phonet_packet : sk_buff :=
  { data := [0, 0, 0, 0], protocol := htons ETH_P_PHONET }

/-- An `ACTIVE` engine that has sent its last packet and is about to send
`SW_BREAK`, while the network stack has queued one more packet. -/
def engine_swbreak : World :=
  { ssi_proto_init with
    prot := { ssi_proto_init.prot with
              main_state := ACTIVE, send_state := SENDING_SWBREAK, flags := CMT_ONLINE,
              dev_c_ch := true, dev_d_ch := true, tx_queue := [phonet_packet] } }

/-- An `ACTIVE` engine that is sending the first of two queued packets with
the message id 255. -/
def engine_wrap : World :=
  { ssi_proto_init with
    prot := { ssi_proto_init.prot with
              main_state := ACTIVE, send_state := SENDING, flags := CMT_ONLINE,
              send_msg_id := 255, dev_c_ch := true, dev_d_ch := true,
              tx_queue := [phonet_packet, phonet_packet] } }

/-- An engine in `HANDSHAKE`, as `BOOT_INFO_REQ` leaves the constructed
engine once the write of the response has completed. -/
def engine_handshake : World :=
  { ssi_proto_init with
    prot := { ssi_proto_init.prot with
              main_state := HANDSHAKE, flags := CLK_ENABLE, boot_wd := true,
              c_queue := [0x20000001, 0, 0, 0], head := 1, tail := 1 } }

/-- An `ACTIVE` engine at rest: online, ready to send and to receive, both
channels bound, nothing queued. -/
def engine_active : World :=
  { ssi_proto_init with
    prot := { ssi_proto_init.prot with
              main_state := ACTIVE, flags := CMT_ONLINE, dev_c_ch := true, dev_d_ch := true } }

/-- A Phonet packet of seven bytes, two words on the data channel. -/
def phonet_packet7 : sk_buff :=
  { data := [1, 2, 3, 4, 5, 6, 7], protocol := htons ETH_P_PHONET }

/-- The engine at rest with one packet of seven bytes queued for sending. -/
def engine_queued : World :=
  { engine_active with prot := { engine_active.prot with tx_queue := [phonet_packet7] } }

/-- An engine whose only queued packet is on the data channel: its
`START_TRANSFER` has been written from slot 0 and the TX watchdog runs. -/
def engine_sending : World :=
  { engine_active with
    prot := { engine_active.prot with
              send_state := SENDING, tx_wd := true, tx_queue := [phonet_packet7],
              c_queue := [0x40000200, 0, 0, 0], head := 1, tail := 1 } }

/-- An engine that has sent its last packet: `SW_BREAK` is in slot 1 of the
control queue and its write is pending, nothing is queued for sending. -/
def engine_swbreak_idle : World :=
  { engine_active with
    prot := { engine_active.prot with
              send_state := SENDING_SWBREAK, send_msg_id := 1,
              c_queue := [0x40000200, 0, 0, 0], head := 1, tail := 2 } }

/-- An engine in `HANDSHAKE` with both channels bound and the boot watchdog
armed. -/
def engine_handshake_bound : World :=
  { engine_handshake with
    prot := { engine_handshake.prot with dev_c_ch := true, dev_d_ch := true } }

/-- An online engine that waits for `READY` with nothing queued. -/
def engine_waiting : World :=
  { engine_active with prot := { engine_active.prot with send_state := WAIT4READY } }

/-- The constructed engine once the control and the data device have been
probed while the peer's wake line is low. -/
def engine_probed : World :=
  (mcsaab_probe 3 0 0 0 0 0 (mcsaab_probe 0 0 0 0 0 0 ssi_proto_init).1).1

/-! ### The life of the module -/

/-- What the environment may ask of the loaded module: to handle an event, to
probe a device, to remove a device. -/
inductive Call
  | event (e : Event)
  | probe (n_ch n_p : Nat) (err_c err_d err_r : Int) (cawake : Nat)
  | remove (ssi_dev : Chan)

/-- One request served; `none` as in `step`. -/
def call (c : Call) (w : World) : Option World :=
  match c with
  | .event e => step e w
  | .probe n_ch n_p err_c err_d err_r cawake =>
    some (mcsaab_probe n_ch n_p err_c err_d err_r cawake w).1
  | .remove ssi_dev => some (mcsaab_remove ssi_dev w)

/-- A sequence of requests served one after the other. -/
def run_calls : List Call → World → Option World
  | [], w => some w
  | c :: cs, w => (call c w).bind (run_calls cs)

/-- The worlds the constructed engine can be in: those a sequence of requests
leads to from the world `ssi_proto_init` leaves. -/
def Reachable (w : World) : Prop :=
  ∃ cs, run_calls cs ssi_proto_init = some w

/-- The packet `mcsaab_start_tx` and the `START_TRANSFER` completion read is
there: the send machine is in `SENDING` only with a packet queued. -/
def HeadPacket (w : World) : Prop :=
  w.prot.send_state = SENDING → w.prot.tx_queue ≠ []

/-- The engine is online only in `ACTIVE`. -/
def OnlineActive (w : World) : Prop :=
  w.prot.flags &&& CMT_ONLINE ≠ 0 → w.prot.main_state = ACTIVE

/-- The world `w2` comes after `w` with the link state kept: the main state
and the online flag are as in `w`, or the engine is offline and not `ACTIVE`;
and the send state and the transmit queue are as in `w`, or the send machine
is in `SENDING` only with a packet queued. -/
def Keeps (w w2 : World) : Prop :=
  ((w2.prot.main_state = w.prot.main_state ∧
      w2.prot.flags &&& CMT_ONLINE = w.prot.flags &&& CMT_ONLINE) ∨
    (w2.prot.main_state ≠ ACTIVE ∧ w2.prot.flags &&& CMT_ONLINE = 0)) ∧
  ((w2.prot.send_state = w.prot.send_state ∧ w2.prot.tx_queue = w.prot.tx_queue) ∨
    HeadPacket w2)

/-- The step from `w` to `w2` is the completion of the write of a
`FQ_CHANGE_DONE` word taken in `HANDSHAKE`: the engine becomes `ACTIVE` and
online, the wake-line test flag is cleared and carrier-up is reported. -/
def Entry (e : Event) (w w2 : World) : Prop :=
  (∃ acwake, e = .c_send_done acwake) ∧
  COMMAND (slot w w.prot.head) = FQ_CHANGE_DONE ∧ w.prot.main_state = HANDSHAKE ∧
  w2.prot.main_state = ACTIVE ∧
  w2.prot.flags &&& WAKEDOWN_TEST = 0 ∧ w2.prot.flags &&& CMT_ONLINE ≠ 0 ∧
  Effect.netif_carrier_on ∈ new_effects w w2

/-- The requests that take the constructed engine to the transmission of its
first packet: both devices probed, `BOOT_INFO_REQ` answered, the `ACK` of
`FQ_CHANGE_REQ` answered with `FQ_CHANGE_DONE`, and a packet of seven bytes
submitted while the wake line is high. -/
def calls_first_packet : List Call :=
  [.probe 0 0 0 0 0 0, .probe 3 0 0 0 0 0, .event (.c_rcv_done 0x10000001 true),
   .event (.c_send_done 0), .event (.c_rcv_done 0xa0000008 true), .event (.c_send_done 0),
   .event (.xmit phonet_packet7 1 true true)]

/-- The world the requests `calls_first_packet` lead to. -/
def engine_first_packet : World :=
  (run_calls calls_first_packet ssi_proto_init).getD ssi_proto_init

/-! ### The outstanding control writes -/

/-- The requests that fill the control queue of an `ACTIVE` engine: both devices
probed, the handshake run to `ACTIVE` (`BOOT_INFO_REQ` and the `ACK` of
`FQ_CHANGE_REQ`, each with the completion of the write it causes), then six
rising edges of the peer's wake line, the first, third and fifth of which
enqueue `READY`, with no write completion in between. -/
def calls_full_queue : List Call :=
  [.probe 0 0 0 0 0 0, .probe 3 0 0 0 0 0, .event (.c_rcv_done 0x10000001 true),
   .event (.c_send_done 0), .event (.c_rcv_done 0xa0000008 true), .event (.c_send_done 0),
   .event (.port_event .CAWAKE_UP), .event (.port_event .CAWAKE_UP),
   .event (.port_event .CAWAKE_UP), .event (.port_event .CAWAKE_UP),
   .event (.port_event .CAWAKE_UP), .event (.port_event .CAWAKE_UP)]

/-- The world the requests `calls_full_queue` lead to: `ACTIVE`, online, ready
to send, nothing queued for sending, `READY_SENT` clear and three `READY` words
held in the control queue. -/
def engine_full_queue : World :=
  (run_calls calls_full_queue ssi_proto_init).getD ssi_proto_init

/-- The world `engine_full_queue` after a packet of seven bytes has been
submitted while the wake line is read as up: the packet is queued and the send
machine is in `SENDING`. -/
def engine_full_sending : World :=
  (run_calls (calls_full_queue ++ [.event (.xmit phonet_packet7 1 true true)])
    ssi_proto_init).getD ssi_proto_init

/-- The world `engine_full_queue` after a packet of seven bytes has been
submitted while the wake line is read as down: the packet is queued and the
send machine waits for `READY`. -/
def engine_full_waiting : World :=
  (run_calls (calls_full_queue ++ [.event (.xmit phonet_packet7 0 true true)])
    ssi_proto_init).getD ssi_proto_init

/-- The requests that leave the engine in `HANDSHAKE` with a full control
queue: both devices probed and `BOOT_INFO_REQ` received three times with no
write completed. -/
def calls_handshake_full : List Call :=
  [.probe 0 0 0 0 0 0, .probe 3 0 0 0 0 0, .event (.c_rcv_done 0x10000001 true),
   .event (.c_rcv_done 0x10000001 true), .event (.c_rcv_done 0x10000001 true)]

/-- The engine in `HANDSHAKE` that holds three `BOOT_INFO_RESP` words, the
first of them being written. -/
def engine_handshake_full : World :=
  (run_calls calls_handshake_full ssi_proto_init).getD ssi_proto_init

/-- The requests that leave a `SW_BREAK` word being written with the control
queue full and a packet waiting: the handshake run to `ACTIVE`, a packet of
seven bytes sent, three rising edges of the peer's wake line, which enqueue
`READY` twice behind `SW_BREAK`, and a second packet submitted. -/
def calls_swbreak_full : List Call :=
  [.probe 0 0 0 0 0 0, .probe 3 0 0 0 0 0, .event (.c_rcv_done 0x10000001 true),
   .event (.c_send_done 0), .event (.c_rcv_done 0xa0000008 true), .event (.c_send_done 0),
   .event (.xmit phonet_packet7 1 true true), .event (.c_send_done 1), .event .d_send_done,
   .event (.port_event .CAWAKE_UP), .event (.port_event .CAWAKE_UP),
   .event (.port_event .CAWAKE_UP), .event (.xmit phonet_packet7 1 true true)]

/-- The engine in `SENDING_SWBREAK` with `SW_BREAK` at `head`, two `READY` words
behind it and a packet queued. -/
def engine_swbreak_full : World :=
  (run_calls calls_swbreak_full ssi_proto_init).getD ssi_proto_init

/-! ## Auxiliary facts -/

theorem and_ff (x : Nat) : x &&& 0xff = x % 256 :=
  Nat.and_pow_two_sub_one_eq_mod x 8

theorem and_0fffffff (x : Nat) : x &&& 0x0fffffff = x % 268435456 :=
  Nat.and_pow_two_sub_one_eq_mod x 28

theorem ack_low_bits (m : Nat) : PAYLOAD m &&& 0xf = ACK_TO_CMD m := by
  unfold PAYLOAD ACK_TO_CMD
  rw [Nat.and_assoc]
  rfl

theorem boot_info_resp_word : BOOT_INFO_RESP_CMD LOCAL_D_VER_ID = 0x20000001 := by decide
theorem fq_change_req_word : FQ_CHANGE_REQ_CMD 55 = 0x80000037 := by decide
theorem fq_change_done_word : FQ_CHANGE_DONE_CMD = 0x90000000 := by decide
theorem command_resp_word : COMMAND 0x20000001 = 2 := by decide
theorem command_req_word : COMMAND 0x80000037 = 8 := by decide
theorem command_done_word : COMMAND 0x90000000 = 9 := by decide

/-- The function `reset_mcsaab` in closed form: the fields it assigns and the
calls it makes, in order. -/
theorem reset_mcsaab_eq (w : World) :
    reset_mcsaab w =
      { prot := { w.prot with
                  main_state := INIT, send_msg_id := 0, rcv_msg_id := 0,
                  send_state := RECV_READY, recv_state := SEND_READY, flags := 0,
                  head := 0, tail := 0, boot_wd := false, rx_wd := false, tx_wd := false,
                  tx_queue := [], rx_queue := [] },
        netdev := w.netdev,
        trace := w.trace
          ++ (if w.prot.flags &&& CLK_ENABLE ≠ 0 then [Effect.clk_disable] else [])
          ++ [.del_timer .boot_wd, .del_timer .rx_wd, .del_timer .tx_wd]
          ++ (if w.prot.dev_d_ch then [.ssi_read_cancel_d, .ssi_write_cancel_d] else [])
          ++ (if w.prot.dev_c_ch then [.ssi_write_cancel_c] else [])
          ++ w.prot.tx_queue.map Effect.dev_kfree_skb
          ++ w.prot.rx_queue.map Effect.dev_kfree_skb
          ++ [.netif_carrier_off] } := by
  unfold reset_mcsaab mcsaab_clk_disable
  by_cases hc : w.prot.flags &&& CLK_ENABLE = 0 <;> cases hd : w.prot.dev_d_ch <;>
    cases hcc : w.prot.dev_c_ch <;>
    simp [hc, hd, hcc, del_timer, emit, upd, purge]

/-- The dispatch of `c_rcv_done_cb` on the command of the received word. -/
theorem step_c_rcv_done (msg : Nat) (alloc_ok : Bool) (w : World) :
    step (.c_rcv_done msg alloc_ok) w =
      if COMMAND msg = 0 then some (swbreak_h (rcvd msg w))
      else if COMMAND msg = 1 then some (boot_info_req_h msg (rcvd msg w))
      else if COMMAND msg = 2 then some (boot_info_resp_h msg (rcvd msg w))
      else if COMMAND msg = 3 then some (wakelines_test_result_h msg (rcvd msg w))
      else if COMMAND msg = 4 then some (start_trans_h msg alloc_ok (rcvd msg w))
      else if COMMAND msg = 5 then ready_h msg (rcvd msg w)
      else if COMMAND msg = 10 then some (ack_to_cmd_h msg (rcvd msg w))
      else some (rcvd msg w) := by
  simp only [step, c_rcv_done_cb, rcvd, upd, ite_self]

theorem start_trans_h_mismatch (w : World) (msg : Nat) (alloc_ok : Bool)
    (hs : w.prot.main_state = ACTIVE) (hm : MSG_ID msg ≠ w.prot.rcv_msg_id) :
    start_trans_h msg alloc_ok w = reset_mcsaab (mcsaab_watchdog_dump w) := by
  have hr : (msg &&& MSG_ID_MASK) % 256 = MSG_ID msg := by
    simp [MSG_ID, and_ff]
  simp only [start_trans_h, hr]
  rw [if_neg (by simp [hs]), if_pos hm]

theorem start_trans_h_accept (w : World) (msg : Nat) (alloc_ok : Bool)
    (hs : w.prot.main_state = ACTIVE) (hm : MSG_ID msg = w.prot.rcv_msg_id) :
    start_trans_h msg alloc_ok w =
      mcsaab_start_rx (PDU_LENGTH msg) alloc_ok
        (upd (fun p => { p with flags := p.flags &&& bnot32 READY_SENT })
          (upd (fun p => { p with rcv_msg_id := (p.rcv_msg_id + 1) &&& 0xff }) w)) := by
  have hr : (msg &&& MSG_ID_MASK) % 256 = MSG_ID msg := by
    simp [MSG_ID, and_ff]
  simp only [start_trans_h, hr]
  rw [if_neg (by simp [hs]), if_neg (by simp [hm])]

theorem COMMAND_eq (w : Nat) : COMMAND w = w / 268435456 := by
  simp [COMMAND, Nat.shiftRight_eq_div_pow]

theorem PAYLOAD_eq (w : Nat) : PAYLOAD w = w % 268435456 := and_0fffffff w

theorem MSG_ID_eq (w : Nat) : MSG_ID w = w % 256 := and_ff w

theorem PDU_LENGTH_eq (w : Nat) : PDU_LENGTH w = w / 256 % 65536 := by
  unfold PDU_LENGTH
  rw [Nat.shiftRight_eq_div_pow]
  exact Nat.and_pow_two_sub_one_eq_mod _ 16

theorem CMD_eq (c p : Nat) : CMD c p = (c * 268435456 + p % 268435456) % 4294967296 := by
  unfold CMD
  rw [and_0fffffff, Nat.shiftLeft_eq, Nat.mul_comm c]
  have h : p % 268435456 < 2 ^ 28 := Nat.mod_lt _ (by norm_num)
  rw [← Nat.mul_add_lt_is_or h c]

theorem START_TRANS_CMD_eq (len id : Nat) (hid : id < 256) :
    START_TRANS_CMD len id = (1073741824 + (len * 256 + id) % 268435456) % 4294967296 := by
  unfold START_TRANS_CMD
  rw [CMD_eq, Nat.shiftLeft_eq]
  have h1 : len * 2 ^ 8 % U32 = 2 ^ 8 * (len % 16777216) := by
    simp only [U32]
    omega
  have h2 : id < 2 ^ 8 := by simpa using hid
  rw [h1, ← Nat.mul_add_lt_is_or h2]
  simp only [START_TRANS]
  omega

theorem c_send_done_cb_eq (acwake : Nat) (w : World) :
    c_send_done_cb acwake w = (c_send_handle acwake w).map c_send_next := rfl

theorem new_effects_append (w w2 : World) (es : List Effect) (h : w2.trace = w.trace ++ es) :
    new_effects w w2 = es := by
  simp [new_effects, h]

theorem c_writes_append (xs ys : List Effect) :
    c_writes (xs ++ ys) = c_writes xs ++ c_writes ys := by
  simp [c_writes]

theorem c_send_next_spec (w : World) :
    (c_send_next w).prot.c_queue = w.prot.c_queue ∧ (c_send_next w).prot.tail = w.prot.tail ∧
    (c_send_next w).prot.head = (w.prot.head + 1) % C_QUEUE_LEN ∧
    (c_send_next w).prot.tx_queue = w.prot.tx_queue ∧
    (c_send_next w).prot.send_state = w.prot.send_state ∧
    (c_send_next w).trace = w.trace ++
      (if w.prot.tail ≠ (w.prot.head + 1) % C_QUEUE_LEN then
        [Effect.ssi_write_c (slot w ((w.prot.head + 1) % C_QUEUE_LEN))] else []) := by
  unfold c_send_next slot
  by_cases h : w.prot.tail = (w.prot.head + 1) % C_QUEUE_LEN
  · simp [upd, emit, h]
  · simp [upd, emit, h]

theorem c_send_done_cb_benign (acw : Nat) (w : World)
    (h1 : ¬ (COMMAND (slot w w.prot.head) = SW_BREAK ∧ w.prot.send_state = SENDING_SWBREAK ∧
      w.prot.tx_queue ≠ []))
    (h2 : ¬ (COMMAND (slot w w.prot.head) = START_TRANS ∧ w.prot.send_state = SENDING ∧
      w.prot.tx_queue = [])) :
    ∃ w2 es, c_send_done_cb acw w = some w2 ∧
      w2.prot.c_queue = w.prot.c_queue ∧ w2.prot.tail = w.prot.tail ∧
      w2.prot.head = (w.prot.head + 1) % C_QUEUE_LEN ∧
      w2.prot.tx_queue = w.prot.tx_queue ∧
      (w2.prot.send_state = w.prot.send_state ∨ w2.prot.send_state < SENDING) ∧
      w2.trace = w.trace ++ es ∧
      c_writes es =
        (if w.prot.tail ≠ (w.prot.head + 1) % C_QUEUE_LEN then
          [slot w ((w.prot.head + 1) % C_QUEUE_LEN)] else []) := by
  have key : ∃ w1 es, c_send_handle acw w = some w1 ∧
      w1.prot.c_queue = w.prot.c_queue ∧ w1.prot.tail = w.prot.tail ∧
      w1.prot.head = w.prot.head ∧ w1.prot.tx_queue = w.prot.tx_queue ∧
      (w1.prot.send_state = w.prot.send_state ∨ w1.prot.send_state < SENDING) ∧
      w1.trace = w.trace ++ es ∧ c_writes es = [] := by
    unfold slot at h1 h2
    unfold c_send_handle
    by_cases c1 : COMMAND (w.prot.c_queue.getD w.prot.head 0) = START_TRANS ∧
        w.prot.send_state = SENDING
    · have hq : w.prot.tx_queue ≠ [] := fun hq => h2 ⟨c1.1, c1.2, hq⟩
      obtain ⟨skb, rest, hq2⟩ := List.exists_cons_of_ne_nil hq
      rw [if_pos c1]
      simp [hq2, upd, emit, c_writes]
    · rw [if_neg c1]
      by_cases c2 : COMMAND (w.prot.c_queue.getD w.prot.head 0) = SW_BREAK ∧
          w.prot.send_state = SENDING_SWBREAK
      · have hq : w.prot.tx_queue = [] := by
          by_contra hq
          exact h1 ⟨c2.1, c2.2, hq⟩
        rw [if_pos c2]
        by_cases ha : acw = 0 <;>
          simp [hq, upd, emit, ha, c_writes]
      · rw [if_neg c2]
        by_cases c3 : COMMAND (w.prot.c_queue.getD w.prot.head 0) = FQ_CHANGE_DONE ∧
            w.prot.main_state = HANDSHAKE
        · rw [if_pos c3]
          by_cases hk : (w.prot.flags &&& bnot32 WAKEDOWN_TEST ||| CMT_ONLINE) &&& CLK_ENABLE = 0 <;>
            simp [upd, emit, hk, c_writes, mcsaab_clk_disable, del_timer]
        · rw [if_neg c3]
          exact ⟨w, [], rfl, rfl, rfl, rfl, rfl, Or.inl rfl, by simp, rfl⟩
  obtain ⟨w1, es, e1, hq, ht, hh, htx, hs, htr, hcw⟩ := key
  have sp := c_send_next_spec w1
  refine ⟨c_send_next w1, es ++ (if w1.prot.tail ≠ (w1.prot.head + 1) % C_QUEUE_LEN then
    [Effect.ssi_write_c (slot w1 ((w1.prot.head + 1) % C_QUEUE_LEN))] else []), ?_, ?_⟩
  · rw [c_send_done_cb_eq, e1]
    rfl
  rw [sp.1, sp.2.1, sp.2.2.1, sp.2.2.2.1, sp.2.2.2.2.1, sp.2.2.2.2.2, hq, ht, hh, htx, htr,
    List.append_assoc]
  refine ⟨rfl, rfl, rfl, rfl, hs, rfl, ?_⟩
  rw [c_writes_append, hcw]
  by_cases h : w.prot.tail = (w.prot.head + 1) % C_QUEUE_LEN <;> simp [h, c_writes, slot, hq]

theorem no_tx_restart_step (w w2 : World) (held : List Nat)
    (htx : w2.prot.tx_queue = w.prot.tx_queue)
    (hs : w2.prot.send_state = w.prot.send_state ∨ w2.prot.send_state < SENDING)
    (h : no_tx_restart w held) : no_tx_restart w2 held := by
  unfold no_tx_restart at h ⊢
  rw [htx]
  rcases hs with hs | hs
  · rw [hs]
    exact h
  · simp only [SENDING] at hs
    constructor
    · intro hc
      have := hc.1
      simp only [SENDING_SWBREAK] at this
      omega
    · intro hc
      have := hc.1
      simp only [SENDING] at this
      omega

/-- Completions that take no transmit path drain the control queue: each
advances `head` by one and writes the word at the new head unless the queue
has become empty. -/
theorem complete_all_benign (held : List Nat) :
    ∀ (acw : List Nat) (w : World), w.prot.head < C_QUEUE_LEN → no_tx_restart w held →
      (∀ i, i < acw.length → slot w ((w.prot.head + i) % C_QUEUE_LEN) ∈ held) →
      ∃ w2 es, complete_all acw w = some w2 ∧
        w2.prot.c_queue = w.prot.c_queue ∧ w2.prot.tail = w.prot.tail ∧
        w2.prot.head = (w.prot.head + acw.length) % C_QUEUE_LEN ∧
        w2.trace = w.trace ++ es ∧
        c_writes es = (List.range acw.length).filterMap (fun i =>
          if w.prot.tail ≠ (w.prot.head + i + 1) % C_QUEUE_LEN then
            some (slot w ((w.prot.head + i + 1) % C_QUEUE_LEN)) else none) := by
  intro acw
  induction acw with
  | nil =>
    intro w hh _ _
    refine ⟨w, [], rfl, rfl, rfl, ?_, by simp, by simp [c_writes]⟩
    simp only [List.length_nil, Nat.add_zero]
    exact (Nat.mod_eq_of_lt hh).symm
  | cons a rest ih =>
    intro w hh hb hin
    have h0 : slot w w.prot.head ∈ held := by
      have := hin 0 (by simp)
      rwa [Nat.add_zero, Nat.mod_eq_of_lt hh] at this
    have hb1 : ¬ (COMMAND (slot w w.prot.head) = SW_BREAK ∧
        w.prot.send_state = SENDING_SWBREAK ∧ w.prot.tx_queue ≠ []) :=
      fun hc => hb.1 ⟨hc.2.1, hc.2.2, _, h0, hc.1⟩
    have hb2 : ¬ (COMMAND (slot w w.prot.head) = START_TRANS ∧
        w.prot.send_state = SENDING ∧ w.prot.tx_queue = []) :=
      fun hc => hb.2 ⟨hc.2.1, hc.2.2, _, h0, hc.1⟩
    obtain ⟨w1, es1, e1, hq1, ht1, hh1, htx1, hs1, htr1, hcw1⟩ :=
      c_send_done_cb_benign a w hb1 hb2
    have hh1lt : w1.prot.head < C_QUEUE_LEN := by
      rw [hh1]
      exact Nat.mod_lt _ (by decide)
    have hslot : ∀ i, slot w1 i = slot w i := by
      intro i
      simp [slot, hq1]
    have hin1 : ∀ i, i < rest.length → slot w1 ((w1.prot.head + i) % C_QUEUE_LEN) ∈ held := by
      intro i hi
      have := hin (i + 1) (by simpa using hi)
      rw [hslot, hh1]
      have e : ((w.prot.head + 1) % C_QUEUE_LEN + i) % C_QUEUE_LEN =
          (w.prot.head + (i + 1)) % C_QUEUE_LEN := by
        simp only [C_QUEUE_LEN]
        omega
      rwa [e]
    obtain ⟨w2, es2, e2, hq2, ht2, hh2, htr2, hcw2⟩ :=
      ih w1 hh1lt (no_tx_restart_step w w1 held htx1 hs1 hb) hin1
    refine ⟨w2, es1 ++ es2, ?_, by rw [hq2, hq1], by rw [ht2, ht1], ?_, ?_, ?_⟩
    · simp only [complete_all, e1, Option.some_bind, e2]
    · rw [hh2, hh1]
      simp only [C_QUEUE_LEN, List.length_cons]
      omega
    · rw [htr2, htr1, List.append_assoc]
    · rw [c_writes_append, hcw1, hcw2, List.length_cons, List.range_succ_eq_map,
        List.filterMap_cons, List.filterMap_map]
      have e : ∀ i, ((w.prot.head + 1) % C_QUEUE_LEN + i + 1) % C_QUEUE_LEN =
          (w.prot.head + (i + 1) + 1) % C_QUEUE_LEN := by
        intro i
        simp only [C_QUEUE_LEN]
        omega
      simp only [ht1, hh1, hslot, e, Function.comp_def, Nat.zero_add, Nat.add_zero]
      by_cases h : w.prot.tail = (w.prot.head + 1) % C_QUEUE_LEN <;> simp [h]

theorem send_c_msg_full (c_msg : Nat) (w : World)
    (hfull : (C_QUEUE_LEN + w.prot.tail - w.prot.head) % C_QUEUE_LEN = 3) :
    send_c_msg c_msg w = w := by
  simp [send_c_msg, hfull]

theorem enqueue_all_full (ws : List Nat) (w : World)
    (hfull : (C_QUEUE_LEN + w.prot.tail - w.prot.head) % C_QUEUE_LEN = 3) :
    enqueue_all ws w = w := by
  induction ws with
  | nil => rfl
  | cons c rest ih =>
    simp only [enqueue_all, List.foldl_cons, send_c_msg_full c w hfull]
    exact ih

theorem length_four (l : List Nat) (h : l.length = 4) :
    ∃ q0 q1 q2 q3, l = [q0, q1, q2, q3] := by
  match l, h with
  | [q0, q1, q2, q3], _ => exact ⟨q0, q1, q2, q3, rfl⟩

/-- At most three words enqueued into an empty queue are all held, in order,
from the slot `head` on, and the first of them is written. -/
theorem enqueue_all_le3 (w : World) (ws : List Nat)
    (hempty : w.prot.head = w.prot.tail) (hh : w.prot.head < C_QUEUE_LEN)
    (hlen : w.prot.c_queue.length = C_QUEUE_LEN) (hws : ws.length ≤ 3) :
    (enqueue_all ws w).prot.head = w.prot.head ∧
    (enqueue_all ws w).prot.tail = (w.prot.head + ws.length) % C_QUEUE_LEN ∧
    (∀ i, i < ws.length →
      slot (enqueue_all ws w) ((w.prot.head + i) % C_QUEUE_LEN) = ws.getD i 0) ∧
    (enqueue_all ws w).trace = w.trace ++ (ws.take 1).map Effect.ssi_write_c ∧
    (enqueue_all ws w).prot.send_state = w.prot.send_state ∧
    (enqueue_all ws w).prot.tx_queue = w.prot.tx_queue := by
  obtain ⟨q0, q1, q2, q3, hq⟩ := length_four _ hlen
  have ht : w.prot.tail = w.prot.head := hempty.symm
  simp only [C_QUEUE_LEN] at hh
  have hcases : w.prot.head = 0 ∨ w.prot.head = 1 ∨ w.prot.head = 2 ∨ w.prot.head = 3 := by
    omega
  match ws, hws with
  | [], _ =>
    rcases hcases with h | h | h | h <;> simp [enqueue_all, h, ht, C_QUEUE_LEN]
  | [a], _ =>
    rcases hcases with h | h | h | h <;>
      simp [enqueue_all, send_c_msg, upd, emit, slot, h, ht, hq, C_QUEUE_LEN]
  | [a, b], _ =>
    rcases hcases with h | h | h | h <;>
      simp [enqueue_all, send_c_msg, upd, emit, slot, h, ht, hq, C_QUEUE_LEN] <;>
      (intro i hi; interval_cases i <;> simp)
  | [a, b, c], _ =>
    rcases hcases with h | h | h | h <;>
      simp [enqueue_all, send_c_msg, upd, emit, slot, h, ht, hq, C_QUEUE_LEN] <;>
      (intro i hi; interval_cases i <;> simp)

theorem c_writes_map_write (l : List Nat) : c_writes (l.map Effect.ssi_write_c) = l := by
  induction l with
  | nil => rfl
  | cons a rest ih =>
    simp only [c_writes, List.map_cons, List.filterMap_cons] at ih ⊢
    rw [ih]

theorem getD_take3 (ws : List Nat) (i : Nat) (hi : i < 3) :
    (ws.take 3).getD i 0 = ws.getD i 0 := by
  simp [List.getD_eq_getElem?_getD, List.getElem?_take, hi]

theorem enqueue_all_take3 (w : World) (ws : List Nat)
    (hempty : w.prot.head = w.prot.tail) (hh : w.prot.head < C_QUEUE_LEN)
    (hlen : w.prot.c_queue.length = C_QUEUE_LEN) :
    enqueue_all ws w = enqueue_all (ws.take 3) w := by
  by_cases hl : ws.length ≤ 3
  · rw [List.take_of_length_le hl]
  · have hl3 : (ws.take 3).length = 3 := by
      rw [List.length_take]
      omega
    obtain ⟨E1, E2, _⟩ := enqueue_all_le3 w (ws.take 3) hempty hh hlen (by omega)
    have happ : enqueue_all ws w =
        enqueue_all (ws.drop 3) (enqueue_all (ws.take 3) w) := by
      conv_lhs => rw [← List.take_append_drop 3 ws]
      simp only [enqueue_all, List.foldl_append]
    rw [happ]
    apply enqueue_all_full
    rw [E1, E2, hl3]
    simp only [C_QUEUE_LEN] at hh ⊢
    omega

theorem send_c_msg_eq (c_msg : Nat) (w : World) :
    send_c_msg c_msg w =
      if 3 ≤ (4 + w.prot.tail - w.prot.head) % 4 then w
      else
        { prot := { w.prot with c_queue := w.prot.c_queue.set w.prot.tail c_msg,
                                tail := (w.prot.tail + 1) % 4 },
          netdev := w.netdev,
          trace := w.trace ++
            if (4 + w.prot.tail - w.prot.head) % 4 = 0 then
              [Effect.ssi_write_c ((w.prot.c_queue.set w.prot.tail c_msg).getD w.prot.head 0)]
            else [] } := by
  unfold send_c_msg
  by_cases h : 3 ≤ (4 + w.prot.tail - w.prot.head) % 4
  · simp [h, C_QUEUE_LEN]
  · by_cases h0 : (4 + w.prot.tail - w.prot.head) % 4 = 0 <;>
      simp [h, h0, C_QUEUE_LEN, upd, emit]

theorem RelQ.refl (P : Nat → Prop) (w : World) : RelQ P w w :=
  ⟨⟨[], by simp⟩, rfl, rfl, fun _ => Or.inl rfl⟩

theorem RelQ.andThen {P : Nat → Prop} {w w1 w2 : World} (h1 : RelQ P w w1) (h2 : RelQ P w1 w2) :
    RelQ P w w2 := by
  obtain ⟨⟨es1, t1⟩, s1, r1, q1⟩ := h1
  obtain ⟨⟨es2, t2⟩, s2, r2, q2⟩ := h2
  refine ⟨⟨es1 ++ es2, by rw [t2, t1, List.append_assoc]⟩, by rw [s2, s1], by rw [r2, r1], ?_⟩
  intro i
  rcases q2 i with h | h
  · rcases q1 i with h' | h'
    · exact Or.inl (h.trans h')
    · exact Or.inr (by rw [h]; exact h')
  · exact Or.inr h

theorem RelQ.toRel {P : Nat → Prop} {w w2 : World} (h : RelQ P w w2) : Rel P w w2 := by
  obtain ⟨⟨es, t⟩, s, r, q⟩ := h
  exact ⟨es, t, Or.inl ⟨s, r⟩, q⟩

theorem Rel.trans {P : Nat → Prop} {w w1 w2 : World} (h1 : Rel P w w1) (h2 : Rel P w1 w2) :
    Rel P w w2 := by
  obtain ⟨es1, t1, i1, q1⟩ := h1
  obtain ⟨es2, t2, i2, q2⟩ := h2
  refine ⟨es1 ++ es2, by rw [t2, t1, List.append_assoc], ?_, ?_⟩
  · rcases i2 with ⟨s2, r2⟩ | ⟨s2, r2, c2⟩
    · rcases i1 with ⟨s1, r1⟩ | ⟨s1, r1, c1⟩
      · exact Or.inl ⟨by rw [s2, s1], by rw [r2, r1]⟩
      · exact Or.inr ⟨by rw [s2, s1], by rw [r2, r1], List.mem_append_left _ c1⟩
    · exact Or.inr ⟨s2, r2, List.mem_append_right _ c2⟩
  · intro i
    rcases q2 i with h | h
    · rcases q1 i with h' | h'
      · exact Or.inl (h.trans h')
      · exact Or.inr (by rw [h]; exact h')
    · exact Or.inr h

/-- A step that keeps the counters and the control queue and only adds calls. -/
theorem RelQ.of_same {P : Nat → Prop} {w w2 : World} (ht : ∃ es, w2.trace = w.trace ++ es)
    (hs : w2.prot.send_msg_id = w.prot.send_msg_id)
    (hr : w2.prot.rcv_msg_id = w.prot.rcv_msg_id)
    (hq : w2.prot.c_queue = w.prot.c_queue) : RelQ P w w2 :=
  ⟨ht, hs, hr, fun i => Or.inl (by simp [slot, hq])⟩

theorem relq_emit {P : Nat → Prop} {w w1 : World} (e : Effect) (h : RelQ P w w1) :
    RelQ P w (emit e w1) :=
  h.andThen (RelQ.of_same ⟨[e], rfl⟩ rfl rfl rfl)

theorem relq_upd {P : Nat → Prop} {w w1 : World} (f : mcsaab_imp → mcsaab_imp)
    (hs : ∀ p, (f p).send_msg_id = p.send_msg_id) (hr : ∀ p, (f p).rcv_msg_id = p.rcv_msg_id)
    (hq : ∀ p, (f p).c_queue = p.c_queue) (h : RelQ P w w1) : RelQ P w (upd f w1) :=
  h.andThen (RelQ.of_same ⟨[], by simp [upd]⟩ (hs _) (hr _) (hq _))

theorem relq_updStats {P : Nat → Prop} {w w1 : World} (f : net_device_stats → net_device_stats)
    (h : RelQ P w w1) : RelQ P w (updStats f w1) :=
  h.andThen (RelQ.of_same ⟨[], by simp [updStats]⟩ rfl rfl rfl)

theorem relq_mod_timer {P : Nat → Prop} {w w1 : World} (t : Timer) (h : RelQ P w w1) :
    RelQ P w (mod_timer t w1) := by
  refine h.andThen (RelQ.of_same ⟨[.mod_timer t], ?_⟩ ?_ ?_ ?_) <;> cases t <;> rfl

theorem relq_del_timer {P : Nat → Prop} {w w1 : World} (t : Timer) (h : RelQ P w w1) :
    RelQ P w (del_timer t w1) := by
  refine h.andThen (RelQ.of_same ⟨[.del_timer t], ?_⟩ ?_ ?_ ?_) <;> cases t <;> rfl

theorem relq_clk_enable {P : Nat → Prop} {w w1 : World} (h : RelQ P w w1) :
    RelQ P w (mcsaab_clk_enable w1) := by
  unfold mcsaab_clk_enable
  split
  · exact relq_emit _ (relq_upd _ (fun _ => rfl) (fun _ => rfl) (fun _ => rfl) h)
  · exact h

theorem relq_clk_disable {P : Nat → Prop} {w w1 : World} (h : RelQ P w w1) :
    RelQ P w (mcsaab_clk_disable w1) := by
  unfold mcsaab_clk_disable
  split
  · exact relq_emit _ (relq_upd _ (fun _ => rfl) (fun _ => rfl) (fun _ => rfl) h)
  · exact h

theorem relq_dump {P : Nat → Prop} {w w1 : World} (h : RelQ P w w1) :
    RelQ P w (mcsaab_watchdog_dump w1) :=
  relq_emit _ (relq_emit _ h)

theorem relq_send_c_msg {P : Nat → Prop} {w w1 : World} (c_msg : Nat) (hP : P c_msg)
    (h : RelQ P w w1) : RelQ P w (send_c_msg c_msg w1) := by
  refine h.andThen ?_
  rw [send_c_msg_eq]
  split
  · exact RelQ.refl _ _
  · refine ⟨⟨_, rfl⟩, rfl, rfl, ?_⟩
    intro i
    simp only [slot, List.getD_eq_getElem?_getD, List.getElem?_set]
    by_cases hi : w1.prot.tail = i
    · by_cases hl : w1.prot.tail < w1.prot.c_queue.length
      · right
        simp [hi, hl, hi ▸ hl, hP]
      · left
        simp [hi, hl, hi ▸ hl]
        rw [List.getElem?_eq_none (by omega)]
        rfl
    · left
      simp [hi]

theorem Rel.thenQ {P : Nat → Prop} {w w1 w2 : World} (h1 : Rel P w w1) (h2 : RelQ P w1 w2) :
    Rel P w w2 :=
  h1.trans h2.toRel

theorem rel_reset {P : Nat → Prop} {w w1 : World} (h : Rel P w w1) :
    Rel P w (reset_mcsaab w1) := by
  refine h.trans ?_
  have ht : ∃ es, (reset_mcsaab w1).trace = w1.trace ++ es ∧ Effect.netif_carrier_off ∈ es := by
    rw [reset_mcsaab_eq]
    simp only [List.append_assoc]
    exact ⟨_, rfl, by simp⟩
  obtain ⟨es, t, hc⟩ := ht
  refine ⟨es, t, Or.inr ⟨?_, ?_, hc⟩, fun i => Or.inl ?_⟩ <;> rw [reset_mcsaab_eq]
  rfl

theorem rel_start_rx {P : Nat → Prop} {w w1 : World} (len : Nat) (alloc_ok : Bool)
    (h : Rel P w w1) : Rel P w (mcsaab_start_rx len alloc_ok w1) := by
  unfold mcsaab_start_rx
  split
  · exact rel_reset h
  · simp only []
    split
    · exact h.thenQ (relq_emit _ (relq_upd _ (fun _ => rfl) (fun _ => rfl) (fun _ => rfl)
        (relq_mod_timer _ (relq_upd _ (fun _ => rfl) (fun _ => rfl) (fun _ => rfl)
          (RelQ.refl _ _)))))
    · exact h.thenQ (relq_upd _ (fun _ => rfl) (fun _ => rfl) (fun _ => rfl) (RelQ.refl _ _))

theorem relq_start_tx {P : Nat → Prop} {w w1 w2 : World} (e : mcsaab_start_tx w1 = some w2)
    (hP : ∀ len, P (START_TRANS_CMD len w1.prot.send_msg_id))
    (h : RelQ P w w1) : RelQ P w w2 := by
  unfold mcsaab_start_tx at e
  split at e
  · exact absurd e (by simp)
  · simp only [Option.some.injEq] at e
    rw [← e]
    refine relq_send_c_msg _ ?_ (relq_mod_timer _ (relq_upd _ (fun _ => rfl) (fun _ => rfl)
      (fun _ => rfl) h))
    exact hP _

theorem rel_boot_info_req_h {P : Nat → Prop} {w w1 : World} (msg : Nat)
    (hP : P (BOOT_INFO_RESP_CMD LOCAL_D_VER_ID)) (h : Rel P w w1) :
    Rel P w (boot_info_req_h msg w1) := by
  unfold boot_info_req_h
  split_ifs
  · exact h.thenQ (relq_mod_timer _ (relq_upd _ (fun _ => rfl) (fun _ => rfl) (fun _ => rfl)
      (relq_send_c_msg _ hP (relq_clk_enable (RelQ.refl _ _)))))
  · exact h.thenQ (relq_mod_timer _ (relq_send_c_msg _ hP (RelQ.refl _ _)))
  · exact (rel_reset (h.thenQ (relq_dump (RelQ.refl _ _)))).thenQ
      (relq_mod_timer _ (relq_upd _ (fun _ => rfl) (fun _ => rfl) (fun _ => rfl)
        (relq_send_c_msg _ hP (relq_emit _ (relq_clk_enable (RelQ.refl _ _))))))
  · exact h

theorem relq_boot_info_resp_h {P : Nat → Prop} {w w1 : World} (msg : Nat) (h : RelQ P w w1) :
    RelQ P w (boot_info_resp_h msg w1) := by
  unfold boot_info_resp_h
  split_ifs
  · exact h
  · exact relq_upd _ (fun _ => rfl) (fun _ => rfl) (fun _ => rfl) (relq_clk_enable h)

theorem rel_wakelines_test_result_h {P : Nat → Prop} {w w1 : World} (msg : Nat)
    (hP : P (FQ_CHANGE_REQ_CMD w1.prot.cmt_tx_speed)) (h : Rel P w w1) :
    Rel P w (wakelines_test_result_h msg w1) := by
  unfold wakelines_test_result_h
  split_ifs
  · exact h
  · exact (rel_reset (h.thenQ (relq_dump (RelQ.refl _ _)))).thenQ
      (relq_del_timer _ (relq_clk_disable (relq_emit _ (RelQ.refl _ _))))
  · exact h.thenQ (relq_send_c_msg _ hP (RelQ.refl _ _))

theorem relq_ack_to_cmd_h {P : Nat → Prop} {w w1 : World} (msg : Nat)
    (hP : P FQ_CHANGE_DONE_CMD) (h : RelQ P w w1) : RelQ P w (ack_to_cmd_h msg w1) := by
  unfold ack_to_cmd_h
  simp only []
  split_ifs
  · exact relq_send_c_msg _ hP h
  · exact h
  · exact h

theorem relq_ready_h {P : Nat → Prop} {w w1 w2 : World} (msg : Nat)
    (e : ready_h msg w1 = some w2) (hP : ∀ len, P (START_TRANS_CMD len w1.prot.send_msg_id))
    (h : RelQ P w w1) : RelQ P w w2 := by
  unfold ready_h at e
  split_ifs at e
  · simp only [Option.some.injEq] at e
    exact e ▸ h
  · exact relq_start_tx e hP h
  · simp only [Option.some.injEq] at e
    rw [← e]
    exact relq_upd _ (fun _ => rfl) (fun _ => rfl) (fun _ => rfl) h

theorem relq_swbreak_h {P : Nat → Prop} {w w1 : World} (h : RelQ P w w1) :
    RelQ P w (swbreak_h w1) := by
  unfold swbreak_h
  split_ifs
  · exact h
  · exact relq_clk_disable h

theorem relq_c_send_done_cb {P : Nat → Prop} {w w1 w2 : World} (acwake : Nat)
    (e : c_send_done_cb acwake w1 = some w2)
    (hP : ∀ len, P (START_TRANS_CMD len w1.prot.send_msg_id))
    (h : RelQ P w w1) : RelQ P w w2 := by
  rw [c_send_done_cb_eq] at e
  obtain ⟨w3, e3, rfl⟩ := Option.map_eq_some'.mp e
  have h3 : RelQ P w w3 := by
    unfold c_send_handle at e3
    simp only [] at e3
    split_ifs at e3
    · split at e3
      · exact absurd e3 (by simp)
      · simp only [Option.some.injEq] at e3
        exact e3 ▸ relq_emit _ h
    · obtain ⟨w4, e4, rfl⟩ := Option.map_eq_some'.mp e3
      exact relq_emit _ (relq_start_tx e4 hP h)
    · simp only [Option.map_some', Option.some.injEq] at e3
      rw [← e3]
      exact relq_emit _ (relq_upd _ (fun _ => rfl) (fun _ => rfl) (fun _ => rfl)
        (relq_emit _ (relq_emit _ h)))
    · simp only [Option.map_some', Option.some.injEq] at e3
      rw [← e3]
      exact relq_emit _ (relq_upd _ (fun _ => rfl) (fun _ => rfl) (fun _ => rfl)
        (relq_emit _ (relq_emit _ h)))
    · simp only [Option.some.injEq] at e3
      rw [← e3]
      exact relq_del_timer _ (relq_clk_disable (relq_emit _ (relq_emit _ (relq_emit _
        (relq_upd _ (fun _ => rfl) (fun _ => rfl) (fun _ => rfl)
          (relq_upd _ (fun _ => rfl) (fun _ => rfl) (fun _ => rfl)
            (relq_upd _ (fun _ => rfl) (fun _ => rfl) (fun _ => rfl) h)))))))
    · simp only [Option.some.injEq] at e3
      exact e3 ▸ h
  unfold c_send_next
  simp only []
  split_ifs
  · exact relq_emit _ (relq_upd _ (fun _ => rfl) (fun _ => rfl) (fun _ => rfl) h3)
  · exact relq_upd _ (fun _ => rfl) (fun _ => rfl) (fun _ => rfl) h3

theorem relq_ssi_pn_rx {P : Nat → Prop} {w w1 : World} (skb : sk_buff) (running : Bool)
    (h : RelQ P w w1) : RelQ P w (ssi_pn_rx skb running w1) := by
  unfold ssi_pn_rx
  split_ifs <;> exact relq_emit _ (relq_updStats _ h)

theorem relq_d_rcv_done_cb {P : Nat → Prop} {w w1 : World} (running : Bool)
    (h : RelQ P w w1) : RelQ P w (d_rcv_done_cb running w1) := by
  unfold d_rcv_done_cb
  split
  · exact h
  · simp only []
    split
    · exact relq_emit _ (relq_upd _ (fun _ => rfl) (fun _ => rfl) (fun _ => rfl)
        (relq_mod_timer _ (relq_ssi_pn_rx _ _ (relq_upd _ (fun _ => rfl) (fun _ => rfl)
          (fun _ => rfl) (relq_del_timer _ (relq_upd _ (fun _ => rfl) (fun _ => rfl)
            (fun _ => rfl) h))))))
    · exact relq_ssi_pn_rx _ _ (relq_upd _ (fun _ => rfl) (fun _ => rfl)
          (fun _ => rfl) (relq_del_timer _ (relq_upd _ (fun _ => rfl) (fun _ => rfl)
            (fun _ => rfl) h)))

theorem relq_dma_rx_fill {P : Nat → Prop} {w w1 : World} (fill : List Nat)
    (h : RelQ P w w1) : RelQ P w (dma_rx_fill fill w1) := by
  unfold dma_rx_fill
  refine relq_upd _ ?_ ?_ ?_ h <;> intro p <;> cases p.rx_queue <;> rfl

theorem relq_wake_up_event {P : Nat → Prop} {w w1 : World} (hP : P READY_CMD)
    (h : RelQ P w w1) : RelQ P w (wake_up_event w1) := by
  unfold wake_up_event
  split_ifs
  · exact relq_emit _ h
  · exact relq_emit _ h
  · exact h
  · exact relq_upd _ (fun _ => rfl) (fun _ => rfl) (fun _ => rfl) h
  · exact relq_mod_timer _ (relq_send_c_msg _ hP (relq_clk_enable
      (relq_upd _ (fun _ => rfl) (fun _ => rfl) (fun _ => rfl) h)))
  · exact h

theorem relq_wake_down_event {P : Nat → Prop} {w w1 : World}
    (h : RelQ P w w1) : RelQ P w (wake_down_event w1) := by
  unfold wake_down_event
  split_ifs
  · exact h
  · exact relq_upd _ (fun _ => rfl) (fun _ => rfl) (fun _ => rfl) (relq_emit _ h)
  · exact h
  · exact h

theorem rel_port_event_cb {P : Nat → Prop} {w w1 : World} (event : ssi_event)
    (hS : P SKIP) (hR : P READY_CMD) (h : Rel P w w1) : Rel P w (port_event_cb event w1) := by
  cases event
  · exact (rel_reset (h.thenQ (relq_dump (RelQ.refl _ _)))).thenQ
      (relq_send_c_msg _ hS (relq_emit _ (RelQ.refl _ _)))
  · exact h.thenQ (relq_wake_up_event hR (RelQ.refl _ _))
  · exact h.thenQ (relq_wake_down_event (RelQ.refl _ _))
  · exact h

theorem rel_watchdog {P : Nat → Prop} {w w1 : World} (h : Rel P w w1) :
    Rel P w (mcsaab_watchdog w1) :=
  (rel_reset (h.thenQ (relq_dump (RelQ.refl _ _)))).thenQ (relq_emit _ (RelQ.refl _ _))

theorem relq_ssi_pn_xmit_wake {P : Nat → Prop} {w w1 w2 : World} (skb : sk_buff) (acwake : Nat)
    (e : ssi_pn_xmit_wake skb acwake w1 = some w2)
    (hP : ∀ len, P (START_TRANS_CMD len w1.prot.send_msg_id))
    (h : RelQ P w w1) : RelQ P w w2 := by
  have h1 : RelQ P w
      (if acwake = 0 then upd (fun p => { p with send_state := WAIT4READY })
        (emit (.ssi_ioctl .WAKE) w1) else emit (.ssi_ioctl .WAKE) w1) := by
    split
    · exact relq_upd _ (fun _ => rfl) (fun _ => rfl) (fun _ => rfl) (relq_emit _ h)
    · exact relq_emit _ h
  have hid : (if acwake = 0 then upd (fun p => { p with send_state := WAIT4READY })
        (emit (.ssi_ioctl .WAKE) w1) else emit (.ssi_ioctl .WAKE) w1).prot.send_msg_id =
      w1.prot.send_msg_id := by
    split <;> rfl
  obtain ⟨w3, hw3, h1, hid⟩ : ∃ w3, w3 = (if acwake = 0 then
      upd (fun p => { p with send_state := WAIT4READY }) (emit (.ssi_ioctl .WAKE) w1)
      else emit (.ssi_ioctl .WAKE) w1) ∧ RelQ P w w3 ∧
      w3.prot.send_msg_id = w1.prot.send_msg_id := ⟨_, rfl, h1, hid⟩
  have e2 : (if (upd (fun p => { p with main_state := ACTIVE })
        (emit (.ssi_ioctl .WAKE_UP) w3)).prot.send_state = SEND_READY then
      (mcsaab_start_tx (upd (fun p => { p with main_state := ACTIVE })
        (emit (.ssi_ioctl .WAKE_UP) w3))).map (ssi_pn_xmit_out skb)
      else some (ssi_pn_xmit_out skb (mod_timer .tx_wd
        (upd (fun p => { p with main_state := ACTIVE })
          (emit (.ssi_ioctl .WAKE_UP) w3))))) = some w2 := by
    rw [hw3]
    exact e
  have h2 : RelQ P w (upd (fun p => { p with main_state := ACTIVE })
      (emit (.ssi_ioctl .WAKE_UP) w3)) :=
    relq_upd _ (fun _ => rfl) (fun _ => rfl) (fun _ => rfl) (relq_emit _ h1)
  split_ifs at e2
  · obtain ⟨w4, e4, rfl⟩ := Option.map_eq_some'.mp e2
    refine relq_updStats _ (relq_start_tx e4 ?_ h2)
    intro len
    have := hP len
    rw [← hid] at this
    exact this
  · simp only [Option.some.injEq] at e2
    rw [← e2]
    exact relq_updStats _ (relq_mod_timer _ h2)

theorem relq_ssi_pn_xmit {P : Nat → Prop} {w w1 w2 : World} (skb : sk_buff) (acwake : Nat)
    (pad_ok cow_ok : Bool) (e : ssi_pn_xmit skb acwake pad_ok cow_ok w1 = some w2)
    (hP : ∀ len, P (START_TRANS_CMD len w1.prot.send_msg_id))
    (h : RelQ P w w1) : RelQ P w w2 := by
  have hdrop : ∀ s, RelQ P w (ssi_pn_xmit_drop s w1) := fun s =>
    relq_emit _ (relq_updStats _ h)
  unfold ssi_pn_xmit at e
  split_ifs at e
  · simp only [Option.some.injEq] at e
    exact e ▸ hdrop _
  · simp only [Option.some.injEq] at e
    exact e ▸ relq_updStats _ h
  · simp only [Option.some.injEq] at e
    exact e ▸ hdrop _
  · simp only [Option.some.injEq] at e
    exact e ▸ hdrop _
  · unfold ssi_pn_xmit_queue at e
    simp only [] at e
    split_ifs at e
    · simp only [Option.some.injEq] at e
      exact e ▸ relq_updStats _ (relq_emit _ (relq_upd _ (fun _ => rfl) (fun _ => rfl)
        (fun _ => rfl) h))
    · simp only [Option.some.injEq] at e
      exact e ▸ relq_updStats _ (relq_upd _ (fun _ => rfl) (fun _ => rfl) (fun _ => rfl) h)
    · exact relq_ssi_pn_xmit_wake _ _ e hP
        (relq_upd _ (fun _ => rfl) (fun _ => rfl) (fun _ => rfl) h)

theorem nonStart_cmd (c p : Nat) (hc : c < 16) (h4 : c ≠ 4) : NonStart (CMD c p) := by
  unfold NonStart
  rw [COMMAND_eq, CMD_eq]
  simp only [START_TRANS]
  omega

theorem txOk_start (len id : Nat) : TxOk id (START_TRANS_CMD len id) := by
  intro _
  have h1 : (len <<< 8 % U32 ||| id) % 256 = id % 256 := by
    rw [← and_ff, Nat.and_comm, Nat.and_or_distrib_left, Nat.and_comm, and_ff,
      Nat.and_comm, and_ff, Nat.shiftLeft_eq]
    have : len * 2 ^ 8 % U32 % 256 = 0 := by
      simp only [U32]
      omega
    rw [this, Nat.zero_or]
  rw [MSG_ID_eq, START_TRANS_CMD, CMD_eq]
  omega

theorem nonStart_resp : NonStart (BOOT_INFO_RESP_CMD LOCAL_D_VER_ID) := by
  unfold NonStart
  decide

theorem nonStart_done : NonStart FQ_CHANGE_DONE_CMD := by
  unfold NonStart
  decide

theorem nonStart_skip : NonStart SKIP := by
  unfold NonStart
  decide

theorem nonStart_ready : NonStart READY_CMD := by
  unfold NonStart
  decide

theorem nonStart_swbreak : NonStart SWBREAK_CMD := by
  unfold NonStart
  decide

theorem idStep_of_rel (e : Event) (w w2 : World) (h : Rel NonStart w w2) : IdStep e w w2 := by
  obtain ⟨es, t, hid, hq⟩ := h
  have hn := new_effects_append w w2 es t
  refine ⟨?_, ?_, ?_⟩
  · rcases hid with ⟨s, _⟩ | ⟨s, _, c⟩
    · exact Or.inl s
    · exact Or.inr (Or.inr ⟨s, hn ▸ c⟩)
  · rcases hid with ⟨_, r⟩ | ⟨_, r, c⟩
    · exact Or.inl r
    · exact Or.inr (Or.inr ⟨r, hn ▸ c⟩)
  · intro i hne hc
    rcases hq i with h | h
    · exact absurd h hne
    · exact absurd hc h

theorem idStep_of_relq (e : Event) (w w2 : World)
    (h : RelQ (TxOk w.prot.send_msg_id) w w2) : IdStep e w w2 := by
  obtain ⟨_, s, r, hq⟩ := h
  refine ⟨Or.inl s, Or.inl r, ?_⟩
  intro i hne hc
  rcases hq i with h | h
  · exact absurd h hne
  · rw [s]
    exact h hc

theorem relq_rcvd {P : Nat → Prop} (msg : Nat) (w : World) : RelQ P w (rcvd msg w) :=
  relq_emit _ (relq_upd _ (fun _ => rfl) (fun _ => rfl) (fun _ => rfl) (RelQ.refl _ _))

theorem idStep_d_send_done (w w2 : World) (h : d_send_done_cb w = some w2) :
    IdStep .d_send_done w w2 ∧
    (w.prot.tx_queue ≠ [] → w2.prot.send_msg_id = (w.prot.send_msg_id + 1) % 256) := by
  unfold d_send_done_cb at h
  split at h
  · rename_i hq
    simp only [Option.some.injEq] at h
    subst h
    exact ⟨idStep_of_relq _ _ _ (RelQ.refl _ _), fun hne => absurd hq hne⟩
  · rename_i skb rest hq
    simp only [] at h
    have hlt : ((w.prot.send_msg_id + 1) % 256) &&& 0xff = (w.prot.send_msg_id + 1) % 256 := by
      rw [and_ff]
      omega
    have key : RelQ (TxOk ((w.prot.send_msg_id + 1) % 256))
        (upd (fun p => { p with send_msg_id := ((p.send_msg_id + 1) % 256) &&& 0xff })
          (emit (.dev_kfree_skb skb) (del_timer .tx_wd
            (upd (fun p => { p with tx_queue := rest }) w)))) w2 := by
      split_ifs at h
      · simp only [Option.some.injEq] at h
        rw [← h]
        refine relq_upd _ (fun _ => rfl) (fun _ => rfl) (fun _ => rfl)
          (relq_send_c_msg _ ?_ (RelQ.refl _ _))
        intro hc
        exact absurd hc nonStart_swbreak
      · refine relq_start_tx h ?_ (RelQ.refl _ _)
        intro len
        show TxOk _ (START_TRANS_CMD len (((w.prot.send_msg_id + 1) % 256) &&& 0xff))
        rw [hlt]
        intro hc
        rw [txOk_start _ _ hc, Nat.mod_mod]
    obtain ⟨_, s, r, q⟩ := key
    have s2 : w2.prot.send_msg_id = (w.prot.send_msg_id + 1) % 256 := by
      rw [s]
      exact hlt
    refine ⟨⟨Or.inr (Or.inl ⟨rfl, by simp [hq], s2⟩), Or.inl r, ?_⟩, fun _ => s2⟩
    intro i hne hc
    rcases q i with h' | h'
    · exact absurd h' hne
    · rw [s2, h' hc]

theorem start_trans_h_advances (msg : Nat) (w : World)
    (hs : w.prot.main_state = ACTIVE) (hm : MSG_ID msg = w.prot.rcv_msg_id) :
    (start_trans_h msg true (rcvd msg w)).prot.rcv_msg_id = (w.prot.rcv_msg_id + 1) % 256 := by
  rw [start_trans_h_accept (rcvd msg w) msg true hs hm]
  unfold mcsaab_start_rx
  simp only [Bool.not_true, Bool.false_eq_true, if_false]
  split <;> simp [upd, emit, mod_timer, rcvd, and_ff]

theorem idStep_start_trans (msg : Nat) (alloc_ok : Bool) (w : World)
    (hc : COMMAND msg = START_TRANS) :
    IdStep (.c_rcv_done msg alloc_ok) w (start_trans_h msg alloc_ok (rcvd msg w)) := by
  by_cases hs : w.prot.main_state = ACTIVE
  · by_cases hm : MSG_ID msg = w.prot.rcv_msg_id
    · rw [start_trans_h_accept (rcvd msg w) msg alloc_ok hs hm]
      have key : Rel NonStart
          (upd (fun p => { p with flags := p.flags &&& bnot32 READY_SENT })
            (upd (fun p => { p with rcv_msg_id := (p.rcv_msg_id + 1) &&& 0xff }) (rcvd msg w)))
          (mcsaab_start_rx (PDU_LENGTH msg) alloc_ok
            (upd (fun p => { p with flags := p.flags &&& bnot32 READY_SENT })
              (upd (fun p => { p with rcv_msg_id := (p.rcv_msg_id + 1) &&& 0xff })
                (rcvd msg w)))) :=
        rel_start_rx _ _ (RelQ.refl _ _).toRel
      obtain ⟨es, t, hid, hq⟩ := key
      have t2 : (mcsaab_start_rx (PDU_LENGTH msg) alloc_ok
            (upd (fun p => { p with flags := p.flags &&& bnot32 READY_SENT })
              (upd (fun p => { p with rcv_msg_id := (p.rcv_msg_id + 1) &&& 0xff })
                (rcvd msg w)))).trace = w.trace ++ ([Effect.ssi_read_c] ++ es) := by
        rw [t]
        simp [upd, rcvd, emit]
      have hn := new_effects_append w _ _ t2
      refine ⟨?_, ?_, ?_⟩
      · rcases hid with ⟨s, _⟩ | ⟨s, _, c⟩
        · exact Or.inl s
        · exact Or.inr (Or.inr ⟨s, by rw [hn]; exact List.mem_append_right _ c⟩)
      · rcases hid with ⟨_, r⟩ | ⟨_, r, c⟩
        · refine Or.inr (Or.inl ⟨⟨msg, alloc_ok, rfl, hc, hm⟩, hs, ?_⟩)
          rw [r]
          exact and_ff _
        · exact Or.inr (Or.inr ⟨r, by rw [hn]; exact List.mem_append_right _ c⟩)
      · intro i hne hc4
        rcases hq i with h | h
        · exact absurd h hne
        · exact absurd hc4 h
    · rw [start_trans_h_mismatch (rcvd msg w) msg alloc_ok hs hm]
      exact idStep_of_rel _ _ _ (rel_reset ((relq_dump (relq_rcvd msg w)).toRel))
  · have e : start_trans_h msg alloc_ok (rcvd msg w) = rcvd msg w := by
      unfold start_trans_h
      simp only []
      rw [if_pos]
      exact hs
    rw [e]
    exact idStep_of_rel _ _ _ (relq_rcvd msg w).toRel

/-! ### The receive path -/

theorem rx_buffer_len (len : Nat) (fill : List Nat) : (rx_buffer len fill).len = len * 4 := by
  simp only [rx_buffer, sk_buff.len, List.length_take, List.length_append, List.length_drop,
    List.length_replicate]
  omega

theorem rx_buffer_nil (len : Nat) :
    rx_buffer len [] = { data := List.replicate (len * 4) 0, protocol := 0 } := by
  simp [rx_buffer]

theorem rx_buffer_fill (len : Nat) (fill : List Nat) :
    ({ rx_buffer len [] with
       data := (fill ++ (rx_buffer len []).data.drop fill.length).take
         (rx_buffer len []).data.length } : sk_buff) = rx_buffer len fill := by
  simp [rx_buffer]

theorem step_start_trans_accept (w : World) (msg : Nat) (alloc_ok : Bool)
    (hs : w.prot.main_state = ACTIVE) (hc : COMMAND msg = START_TRANS)
    (hm : MSG_ID msg = w.prot.rcv_msg_id) :
    step (.c_rcv_done msg alloc_ok) w =
      some (mcsaab_start_rx (PDU_LENGTH msg) alloc_ok
        (upd (fun p => { p with flags := p.flags &&& bnot32 READY_SENT })
          (upd (fun p => { p with rcv_msg_id := (p.rcv_msg_id + 1) &&& 0xff })
            (rcvd msg w)))) := by
  rw [step_c_rcv_done, hc]
  simp only [START_TRANS, Nat.reduceEqDiff, if_false, if_true]
  rw [start_trans_h_accept (rcvd msg w) msg alloc_ok hs hm]

theorem accept_first (w : World) (msg : Nat)
    (hs : w.prot.main_state = ACTIVE) (hq : w.prot.rx_queue = [])
    (hc : COMMAND msg = START_TRANS) (hm : MSG_ID msg = w.prot.rcv_msg_id) :
    ∃ w1, step (.c_rcv_done msg true) w = some w1 ∧
      w1.prot = { w.prot with
                  rcv_c_msg := msg, rcv_msg_id := (w.prot.rcv_msg_id + 1) % 256,
                  flags := w.prot.flags &&& bnot32 READY_SENT,
                  rx_queue := [rx_buffer (PDU_LENGTH msg) []], rx_wd := true,
                  recv_state := RECEIVING } ∧
      w1.netdev = w.netdev ∧
      w1.trace = w.trace ++ [.ssi_read_c, .mod_timer .rx_wd, .ssi_read_d (PDU_LENGTH msg)] := by
  refine ⟨_, step_start_trans_accept w msg true hs hc hm, ?_⟩
  simp [mcsaab_start_rx, rcvd, upd, emit, mod_timer, hq, and_ff, rx_buffer_nil]

theorem accept_next (w : World) (msg : Nat)
    (hs : w.prot.main_state = ACTIVE) (hq : w.prot.rx_queue ≠ [])
    (hc : COMMAND msg = START_TRANS) (hm : MSG_ID msg = w.prot.rcv_msg_id) :
    ∃ w1, step (.c_rcv_done msg true) w = some w1 ∧
      w1.prot = { w.prot with
                  rcv_c_msg := msg, rcv_msg_id := (w.prot.rcv_msg_id + 1) % 256,
                  flags := w.prot.flags &&& bnot32 READY_SENT,
                  rx_queue := w.prot.rx_queue ++ [rx_buffer (PDU_LENGTH msg) []] } ∧
      w1.netdev = w.netdev ∧
      w1.trace = w.trace ++ [.ssi_read_c] := by
  refine ⟨_, step_start_trans_accept w msg true hs hc hm, ?_⟩
  simp [mcsaab_start_rx, rcvd, upd, emit, mod_timer, hq, and_ff, rx_buffer_nil]

theorem ssi_pn_rx_prot (skb : sk_buff) (running : Bool) (w : World) :
    (ssi_pn_rx skb running w).prot = w.prot := by
  unfold ssi_pn_rx
  split_ifs <;> rfl

theorem ssi_pn_rx_trace (skb : sk_buff) (running : Bool) (w x : World) :
    (ssi_pn_rx skb running x).trace = x.trace ++ new_effects w (ssi_pn_rx skb running w) := by
  unfold ssi_pn_rx
  split_ifs <;> simp [emit, updStats, new_effects]

theorem ssi_pn_rx_netdev (skb : sk_buff) (running : Bool) (w x : World)
    (h : x.netdev = w.netdev) :
    (ssi_pn_rx skb running x).netdev = (ssi_pn_rx skb running w).netdev := by
  unfold ssi_pn_rx
  split_ifs <;> simp [emit, updStats, h]

theorem ssi_pn_rx_deliver (skb : sk_buff) (w : World) (h : 6 ≤ skb.len) :
    new_effects w (ssi_pn_rx skb true w) =
      [.netif_rx { data := (swap45 skb.data).drop 1, protocol := htons ETH_P_PHONET }] := by
  have h2 : ¬ skb.len < 6 := by omega
  simp [ssi_pn_rx, h2, h, emit, updStats, new_effects]

theorem d_rcv_done_more (w : World) (a1 a2 : sk_buff) (rest : List sk_buff) (fill : List Nat)
    (running : Bool) (hq : w.prot.rx_queue = a1 :: a2 :: rest) :
    ∃ w3, step (.d_rcv_done fill running) w = some w3 ∧
      w3.prot = { w.prot with rx_queue := a2 :: rest, rx_wd := true, recv_state := RECEIVING } ∧
      w3.netdev =
        (ssi_pn_rx { a1 with data := (fill ++ a1.data.drop fill.length).take a1.data.length }
          running w).netdev ∧
      w3.trace = w.trace ++ [.del_timer .rx_wd] ++
        new_effects w
          (ssi_pn_rx { a1 with data := (fill ++ a1.data.drop fill.length).take a1.data.length }
            running w) ++
        [.mod_timer .rx_wd, .ssi_read_d (a2.len / 4)] := by
  refine ⟨_, rfl, ?_, ?_, ?_⟩
  · simp [d_rcv_done_cb, dma_rx_fill, upd, hq, ssi_pn_rx_prot, del_timer, mod_timer, emit]
  · simp only [d_rcv_done_cb, dma_rx_fill, upd, hq, ssi_pn_rx_prot, del_timer, mod_timer, emit,
      List.head?_cons]
    exact ssi_pn_rx_netdev _ _ _ _ rfl
  · simp only [d_rcv_done_cb, dma_rx_fill, upd, hq, ssi_pn_rx_prot, del_timer, mod_timer, emit,
      List.head?_cons]
    rw [ssi_pn_rx_trace _ _ w]
    simp

theorem d_rcv_done_last (w : World) (a1 : sk_buff) (fill : List Nat)
    (running : Bool) (hq : w.prot.rx_queue = [a1]) :
    ∃ w3, step (.d_rcv_done fill running) w = some w3 ∧
      w3.prot = { w.prot with rx_queue := [], rx_wd := false, recv_state := RECV_READY } ∧
      w3.netdev =
        (ssi_pn_rx { a1 with data := (fill ++ a1.data.drop fill.length).take a1.data.length }
          running w).netdev ∧
      w3.trace = w.trace ++ [.del_timer .rx_wd] ++
        new_effects w
          (ssi_pn_rx { a1 with data := (fill ++ a1.data.drop fill.length).take a1.data.length }
            running w) := by
  refine ⟨_, rfl, ?_, ?_, ?_⟩
  · simp [d_rcv_done_cb, dma_rx_fill, upd, hq, ssi_pn_rx_prot, del_timer, mod_timer, emit]
  · simp only [d_rcv_done_cb, dma_rx_fill, upd, hq, ssi_pn_rx_prot, del_timer, mod_timer, emit,
      List.head?_nil]
    exact ssi_pn_rx_netdev _ _ _ _ rfl
  · simp only [d_rcv_done_cb, dma_rx_fill, upd, hq, ssi_pn_rx_prot, del_timer, mod_timer, emit,
      List.head?_nil]
    rw [ssi_pn_rx_trace _ _ w]

/-- The bytes of a buffer after `swap45` and the removal of the first byte:
the old bytes 5 and 4 are at offsets 3 and 4, every other byte has moved down
by one. -/
theorem swap45_drop (d : List Nat) (h : 6 ≤ d.length) :
    ((swap45 d).drop 1).length = d.length - 1 ∧
    ((swap45 d).drop 1).getD 3 0 = d.getD 5 0 ∧
    ((swap45 d).drop 1).getD 4 0 = d.getD 4 0 ∧
    ∀ i, i ≠ 3 → i ≠ 4 → ((swap45 d).drop 1).getD i 0 = d.getD (i + 1) 0 := by
  unfold swap45
  refine ⟨by simp, ?_, ?_, ?_⟩
  · simp only [List.getD_eq_getElem?_getD, List.getElem?_drop, List.getElem?_set]
    have h4 : 4 < d.length := by omega
    simp [h4]
  · simp only [List.getD_eq_getElem?_getD, List.getElem?_drop, List.getElem?_set]
    have h5 : 5 < d.length := by omega
    simp [h5]
  · intro i h3 h4
    simp only [List.getD_eq_getElem?_getD, List.getElem?_drop, List.getElem?_set]
    simp [h3, h4, Nat.add_comm]

/-- The calls of `ssi_pn_rx` on the buffer of a frame of `len` words: the
packet goes to `netif_rx` when the interface is running and the frame has at
least two words (six bytes), otherwise the buffer is freed. -/
theorem rx_buffer_effects (len : Nat) (fill : List Nat) (running : Bool) (w : World) :
    new_effects w (ssi_pn_rx (rx_buffer len fill) running w) =
      if running = true ∧ 2 ≤ len then
        [.netif_rx { data := (swap45 (rx_buffer len fill).data).drop 1,
                     protocol := htons ETH_P_PHONET }]
      else [.dev_kfree_skb (rx_buffer len fill)] := by
  have hl : (rx_buffer len fill).len = len * 4 := rx_buffer_len len fill
  by_cases h : running = true ∧ 2 ≤ len
  · rw [if_pos h]
    obtain ⟨hr, h2⟩ := h
    subst hr
    exact ssi_pn_rx_deliver _ w (by rw [hl]; omega)
  · rw [if_neg h]
    apply new_effects_append
    unfold ssi_pn_rx
    cases running
    · simp [emit, updStats]
    · have h6 : (rx_buffer len fill).len < 6 := by
        rw [hl]
        have : ¬ 2 ≤ len := fun h2 => h ⟨rfl, h2⟩
        omega
      simp [emit, updStats, h6]

/-! ### The transmit path -/

theorem COMMAND_START_TRANS_CMD (len id : Nat) : COMMAND (START_TRANS_CMD len id) = START_TRANS := by
  rw [COMMAND_eq, START_TRANS_CMD, CMD_eq]
  simp only [START_TRANS]
  omega

theorem send_c_msg_room (c_msg : Nat) (w : World)
    (hlen : w.prot.c_queue.length = C_QUEUE_LEN)
    (hh : w.prot.head < C_QUEUE_LEN) (ht : w.prot.tail < C_QUEUE_LEN)
    (hroom : (C_QUEUE_LEN + w.prot.tail - w.prot.head) % C_QUEUE_LEN < C_QUEUE_LEN - 1) :
    send_c_msg c_msg w =
      { prot := { w.prot with c_queue := w.prot.c_queue.set w.prot.tail c_msg,
                              tail := (w.prot.tail + 1) % C_QUEUE_LEN },
        netdev := w.netdev,
        trace := w.trace ++
          if w.prot.head = w.prot.tail then [Effect.ssi_write_c c_msg] else [] } ∧
    slot (send_c_msg c_msg w) w.prot.tail = c_msg ∧
    (∀ i, i ≠ w.prot.tail → slot (send_c_msg c_msg w) i = slot w i) := by
  simp only [C_QUEUE_LEN] at hlen hh ht hroom
  have h3 : ¬ 3 ≤ (4 + w.prot.tail - w.prot.head) % 4 := by omega
  have e : send_c_msg c_msg w =
      { prot := { w.prot with c_queue := w.prot.c_queue.set w.prot.tail c_msg,
                              tail := (w.prot.tail + 1) % C_QUEUE_LEN },
        netdev := w.netdev,
        trace := w.trace ++
          if w.prot.head = w.prot.tail then [Effect.ssi_write_c c_msg] else [] } := by
    rw [send_c_msg_eq, if_neg h3]
    by_cases h0 : w.prot.head = w.prot.tail
    · have : (4 + w.prot.tail - w.prot.head) % 4 = 0 := by omega
      simp [this, h0, List.getD_eq_getElem?_getD, List.getElem?_set, hlen, ht]
    · have : ¬ (4 + w.prot.tail - w.prot.head) % 4 = 0 := by omega
      simp [this, h0]
  refine ⟨e, ?_, ?_⟩
  · rw [e]
    simp [slot, List.getD_eq_getElem?_getD, List.getElem?_set, hlen, ht]
  · intro i hi
    rw [e]
    simp [slot, List.getD_eq_getElem?_getD, List.getElem?_set, Ne.symm hi]

theorem start_tx_arith (n : Nat) :
    n ≤ 4 * ((n + 3) / 4) ∧ (∀ m, 4 ∣ m → n ≤ m → 4 * ((n + 3) / 4) ≤ m) ∧
    ⌈(n : ℚ) / 4⌉₊ = (n + 3) / 4 := by
  refine ⟨by omega, ?_, ?_⟩
  · rintro m ⟨k, rfl⟩ h
    omega
  · apply le_antisymm
    · rw [Nat.ceil_le, div_le_iff₀ (by norm_num)]
      have : n ≤ (n + 3) / 4 * 4 := by omega
      exact_mod_cast this
    · have h := Nat.le_ceil ((n : ℚ) / 4)
      rw [div_le_iff₀ (by norm_num)] at h
      have h2 : n ≤ ⌈(n : ℚ) / 4⌉₊ * 4 := by exact_mod_cast h
      omega

theorem c_send_done_start_trans (acwake : Nat) (w : World) (skb : sk_buff) (rest : List sk_buff)
    (hc : COMMAND (slot w w.prot.head) = START_TRANS) (hs : w.prot.send_state = SENDING)
    (hq : w.prot.tx_queue = skb :: rest) :
    ∃ w2, c_send_done_cb acwake w = some w2 ∧
      w2.prot = { w.prot with head := (w.prot.head + 1) % C_QUEUE_LEN } ∧
      new_effects w w2 =
        .ssi_write_d skb.data ((skb.len + 3) % U32 / 4) ::
          (if w.prot.tail ≠ (w.prot.head + 1) % C_QUEUE_LEN then
            [.ssi_write_c (slot w ((w.prot.head + 1) % C_QUEUE_LEN))] else []) := by
  have e : c_send_handle acwake w =
      some (emit (.ssi_write_d skb.data ((skb.len + 3) % U32 / 4)) w) := by
    simp only [slot] at hc
    unfold c_send_handle
    simp only []
    rw [if_pos ⟨hc, hs⟩, hq]
    rfl
  refine ⟨_, by rw [c_send_done_cb_eq, e]; rfl, ?_, ?_⟩
  · by_cases h : w.prot.tail ≠ (w.prot.head + 1) % C_QUEUE_LEN <;>
      simp [c_send_next, upd, emit, h]
  · apply new_effects_append
    by_cases h : w.prot.tail ≠ (w.prot.head + 1) % C_QUEUE_LEN <;>
      simp [c_send_next, upd, emit, h, slot]

theorem ssi_pn_xmit_first (skb : sk_buff) (acwake : Nat) (pad_ok cow_ok : Bool) (w : World)
    (hp : skb.protocol = htons ETH_P_PHONET) (hpad : skb.len &&& 3 = 0 ∨ pad_ok = true)
    (hcow : cow_ok = true) (hon : w.prot.flags &&& CMT_ONLINE ≠ 0) (hq : w.prot.tx_queue = []) :
    ssi_pn_xmit skb acwake pad_ok cow_ok w =
      ssi_pn_xmit_wake (ssi_pn_xmit_swap skb) acwake
        (upd (fun p => { p with tx_queue := p.tx_queue ++ [ssi_pn_xmit_swap skb] }) w) := by
  have h1 : ¬ (skb.len &&& 3 ≠ 0 ∧ pad_ok = false) := by
    rintro ⟨a, b⟩
    rcases hpad with h | h
    · exact a h
    · rw [h] at b
      exact Bool.noConfusion b
  unfold ssi_pn_xmit
  rw [if_neg (not_not.mpr hp), if_neg h1, if_neg (by rw [hcow]; exact Bool.noConfusion),
    if_neg hon]
  unfold ssi_pn_xmit_queue
  simp only [upd, hq, List.nil_append, List.length_singleton]
  rw [if_neg (by omega), if_neg (by omega)]

theorem ssi_pn_xmit_swap_len (skb : sk_buff) : (ssi_pn_xmit_swap skb).len = skb.len := by
  unfold ssi_pn_xmit_swap
  split_ifs <;> simp [sk_buff.len, swap45]

theorem send_c_msg_keeps (c_msg : Nat) (w : World) :
    (send_c_msg c_msg w).prot.main_state = w.prot.main_state ∧
    (send_c_msg c_msg w).prot.send_state = w.prot.send_state ∧
    (send_c_msg c_msg w).prot.tx_wd = w.prot.tx_wd ∧
    (send_c_msg c_msg w).prot.boot_wd = w.prot.boot_wd ∧
    (send_c_msg c_msg w).prot.tx_queue = w.prot.tx_queue ∧
    (send_c_msg c_msg w).prot.send_msg_id = w.prot.send_msg_id ∧
    (send_c_msg c_msg w).prot.flags = w.prot.flags ∧
    (send_c_msg c_msg w).prot.head = w.prot.head ∧
    (send_c_msg c_msg w).netdev = w.netdev := by
  rw [send_c_msg_eq]
  split_ifs <;> simp

theorem ssi_pn_xmit_out_prot (skb : sk_buff) (w : World) :
    (ssi_pn_xmit_out skb w).prot = w.prot := rfl

theorem ssi_pn_xmit_out_trace (skb : sk_buff) (w : World) :
    (ssi_pn_xmit_out skb w).trace = w.trace := rfl

theorem ssi_pn_xmit_wake_wait (q : sk_buff) (acwake : Nat) (x : World)
    (h : acwake = 0 ∨ x.prot.send_state ≠ SEND_READY) :
    ssi_pn_xmit_wake q acwake x =
      some (ssi_pn_xmit_out q
        (mod_timer .tx_wd
          (upd (fun p => { p with main_state := ACTIVE })
            (emit (.ssi_ioctl .WAKE_UP)
              (upd (fun p => { p with send_state :=
                  if acwake = 0 then WAIT4READY else p.send_state })
                (emit (.ssi_ioctl .WAKE) x)))))) := by
  unfold ssi_pn_xmit_wake
  by_cases ha : acwake = 0
  · simp [ha, upd, emit, WAIT4READY, SEND_READY]
  · have hs : x.prot.send_state ≠ SEND_READY := h.resolve_left ha
    simp [ha, hs, upd, emit]

theorem ssi_pn_xmit_wake_start (q q0 : sk_buff) (rest : List sk_buff) (acwake : Nat) (x : World)
    (ha : acwake ≠ 0) (hs : x.prot.send_state = SEND_READY) (hq : x.prot.tx_queue = q0 :: rest) :
    ssi_pn_xmit_wake q acwake x =
      some (ssi_pn_xmit_out q
        (send_c_msg (START_TRANS_CMD ((q0.len + 3) % U32 / 4) x.prot.send_msg_id)
          (mod_timer .tx_wd
            (upd (fun p => { p with send_state := SENDING })
              (upd (fun p => { p with main_state := ACTIVE })
                (emit (.ssi_ioctl .WAKE_UP) (emit (.ssi_ioctl .WAKE) x))))))) := by
  unfold ssi_pn_xmit_wake
  simp [ha, hs, upd, emit, mcsaab_start_tx, hq, mod_timer]

theorem d_send_done_last (w : World) (skb : sk_buff) (hq : w.prot.tx_queue = [skb]) :
    d_send_done_cb w =
      some (upd (fun p => { p with send_state := SENDING_SWBREAK })
        (send_c_msg SWBREAK_CMD
          (upd (fun p => { p with send_msg_id := (w.prot.send_msg_id + 1) % 256 })
            (emit (.dev_kfree_skb skb)
              (del_timer .tx_wd (upd (fun p => { p with tx_queue := [] }) w)))))) := by
  have h : (w.prot.send_msg_id + 1) % 256 &&& 255 = (w.prot.send_msg_id + 1) % 256 := by
    rw [and_ff, Nat.mod_mod]
  unfold d_send_done_cb
  rw [hq]
  simp [upd, emit, del_timer, h]

theorem d_send_done_more (w : World) (skb next : sk_buff) (more : List sk_buff)
    (hq : w.prot.tx_queue = skb :: next :: more) :
    d_send_done_cb w =
      some (send_c_msg
        (START_TRANS_CMD ((next.len + 3) % U32 / 4) ((w.prot.send_msg_id + 1) % 256))
        (mod_timer .tx_wd
          (upd (fun p => { p with send_state := SENDING })
            (upd (fun p => { p with send_msg_id := (w.prot.send_msg_id + 1) % 256 })
              (emit (.dev_kfree_skb skb)
                (del_timer .tx_wd (upd (fun p => { p with tx_queue := next :: more }) w))))))) := by
  have h : (w.prot.send_msg_id + 1) % 256 &&& 255 = (w.prot.send_msg_id + 1) % 256 := by
    rw [and_ff, Nat.mod_mod]
  unfold d_send_done_cb
  rw [hq]
  simp [upd, emit, del_timer, mod_timer, mcsaab_start_tx, h]

theorem c_send_handle_swbreak_restart (acwake : Nat) (w : World) (skb : sk_buff)
    (rest : List sk_buff)
    (hc : COMMAND (slot w w.prot.head) = SW_BREAK) (hs : w.prot.send_state = SENDING_SWBREAK)
    (hq : w.prot.tx_queue = skb :: rest) :
    c_send_handle acwake w =
      some (emit .netif_wake_queue
        (send_c_msg (START_TRANS_CMD ((skb.len + 3) % U32 / 4) w.prot.send_msg_id)
          (mod_timer .tx_wd (upd (fun p => { p with send_state := SENDING }) w)))) := by
  have h1 : ¬ (COMMAND (w.prot.c_queue.getD w.prot.head 0) = START_TRANS ∧
      w.prot.send_state = SENDING) := by
    rintro ⟨_, b⟩
    rw [hs] at b
    exact absurd b (by decide)
  simp only [slot] at hc
  unfold c_send_handle
  simp only []
  rw [if_neg h1, if_pos ⟨hc, hs⟩, hq]
  simp [mcsaab_start_tx, hq, mod_timer, upd, emit]

theorem c_send_handle_swbreak_idle (acwake : Nat) (w : World)
    (hc : COMMAND (slot w w.prot.head) = SW_BREAK) (hs : w.prot.send_state = SENDING_SWBREAK)
    (hq : w.prot.tx_queue = []) :
    c_send_handle acwake w =
      some (emit .netif_wake_queue
        (upd (fun p => { p with send_state := if acwake = 0 then WAIT4READY else SEND_READY })
          (emit (.ssi_ioctl .WAKE) (emit (.ssi_ioctl .WAKE_DOWN) w)))) := by
  have h1 : ¬ (COMMAND (w.prot.c_queue.getD w.prot.head 0) = START_TRANS ∧
      w.prot.send_state = SENDING) := by
    rintro ⟨_, b⟩
    rw [hs] at b
    exact absurd b (by decide)
  simp only [slot] at hc
  unfold c_send_handle
  simp only []
  rw [if_neg h1, if_pos ⟨hc, hs⟩, hq]
  by_cases ha : acwake = 0 <;> simp [ha, upd, emit]

theorem c_send_next_emit (e : Effect) (y : World)
    (h : y.prot.tail ≠ (y.prot.head + 1) % C_QUEUE_LEN) :
    c_send_next (emit e y) =
      { prot := { y.prot with head := (y.prot.head + 1) % C_QUEUE_LEN },
        netdev := y.netdev,
        trace := y.trace ++ [e, .ssi_write_c (slot y ((y.prot.head + 1) % C_QUEUE_LEN))] } := by
  simp [c_send_next, upd, emit, h, slot]

theorem step_ready (w : World) (msg : Nat) (alloc_ok : Bool) (hc : COMMAND msg = READY) :
    step (.c_rcv_done msg alloc_ok) w = ready_h msg (rcvd msg w) := by
  rw [step_c_rcv_done, hc]
  simp only [READY, Nat.reduceEqDiff, if_false, if_true]

theorem ready_h_ignored (w : World) (msg : Nat)
    (h : w.prot.main_state ≠ ACTIVE ∨ w.prot.send_state ≥ SENDING) : ready_h msg w = some w := by
  unfold ready_h
  rw [if_pos h]

theorem ready_h_idle (w : World) (msg : Nat)
    (hs : w.prot.main_state = ACTIVE) (hlt : w.prot.send_state < SENDING)
    (hq : w.prot.tx_queue = []) :
    ready_h msg w = some (upd (fun p => { p with send_state := SEND_READY }) w) := by
  unfold ready_h
  rw [if_neg (by rw [not_or]; exact ⟨not_not.mpr hs, by omega⟩), if_neg (by simp [hq])]

theorem ready_h_start (w : World) (msg : Nat) (skb : sk_buff) (rest : List sk_buff)
    (hs : w.prot.main_state = ACTIVE) (hlt : w.prot.send_state < SENDING)
    (hq : w.prot.tx_queue = skb :: rest) :
    ready_h msg w =
      some (send_c_msg (START_TRANS_CMD ((skb.len + 3) % U32 / 4) w.prot.send_msg_id)
        (mod_timer .tx_wd (upd (fun p => { p with send_state := SENDING }) w))) := by
  unfold ready_h
  rw [if_neg (by rw [not_or]; exact ⟨not_not.mpr hs, by omega⟩), if_pos (by simp [hq])]
  simp [mcsaab_start_tx, hq, mod_timer, upd, emit]

/-! ### Watchdogs and recovery -/

theorem reset_mcsaab_trace (w : World) :
    (reset_mcsaab w).trace = w.trace ++ reset_calls w.prot := by
  rw [reset_mcsaab_eq]
  simp [reset_calls]

theorem reset_mcsaab_prot (w : World) :
    (reset_mcsaab w).prot =
      { w.prot with
        main_state := INIT, send_msg_id := 0, rcv_msg_id := 0,
        send_state := RECV_READY, recv_state := SEND_READY, flags := 0,
        head := 0, tail := 0, boot_wd := false, rx_wd := false, tx_wd := false,
        tx_queue := [], rx_queue := [] } := by
  rw [reset_mcsaab_eq]

theorem count_kfree (l : List sk_buff) :
    (l.map Effect.dev_kfree_skb).count Effect.netif_carrier_off = 0 := by
  induction l with
  | nil => rfl
  | cons a l ih => simpa [List.count_cons] using ih

theorem reset_calls_carrier (p : mcsaab_imp) :
    (reset_calls p).count Effect.netif_carrier_off = 1 := by
  unfold reset_calls
  simp only [List.count_append, count_kfree]
  split_ifs <;> simp [List.count_cons]

theorem reset_calls_cancel (p : mcsaab_imp) :
    (p.dev_d_ch = true →
      Effect.ssi_read_cancel_d ∈ reset_calls p ∧ Effect.ssi_write_cancel_d ∈ reset_calls p) ∧
    (p.dev_c_ch = true → Effect.ssi_write_cancel_c ∈ reset_calls p) ∧
    (∀ skb ∈ p.tx_queue, Effect.dev_kfree_skb skb ∈ reset_calls p) := by
  unfold reset_calls
  refine ⟨fun h => ?_, fun h => ?_, fun skb h => ?_⟩
  · simp [h]
  · simp [h]
  · simp only [List.mem_append, List.mem_map]
    exact Or.inl (Or.inl (Or.inr ⟨skb, h, rfl⟩))

theorem mcsaab_watchdog_eq (w : World) :
    (mcsaab_watchdog w).prot = (reset_mcsaab w).prot ∧
    (mcsaab_watchdog w).netdev = w.netdev ∧
    (mcsaab_watchdog w).trace =
      w.trace ++ ([.ssi_ioctl .WAKE, .ssi_ioctl .CAWAKE] ++ reset_calls w.prot ++
        [.ssi_ioctl .WAKE_DOWN]) := by
  unfold mcsaab_watchdog mcsaab_watchdog_dump
  simp only [emit]
  rw [reset_mcsaab_eq, reset_mcsaab_eq]
  simp [reset_calls]

theorem mcsaab_watchdog_tx_eq (w : World) :
    (mcsaab_watchdog_tx w).prot = (reset_mcsaab w).prot ∧
    (mcsaab_watchdog_tx w).netdev = w.netdev ∧
    (mcsaab_watchdog_tx w).trace =
      w.trace ++ ([.ssi_ioctl .FLUSH_RX, .ssi_ioctl .FLUSH_TX, .ssi_ioctl .WAKE,
        .ssi_ioctl .CAWAKE] ++ reset_calls w.prot ++ [.ssi_ioctl .WAKE_DOWN]) := by
  obtain ⟨h1, h2, h3⟩ :=
    mcsaab_watchdog_eq (emit (.ssi_ioctl .FLUSH_TX) (emit (.ssi_ioctl .FLUSH_RX) w))
  refine ⟨?_, h2, ?_⟩
  · show (mcsaab_watchdog _).prot = _
    rw [h1, reset_mcsaab_prot, reset_mcsaab_prot]
    rfl
  · show (mcsaab_watchdog _).trace = _
    rw [h3]
    simp [emit]

theorem mcsaab_watchdog_rx_eq (w : World) : mcsaab_watchdog_rx w = mcsaab_watchdog_tx w := rfl

theorem reset_calls_no_flush (p : mcsaab_imp) (c : Ioctl) :
    Effect.ssi_ioctl c ∉ reset_calls p := by
  unfold reset_calls
  simp only [List.mem_append, List.mem_map, not_or]
  refine ⟨⟨⟨⟨⟨⟨?_, ?_⟩, ?_⟩, ?_⟩, ?_⟩, ?_⟩, ?_⟩
  · split_ifs <;> simp
  · simp
  · split_ifs <;> simp
  · split_ifs <;> simp
  · simp
  · simp
  · simp

/-- What the expiry of any of the three watchdogs leaves behind, given the
list `pre` of the calls made before `reset_mcsaab`. -/
theorem watchdog_outcome (w w2 : World) (pre : List Effect)
    (hp : w2.prot = (reset_mcsaab w).prot)
    (ht : w2.trace = w.trace ++ (pre ++ reset_calls w.prot ++ [.ssi_ioctl .WAKE_DOWN]))
    (hpre : Effect.netif_carrier_off ∉ pre) :
    (w2.prot.main_state = INIT ∧ w2.prot.flags = 0 ∧ w2.prot.send_msg_id = 0 ∧
      w2.prot.rcv_msg_id = 0 ∧ w2.prot.head = 0 ∧ w2.prot.tail = 0 ∧
      w2.prot.tx_queue = [] ∧ w2.prot.rx_queue = [] ∧
      w2.prot.boot_wd = false ∧ w2.prot.tx_wd = false ∧ w2.prot.rx_wd = false) ∧
    (new_effects w w2).getLast? = some (.ssi_ioctl .WAKE_DOWN) ∧
    (new_effects w w2).count Effect.netif_carrier_off = 1 ∧
    (w.prot.dev_d_ch = true →
      Effect.ssi_read_cancel_d ∈ new_effects w w2 ∧
      Effect.ssi_write_cancel_d ∈ new_effects w w2) ∧
    (w.prot.dev_c_ch = true → Effect.ssi_write_cancel_c ∈ new_effects w w2) ∧
    (∀ skb ∈ w.prot.tx_queue, Effect.dev_kfree_skb skb ∈ new_effects w w2) := by
  have hn := new_effects_append w w2 _ ht
  obtain ⟨c1, c2, c3⟩ := reset_calls_cancel w.prot
  refine ⟨?_, ?_, ?_, ?_, ?_, ?_⟩
  · rw [hp, reset_mcsaab_prot]
    simp
  · rw [hn, List.getLast?_concat]
  · rw [hn]
    simp only [List.count_append, reset_calls_carrier, List.count_eq_zero_of_not_mem hpre]
    simp [List.count_cons]
  · intro h
    rw [hn]
    simp [(c1 h).1, (c1 h).2]
  · intro h
    rw [hn]
    simp [c2 h]
  · intro skb h
    rw [hn]
    simp [c3 skb h]

theorem c_writes_kfree (l : List sk_buff) : c_writes (l.map Effect.dev_kfree_skb) = [] := by
  induction l with
  | nil => rfl
  | cons a l _ => simp [c_writes]

theorem c_writes_reset_calls (p : mcsaab_imp) : c_writes (reset_calls p) = [] := by
  unfold reset_calls
  simp only [c_writes_append, c_writes_kfree]
  split_ifs <;> simp [c_writes]

/-! ### The handshake handlers -/

theorem step_boot_info_req (w : World) (msg : Nat) (alloc_ok : Bool)
    (hc : COMMAND msg = BOOT_INFO_REQ) :
    step (.c_rcv_done msg alloc_ok) w = some (boot_info_req_h msg (rcvd msg w)) := by
  rw [step_c_rcv_done, hc]
  simp only [BOOT_INFO_REQ, Nat.reduceEqDiff, if_false, if_true]

theorem step_boot_info_resp (w : World) (msg : Nat) (alloc_ok : Bool)
    (hc : COMMAND msg = BOOT_INFO_RESP) :
    step (.c_rcv_done msg alloc_ok) w = some (boot_info_resp_h msg (rcvd msg w)) := by
  rw [step_c_rcv_done, hc]
  simp only [BOOT_INFO_RESP, Nat.reduceEqDiff, if_false, if_true]

theorem step_wake_test (w : World) (msg : Nat) (alloc_ok : Bool)
    (hc : COMMAND msg = WAKE_TEST_RES) :
    step (.c_rcv_done msg alloc_ok) w = some (wakelines_test_result_h msg (rcvd msg w)) := by
  rw [step_c_rcv_done, hc]
  simp only [WAKE_TEST_RES, Nat.reduceEqDiff, if_false, if_true]

theorem send_c_msg_trace (c_msg : Nat) (w : World) :
    ∃ es, (send_c_msg c_msg w).trace = w.trace ++ es ∧ ∀ e ∈ es, ∃ c, e = Effect.ssi_write_c c := by
  rw [send_c_msg_eq]
  split_ifs
  · exact ⟨[], by simp, by simp⟩
  · exact ⟨_, rfl, by simp⟩
  · exact ⟨[], by simp, by simp⟩

theorem boot_info_req_h_arms (w : World) (msg : Nat)
    (hs : w.prot.main_state = INIT ∨ w.prot.main_state = HANDSHAKE ∨
      w.prot.main_state = ACTIVE) :
    (boot_info_req_h msg w).prot.boot_wd = true ∧
    (boot_info_req_h msg w).prot.main_state = HANDSHAKE ∧
    (boot_info_req_h msg w).trace.getLast? = some (.mod_timer .boot_wd) := by
  unfold boot_info_req_h
  rcases hs with h | h | h
  · rw [if_pos h]
    exact ⟨rfl, rfl, by simp [mod_timer, emit]⟩
  · rw [if_neg (by rw [h]; decide), if_pos h]
    refine ⟨rfl, ?_, by simp [mod_timer, emit]⟩
    show (send_c_msg _ w).prot.main_state = _
    rw [(send_c_msg_keeps _ w).1, h]
  · rw [if_neg (by rw [h]; decide), if_neg (by rw [h]; decide), if_pos h]
    exact ⟨rfl, rfl, by simp [mod_timer, emit]⟩

theorem wakelines_test_ok (w : World) (msg : Nat)
    (hs : w.prot.main_state = HANDSHAKE) (hok : PAYLOAD msg &&& WAKE_TEST_FAILED = 0) :
    wakelines_test_result_h msg w = send_c_msg (FQ_CHANGE_REQ_CMD w.prot.cmt_tx_speed) w := by
  unfold wakelines_test_result_h
  rw [if_neg (not_not.mpr hs), if_neg (not_not.mpr hok)]

theorem mod_timer_trace (t : Timer) (w : World) :
    (mod_timer t w).trace = w.trace ++ [.mod_timer t] := by
  cases t <;> rfl

theorem boot_info_req_h_last (w : World) (msg : Nat)
    (hs : w.prot.main_state = INIT ∨ w.prot.main_state = HANDSHAKE ∨
      w.prot.main_state = ACTIVE) :
    ∃ es, (boot_info_req_h msg w).trace = w.trace ++ (es ++ [.mod_timer .boot_wd]) := by
  have hT : (fun _ : Nat => True) (BOOT_INFO_RESP_CMD LOCAL_D_VER_ID) := trivial
  unfold boot_info_req_h
  rcases hs with h | h | h
  · rw [if_pos h]
    obtain ⟨⟨es, he⟩, _⟩ : RelQ (fun _ => True) w
        (upd (fun p => { p with main_state := HANDSHAKE })
          (send_c_msg (BOOT_INFO_RESP_CMD LOCAL_D_VER_ID) (mcsaab_clk_enable w))) :=
      relq_upd _ (fun _ => rfl) (fun _ => rfl) (fun _ => rfl)
        (relq_send_c_msg _ hT (relq_clk_enable (RelQ.refl _ _)))
    refine ⟨es, ?_⟩
    dsimp only
    rw [mod_timer_trace, he, List.append_assoc]
  · rw [if_neg (by rw [h]; decide), if_pos h]
    obtain ⟨⟨es, he⟩, _⟩ : RelQ (fun _ => True) w
        (send_c_msg (BOOT_INFO_RESP_CMD LOCAL_D_VER_ID) w) :=
      relq_send_c_msg _ hT (RelQ.refl _ _)
    refine ⟨es, ?_⟩
    dsimp only
    rw [mod_timer_trace, he, List.append_assoc]
  · rw [if_neg (by rw [h]; decide), if_neg (by rw [h]; decide), if_pos h]
    obtain ⟨es, he, _⟩ : Rel (fun _ => True) w
        (upd (fun p => { p with main_state := HANDSHAKE })
          (send_c_msg (BOOT_INFO_RESP_CMD LOCAL_D_VER_ID)
            (emit (.ssi_ioctl .WAKE_UP)
              (mcsaab_clk_enable (reset_mcsaab (mcsaab_watchdog_dump w)))))) :=
      (rel_reset ((relq_dump (RelQ.refl _ _)).toRel)).thenQ
        (relq_upd _ (fun _ => rfl) (fun _ => rfl) (fun _ => rfl)
          (relq_send_c_msg _ hT (relq_emit _ (relq_clk_enable (RelQ.refl _ _)))))
    refine ⟨es, ?_⟩
    dsimp only
    rw [mod_timer_trace, he, List.append_assoc]

theorem c_send_next_prot (w : World) :
    (c_send_next w).prot = { w.prot with head := (w.prot.head + 1) % C_QUEUE_LEN } := by
  by_cases h : w.prot.tail ≠ (w.prot.head + 1) % C_QUEUE_LEN <;>
    simp [c_send_next, upd, emit, h]

theorem mcsaab_clk_disable_keeps (w : World) :
    (mcsaab_clk_disable w).prot.main_state = w.prot.main_state ∧
    (mcsaab_clk_disable w).prot.boot_wd = w.prot.boot_wd ∧
    ((mcsaab_clk_disable w).prot.flags = w.prot.flags ∨
      (mcsaab_clk_disable w).prot.flags = w.prot.flags &&& bnot32 CLK_ENABLE) ∧
    ∃ es, (mcsaab_clk_disable w).trace = w.trace ++ es := by
  unfold mcsaab_clk_disable
  split_ifs
  · exact ⟨rfl, rfl, Or.inr rfl, [_], rfl⟩
  · exact ⟨rfl, rfl, Or.inl rfl, [], by simp⟩

theorem or_online (x : Nat) :
    (x ||| CMT_ONLINE) &&& CMT_ONLINE ≠ 0 ∧
    (x ||| CMT_ONLINE) &&& bnot32 CLK_ENABLE &&& CMT_ONLINE ≠ 0 := by
  have a1 : (x ||| CMT_ONLINE) &&& CMT_ONLINE = 1 := by
    show (x ||| 1) &&& 1 = 1
    rw [Nat.and_one_is_mod]
    exact Nat.or_mod_two_eq_one.mpr (Or.inr rfl)
  have a2 : (x ||| CMT_ONLINE) &&& bnot32 CLK_ENABLE &&& CMT_ONLINE = 1 := by
    rw [Nat.and_assoc, show bnot32 CLK_ENABLE &&& CMT_ONLINE = CMT_ONLINE by decide, a1]
  rw [a1, a2]
  exact ⟨by decide, by decide⟩

theorem c_send_next_del_timer (y : World) :
    ∃ es, (c_send_next (del_timer .boot_wd y)).trace =
      y.trace ++ (Effect.del_timer .boot_wd :: es) := by
  obtain ⟨_, _, _, _, _, n6⟩ := c_send_next_spec (del_timer .boot_wd y)
  exact ⟨_, n6.trans (by
    rw [show (del_timer Timer.boot_wd y).trace = y.trace ++ [.del_timer .boot_wd] from rfl,
      List.append_assoc]
    rfl)⟩

theorem c_send_done_fq_done (acwake : Nat) (w : World)
    (hc : COMMAND (slot w w.prot.head) = FQ_CHANGE_DONE) (hs : w.prot.main_state = HANDSHAKE) :
    ∃ w2, c_send_done_cb acwake w = some w2 ∧
      w2.prot.main_state = ACTIVE ∧ w2.prot.boot_wd = false ∧
      w2.prot.flags &&& CMT_ONLINE ≠ 0 ∧
      Effect.del_timer .boot_wd ∈ new_effects w w2 ∧
      Effect.netif_carrier_on ∈ new_effects w w2 := by
  simp only [slot] at hc
  have h1 : ¬ (COMMAND (w.prot.c_queue.getD w.prot.head 0) = START_TRANS ∧
      w.prot.send_state = SENDING) := by
    rw [hc]
    rintro ⟨a, _⟩
    exact absurd a (by decide)
  have h2 : ¬ (COMMAND (w.prot.c_queue.getD w.prot.head 0) = SW_BREAK ∧
      w.prot.send_state = SENDING_SWBREAK) := by
    rw [hc]
    rintro ⟨a, _⟩
    exact absurd a (by decide)
  have e : c_send_handle acwake w = some (del_timer .boot_wd (mcsaab_clk_disable
      (emit (.ssi_ioctl .WAKE_DOWN) (emit .netif_wake_queue (emit .netif_carrier_on
        (upd (fun p => { p with flags := p.flags ||| CMT_ONLINE })
          (upd (fun p => { p with flags := p.flags &&& bnot32 WAKEDOWN_TEST })
            (upd (fun p => { p with main_state := ACTIVE }) w)))))))) := by
    unfold c_send_handle
    simp only []
    rw [if_neg h1, if_neg h2, if_pos ⟨hc, hs⟩]
  obtain ⟨d1, d2, d3, es, d4⟩ := mcsaab_clk_disable_keeps
    (emit (.ssi_ioctl .WAKE_DOWN) (emit .netif_wake_queue (emit .netif_carrier_on
      (upd (fun p => { p with flags := p.flags ||| CMT_ONLINE })
        (upd (fun p => { p with flags := p.flags &&& bnot32 WAKEDOWN_TEST })
          (upd (fun p => { p with main_state := ACTIVE }) w))))))
  obtain ⟨es2, n6⟩ := c_send_next_del_timer (mcsaab_clk_disable
    (emit (.ssi_ioctl .WAKE_DOWN) (emit .netif_wake_queue (emit .netif_carrier_on
      (upd (fun p => { p with flags := p.flags ||| CMT_ONLINE })
        (upd (fun p => { p with flags := p.flags &&& bnot32 WAKEDOWN_TEST })
          (upd (fun p => { p with main_state := ACTIVE }) w)))))))
  have hx : (emit (.ssi_ioctl .WAKE_DOWN) (emit .netif_wake_queue (emit .netif_carrier_on
      (upd (fun p => { p with flags := p.flags ||| CMT_ONLINE })
        (upd (fun p => { p with flags := p.flags &&& bnot32 WAKEDOWN_TEST })
          (upd (fun p => { p with main_state := ACTIVE }) w)))))).trace =
      w.trace ++ [.netif_carrier_on, .netif_wake_queue, .ssi_ioctl .WAKE_DOWN] := by
    simp [emit, upd]
  rw [d4, hx] at n6
  have htr := new_effects_append w _ _ (n6.trans (by
    rw [List.append_assoc, List.append_assoc]))
  refine ⟨_, by rw [c_send_done_cb_eq, e]; rfl, ?_, ?_, ?_, ?_, ?_⟩
  · rw [c_send_next_prot]
    exact d1
  · rw [c_send_next_prot]
    rfl
  · rw [c_send_next_prot]
    show (mcsaab_clk_disable _).prot.flags &&& CMT_ONLINE ≠ 0
    rcases d3 with h | h
    · rw [h]
      exact (or_online _).1
    · rw [h]
      exact (or_online _).2
  · rw [htr]
    simp
  · rw [htr]
    simp

/-! ### The wake-line events -/

/-- The bits of `m` read as set once they have been set. -/
theorem or_and_self (x m : Nat) : (x ||| m) &&& m = m := by
  apply Nat.eq_of_testBit_eq
  intro i
  simp only [Nat.testBit_and, Nat.testBit_or]
  cases x.testBit i <;> cases m.testBit i <;> rfl

/-- Setting the bits of `m` leaves the bits of a disjoint mask `k` as they are. -/
theorem or_and_disjoint (x m k : Nat) (h : k &&& m = 0) : (x ||| m) &&& k = x &&& k := by
  rw [Nat.and_comm, Nat.and_or_distrib_left, h, Nat.or_zero, Nat.and_comm]

/-- Clearing the bits of `m` and reading the bits of `k`. -/
theorem and_bnot_and (x m k : Nat) : (x &&& bnot32 m) &&& k = x &&& (bnot32 m &&& k) :=
  Nat.and_assoc _ _ _

/-- What `mcsaab_clk_enable` does: `CLK_ENABLE` is set, the clock is requested
when the flag was clear, and nothing else changes. -/
theorem mcsaab_clk_enable_eq (w : World) :
    mcsaab_clk_enable w =
      { prot := { w.prot with flags :=
                    if w.prot.flags &&& CLK_ENABLE = 0 then w.prot.flags ||| CLK_ENABLE
                    else w.prot.flags },
        netdev := w.netdev,
        trace := w.trace ++ if w.prot.flags &&& CLK_ENABLE = 0 then [Effect.clk_enable] else [] } := by
  unfold mcsaab_clk_enable
  by_cases h : w.prot.flags &&& CLK_ENABLE = 0
  · rw [if_pos h, if_pos h, if_pos h]; rfl
  · rw [if_neg h, if_neg h, if_neg h]; simp

/-- After `mcsaab_clk_enable` the flag `CLK_ENABLE` is set and every bit outside
it is as before. -/
theorem mcsaab_clk_enable_flags (w : World) :
    (mcsaab_clk_enable w).prot.flags &&& CLK_ENABLE ≠ 0 ∧
    ∀ k, k &&& CLK_ENABLE = 0 →
      (mcsaab_clk_enable w).prot.flags &&& k = w.prot.flags &&& k := by
  rw [mcsaab_clk_enable_eq]
  by_cases h : w.prot.flags &&& CLK_ENABLE = 0
  · rw [if_pos h]
    refine ⟨?_, fun k hk => or_and_disjoint _ _ _ hk⟩
    show (w.prot.flags ||| CLK_ENABLE) &&& CLK_ENABLE ≠ 0
    rw [or_and_self]; decide
  · rw [if_neg h]
    exact ⟨h, fun _ _ => rfl⟩

/-- The word `READY_CMD`. -/
theorem ready_word : READY_CMD = 0x50000000 := by decide

/-- What `mcsaab_clk_disable` does: `CLK_ENABLE` is cleared and the clock
released when the flag was set, and nothing else changes. -/
theorem mcsaab_clk_disable_eq (w : World) :
    mcsaab_clk_disable w =
      { prot := { w.prot with flags :=
                    if w.prot.flags &&& CLK_ENABLE ≠ 0 then w.prot.flags &&& bnot32 CLK_ENABLE
                    else w.prot.flags },
        netdev := w.netdev,
        trace := w.trace ++
          if w.prot.flags &&& CLK_ENABLE ≠ 0 then [Effect.clk_disable] else [] } := by
  unfold mcsaab_clk_disable
  by_cases h : w.prot.flags &&& CLK_ENABLE ≠ 0
  · rw [if_pos h, if_pos h, if_pos h]; rfl
  · rw [if_neg h, if_neg h, if_neg h]; simp

/-- After `mcsaab_clk_disable` the flag `CLK_ENABLE` is clear and every bit
outside it is as before. -/
theorem mcsaab_clk_disable_flags (w : World) :
    (mcsaab_clk_disable w).prot.flags &&& CLK_ENABLE = 0 ∧
    ∀ k, k &&& CLK_ENABLE = 0 → k < U32 →
      (mcsaab_clk_disable w).prot.flags &&& k = w.prot.flags &&& k := by
  rw [mcsaab_clk_disable_eq]
  by_cases h : w.prot.flags &&& CLK_ENABLE ≠ 0
  · rw [if_pos h]
    refine ⟨?_, fun k hk hlt => ?_⟩
    · show (w.prot.flags &&& bnot32 CLK_ENABLE) &&& CLK_ENABLE = 0
      rw [and_bnot_and]; exact Nat.and_zero _
    · show (w.prot.flags &&& bnot32 CLK_ENABLE) &&& k = w.prot.flags &&& k
      rw [and_bnot_and]
      congr 1
      apply Nat.eq_of_testBit_eq
      intro i
      have hk2 : (k &&& CLK_ENABLE).testBit i = false := by rw [hk]; simp
      rw [Nat.testBit_and] at hk2 ⊢
      by_cases hi : i < 32
      · have : (bnot32 CLK_ENABLE).testBit i = !(CLK_ENABLE.testBit i) := by
          interval_cases i <;> decide
        rw [this]
        cases hb : k.testBit i
        · simp
        · rw [hb] at hk2; simp at hk2; simp [hk2]
      · have hkf : k.testBit i = false := by
          apply Nat.testBit_lt_two_pow
          calc k < 2 ^ 32 := hlt
            _ ≤ 2 ^ i := Nat.pow_le_pow_right (by decide) (by omega)
        rw [hkf]; simp
  · rw [if_neg h]
    exact ⟨not_not.mp h, fun _ _ _ => rfl⟩

/-! ### Where the words of the control queue come from -/

theorem COMMAND_CMD (c p : Nat) (hc : c < 16) : COMMAND (CMD c p) = c := by
  rw [COMMAND_eq, CMD_eq]
  omega

theorem slots_of_rel {P : Nat → Prop} {w w2 : World} (h : Rel P w w2) :
    ∀ i, slot w2 i = slot w i ∨ P (slot w2 i) := by
  obtain ⟨_, _, _, q⟩ := h
  exact q

theorem slots_d_send_done {P : Nat → Prop} (w w2 : World) (h : d_send_done_cb w = some w2)
    (hSw : P SWBREAK_CMD) (hSt : ∀ len id, P (START_TRANS_CMD len id)) :
    ∀ i, slot w2 i = slot w i ∨ P (slot w2 i) := by
  unfold d_send_done_cb at h
  split at h
  · simp only [Option.some.injEq] at h
    subst h
    exact fun i => Or.inl rfl
  · rename_i skb rest hq
    simp only [] at h
    have key : RelQ P
        (upd (fun p => { p with send_msg_id := ((p.send_msg_id + 1) % 256) &&& 0xff })
          (emit (.dev_kfree_skb skb) (del_timer .tx_wd
            (upd (fun p => { p with tx_queue := rest }) w)))) w2 := by
      split_ifs at h
      · simp only [Option.some.injEq] at h
        rw [← h]
        exact relq_upd _ (fun _ => rfl) (fun _ => rfl) (fun _ => rfl)
          (relq_send_c_msg _ hSw (RelQ.refl _ _))
      · exact relq_start_tx h (fun len => hSt len _) (RelQ.refl _ _)
    obtain ⟨_, _, _, q⟩ := key
    intro i
    have e : slot (upd (fun p => { p with send_msg_id := ((p.send_msg_id + 1) % 256) &&& 0xff })
          (emit (.dev_kfree_skb skb) (del_timer .tx_wd
            (upd (fun p => { p with tx_queue := rest }) w)))) i = slot w i := rfl
    rw [← e]
    exact q i

theorem slots_start_trans_h {P : Nat → Prop} (msg : Nat) (alloc_ok : Bool) (w : World) :
    ∀ i, slot (start_trans_h msg alloc_ok (rcvd msg w)) i = slot w i ∨
      P (slot (start_trans_h msg alloc_ok (rcvd msg w)) i) := by
  unfold start_trans_h
  simp only []
  split_ifs
  · exact fun i => Or.inl rfl
  · exact slots_of_rel (rel_reset (relq_dump (relq_rcvd msg w)).toRel)
  · intro i
    have key : Rel P
        (upd (fun p => { p with flags := p.flags &&& bnot32 READY_SENT })
          (upd (fun p => { p with rcv_msg_id := (p.rcv_msg_id + 1) &&& 0xff }) (rcvd msg w)))
        (mcsaab_start_rx (PDU_LENGTH msg) alloc_ok
          (upd (fun p => { p with flags := p.flags &&& bnot32 READY_SENT })
            (upd (fun p => { p with rcv_msg_id := (p.rcv_msg_id + 1) &&& 0xff })
              (rcvd msg w)))) :=
      rel_start_rx _ _ (RelQ.refl _ _).toRel
    exact slots_of_rel key i

/-- The words one event may store in the control queue.  `FQ_CHANGE_REQ` is
stored only by a `WAKE_TEST_RESULT` without the failure bit received in
`HANDSHAKE`, `FQ_CHANGE_DONE` only by an `ACK` of `FQ_CHANGE_REQ` received in
`HANDSHAKE`. -/
theorem slots_step {P : Nat → Prop} (e : Event) (w w2 : World) (h : step e w = some w2)
    (hResp : P (BOOT_INFO_RESP_CMD LOCAL_D_VER_ID))
    (hStart : ∀ len id, P (START_TRANS_CMD len id))
    (hSw : P SWBREAK_CMD) (hReady : P READY_CMD) (hSkip : P SKIP)
    (hReq : P (FQ_CHANGE_REQ_CMD w.prot.cmt_tx_speed) ∨
      ∀ msg b, e = .c_rcv_done msg b → COMMAND msg = WAKE_TEST_RES →
        ¬ (w.prot.main_state = HANDSHAKE ∧ PAYLOAD msg &&& WAKE_TEST_FAILED = 0))
    (hDone : P FQ_CHANGE_DONE_CMD ∨
      ∀ msg b, e = .c_rcv_done msg b → COMMAND msg = ACK →
        ¬ (w.prot.main_state = HANDSHAKE ∧ ACK_TO_CMD msg % 256 = FQ_CHANGE_REQ)) :
    ∀ i, slot w2 i = slot w i ∨ P (slot w2 i) := by
  cases e with
  | c_rcv_done msg alloc_ok =>
    rw [step_c_rcv_done] at h
    split_ifs at h with c0 c1 c2 c3 c4 c5 c10
    · simp only [Option.some.injEq] at h
      exact h ▸ slots_of_rel (relq_swbreak_h (relq_rcvd msg w)).toRel
    · simp only [Option.some.injEq] at h
      exact h ▸ slots_of_rel (rel_boot_info_req_h _ hResp (relq_rcvd msg w).toRel)
    · simp only [Option.some.injEq] at h
      exact h ▸ slots_of_rel (relq_boot_info_resp_h _ (relq_rcvd msg w)).toRel
    · simp only [Option.some.injEq] at h
      subst h
      rcases hReq with hP | hno
      · exact slots_of_rel (rel_wakelines_test_result_h _ hP (relq_rcvd msg w).toRel)
      · have hno2 := hno msg alloc_ok rfl c3
        unfold wakelines_test_result_h
        split_ifs with g1 g2
        · exact fun i => Or.inl rfl
        · exact slots_of_rel ((rel_reset ((relq_rcvd msg w).toRel.thenQ
            (relq_dump (RelQ.refl _ _)))).thenQ
            (relq_del_timer _ (relq_clk_disable (relq_emit _ (RelQ.refl _ _)))))
        · exact absurd ⟨not_not.mp g1, not_not.mp g2⟩ hno2
    · simp only [Option.some.injEq] at h
      exact h ▸ slots_start_trans_h msg alloc_ok w
    · exact slots_of_rel (relq_ready_h _ h (fun len => hStart len _) (relq_rcvd msg w)).toRel
    · simp only [Option.some.injEq] at h
      subst h
      rcases hDone with hP | hno
      · exact slots_of_rel (relq_ack_to_cmd_h _ hP (relq_rcvd msg w)).toRel
      · have hno2 := hno msg alloc_ok rfl c10
        unfold ack_to_cmd_h
        simp only []
        split_ifs with g1 g2
        · exact absurd ⟨g2, g1⟩ hno2
        · exact fun i => Or.inl rfl
        · exact fun i => Or.inl rfl
    · simp only [Option.some.injEq] at h
      exact h ▸ slots_of_rel (relq_rcvd msg w).toRel
  | c_send_done acwake =>
    exact slots_of_rel (relq_c_send_done_cb _ h (fun len => hStart len _) (RelQ.refl _ _)).toRel
  | d_send_done => exact slots_d_send_done w w2 h hSw hStart
  | d_rcv_done fill running =>
    simp only [step, Option.some.injEq] at h
    exact h ▸ slots_of_rel (relq_d_rcv_done_cb _ (relq_dma_rx_fill _ (RelQ.refl _ _))).toRel
  | port_event event =>
    simp only [step, Option.some.injEq] at h
    exact h ▸ slots_of_rel (rel_port_event_cb _ hSkip hReady (RelQ.refl _ _).toRel)
  | watchdog_boot =>
    simp only [step, Option.some.injEq] at h
    exact h ▸ slots_of_rel (rel_watchdog (RelQ.refl _ _).toRel)
  | watchdog_rx =>
    simp only [step, Option.some.injEq] at h
    exact h ▸ slots_of_rel (rel_watchdog ((relq_emit _ (relq_emit _ (RelQ.refl _ _))).toRel))
  | watchdog_tx =>
    simp only [step, Option.some.injEq] at h
    exact h ▸ slots_of_rel (rel_watchdog ((relq_emit _ (relq_emit _ (RelQ.refl _ _))).toRel))
  | xmit skb acwake pad_ok cow_ok =>
    exact slots_of_rel (relq_ssi_pn_xmit _ _ _ _ h (fun len => hStart len _) (RelQ.refl _ _)).toRel

/-! ### Reachable worlds -/

theorem run_calls_invariant (I : World → Prop)
    (hs : ∀ c w w2, I w → call c w = some w2 → I w2) :
    ∀ cs w w2, I w → run_calls cs w = some w2 → I w2 := by
  intro cs
  induction cs with
  | nil =>
    intro w w2 hw h
    simp only [run_calls, Option.some.injEq] at h
    exact h ▸ hw
  | cons c cs ih =>
    intro w w2 hw h
    simp only [run_calls] at h
    cases hc : call c w with
    | none => rw [hc] at h; simp at h
    | some w1 =>
      rw [hc] at h
      exact ih w1 w2 (hs c w w1 hw hc) h

/-- A property of the constructed engine that every request keeps holds in
every reachable world. -/
theorem reachable_invariant (I : World → Prop) (h0 : I ssi_proto_init)
    (hs : ∀ c w w2, I w → call c w = some w2 → I w2) : ∀ w, Reachable w → I w := by
  rintro w ⟨cs, h⟩
  exact run_calls_invariant I hs cs _ _ h0 h

theorem reachable_call {w w2 : World} (c : Call) (hw : Reachable w) (h : call c w = some w2) :
    Reachable w2 := by
  obtain ⟨cs, hcs⟩ := hw
  refine ⟨cs ++ [c], ?_⟩
  have key : ∀ (l : List Call) (a b : World), run_calls l a = some b →
      run_calls (l ++ [c]) a = call c b := by
    intro l
    induction l with
    | nil =>
      intro a b hab
      simp only [run_calls, Option.some.injEq] at hab
      subst hab
      simp [run_calls]
    | cons d l ih =>
      intro a b hab
      simp only [run_calls, List.cons_append] at hab ⊢
      cases hd : call d a with
      | none => rw [hd] at hab; simp at hab
      | some a1 =>
        rw [hd] at hab
        exact ih a1 b hab
  rw [key cs _ _ hcs, h]

/-! ### The link state along a step -/

theorem keeps_refl (w : World) : Keeps w w :=
  ⟨Or.inl ⟨rfl, rfl⟩, Or.inl ⟨rfl, rfl⟩⟩

theorem keeps_trans {w w1 w2 : World} (h1 : Keeps w w1) (h2 : Keeps w1 w2) : Keeps w w2 := by
  obtain ⟨a1, b1⟩ := h1
  obtain ⟨a2, b2⟩ := h2
  constructor
  · rcases a2 with ⟨m2, f2⟩ | off2
    · rcases a1 with ⟨m1, f1⟩ | ⟨m1, f1⟩
      · exact Or.inl ⟨m2.trans m1, f2.trans f1⟩
      · exact Or.inr ⟨by rw [m2]; exact m1, f2.trans f1⟩
    · exact Or.inr off2
  · rcases b2 with ⟨s2, q2⟩ | hp2
    · rcases b1 with ⟨s1, q1⟩ | hp1
      · exact Or.inl ⟨s2.trans s1, q2.trans q1⟩
      · refine Or.inr ?_
        unfold HeadPacket at hp1 ⊢
        rw [s2, q2]
        exact hp1
    · exact Or.inr hp2

/-- What `Keeps` gives about the two invariants and the main state. -/
theorem keeps_spec {w w2 : World} (h : Keeps w w2) :
    (OnlineActive w → OnlineActive w2) ∧ (HeadPacket w → HeadPacket w2) ∧
    (w2.prot.main_state = ACTIVE → w.prot.main_state = ACTIVE) := by
  obtain ⟨a, b⟩ := h
  refine ⟨fun hw => ?_, fun hw => ?_, fun h2 => ?_⟩
  · unfold OnlineActive at hw ⊢
    rcases a with ⟨m, f⟩ | ⟨_, f⟩
    · rw [m, f]; exact hw
    · intro hne; exact absurd f hne
  · rcases b with ⟨s, q⟩ | hp
    · unfold HeadPacket at hw ⊢
      rw [s, q]; exact hw
    · exact hp
  · rcases a with ⟨m, _⟩ | ⟨m, _⟩
    · rw [← m]; exact h2
    · exact absurd h2 m

/-- A transformation that leaves the four fields as they are. -/
theorem keeps_frame {w w1 w2 : World} (h : Keeps w w1)
    (hm : w2.prot.main_state = w1.prot.main_state)
    (hf : w2.prot.flags &&& CMT_ONLINE = w1.prot.flags &&& CMT_ONLINE)
    (hs : w2.prot.send_state = w1.prot.send_state)
    (hq : w2.prot.tx_queue = w1.prot.tx_queue) : Keeps w w2 :=
  keeps_trans h ⟨Or.inl ⟨hm, hf⟩, Or.inl ⟨hs, hq⟩⟩

theorem keeps_emit {w w1 : World} (e : Effect) (h : Keeps w w1) : Keeps w (emit e w1) :=
  keeps_frame h rfl rfl rfl rfl

theorem keeps_upd {w w1 : World} (f : mcsaab_imp → mcsaab_imp)
    (hm : ∀ p, (f p).main_state = p.main_state)
    (hf : ∀ p, (f p).flags &&& CMT_ONLINE = p.flags &&& CMT_ONLINE)
    (hs : ∀ p, (f p).send_state = p.send_state)
    (hq : ∀ p, (f p).tx_queue = p.tx_queue) (h : Keeps w w1) : Keeps w (upd f w1) :=
  keeps_frame h (hm _) (hf _) (hs _) (hq _)

theorem keeps_updStats {w w1 : World} (f : net_device_stats → net_device_stats)
    (h : Keeps w w1) : Keeps w (updStats f w1) :=
  keeps_frame h rfl rfl rfl rfl

theorem keeps_mod_timer {w w1 : World} (t : Timer) (h : Keeps w w1) :
    Keeps w (mod_timer t w1) := by
  cases t <;> exact keeps_frame h rfl rfl rfl rfl

theorem keeps_del_timer {w w1 : World} (t : Timer) (h : Keeps w w1) :
    Keeps w (del_timer t w1) := by
  cases t <;> exact keeps_frame h rfl rfl rfl rfl

theorem keeps_clk_enable {w w1 : World} (h : Keeps w w1) : Keeps w (mcsaab_clk_enable w1) := by
  have hf := (mcsaab_clk_enable_flags w1).2 CMT_ONLINE (by decide)
  refine keeps_frame h ?_ hf ?_ ?_ <;> rw [mcsaab_clk_enable_eq]

theorem keeps_clk_disable {w w1 : World} (h : Keeps w w1) : Keeps w (mcsaab_clk_disable w1) := by
  have hf := (mcsaab_clk_disable_flags w1).2 CMT_ONLINE (by decide) (by decide)
  refine keeps_frame h ?_ hf ?_ ?_ <;> rw [mcsaab_clk_disable_eq]

theorem keeps_dump {w w1 : World} (h : Keeps w w1) : Keeps w (mcsaab_watchdog_dump w1) :=
  keeps_frame h rfl rfl rfl rfl

theorem keeps_send_c_msg {w w1 : World} (c_msg : Nat) (h : Keeps w w1) :
    Keeps w (send_c_msg c_msg w1) := by
  obtain ⟨k1, k2, -, -, k5, -, k7, -, -⟩ := send_c_msg_keeps c_msg w1
  exact keeps_frame h k1 (by rw [k7]) k2 k5

/-- Whatever the world, `reset_mcsaab` leaves the engine offline, in `INIT`
and out of `SENDING`. -/
theorem keeps_reset (w w1 : World) : Keeps w (reset_mcsaab w1) := by
  have hp := reset_mcsaab_prot w1
  refine ⟨Or.inr ⟨?_, ?_⟩, Or.inr ?_⟩
  · rw [hp]; show INIT ≠ ACTIVE; decide
  · rw [hp]; exact Nat.zero_and _
  · intro hs
    rw [hp] at hs
    exact absurd hs (by show RECV_READY ≠ SENDING; decide)

theorem keeps_start_rx {w w1 : World} (len : Nat) (alloc_ok : Bool) (h : Keeps w w1) :
    Keeps w (mcsaab_start_rx len alloc_ok w1) := by
  unfold mcsaab_start_rx
  split
  · exact keeps_reset _ _
  · simp only []
    split
    · exact keeps_emit _ (keeps_upd _ (fun _ => rfl) (fun _ => rfl) (fun _ => rfl) (fun _ => rfl)
        (keeps_mod_timer _ (keeps_upd _ (fun _ => rfl) (fun _ => rfl) (fun _ => rfl)
          (fun _ => rfl) h)))
    · exact keeps_upd _ (fun _ => rfl) (fun _ => rfl) (fun _ => rfl) (fun _ => rfl) h

/-- A transformation that keeps the main state and the online flag and leaves
the send machine out of `SENDING` or a packet queued. -/
theorem keeps_tx {w w1 w2 : World} (h : Keeps w w1)
    (hm : w2.prot.main_state = w1.prot.main_state)
    (hf : w2.prot.flags &&& CMT_ONLINE = w1.prot.flags &&& CMT_ONLINE)
    (hp : HeadPacket w2) : Keeps w w2 :=
  keeps_trans h ⟨Or.inl ⟨hm, hf⟩, Or.inr hp⟩

theorem keeps_start_tx {w w1 w2 : World} (e : mcsaab_start_tx w1 = some w2) (h : Keeps w w1) :
    Keeps w w2 := by
  unfold mcsaab_start_tx at e
  cases hq : w1.prot.tx_queue.head? with
  | none => rw [hq] at e; simp at e
  | some skb =>
    rw [hq] at e
    simp only [Option.some.injEq] at e
    subst e
    obtain ⟨k1, k2, -, -, k5, -, k7, -, -⟩ := send_c_msg_keeps
      (START_TRANS_CMD ((skb.len + 3) % U32 / 4)
        (mod_timer .tx_wd (upd (fun p => { p with send_state := SENDING }) w1)).prot.send_msg_id)
      (mod_timer .tx_wd (upd (fun p => { p with send_state := SENDING }) w1))
    refine keeps_tx h (k1.trans rfl) (by rw [k7]; rfl) ?_
    intro _
    rw [k5]
    show w1.prot.tx_queue ≠ []
    intro hnil
    rw [hnil] at hq
    simp at hq

theorem online_clear (x m : Nat) (hm : bnot32 m &&& CMT_ONLINE = CMT_ONLINE) :
    (x &&& bnot32 m) &&& CMT_ONLINE = x &&& CMT_ONLINE := by
  rw [and_bnot_and, hm]

theorem online_set (x m : Nat) (hm : CMT_ONLINE &&& m = 0) :
    (x ||| m) &&& CMT_ONLINE = x &&& CMT_ONLINE :=
  or_and_disjoint x m CMT_ONLINE hm

/-- The send state set to a value other than `SENDING`. -/
theorem keeps_set_send {w w1 : World} (v : Nat) (hv : v ≠ SENDING) (h : Keeps w w1) :
    Keeps w (upd (fun p => { p with send_state := v }) w1) :=
  keeps_tx h rfl rfl (fun hs => absurd hs hv)

/-- The main state set to a value other than `ACTIVE` while the engine is
offline. -/
theorem keeps_set_main {w w1 : World} (v : Nat) (hv : v ≠ ACTIVE)
    (hoff : w1.prot.flags &&& CMT_ONLINE = 0) (h : Keeps w w1) :
    Keeps w (upd (fun p => { p with main_state := v }) w1) :=
  keeps_trans h ⟨Or.inr ⟨hv, hoff⟩, Or.inl ⟨rfl, rfl⟩⟩

theorem offline_of_not_active {w : World} (ho : OnlineActive w)
    (hs : w.prot.main_state ≠ ACTIVE) : w.prot.flags &&& CMT_ONLINE = 0 := by
  by_contra hne
  exact hs (ho hne)

theorem keeps_swbreak_h {w w1 : World} (h : Keeps w w1) : Keeps w (swbreak_h w1) := by
  unfold swbreak_h
  split_ifs
  · exact h
  · exact keeps_clk_disable h

theorem keeps_boot_info_req_h {w w1 : World} (msg : Nat) (ho : OnlineActive w1)
    (h : Keeps w w1) : Keeps w (boot_info_req_h msg w1) := by
  unfold boot_info_req_h
  split_ifs with h0 h1 h2
  · have hoff := offline_of_not_active ho (by rw [h0]; decide)
    refine keeps_mod_timer _ (keeps_set_main _ (by decide) ?_
      (keeps_send_c_msg _ (keeps_clk_enable h)))
    rw [(send_c_msg_keeps _ _).2.2.2.2.2.2.1, (mcsaab_clk_enable_flags w1).2 _ (by decide)]
    exact hoff
  · exact keeps_mod_timer _ (keeps_send_c_msg _ h)
  · refine keeps_mod_timer _ (keeps_set_main _ (by decide) ?_
      (keeps_send_c_msg _ (keeps_emit _ (keeps_clk_enable (keeps_reset w _)))))
    rw [(send_c_msg_keeps _ _).2.2.2.2.2.2.1]
    show (mcsaab_clk_enable (reset_mcsaab (mcsaab_watchdog_dump w1))).prot.flags &&& CMT_ONLINE = 0
    rw [(mcsaab_clk_enable_flags _).2 _ (by decide), reset_mcsaab_prot]
    exact Nat.zero_and _
  · exact h

theorem keeps_boot_info_resp_h {w w1 : World} (msg : Nat) (ho : OnlineActive w1)
    (h : Keeps w w1) : Keeps w (boot_info_resp_h msg w1) := by
  unfold boot_info_resp_h
  split_ifs with h0
  · exact h
  · have hoff := offline_of_not_active ho (by rw [not_not.mp h0]; decide)
    refine keeps_set_main _ (by decide) ?_ (keeps_clk_enable h)
    rw [(mcsaab_clk_enable_flags w1).2 _ (by decide)]
    exact hoff

theorem keeps_wakelines_test_result_h {w w1 : World} (msg : Nat) (h : Keeps w w1) :
    Keeps w (wakelines_test_result_h msg w1) := by
  unfold wakelines_test_result_h
  split_ifs
  · exact h
  · exact keeps_del_timer _ (keeps_clk_disable (keeps_emit _ (keeps_reset w _)))
  · exact keeps_send_c_msg _ h

theorem keeps_ack_to_cmd_h {w w1 : World} (msg : Nat) (h : Keeps w w1) :
    Keeps w (ack_to_cmd_h msg w1) := by
  unfold ack_to_cmd_h
  simp only []
  split_ifs
  · exact keeps_send_c_msg _ h
  · exact h
  · exact h

theorem keeps_start_trans_h {w w1 : World} (msg : Nat) (alloc_ok : Bool) (h : Keeps w w1) :
    Keeps w (start_trans_h msg alloc_ok w1) := by
  unfold start_trans_h
  simp only []
  split_ifs
  · exact h
  · exact keeps_reset w _
  · exact keeps_start_rx _ _
      (keeps_upd _ (fun _ => rfl) (fun p => online_clear p.flags READY_SENT (by decide))
        (fun _ => rfl) (fun _ => rfl)
        (keeps_upd _ (fun _ => rfl) (fun _ => rfl) (fun _ => rfl) (fun _ => rfl) h))

theorem keeps_ready_h {w w1 w2 : World} (msg : Nat) (e : ready_h msg w1 = some w2)
    (h : Keeps w w1) : Keeps w w2 := by
  unfold ready_h at e
  split_ifs at e
  · simp only [Option.some.injEq] at e
    exact e ▸ h
  · exact keeps_start_tx e h
  · simp only [Option.some.injEq] at e
    exact e ▸ keeps_set_send _ (by decide) h

theorem keeps_ssi_pn_rx {w w1 : World} (skb : sk_buff) (running : Bool) (h : Keeps w w1) :
    Keeps w (ssi_pn_rx skb running w1) := by
  have hp := ssi_pn_rx_prot skb running w1
  exact keeps_frame h (by rw [hp]) (by rw [hp]) (by rw [hp]) (by rw [hp])

theorem keeps_d_rcv_done_cb {w w1 : World} (running : Bool) (h : Keeps w w1) :
    Keeps w (d_rcv_done_cb running w1) := by
  unfold d_rcv_done_cb
  split
  · exact h
  · simp only []
    split
    · exact keeps_emit _ (keeps_upd _ (fun _ => rfl) (fun _ => rfl) (fun _ => rfl) (fun _ => rfl)
        (keeps_mod_timer _ (keeps_ssi_pn_rx _ _ (keeps_upd _ (fun _ => rfl) (fun _ => rfl)
          (fun _ => rfl) (fun _ => rfl) (keeps_del_timer _ (keeps_upd _ (fun _ => rfl)
            (fun _ => rfl) (fun _ => rfl) (fun _ => rfl) h))))))
    · exact keeps_ssi_pn_rx _ _ (keeps_upd _ (fun _ => rfl) (fun _ => rfl)
          (fun _ => rfl) (fun _ => rfl) (keeps_del_timer _ (keeps_upd _ (fun _ => rfl)
            (fun _ => rfl) (fun _ => rfl) (fun _ => rfl) h)))

theorem keeps_dma_rx_fill {w w1 : World} (fill : List Nat) (h : Keeps w w1) :
    Keeps w (dma_rx_fill fill w1) := by
  unfold dma_rx_fill
  refine keeps_upd _ ?_ ?_ ?_ ?_ h <;> intro p <;> cases p.rx_queue <;> rfl

theorem keeps_wake_up_event {w w1 : World} (h : Keeps w w1) : Keeps w (wake_up_event w1) := by
  unfold wake_up_event
  split_ifs
  · exact keeps_emit _ h
  · exact keeps_emit _ h
  · exact h
  · exact keeps_upd _ (fun _ => rfl) (fun p => online_clear p.flags READY_SENT (by decide))
      (fun _ => rfl) (fun _ => rfl) h
  · exact keeps_mod_timer _ (keeps_send_c_msg _ (keeps_clk_enable
      (keeps_upd _ (fun _ => rfl) (fun p => online_set p.flags READY_SENT (by decide))
        (fun _ => rfl) (fun _ => rfl) h)))
  · exact h

theorem keeps_wake_down_event {w w1 : World} (h : Keeps w w1) :
    Keeps w (wake_down_event w1) := by
  unfold wake_down_event
  split_ifs
  · exact h
  · exact keeps_upd _ (fun _ => rfl) (fun p => online_set p.flags WAKEDOWN_TEST (by decide))
      (fun _ => rfl) (fun _ => rfl) (keeps_emit _ h)
  · exact h
  · exact h

theorem keeps_port_event_cb {w w1 : World} (event : ssi_event) (h : Keeps w w1) :
    Keeps w (port_event_cb event w1) := by
  cases event
  · exact keeps_send_c_msg _ (keeps_emit _ (keeps_reset w _))
  · exact keeps_wake_up_event h
  · exact keeps_wake_down_event h
  · exact h

theorem keeps_watchdog (w w1 : World) : Keeps w (mcsaab_watchdog w1) :=
  keeps_emit _ (keeps_reset w _)

theorem keeps_d_send_done_cb {w w1 w2 : World} (e : d_send_done_cb w1 = some w2)
    (h : Keeps w w1) : Keeps w w2 := by
  unfold d_send_done_cb at e
  split at e
  · simp only [Option.some.injEq] at e
    exact e ▸ h
  · rename_i skb rest hq
    simp only [] at e
    split_ifs at e with hlen
    · simp only [Option.some.injEq] at e
      rw [← e]
      obtain ⟨k1, -, -, -, -, -, k7, -, -⟩ := send_c_msg_keeps SWBREAK_CMD
        (upd (fun p => { p with send_msg_id := ((p.send_msg_id + 1) % 256) &&& 0xff })
          (emit (.dev_kfree_skb skb) (del_timer .tx_wd
            (upd (fun p => { p with tx_queue := rest }) w1))))
      exact keeps_tx h k1 (congrArg (fun x => x &&& CMT_ONLINE) k7)
        (fun hs => absurd (show SENDING_SWBREAK = SENDING from hs) (by decide))
    · have hs := keeps_start_tx e (keeps_refl _)
      obtain ⟨a, b⟩ := hs
      refine keeps_trans h ⟨a, Or.inr ?_⟩
      rcases b with ⟨-, q⟩ | hp
      · intro _
        rw [q]
        intro hnil
        apply hlen
        show rest.length ≤ 0
        rw [show rest = [] from hnil]
        exact Nat.le_refl 0
      · exact hp

theorem c_send_done_fq_flags (acwake : Nat) (w w2 : World)
    (hc : COMMAND (slot w w.prot.head) = FQ_CHANGE_DONE) (hs : w.prot.main_state = HANDSHAKE)
    (e : c_send_done_cb acwake w = some w2) :
    w2.prot.flags &&& WAKEDOWN_TEST = 0 ∧ w2.prot.send_state = w.prot.send_state ∧
    w2.prot.tx_queue = w.prot.tx_queue := by
  simp only [slot] at hc
  have h1 : ¬ (COMMAND (w.prot.c_queue.getD w.prot.head 0) = START_TRANS ∧
      w.prot.send_state = SENDING) := by
    rw [hc]
    rintro ⟨a, _⟩
    exact absurd a (by decide)
  have h2 : ¬ (COMMAND (w.prot.c_queue.getD w.prot.head 0) = SW_BREAK ∧
      w.prot.send_state = SENDING_SWBREAK) := by
    rw [hc]
    rintro ⟨a, _⟩
    exact absurd a (by decide)
  have e1 : c_send_handle acwake w = some (del_timer .boot_wd (mcsaab_clk_disable
      (emit (.ssi_ioctl .WAKE_DOWN) (emit .netif_wake_queue (emit .netif_carrier_on
        (upd (fun p => { p with flags := p.flags ||| CMT_ONLINE })
          (upd (fun p => { p with flags := p.flags &&& bnot32 WAKEDOWN_TEST })
            (upd (fun p => { p with main_state := ACTIVE }) w)))))))) := by
    unfold c_send_handle
    simp only []
    rw [if_neg h1, if_neg h2, if_pos ⟨hc, hs⟩]
  rw [c_send_done_cb_eq, e1, Option.map_some', Option.some.injEq] at e
  rw [← e, c_send_next_prot]
  refine ⟨?_, ?_, ?_⟩
  · show (mcsaab_clk_disable _).prot.flags &&& WAKEDOWN_TEST = 0
    rw [(mcsaab_clk_disable_flags _).2 WAKEDOWN_TEST (by decide) (by decide)]
    show ((w.prot.flags &&& bnot32 WAKEDOWN_TEST) ||| CMT_ONLINE) &&& WAKEDOWN_TEST = 0
    rw [or_and_disjoint _ _ _ (by decide), and_bnot_and]
    exact Nat.and_zero _
  · show (mcsaab_clk_disable _).prot.send_state = _
    rw [mcsaab_clk_disable_eq]
    rfl
  · show (mcsaab_clk_disable _).prot.tx_queue = _
    rw [mcsaab_clk_disable_eq]
    rfl

theorem keeps_c_send_next {w w1 : World} (h : Keeps w w1) : Keeps w (c_send_next w1) := by
  have hp := c_send_next_prot w1
  exact keeps_frame h (by rw [hp]) (by rw [hp]) (by rw [hp]) (by rw [hp])

/-- A control write completion keeps the link state, or it is the completion
of `FQ_CHANGE_DONE` in `HANDSHAKE`. -/
theorem keeps_c_send_done_cb {w1 w2 : World} (acwake : Nat)
    (e : c_send_done_cb acwake w1 = some w2) :
    Keeps w1 w2 ∨ Entry (.c_send_done acwake) w1 w2 := by
  by_cases hfq : COMMAND (slot w1 w1.prot.head) = FQ_CHANGE_DONE ∧ w1.prot.main_state = HANDSHAKE
  · right
    obtain ⟨w3, e3, m, -, f, -, c⟩ := c_send_done_fq_done acwake w1 hfq.1 hfq.2
    have hw : w3 = w2 := Option.some.inj (e3.symm.trans e)
    subst hw
    exact ⟨⟨acwake, rfl⟩, hfq.1, hfq.2, m, (c_send_done_fq_flags acwake w1 w3 hfq.1 hfq.2 e).1, f, c⟩
  · left
    rw [c_send_done_cb_eq] at e
    obtain ⟨w3, e3, rfl⟩ := Option.map_eq_some'.mp e
    refine keeps_c_send_next ?_
    unfold c_send_handle at e3
    simp only [] at e3
    split_ifs at e3 with g1 g2 g3 g4 g5
    · split at e3
      · exact absurd e3 (by simp)
      · simp only [Option.some.injEq] at e3
        exact e3 ▸ keeps_emit _ (keeps_refl _)
    · obtain ⟨w4, e4, rfl⟩ := Option.map_eq_some'.mp e3
      exact keeps_emit _ (keeps_start_tx e4 (keeps_refl _))
    · simp only [Option.map_some', Option.some.injEq] at e3
      rw [← e3]
      exact keeps_emit _ (keeps_set_send _ (by decide) (keeps_emit _ (keeps_emit _ (keeps_refl _))))
    · simp only [Option.map_some', Option.some.injEq] at e3
      rw [← e3]
      exact keeps_emit _ (keeps_set_send _ (by decide) (keeps_emit _ (keeps_emit _ (keeps_refl _))))
    · exact absurd g5 hfq
    · simp only [Option.some.injEq] at e3
      exact e3 ▸ keeps_refl _

theorem keeps_ssi_pn_xmit_wake {w1 w2 : World} (skb : sk_buff) (acwake : Nat)
    (e : ssi_pn_xmit_wake skb acwake w1 = some w2)
    (hact : w1.prot.main_state = ACTIVE) (hq : w1.prot.tx_queue ≠ []) : Keeps w1 w2 := by
  have h1 : Keeps w1
      (if acwake = 0 then upd (fun p => { p with send_state := WAIT4READY })
        (emit (.ssi_ioctl .WAKE) w1) else emit (.ssi_ioctl .WAKE) w1) := by
    split
    · exact keeps_set_send _ (by decide) (keeps_emit _ (keeps_refl _))
    · exact keeps_emit _ (keeps_refl _)
  have hm : (if acwake = 0 then upd (fun p => { p with send_state := WAIT4READY })
        (emit (.ssi_ioctl .WAKE) w1) else emit (.ssi_ioctl .WAKE) w1).prot.main_state = ACTIVE := by
    split <;> exact hact
  have hq3 : (if acwake = 0 then upd (fun p => { p with send_state := WAIT4READY })
        (emit (.ssi_ioctl .WAKE) w1) else emit (.ssi_ioctl .WAKE) w1).prot.tx_queue ≠ [] := by
    split <;> exact hq
  obtain ⟨w3, hw3, h1, hm, hq3⟩ : ∃ w3, w3 = (if acwake = 0 then
      upd (fun p => { p with send_state := WAIT4READY }) (emit (.ssi_ioctl .WAKE) w1)
      else emit (.ssi_ioctl .WAKE) w1) ∧ Keeps w1 w3 ∧ w3.prot.main_state = ACTIVE ∧
      w3.prot.tx_queue ≠ [] := ⟨_, rfl, h1, hm, hq3⟩
  have e2 : (if (upd (fun p => { p with main_state := ACTIVE })
        (emit (.ssi_ioctl .WAKE_UP) w3)).prot.send_state = SEND_READY then
      (mcsaab_start_tx (upd (fun p => { p with main_state := ACTIVE })
        (emit (.ssi_ioctl .WAKE_UP) w3))).map (ssi_pn_xmit_out skb)
      else some (ssi_pn_xmit_out skb (mod_timer .tx_wd
        (upd (fun p => { p with main_state := ACTIVE })
          (emit (.ssi_ioctl .WAKE_UP) w3))))) = some w2 := by
    rw [hw3]
    exact e
  have h2 : Keeps w1 (upd (fun p => { p with main_state := ACTIVE })
      (emit (.ssi_ioctl .WAKE_UP) w3)) :=
    keeps_tx h1 hm.symm rfl (fun _ => hq3)
  split_ifs at e2
  · obtain ⟨w4, e4, rfl⟩ := Option.map_eq_some'.mp e2
    exact keeps_updStats _ (keeps_start_tx e4 h2)
  · simp only [Option.some.injEq] at e2
    rw [← e2]
    exact keeps_updStats _ (keeps_mod_timer _ h2)

theorem keeps_ssi_pn_xmit {w1 w2 : World} (skb : sk_buff) (acwake : Nat)
    (pad_ok cow_ok : Bool) (e : ssi_pn_xmit skb acwake pad_ok cow_ok w1 = some w2)
    (ho : OnlineActive w1) : Keeps w1 w2 := by
  have hdrop : ∀ s, Keeps w1 (ssi_pn_xmit_drop s w1) := fun s =>
    keeps_emit _ (keeps_updStats _ (keeps_refl _))
  unfold ssi_pn_xmit at e
  split_ifs at e with g1 g2 g3 g4
  · simp only [Option.some.injEq] at e
    exact e ▸ hdrop _
  · simp only [Option.some.injEq] at e
    exact e ▸ keeps_updStats _ (keeps_refl _)
  · simp only [Option.some.injEq] at e
    exact e ▸ hdrop _
  · simp only [Option.some.injEq] at e
    exact e ▸ hdrop _
  · have hq : ∀ s : sk_buff, Keeps w1 (upd (fun p => { p with tx_queue := p.tx_queue ++ [s] }) w1) :=
      fun s => keeps_tx (keeps_refl _) rfl rfl (fun _ => by
        show w1.prot.tx_queue ++ [s] ≠ []
        simp)
    unfold ssi_pn_xmit_queue at e
    simp only [] at e
    split_ifs at e
    · simp only [Option.some.injEq] at e
      exact e ▸ keeps_updStats _ (keeps_emit _ (hq _))
    · simp only [Option.some.injEq] at e
      exact e ▸ keeps_updStats _ (hq _)
    · exact keeps_trans (hq _) (keeps_ssi_pn_xmit_wake _ _ e (ho g4) (by
        show w1.prot.tx_queue ++ [_] ≠ []
        simp))

theorem keeps_probe (n_ch n_p : Nat) (err_c err_d err_r : Int) (cawake : Nat) (w : World) :
    Keeps w (mcsaab_probe n_ch n_p err_c err_d err_r cawake w).1 := by
  have hopen : ∀ v, Keeps w v → Keeps w (open_ssi_hw_drv err_c err_d err_r cawake v).1 := by
    intro v hv
    unfold open_ssi_hw_drv
    simp only []
    split_ifs
    · exact keeps_emit _ hv
    · exact keeps_emit _ (keeps_emit _ (keeps_emit _ hv))
    · exact keeps_emit _ (keeps_emit _ (keeps_emit _ (keeps_emit _ (keeps_emit _ hv))))
    · exact keeps_send_c_msg _ (keeps_emit _ (keeps_mod_timer _ (keeps_emit _ (keeps_emit _
        (keeps_emit _ (keeps_emit _ hv))))))
    · exact keeps_emit _ (keeps_emit _ (keeps_emit _ (keeps_emit _ hv)))
  have hb : ∀ v, Keeps w v →
      Keeps w (if v.prot.dev_d_ch ∧ v.prot.dev_c_ch then
        open_ssi_hw_drv err_c err_d err_r cawake v else (v, 0)).1 := by
    intro v hv
    split
    · exact hopen v hv
    · exact hv
  unfold mcsaab_probe
  simp only []
  split_ifs with g1 g2
  · exact hb _ (keeps_upd _ (fun _ => rfl) (fun _ => rfl) (fun _ => rfl) (fun _ => rfl)
      (keeps_refl _))
  · exact hb _ (keeps_upd _ (fun _ => rfl) (fun _ => rfl) (fun _ => rfl) (fun _ => rfl)
      (keeps_refl _))
  · exact keeps_refl _

theorem keeps_remove (ssi_dev : Chan) (w : World) : Keeps w (mcsaab_remove ssi_dev w) := by
  have h1 : Keeps w (if w.prot.flags &&& CMT_ONLINE ≠ 0 then emit .netif_carrier_off w else w) := by
    split
    · exact keeps_emit _ (keeps_refl _)
    · exact keeps_refl _
  unfold mcsaab_remove
  simp only []
  generalize (if w.prot.flags &&& CMT_ONLINE ≠ 0 then emit .netif_carrier_off w else w) = v at h1
  split_ifs
  · refine keeps_emit _ (keeps_trans h1 ⟨Or.inr ⟨?_, ?_⟩, Or.inr ?_⟩)
    · show INIT ≠ ACTIVE; decide
    · exact Nat.zero_and _
    · intro hs
      exact absurd (show SEND_READY = SENDING from hs) (by decide)
  · exact keeps_emit _ (keeps_upd _ (fun _ => rfl) (fun _ => rfl) (fun _ => rfl) (fun _ => rfl) h1)
  · exact keeps_emit _ h1

/-- One event from a world in which the engine is online only in `ACTIVE`: the
link state is kept, or the event is the completion of `FQ_CHANGE_DONE` in
`HANDSHAKE`. -/
theorem keeps_step (e : Event) (w w2 : World) (ho : OnlineActive w)
    (h : step e w = some w2) : Keeps w w2 ∨ Entry e w w2 := by
  have hr : ∀ msg, OnlineActive (rcvd msg w) := fun _ => ho
  have hk : ∀ msg, Keeps w (rcvd msg w) := fun _ => keeps_frame (keeps_refl _) rfl rfl rfl rfl
  cases e with
  | c_rcv_done msg alloc_ok =>
    left
    rw [step_c_rcv_done] at h
    split_ifs at h
    · simp only [Option.some.injEq] at h
      exact h ▸ keeps_swbreak_h (hk msg)
    · simp only [Option.some.injEq] at h
      exact h ▸ keeps_boot_info_req_h _ (hr msg) (hk msg)
    · simp only [Option.some.injEq] at h
      exact h ▸ keeps_boot_info_resp_h _ (hr msg) (hk msg)
    · simp only [Option.some.injEq] at h
      exact h ▸ keeps_wakelines_test_result_h _ (hk msg)
    · simp only [Option.some.injEq] at h
      exact h ▸ keeps_start_trans_h _ _ (hk msg)
    · exact keeps_ready_h _ h (hk msg)
    · simp only [Option.some.injEq] at h
      exact h ▸ keeps_ack_to_cmd_h _ (hk msg)
    · simp only [Option.some.injEq] at h
      exact h ▸ hk msg
  | c_send_done acwake => exact keeps_c_send_done_cb acwake h
  | d_send_done => exact Or.inl (keeps_d_send_done_cb h (keeps_refl _))
  | d_rcv_done fill running =>
    simp only [step, Option.some.injEq] at h
    exact Or.inl (h ▸ keeps_d_rcv_done_cb _ (keeps_dma_rx_fill _ (keeps_refl _)))
  | port_event event =>
    simp only [step, Option.some.injEq] at h
    exact Or.inl (h ▸ keeps_port_event_cb _ (keeps_refl _))
  | watchdog_boot =>
    simp only [step, Option.some.injEq] at h
    exact Or.inl (h ▸ keeps_watchdog _ _)
  | watchdog_rx =>
    simp only [step, Option.some.injEq] at h
    exact Or.inl (h ▸ keeps_watchdog _ _)
  | watchdog_tx =>
    simp only [step, Option.some.injEq] at h
    exact Or.inl (h ▸ keeps_watchdog _ _)
  | xmit skb acwake pad_ok cow_ok => exact Or.inl (keeps_ssi_pn_xmit _ _ _ _ h ho)

theorem keeps_call (c : Call) (w w2 : World) (ho : OnlineActive w) (h : call c w = some w2) :
    Keeps w w2 ∨ ∃ e, c = .event e ∧ Entry e w w2 := by
  cases c with
  | event e =>
    rcases keeps_step e w w2 ho h with k | k
    · exact Or.inl k
    · exact Or.inr ⟨e, rfl, k⟩
  | probe n_ch n_p err_c err_d err_r cawake =>
    simp only [call, Option.some.injEq] at h
    exact Or.inl (h ▸ keeps_probe _ _ _ _ _ _ _)
  | remove ssi_dev =>
    simp only [call, Option.some.injEq] at h
    exact Or.inl (h ▸ keeps_remove _ _)

/-- In every reachable world the engine is online only in `ACTIVE`, and the
send machine is in `SENDING` only with a packet queued. -/
theorem reachable_link (w : World) (hw : Reachable w) : OnlineActive w ∧ HeadPacket w := by
  refine reachable_invariant (fun w => OnlineActive w ∧ HeadPacket w) ⟨?_, ?_⟩ ?_ w hw
  · intro h
    exact absurd (by decide) h
  · intro h
    exact absurd h (by decide)
  · rintro c w w2 ⟨ho, hp⟩ h
    rcases keeps_call c w w2 ho h with k | ⟨e, rfl, ⟨a, rfl⟩, hc, hs, m, -, -, -⟩
    · exact ⟨(keeps_spec k).1 ho, (keeps_spec k).2.1 hp⟩
    · refine ⟨fun _ => m, ?_⟩
      obtain ⟨-, s, q⟩ := c_send_done_fq_flags a w w2 hc hs h
      unfold HeadPacket at hp ⊢
      rw [s, q]
      exact hp

theorem start_tx_some (w : World) (hq : w.prot.tx_queue ≠ []) :
    ∃ w2, mcsaab_start_tx w = some w2 := by
  unfold mcsaab_start_tx
  cases h : w.prot.tx_queue with
  | nil => exact absurd h hq
  | cons skb rest => exact ⟨_, rfl⟩

theorem start_tx_main_state {w w2 : World} (e : mcsaab_start_tx w = some w2) :
    w2.prot.main_state = w.prot.main_state := by
  unfold mcsaab_start_tx at e
  cases hq : w.prot.tx_queue.head? with
  | none => rw [hq] at e; simp at e
  | some skb =>
    rw [hq] at e
    simp only [Option.some.injEq] at e
    rw [← e, (send_c_msg_keeps _ _).1]
    rfl

/-- No event dereferences the head of an empty transmit queue when the send
machine is in `SENDING` only with a packet queued. -/
theorem step_total (w : World) (hp : HeadPacket w) (e : Event) : ∃ w2, step e w = some w2 := by
  have hlen : ∀ v : World, v.prot.tx_queue.length > 0 → v.prot.tx_queue ≠ [] := by
    intro v hv hnil
    rw [hnil] at hv
    exact absurd hv (by decide)
  cases e with
  | c_rcv_done msg alloc_ok =>
    rw [step_c_rcv_done]
    split_ifs
    all_goals first
      | exact ⟨_, rfl⟩
      | (unfold ready_h
         split_ifs with g1 g2
         · exact ⟨_, rfl⟩
         · exact start_tx_some _ (hlen _ g2)
         · exact ⟨_, rfl⟩)
  | c_send_done acwake =>
    show ∃ w2, c_send_done_cb acwake w = some w2
    rw [c_send_done_cb_eq]
    suffices hh : ∃ w3, c_send_handle acwake w = some w3 by
      obtain ⟨w3, e3⟩ := hh
      exact ⟨_, by rw [e3]; rfl⟩
    unfold c_send_handle
    simp only []
    split_ifs with g1 g2 g3 g4 g5
    · cases hq : w.prot.tx_queue with
      | nil => exact absurd hq (hp g1.2)
      | cons skb rest => exact ⟨_, rfl⟩
    · obtain ⟨w4, e4⟩ := start_tx_some w (hlen _ g3)
      exact ⟨_, by rw [e4]; rfl⟩
    · exact ⟨_, rfl⟩
    · exact ⟨_, rfl⟩
    · exact ⟨_, rfl⟩
    · exact ⟨_, rfl⟩
  | d_send_done =>
    show ∃ w2, d_send_done_cb w = some w2
    unfold d_send_done_cb
    split
    · exact ⟨_, rfl⟩
    · simp only []
      split_ifs with g
      · exact ⟨_, rfl⟩
      · exact start_tx_some _ (hlen _ (Nat.lt_of_not_le g))
  | d_rcv_done fill running => exact ⟨_, rfl⟩
  | port_event event => exact ⟨_, rfl⟩
  | watchdog_boot => exact ⟨_, rfl⟩
  | watchdog_rx => exact ⟨_, rfl⟩
  | watchdog_tx => exact ⟨_, rfl⟩
  | xmit skb acwake pad_ok cow_ok =>
    show ∃ w2, ssi_pn_xmit skb acwake pad_ok cow_ok w = some w2
    unfold ssi_pn_xmit
    split_ifs
    · exact ⟨_, rfl⟩
    · exact ⟨_, rfl⟩
    · exact ⟨_, rfl⟩
    · exact ⟨_, rfl⟩
    · unfold ssi_pn_xmit_queue
      simp only []
      split_ifs
      · exact ⟨_, rfl⟩
      · exact ⟨_, rfl⟩
      · unfold ssi_pn_xmit_wake
        simp only []
        split_ifs
        · obtain ⟨w4, e4⟩ := start_tx_some
            (upd (fun p => { p with main_state := ACTIVE }) (emit (.ssi_ioctl .WAKE_UP)
              (upd (fun p => { p with send_state := WAIT4READY }) (emit (.ssi_ioctl .WAKE)
                (upd (fun p => { p with tx_queue := p.tx_queue ++ [ssi_pn_xmit_swap skb] }) w)))))
            (by show w.prot.tx_queue ++ [_] ≠ []; simp)
          exact ⟨_, by rw [e4]; rfl⟩
        · exact ⟨_, rfl⟩
        · obtain ⟨w4, e4⟩ := start_tx_some
            (upd (fun p => { p with main_state := ACTIVE }) (emit (.ssi_ioctl .WAKE_UP)
              (emit (.ssi_ioctl .WAKE)
                (upd (fun p => { p with tx_queue := p.tx_queue ++ [ssi_pn_xmit_swap skb] }) w))))
            (by show w.prot.tx_queue ++ [_] ≠ []; simp)
          exact ⟨_, by rw [e4]; rfl⟩
        · exact ⟨_, rfl⟩

/-- A packet submission leaves the main state as it is, or the engine is
online and the main state is set to `ACTIVE`. -/
theorem ssi_pn_xmit_main_state {w w2 : World} (skb : sk_buff) (acwake : Nat)
    (pad_ok cow_ok : Bool) (e : ssi_pn_xmit skb acwake pad_ok cow_ok w = some w2) :
    w2.prot.main_state = w.prot.main_state ∨
      (w.prot.flags &&& CMT_ONLINE ≠ 0 ∧ w2.prot.main_state = ACTIVE) := by
  unfold ssi_pn_xmit at e
  split_ifs at e with g1 g2 g3 g4
  · simp only [Option.some.injEq] at e
    exact Or.inl (e ▸ rfl)
  · simp only [Option.some.injEq] at e
    exact Or.inl (e ▸ rfl)
  · simp only [Option.some.injEq] at e
    exact Or.inl (e ▸ rfl)
  · simp only [Option.some.injEq] at e
    exact Or.inl (e ▸ rfl)
  · unfold ssi_pn_xmit_queue at e
    simp only [] at e
    split_ifs at e
    · simp only [Option.some.injEq] at e
      exact Or.inl (e ▸ rfl)
    · simp only [Option.some.injEq] at e
      exact Or.inl (e ▸ rfl)
    · refine Or.inr ⟨g4, ?_⟩
      unfold ssi_pn_xmit_wake at e
      simp only [] at e
      split_ifs at e
      · obtain ⟨w4, e4, rfl⟩ := Option.map_eq_some'.mp e
        exact (start_tx_main_state e4).trans rfl
      · simp only [Option.some.injEq] at e
        exact e ▸ rfl
      · obtain ⟨w4, e4, rfl⟩ := Option.map_eq_some'.mp e
        exact (start_tx_main_state e4).trans rfl
      · simp only [Option.some.injEq] at e
        exact e ▸ rfl

/-! ### The outstanding control writes along a step -/

/-- With three words held `send_c_msg` drops the word it is given: the world is
returned as it is. -/
theorem send_c_msg_drop (c_msg : Nat) (w : World)
    (hfull : C_QUEUE_LEN - 1 ≤ (C_QUEUE_LEN + w.prot.tail - w.prot.head) % C_QUEUE_LEN) :
    send_c_msg c_msg w = w := by
  unfold send_c_msg
  simp only []
  rw [if_pos hfull]

/-- The world `engine_full_queue` is reachable and is as described. -/
theorem engine_full_queue_spec :
    Reachable engine_full_queue ∧
    engine_full_queue.prot.main_state = ACTIVE ∧
    engine_full_queue.prot.send_state = SEND_READY ∧
    engine_full_queue.prot.flags = CMT_ONLINE ||| CLK_ENABLE ∧
    engine_full_queue.prot.tx_queue = [] ∧
    engine_full_queue.prot.c_queue = [0x50000000, 0x90000000, 0x50000000, 0x50000000] ∧
    engine_full_queue.prot.head = 2 ∧ engine_full_queue.prot.tail = 1 :=
  ⟨⟨calls_full_queue, by decide⟩, by decide, by decide, by decide, by decide, by decide,
    by decide, by decide⟩

/-- The function `ssi_pn_xmit` on an online engine with an empty `tx_queue`,
for a Phonet packet whose padding and header copy succeed: the packet is
queued, the wake line is read and raised, and the transmission starts or the
TX watchdog is armed. -/
theorem xmit_queued (w : World) (skb : sk_buff) (acwake : Nat) (pad_ok cow_ok : Bool)
    (hon : w.prot.flags &&& CMT_ONLINE ≠ 0) (hq : w.prot.tx_queue = [])
    (hp : skb.protocol = htons ETH_P_PHONET) (hpad : skb.len &&& 3 = 0 ∨ pad_ok = true)
    (hcow : cow_ok = true) :
    ∃ w2, step (.xmit skb acwake pad_ok cow_ok) w = some w2 ∧
      w2.prot.tx_queue = [ssi_pn_xmit_swap skb] ∧
      Effect.ssi_ioctl .WAKE_UP ∈ new_effects w w2 ∧
      (acwake = 0 → w2.prot.send_state = WAIT4READY) ∧
      (acwake = 0 ∨ w.prot.send_state ≠ SEND_READY →
        (acwake ≠ 0 → w2.prot.send_state = w.prot.send_state) ∧
        w2.prot.tx_wd = true ∧
        w2.prot.c_queue = w.prot.c_queue ∧ w2.prot.head = w.prot.head ∧
        w2.prot.tail = w.prot.tail ∧
        new_effects w w2 = [.ssi_ioctl .WAKE, .ssi_ioctl .WAKE_UP, .mod_timer .tx_wd]) ∧
      (acwake ≠ 0 → w.prot.send_state = SEND_READY →
        w2 = ssi_pn_xmit_out (ssi_pn_xmit_swap skb)
          (send_c_msg (START_TRANS_CMD ((skb.len + 3) % U32 / 4) w.prot.send_msg_id)
            (mod_timer .tx_wd
              (upd (fun p => { p with send_state := SENDING })
                (upd (fun p => { p with main_state := ACTIVE })
                  (emit (.ssi_ioctl .WAKE_UP)
                    (emit (.ssi_ioctl .WAKE)
                      (upd (fun p => { p with tx_queue := [ssi_pn_xmit_swap skb] }) w))))))) ∧
        w2.prot.send_state = SENDING ∧ w2.prot.tx_wd = true ∧
        (w.prot.c_queue.length = C_QUEUE_LEN → w.prot.head < C_QUEUE_LEN →
          w.prot.tail < C_QUEUE_LEN →
          (C_QUEUE_LEN + w.prot.tail - w.prot.head) % C_QUEUE_LEN < C_QUEUE_LEN - 1 →
          slot w2 w.prot.tail = START_TRANS_CMD ((skb.len + 3) % U32 / 4) w.prot.send_msg_id ∧
          w2.prot.tail = (w.prot.tail + 1) % C_QUEUE_LEN ∧
          new_effects w w2 =
            [.ssi_ioctl .WAKE, .ssi_ioctl .WAKE_UP, .mod_timer .tx_wd] ++
              (if w.prot.head = w.prot.tail then
                [.ssi_write_c (START_TRANS_CMD ((skb.len + 3) % U32 / 4) w.prot.send_msg_id)]
              else []))) := by
  have e := ssi_pn_xmit_first skb acwake pad_ok cow_ok w hp hpad hcow hon hq
  have hq2 : (upd (fun p => { p with tx_queue := p.tx_queue ++ [ssi_pn_xmit_swap skb] })
      w).prot.tx_queue = [ssi_pn_xmit_swap skb] := by
    simp [upd, hq]
  by_cases hw : acwake = 0 ∨ w.prot.send_state ≠ SEND_READY
  · have e2 := e.trans (ssi_pn_xmit_wake_wait (ssi_pn_xmit_swap skb) acwake _ hw)
    refine ⟨_, e2, ?_, ?_, ?_, ?_, ?_⟩
    · simp [ssi_pn_xmit_out, updStats, mod_timer, upd, emit, hq]
    · simp [ssi_pn_xmit_out, updStats, mod_timer, upd, emit, new_effects]
    · intro ha
      simp [ssi_pn_xmit_out, updStats, mod_timer, upd, emit, ha]
    · intro _
      refine ⟨?_, ?_, ?_, ?_, ?_, ?_⟩
      · intro ha
        simp [ssi_pn_xmit_out, updStats, mod_timer, upd, emit, ha]
      · simp [ssi_pn_xmit_out, updStats, mod_timer, upd, emit]
      · simp [ssi_pn_xmit_out, updStats, mod_timer, upd, emit]
      · simp [ssi_pn_xmit_out, updStats, mod_timer, upd, emit]
      · simp [ssi_pn_xmit_out, updStats, mod_timer, upd, emit]
      · simp [ssi_pn_xmit_out, updStats, mod_timer, upd, emit, new_effects]
    · intro ha hs
      exact absurd hs (hw.resolve_left ha)
  · have ha : acwake ≠ 0 := fun h => hw (Or.inl h)
    have hs : w.prot.send_state = SEND_READY := by
      by_contra h
      exact hw (Or.inr h)
    have e2 := e.trans (ssi_pn_xmit_wake_start (ssi_pn_xmit_swap skb) (ssi_pn_xmit_swap skb) []
      acwake _ ha hs hq2)
    rw [ssi_pn_xmit_swap_len] at e2
    have hx : upd (fun p => { p with tx_queue := p.tx_queue ++ [ssi_pn_xmit_swap skb] }) w =
        upd (fun p => { p with tx_queue := [ssi_pn_xmit_swap skb] }) w := by
      simp [upd, hq]
    rw [hx] at e2
    have e3 : step (.xmit skb acwake pad_ok cow_ok) w =
        some (ssi_pn_xmit_out (ssi_pn_xmit_swap skb)
          (send_c_msg (START_TRANS_CMD ((skb.len + 3) % U32 / 4) w.prot.send_msg_id)
            (mod_timer .tx_wd
              (upd (fun p => { p with send_state := SENDING })
                (upd (fun p => { p with main_state := ACTIVE })
                  (emit (.ssi_ioctl .WAKE_UP)
                    (emit (.ssi_ioctl .WAKE)
                      (upd (fun p => { p with tx_queue := [ssi_pn_xmit_swap skb] }) w)))))))) :=
      e2
    obtain ⟨k1, k2, k3, k4, k5, k6, k7, k8, k9⟩ :=
      send_c_msg_keeps (START_TRANS_CMD ((skb.len + 3) % U32 / 4) w.prot.send_msg_id)
        (mod_timer .tx_wd
          (upd (fun p => { p with send_state := SENDING })
            (upd (fun p => { p with main_state := ACTIVE })
              (emit (.ssi_ioctl .WAKE_UP)
                (emit (.ssi_ioctl .WAKE)
                  (upd (fun p => { p with tx_queue := [ssi_pn_xmit_swap skb] }) w))))))
    refine ⟨_, e3, ?_, ?_, ?_, ?_, ?_⟩
    · exact k5
    · simp only [ssi_pn_xmit_out, updStats, new_effects]
      rw [send_c_msg_eq]
      split_ifs <;> simp [mod_timer, upd, emit]
    · intro h
      exact absurd h ha
    · intro h
      exact absurd h hw
    · intro _ _
      refine ⟨rfl, k2, k3, ?_⟩
      intro hlen hh ht hroom
      obtain ⟨E, S, _⟩ :=
        send_c_msg_room (START_TRANS_CMD ((skb.len + 3) % U32 / 4) w.prot.send_msg_id)
          (mod_timer .tx_wd
            (upd (fun p => { p with send_state := SENDING })
              (upd (fun p => { p with main_state := ACTIVE })
                (emit (.ssi_ioctl .WAKE_UP)
                  (emit (.ssi_ioctl .WAKE)
                    (upd (fun p => { p with tx_queue := [ssi_pn_xmit_swap skb] }) w))))))
          hlen hh ht hroom
      refine ⟨S, ?_, ?_⟩
      · rw [ssi_pn_xmit_out_prot, E]
        rfl
      · apply new_effects_append
        rw [ssi_pn_xmit_out_trace, E]
        simp [mod_timer, upd, emit]

/-! ## The claims -/

/-- C1: handshake round trip.  From the constructed engine, a received
`BOOT_INFO_REQ` moves the link to `HANDSHAKE`, takes the clock, arms the boot
watchdog and writes the single word `BOOT_INFO_RESP(1) = 0x20000001`; once that
write has completed, a `WAKE_TEST_RESULT` without the failure bit writes the
single word `FREQ_CHANGE_REQ(55) = 0x80000037` (command `0x8`, the speed 55 of
the constructed engine as payload) and stays in `HANDSHAKE`; once that write
has completed, an `ACK` whose low four payload bits are `0x8` writes the single
word `FREQ_CHANGE_DONE = 0x90000000` (command `0x9`); the link
is `HANDSHAKE`, `CMT_ONLINE` is clear and no carrier-up has been reported at
each of these points, and the completion of the `FREQ_CHANGE_DONE` write makes
the link `ACTIVE`, sets `CMT_ONLINE` and reports carrier-up. -/
theorem handshake_round_trip (m1 m2 m3 a1 a2 a3 : Nat) (b1 b2 b3 : Bool)
    (h1 : COMMAND m1 = BOOT_INFO_REQ)
    (h2 : COMMAND m2 = WAKE_TEST_RES) (h2ok : PAYLOAD m2 &&& WAKE_TEST_FAILED = 0)
    (h3 : COMMAND m3 = ACK) (h3p : PAYLOAD m3 &&& 0xf = 0x8) :
    ssi_proto_init.prot.main_state = INIT ∧
    ssi_proto_init.prot.head = ssi_proto_init.prot.tail ∧
    ∃ w1 w2 w3 w4 w5 w6,
      step (.c_rcv_done m1 b1) ssi_proto_init = some w1 ∧
      step (.c_send_done a1) w1 = some w2 ∧
      step (.c_rcv_done m2 b2) w2 = some w3 ∧
      step (.c_send_done a2) w3 = some w4 ∧
      step (.c_rcv_done m3 b3) w4 = some w5 ∧
      step (.c_send_done a3) w5 = some w6 ∧
      (w1.prot.main_state = HANDSHAKE ∧ w1.prot.flags &&& CLK_ENABLE ≠ 0 ∧
        w1.prot.boot_wd = true ∧ c_writes w1.trace = [0x20000001] ∧
        BOOT_INFO_RESP_CMD 1 = 0x20000001) ∧
      (w2.prot.main_state = HANDSHAKE ∧ c_writes (new_effects w1 w2) = []) ∧
      (w3.prot.main_state = HANDSHAKE ∧
        c_writes (new_effects w2 w3) = [0x80000037] ∧
        FQ_CHANGE_REQ_CMD ssi_proto_init.prot.cmt_tx_speed = 0x80000037 ∧
        COMMAND 0x80000037 = FQ_CHANGE_REQ ∧ PAYLOAD 0x80000037 = 55 ∧
        ssi_proto_init.prot.cmt_tx_speed = 55) ∧
      (w4.prot.main_state = HANDSHAKE ∧ c_writes (new_effects w3 w4) = []) ∧
      (w5.prot.main_state = HANDSHAKE ∧ c_writes (new_effects w4 w5) = [0x90000000] ∧
        FQ_CHANGE_DONE_CMD = 0x90000000 ∧ COMMAND 0x90000000 = FQ_CHANGE_DONE ∧
        PAYLOAD 0x90000000 = 0) ∧
      (∀ w ∈ [w1, w2, w3, w4, w5],
        w.prot.flags &&& CMT_ONLINE = 0 ∧ Effect.netif_carrier_on ∉ w.trace) ∧
      (w6.prot.main_state = ACTIVE ∧ w6.prot.flags &&& CMT_ONLINE ≠ 0 ∧
        Effect.netif_carrier_on ∈ new_effects w5 w6 ∧ c_writes (new_effects w5 w6) = []) := by
  rw [ack_low_bits] at h3p
  simp only [BOOT_INFO_REQ, WAKE_TEST_RES, ACK, WAKE_TEST_FAILED] at h1 h2 h3 h2ok
  simp [step, c_rcv_done_cb, h1, h2, h3, h2ok, h3p, upd, emit, ssi_proto_init, static_storage,
    boot_info_req_h, mcsaab_clk_enable, send_c_msg, mod_timer, ssi_pn_setup, boot_info_resp_word,
    c_writes, c_send_done_cb, command_resp_word, command_req_word, command_done_word,
    fq_change_req_word, fq_change_done_word, wakelines_test_result_h, ack_to_cmd_h,
    mcsaab_clk_disable, del_timer, bnot32, new_effects, C_QUEUE_LEN, FQ_CHANGE_REQ,
    FQ_CHANGE_DONE, START_TRANS, SW_BREAK, HANDSHAKE, INIT, ACTIVE, SENDING, SENDING_SWBREAK,
    SEND_READY, CLK_ENABLE, CMT_ONLINE, BOOT_INFO_REQ, WAKE_TEST_RES, ACK, WAKE_TEST_FAILED,
    LOCAL_D_VER_ID]
  exact ⟨by decide, by decide⟩

/-- C1, at the words `0x10000001`, `0x30000000` and `0xa0000008`: the six
events take the constructed engine to `ACTIVE`, and the control words written
on the way are `0x20000001`, `0x80000037` and `0x90000000`, in this order. -/
theorem handshake_round_trip_witness :
    ∃ w6, run_events [.c_rcv_done 0x10000001 true, .c_send_done 0, .c_rcv_done 0x30000000 true,
        .c_send_done 0, .c_rcv_done 0xa0000008 true, .c_send_done 0] ssi_proto_init = some w6 ∧
      w6.prot.main_state = ACTIVE ∧
      c_writes (new_effects ssi_proto_init w6) = [0x20000001, 0x80000037, 0x90000000] ∧
      COMMAND 0x80000037 = 0x8 ∧ COMMAND 0x90000000 = 0x9 := by
  obtain ⟨_, _, w1, w2, w3, w4, w5, w6, e1, e2, e3, e4, e5, e6, _, _, _, _, _, _, h6, _⟩ :=
    handshake_round_trip 0x10000001 0x30000000 0xa0000008 0 0 0 true true true
      (by decide) (by decide) (by decide) (by decide) (by decide)
  refine ⟨w6, ?_, h6, ?_, by decide, by decide⟩
  · rw [run_events, e1, Option.some_bind, run_events, e2, Option.some_bind, run_events, e3,
      Option.some_bind, run_events, e4, Option.some_bind, run_events, e5, Option.some_bind,
      run_events, e6, Option.some_bind, run_events]
  · have hr : run_events [.c_rcv_done 0x10000001 true, .c_send_done 0,
        .c_rcv_done 0x30000000 true, .c_send_done 0, .c_rcv_done 0xa0000008 true,
        .c_send_done 0] ssi_proto_init = some w6 := by
      rw [run_events, e1, Option.some_bind, run_events, e2, Option.some_bind, run_events, e3,
        Option.some_bind, run_events, e4, Option.some_bind, run_events, e5, Option.some_bind,
        run_events, e6, Option.some_bind, run_events]
    have hd : (run_events [.c_rcv_done 0x10000001 true, .c_send_done 0,
        .c_rcv_done 0x30000000 true, .c_send_done 0, .c_rcv_done 0xa0000008 true,
        .c_send_done 0] ssi_proto_init).map
          (fun w => c_writes (new_effects ssi_proto_init w)) =
        some [0x20000001, 0x80000037, 0x90000000] := by decide
    rw [hr, Option.map_some', Option.some.injEq] at hd
    exact hd

/-- C2: for every engine state `reset_mcsaab` yields `main_state = INIT`,
`send_state = RECV_READY` (numerically 0), `recv_state = SEND_READY`
(numerically 1), `flags = 0`, `head = tail = 0`, empty `tx_queue` and
`rx_queue` and the three watchdogs disarmed; the clock is released exactly
when it was held, the data read, the data write and the control write are
cancelled when the channel is present, and carrier-down is the last call. -/
theorem reset_mcsaab_post (w : World) :
    (reset_mcsaab w).prot.main_state = INIT ∧
    (reset_mcsaab w).prot.send_state = RECV_READY ∧ (reset_mcsaab w).prot.send_state = 0 ∧
    (reset_mcsaab w).prot.recv_state = SEND_READY ∧ (reset_mcsaab w).prot.recv_state = 1 ∧
    (reset_mcsaab w).prot.flags = 0 ∧
    (reset_mcsaab w).prot.head = 0 ∧ (reset_mcsaab w).prot.tail = 0 ∧
    (reset_mcsaab w).prot.tx_queue = [] ∧ (reset_mcsaab w).prot.rx_queue = [] ∧
    (reset_mcsaab w).prot.boot_wd = false ∧ (reset_mcsaab w).prot.tx_wd = false ∧
    (reset_mcsaab w).prot.rx_wd = false ∧
    (Effect.clk_disable ∈ new_effects w (reset_mcsaab w) ↔ w.prot.flags &&& CLK_ENABLE ≠ 0) ∧
    (w.prot.dev_d_ch = true →
      Effect.ssi_read_cancel_d ∈ new_effects w (reset_mcsaab w) ∧
      Effect.ssi_write_cancel_d ∈ new_effects w (reset_mcsaab w)) ∧
    (w.prot.dev_c_ch = true → Effect.ssi_write_cancel_c ∈ new_effects w (reset_mcsaab w)) ∧
    (new_effects w (reset_mcsaab w)).getLast? = some Effect.netif_carrier_off ∧
    (reset_mcsaab w).trace = w.trace ++ new_effects w (reset_mcsaab w) := by
  rw [reset_mcsaab_eq]
  simp [new_effects]
  simp only [← List.cons_append, ← List.append_assoc, List.getLast?_concat]

/-- C3: reset is idempotent.  For every engine state, the engine after two
resets in succession is the engine after one, field by field, and both are
`main = INIT`, `send = RECV_READY`, `recv = SEND_READY`, `flags = 0` with the
control queue and both packet queues empty. -/
theorem reset_mcsaab_idempotent (w : World) :
    (reset_mcsaab (reset_mcsaab w)).prot = (reset_mcsaab w).prot ∧
    (reset_mcsaab (reset_mcsaab w)).netdev = (reset_mcsaab w).netdev ∧
    ((reset_mcsaab w).prot.main_state = INIT ∧
      (reset_mcsaab w).prot.send_state = RECV_READY ∧
      (reset_mcsaab w).prot.recv_state = SEND_READY ∧
      (reset_mcsaab w).prot.flags = 0 ∧
      (reset_mcsaab w).prot.head = (reset_mcsaab w).prot.tail ∧
      (reset_mcsaab w).prot.tx_queue = [] ∧ (reset_mcsaab w).prot.rx_queue = []) ∧
    ((reset_mcsaab (reset_mcsaab w)).prot.main_state = INIT ∧
      (reset_mcsaab (reset_mcsaab w)).prot.send_state = RECV_READY ∧
      (reset_mcsaab (reset_mcsaab w)).prot.recv_state = SEND_READY ∧
      (reset_mcsaab (reset_mcsaab w)).prot.flags = 0 ∧
      (reset_mcsaab (reset_mcsaab w)).prot.head = (reset_mcsaab (reset_mcsaab w)).prot.tail ∧
      (reset_mcsaab (reset_mcsaab w)).prot.tx_queue = [] ∧
      (reset_mcsaab (reset_mcsaab w)).prot.rx_queue = []) := by
  rw [reset_mcsaab_eq (reset_mcsaab w), reset_mcsaab_eq w]
  simp

/-- C4: each fault trigger performs a full reset.  (1) A `START_TRANSFER`
received in `ACTIVE` whose message id differs from `rcv_msg_id`, (2) a
`WAKE_TEST_RESULT` with the failure bit set received in `HANDSHAKE`, (3) a
failed buffer allocation in `mcsaab_start_rx`, also when reached through an
accepted `START_TRANSFER`, (4) a hardware break event and (5) the expiry of
the boot, RX or TX watchdog each leave `main_state = INIT`, `flags = 0`, both
message ids zero, `tx_queue` and `rx_queue` empty, with carrier-down reported
during the event. -/
theorem fault_triggers_reset :
    (∀ (w : World) (msg : Nat) (alloc_ok : Bool),
      w.prot.main_state = ACTIVE → COMMAND msg = START_TRANS →
      MSG_ID msg ≠ w.prot.rcv_msg_id →
      ∃ w2, step (.c_rcv_done msg alloc_ok) w = some w2 ∧ FullReset w w2) ∧
    (∀ (w : World) (msg : Nat) (alloc_ok : Bool),
      w.prot.main_state = HANDSHAKE → COMMAND msg = WAKE_TEST_RES →
      PAYLOAD msg &&& WAKE_TEST_FAILED ≠ 0 →
      ∃ w2, step (.c_rcv_done msg alloc_ok) w = some w2 ∧ FullReset w w2) ∧
    (∀ (w : World) (len : Nat), FullReset w (mcsaab_start_rx len false w)) ∧
    (∀ (w : World) (msg : Nat),
      w.prot.main_state = ACTIVE → COMMAND msg = START_TRANS →
      MSG_ID msg = w.prot.rcv_msg_id →
      ∃ w2, step (.c_rcv_done msg false) w = some w2 ∧ FullReset w w2) ∧
    (∀ w : World,
      ∃ w2, step (.port_event .BREAK_DETECTED) w = some w2 ∧ FullReset w w2) ∧
    (∀ w : World, ∃ w2, step .watchdog_boot w = some w2 ∧ FullReset w w2) ∧
    (∀ w : World, ∃ w2, step .watchdog_rx w = some w2 ∧ FullReset w w2) ∧
    (∀ w : World, ∃ w2, step .watchdog_tx w = some w2 ∧ FullReset w w2) := by
  refine ⟨?_, ?_, ?_, ?_, ?_, ?_, ?_, ?_⟩
  · intro w msg alloc_ok hs hc hm
    have e : step (.c_rcv_done msg alloc_ok) w =
        some (reset_mcsaab (mcsaab_watchdog_dump (rcvd msg w))) := by
      rw [step_c_rcv_done, hc]
      simp only [START_TRANS, Nat.reduceEqDiff, if_false, if_true]
      rw [start_trans_h_mismatch (rcvd msg w) msg alloc_ok hs hm]
    refine ⟨_, e, ?_⟩
    simp [rcvd, upd, emit, mcsaab_watchdog_dump, reset_mcsaab_eq, FullReset, new_effects]
  · intro w msg alloc_ok hs hc hm
    have hm2 : PAYLOAD msg % 2 = 1 := by
      rw [Nat.and_one_is_mod] at hm
      omega
    have e : step (.c_rcv_done msg alloc_ok) w =
        some (wakelines_test_result_h msg (rcvd msg w)) := by
      rw [step_c_rcv_done, hc]
      simp only [WAKE_TEST_RES, Nat.reduceEqDiff, if_false, if_true]
    refine ⟨_, e, ?_⟩
    simp [rcvd, upd, emit, wakelines_test_result_h, hs, mcsaab_watchdog_dump,
      reset_mcsaab_eq, FullReset, new_effects, hm2, mcsaab_clk_disable, del_timer]
  · intro w len
    simp [mcsaab_start_rx, reset_mcsaab_eq, FullReset, new_effects]
  · intro w msg hs hc hm
    have e : step (.c_rcv_done msg false) w =
        some (mcsaab_start_rx (PDU_LENGTH msg) false
          (upd (fun p => { p with flags := p.flags &&& bnot32 READY_SENT })
            (upd (fun p => { p with rcv_msg_id := (p.rcv_msg_id + 1) &&& 0xff })
              (rcvd msg w)))) := by
      rw [step_c_rcv_done, hc]
      simp only [START_TRANS, Nat.reduceEqDiff, if_false, if_true]
      rw [start_trans_h_accept (rcvd msg w) msg false hs hm]
    refine ⟨_, e, ?_⟩
    simp [rcvd, upd, emit, mcsaab_start_rx, reset_mcsaab_eq, FullReset, new_effects]
  · intro w
    simp [step, port_event_cb, mcsaab_watchdog_dump, emit, reset_mcsaab_eq, send_c_msg, upd,
      FullReset, new_effects]
  · intro w
    simp [step, mcsaab_watchdog, mcsaab_watchdog_dump, emit, reset_mcsaab_eq, FullReset,
      new_effects]
  · intro w
    simp [step, mcsaab_watchdog_rx, mcsaab_watchdog, mcsaab_watchdog_dump, emit,
      reset_mcsaab_eq, FullReset, new_effects]
  · intro w
    simp [step, mcsaab_watchdog_tx, mcsaab_watchdog, mcsaab_watchdog_dump, emit,
      reset_mcsaab_eq, FullReset, new_effects]

/-- C4, at a `START_TRANSFER` with the message id 5 received by an `ACTIVE`
engine that expects 0, and at a `WAKE_TEST_RESULT` with the failure bit set
received in `HANDSHAKE`. -/
theorem fault_triggers_reset_witness :
    (∃ w2, step (.c_rcv_done 0x40000105 true) engine_swbreak = some w2 ∧
      FullReset engine_swbreak w2) ∧
    (∃ w2, step (.c_rcv_done 0x30000001 true) engine_handshake = some w2 ∧
      FullReset engine_handshake w2) :=
  ⟨fault_triggers_reset.1 engine_swbreak 0x40000105 true (by decide) (by decide) (by decide),
   fault_triggers_reset.2.1 engine_handshake 0x30000001 true (by decide) (by decide)
     (by decide)⟩

/-- C5: control-queue overflow drops the new message.  When the queue holds
`C_QUEUE_LEN - 1 = 3` entries, `send_c_msg` returns the world it was given:
`head`, `tail` and the four slots are unchanged and no call is made, in
particular no write on the control channel. -/
theorem send_c_msg_overflow (w : World) (c_msg : Nat)
    (hfull : (4 + w.prot.tail - w.prot.head) % 4 = 3) :
    send_c_msg c_msg w = w ∧
    (send_c_msg c_msg w).prot.head = w.prot.head ∧
    (send_c_msg c_msg w).prot.tail = w.prot.tail ∧
    (∀ i, slot (send_c_msg c_msg w) i = slot w i) ∧
    c_writes (new_effects w (send_c_msg c_msg w)) = [] := by
  have h : send_c_msg c_msg w = w := by
    simp [send_c_msg, C_QUEUE_LEN, hfull]
  simp [h, new_effects, c_writes]

/-- C5, at a queue with `head = 1` and `tail = 0`, which holds the slots 1, 2
and 3: the word `0x50000000` is dropped. -/
theorem send_c_msg_overflow_witness :
    send_c_msg 0x50000000
        { ssi_proto_init with
          prot := { ssi_proto_init.prot with c_queue := [7, 8, 9, 10], head := 1, tail := 0 } } =
      { ssi_proto_init with
        prot := { ssi_proto_init.prot with c_queue := [7, 8, 9, 10], head := 1, tail := 0 } } :=
  (send_c_msg_overflow _ 0x50000000 (by decide)).1

/-- C6, amended: the control queue is a bounded FIFO.  From an empty queue, `n`
words enqueued back to back leave exactly the first `min n 3` held in order
from the slot `head` on, the others dropped, and the first word (if any) as the
only word written; and, unless a completion takes the transmit path
(`no_tx_restart`), the `j`-th of the `min n 3` following completions has
written the first `min (j + 1) 3` words in order, the last one leaves the
queue empty, and the slots still hold the words. -/
theorem control_queue_fifo (w : World) (ws : List Nat)
    (hempty : w.prot.head = w.prot.tail) (hh : w.prot.head < C_QUEUE_LEN)
    (hlen : w.prot.c_queue.length = C_QUEUE_LEN) :
    enqueue_all ws w = enqueue_all (ws.take 3) w ∧
    (enqueue_all ws w).prot.head = w.prot.head ∧
    (enqueue_all ws w).prot.tail = (w.prot.head + min ws.length 3) % C_QUEUE_LEN ∧
    (∀ i, i < min ws.length 3 →
      slot (enqueue_all ws w) ((w.prot.head + i) % C_QUEUE_LEN) = ws.getD i 0) ∧
    c_writes (new_effects w (enqueue_all ws w)) = ws.take 1 ∧
    (no_tx_restart w (ws.take 3) →
      ∀ (acw : List Nat) (j : Nat), acw.length = min ws.length 3 → j ≤ acw.length →
        ∃ wj, complete_all (acw.take j) (enqueue_all ws w) = some wj ∧
          wj.prot.head = (w.prot.head + j) % C_QUEUE_LEN ∧
          wj.prot.tail = (w.prot.head + min ws.length 3) % C_QUEUE_LEN ∧
          (j = acw.length → wj.prot.head = wj.prot.tail) ∧
          c_writes (new_effects w wj) = ws.take (min (j + 1) 3) ∧
          (∀ i, i < min ws.length 3 →
            slot wj ((w.prot.head + i) % C_QUEUE_LEN) = ws.getD i 0)) := by
  have hk : (ws.take 3).length = min ws.length 3 := by
    rw [List.length_take, Nat.min_comm]
  have hk3 : (ws.take 3).length ≤ 3 := by
    rw [hk]
    omega
  obtain ⟨E1, E2, E3, E4, E5, E6⟩ := enqueue_all_le3 w (ws.take 3) hempty hh hlen hk3
  rw [enqueue_all_take3 w ws hempty hh hlen]
  rw [hk] at E2 E3
  have hslots : ∀ i, i < min ws.length 3 →
      slot (enqueue_all (ws.take 3) w) ((w.prot.head + i) % C_QUEUE_LEN) = ws.getD i 0 := by
    intro i hi
    rw [E3 i hi, getD_take3 ws i (by omega)]
  have htake1 : (ws.take 3).take 1 = ws.take 1 := by
    simp [List.take_take]
  refine ⟨rfl, E1, E2, hslots, ?_, ?_⟩
  · rw [new_effects_append _ _ _ E4, c_writes_map_write, htake1]
  · intro hb acw j hacw hj
    have hjlen : (acw.take j).length = j := by
      rw [List.length_take]
      omega
    have hb1 : no_tx_restart (enqueue_all (ws.take 3) w) (ws.take 3) :=
      no_tx_restart_step w _ _ E6 (Or.inl E5) hb
    have hin : ∀ i, i < (acw.take j).length →
        slot (enqueue_all (ws.take 3) w)
          (((enqueue_all (ws.take 3) w).prot.head + i) % C_QUEUE_LEN) ∈ ws.take 3 := by
      intro i hi
      rw [hjlen] at hi
      rw [E1, E3 i (by omega), List.getD_eq_getElem _ _ (by omega)]
      exact List.getElem_mem _
    obtain ⟨wj, es, e, hq, ht, hhd, htr, hcw⟩ :=
      complete_all_benign (ws.take 3) (acw.take j) (enqueue_all (ws.take 3) w)
        (by rw [E1]; exact hh) hb1 hin
    rw [hjlen, E1] at hhd
    rw [E2] at ht
    refine ⟨wj, e, hhd, ht, ?_, ?_, ?_⟩
    · intro hje
      rw [hhd, ht, hje, hacw]
    · have htr2 : wj.trace = w.trace ++ ((ws.take 3).take 1).map Effect.ssi_write_c ++ es := by
        rw [htr, E4]
      rw [List.append_assoc] at htr2
      rw [new_effects_append _ _ _ htr2, c_writes_append, c_writes_map_write, hcw, hjlen, E1, E2,
        ← List.take_take]
      have hf : ∀ i ∈ List.range j,
          (if (w.prot.head + min ws.length 3) % C_QUEUE_LEN ≠
              (w.prot.head + i + 1) % C_QUEUE_LEN then
            some (slot (enqueue_all (ws.take 3) w) ((w.prot.head + i + 1) % C_QUEUE_LEN))
          else none) =
          (if i + 1 < (ws.take 3).length then some ((ws.take 3).getD (i + 1) 0) else none) := by
        intro i hi
        rw [List.mem_range] at hi
        rw [hk]
        by_cases hlt : i + 1 < min ws.length 3
        · have hne : (w.prot.head + min ws.length 3) % C_QUEUE_LEN ≠
              (w.prot.head + i + 1) % C_QUEUE_LEN := by
            simp only [C_QUEUE_LEN] at hh ⊢
            omega
          rw [if_pos hne, if_pos hlt, Nat.add_assoc, E3 (i + 1) hlt]
        · have heq : ¬ ((w.prot.head + min ws.length 3) % C_QUEUE_LEN ≠
              (w.prot.head + i + 1) % C_QUEUE_LEN) := by
            simp only [C_QUEUE_LEN] at hh ⊢
            omega
          rw [if_neg heq, if_neg hlt]
      rw [List.filterMap_congr hf]
      have hj3 : j ≤ (ws.take 3).length := by omega
      generalize ws.take 3 = l at hk3 hj3
      match l, hk3 with
      | [], _ =>
        simp only [List.length_nil, Nat.le_zero] at hj3
        subst hj3
        rfl
      | [a], _ =>
        simp only [List.length_singleton] at hj3
        interval_cases j <;> rfl
      | [a, b], _ =>
        simp only [List.length_cons, List.length_nil] at hj3
        interval_cases j <;> rfl
      | [a, b, c], _ =>
        simp only [List.length_cons, List.length_nil] at hj3
        interval_cases j <;> rfl
    · intro i hi
      have := hslots i hi
      simp only [slot] at this ⊢
      rw [hq]
      exact this

/-- C6, at the concrete case of the specification: capacity 4, `head = tail = 0`, five words
enqueued; the slots 0..2 hold the words 1..3, the words 4 and 5 are dropped,
and after three completions the queue is empty, the three words have been
written in order and slot 0 still holds the first word. -/
theorem control_queue_fifo_witness :
    (slot (enqueue_all [0x20000001, 0x80000037, 0x90000000, 0x50000000, 0xf0030006]
        ssi_proto_init) 0 = 0x20000001 ∧
      slot (enqueue_all [0x20000001, 0x80000037, 0x90000000, 0x50000000, 0xf0030006]
        ssi_proto_init) 1 = 0x80000037 ∧
      slot (enqueue_all [0x20000001, 0x80000037, 0x90000000, 0x50000000, 0xf0030006]
        ssi_proto_init) 2 = 0x90000000) ∧
    c_writes (new_effects ssi_proto_init
      (enqueue_all [0x20000001, 0x80000037, 0x90000000, 0x50000000, 0xf0030006]
        ssi_proto_init)) = [0x20000001] ∧
    ∃ w3, complete_all [0, 0, 0]
        (enqueue_all [0x20000001, 0x80000037, 0x90000000, 0x50000000, 0xf0030006]
          ssi_proto_init) = some w3 ∧
      w3.prot.head = w3.prot.tail ∧
      c_writes (new_effects ssi_proto_init w3) = [0x20000001, 0x80000037, 0x90000000] ∧
      slot w3 0 = 0x20000001 := by
  have T := control_queue_fifo ssi_proto_init
    [0x20000001, 0x80000037, 0x90000000, 0x50000000, 0xf0030006] rfl (by decide) rfl
  obtain ⟨_, _, _, hs, hw, hd⟩ := T
  obtain ⟨w3, e, _, _, he, hc, hs3⟩ :=
    hd (by unfold no_tx_restart; decide) [0, 0, 0] 3 rfl (by decide)
  exact ⟨⟨hs 0 (by decide), hs 1 (by decide), hs 2 (by decide)⟩, hw, w3, e, he rfl, hc,
    hs3 0 (by decide)⟩

/-- C6, as stated, fails: from an empty control queue `SW_BREAK` is enqueued
in `SENDING_SWBREAK` with a packet queued; its completion callback starts the
next transmission, so the queue is not empty afterwards (`head = 1`,
`tail = 2`) and a word that was never handed to the enqueue sequence,
`START_TRANSFER(1, 0) = 0x40000100`, has been written after it. -/
theorem control_queue_fifo_counterexample :
    engine_swbreak.prot.head = engine_swbreak.prot.tail ∧
    (complete_all [1] (enqueue_all [SWBREAK_CMD] engine_swbreak)).map
      (fun w => (w.prot.head, w.prot.tail, c_writes (new_effects engine_swbreak w))) =
      some (1, 2, [0x00000000, 0x40000100]) := by
  decide

/-- C7: control-word encode/decode round trip over 32-bit words.  For every
command code `c < 16` and every payload `p`, `COMMAND (CMD c p) = c` and
`PAYLOAD (CMD c p) = p mod 2^28`; for every 32-bit word `w`,
`CMD (COMMAND w) (PAYLOAD w) = w`; the command is the top 4 bits
(`w / 2^28`) and the payload the bottom 28 bits (`w mod 2^28`). -/
theorem cmd_round_trip :
    (∀ c p : Nat, c < 16 → COMMAND (CMD c p) = c ∧ PAYLOAD (CMD c p) = p % 2 ^ 28) ∧
    (∀ w : Nat, w < 2 ^ 32 →
      CMD (COMMAND w) (PAYLOAD w) = w ∧ COMMAND w = w / 2 ^ 28 ∧ PAYLOAD w = w % 2 ^ 28 ∧
      COMMAND w < 16) := by
  constructor
  · intro c p hc
    rw [COMMAND_eq, PAYLOAD_eq, CMD_eq]
    norm_num
    omega
  · intro w hw
    rw [CMD_eq, COMMAND_eq, PAYLOAD_eq]
    norm_num at hw ⊢
    omega

/-- C7, at the command `ACK` with the payload `0xf0000008` (whose top four bits
are cut off) and at the word `0x40001207`. -/
theorem cmd_round_trip_witness :
    (COMMAND (CMD ACK 0xf0000008) = ACK ∧ PAYLOAD (CMD ACK 0xf0000008) = 0x8) ∧
    CMD (COMMAND 0x40001207) (PAYLOAD 0x40001207) = 0x40001207 :=
  ⟨cmd_round_trip.1 ACK 0xf0000008 (by decide), (cmd_round_trip.2 0x40001207 (by decide)).1⟩

/-- C8: `START_TRANSFER` packing.  For every word length `len < 2^16` and every
message id `id < 2^8`, `START_TRANS_CMD len id = 0x40000000 + len * 256 + id`,
its command is `0x4`, its `PDU_LENGTH` is `len` and its `MSG_ID` is `id`; for
every packet of at most `SSI_MAX_MTU = 65535` bytes the word length
`(n + 3) / 4` computed by `mcsaab_start_tx` is below `2^16`, so it is the
`PDU_LENGTH` of the word sent; and `ssi_pn_set_mtu` accepts no MTU above
`SSI_MAX_MTU`. -/
theorem start_trans_packing :
    (∀ len id : Nat, len < 2 ^ 16 → id < 2 ^ 8 →
      START_TRANS_CMD len id = 0x40000000 + len * 256 + id ∧
      COMMAND (START_TRANS_CMD len id) = 0x4 ∧
      PDU_LENGTH (START_TRANS_CMD len id) = len ∧
      MSG_ID (START_TRANS_CMD len id) = id) ∧
    (∀ n id : Nat, n ≤ SSI_MAX_MTU → id < 2 ^ 8 →
      (n + 3) % U32 / 4 < 2 ^ 16 ∧
      PDU_LENGTH (START_TRANS_CMD ((n + 3) % U32 / 4) id) = (n + 3) / 4) ∧
    (∀ (min_mtu : Int) (dev : net_device) (new_mtu : Int),
      (ssi_pn_set_mtu min_mtu dev new_mtu).2 = 0 →
      (ssi_pn_set_mtu min_mtu dev new_mtu).1.mtu ≤ SSI_MAX_MTU) := by
  refine ⟨?_, ?_, ?_⟩
  · intro len id hl hi
    norm_num at hl hi
    rw [COMMAND_eq, PDU_LENGTH_eq, MSG_ID_eq, START_TRANS_CMD_eq len id hi]
    omega
  · intro n id hn hi
    norm_num at hi
    simp only [SSI_MAX_MTU] at hn
    rw [PDU_LENGTH_eq, START_TRANS_CMD_eq _ id hi]
    simp only [U32]
    omega
  · intro min_mtu dev new_mtu h
    unfold ssi_pn_set_mtu at h ⊢
    split at h
    · simp at h
    · rename_i hc
      rw [if_neg hc]
      push_neg at hc
      simp only [SSI_MAX_MTU] at hc ⊢
      omega

/-- C8, at the word length 5 and the message id 7, at a packet of 65535 bytes,
and at the MTU 65535 with a minimum of 6. -/
theorem start_trans_packing_witness :
    START_TRANS_CMD 5 7 = 0x40000507 ∧
    PDU_LENGTH (START_TRANS_CMD ((65535 + 3) % U32 / 4) 255) = 16384 ∧
    (ssi_pn_set_mtu 6 ssi_proto_init.netdev 65535).1.mtu ≤ SSI_MAX_MTU :=
  ⟨(start_trans_packing.1 5 7 (by decide) (by decide)).1,
   (start_trans_packing.2.1 65535 255 (by decide) (by decide)).2,
   start_trans_packing.2.2 6 ssi_proto_init.netdev 65535 (by decide)⟩

/-- C9: the sequence counters advance by exactly 1 modulo 256 per frame and
by nothing else.  For every event and every engine state in which the event
is handled: `send_msg_id` is unchanged, or the event is a data write
completion with a queued packet and it becomes `(old + 1) mod 256`, or a reset
(which reports carrier-down) ran and it is 0; `rcv_msg_id` is unchanged, or the
event is a `START_TRANSFER` received in `ACTIVE` with the expected id and it
becomes `(old + 1) mod 256`, or a reset ran and it is 0; a data write
completion with a queued packet does advance `send_msg_id`, and an accepted
`START_TRANSFER` whose buffer is allocated does advance `rcv_msg_id`; and every
slot of the control queue the event changes to a `START_TRANSFER` word carries
the current `send_msg_id` (an 8-bit value) in its bits 0..7. -/
theorem msg_id_steps (e : Event) (w w2 : World) (h : step e w = some w2) :
    (w2.prot.send_msg_id = w.prot.send_msg_id ∨
      (e = .d_send_done ∧ w.prot.tx_queue ≠ [] ∧
        w2.prot.send_msg_id = (w.prot.send_msg_id + 1) % 256) ∨
      (w2.prot.send_msg_id = 0 ∧ Effect.netif_carrier_off ∈ new_effects w w2)) ∧
    (w2.prot.rcv_msg_id = w.prot.rcv_msg_id ∨
      ((∃ msg alloc_ok, e = .c_rcv_done msg alloc_ok ∧ COMMAND msg = START_TRANS ∧
          MSG_ID msg = w.prot.rcv_msg_id) ∧ w.prot.main_state = ACTIVE ∧
        w2.prot.rcv_msg_id = (w.prot.rcv_msg_id + 1) % 256) ∨
      (w2.prot.rcv_msg_id = 0 ∧ Effect.netif_carrier_off ∈ new_effects w w2)) ∧
    (e = .d_send_done → w.prot.tx_queue ≠ [] →
      w2.prot.send_msg_id = (w.prot.send_msg_id + 1) % 256) ∧
    (∀ msg, e = .c_rcv_done msg true → COMMAND msg = START_TRANS →
      w.prot.main_state = ACTIVE → MSG_ID msg = w.prot.rcv_msg_id →
      w2.prot.rcv_msg_id = (w.prot.rcv_msg_id + 1) % 256) ∧
    (∀ i, slot w2 i ≠ slot w i → COMMAND (slot w2 i) = START_TRANS →
      MSG_ID (slot w2 i) = w2.prot.send_msg_id % 256) ∧
    (w.prot.send_msg_id < 256 → w2.prot.send_msg_id < 256) := by
  have hsend : e = .d_send_done → w.prot.tx_queue ≠ [] →
      w2.prot.send_msg_id = (w.prot.send_msg_id + 1) % 256 := by
    intro he hq
    subst he
    exact (idStep_d_send_done w w2 h).2 hq
  have hrcv : ∀ msg, e = .c_rcv_done msg true → COMMAND msg = START_TRANS →
      w.prot.main_state = ACTIVE → MSG_ID msg = w.prot.rcv_msg_id →
      w2.prot.rcv_msg_id = (w.prot.rcv_msg_id + 1) % 256 := by
    intro msg he hc hs hm
    subst he
    rw [step_c_rcv_done, hc] at h
    simp only [START_TRANS, Nat.reduceEqDiff, if_false, if_true, Option.some.injEq] at h
    rw [← h]
    exact start_trans_h_advances msg w hs hm
  have main : IdStep e w w2 := by
    have hP : ∀ len, TxOk w.prot.send_msg_id (START_TRANS_CMD len w.prot.send_msg_id) :=
      fun len => txOk_start len _
    cases e with
    | c_rcv_done msg alloc_ok =>
      rw [step_c_rcv_done] at h
      split_ifs at h with c0 c1 c2 c3 c4 c5 c10
      · simp only [Option.some.injEq] at h
        exact h ▸ idStep_of_rel _ _ _ (relq_swbreak_h (relq_rcvd msg w)).toRel
      · simp only [Option.some.injEq] at h
        exact h ▸ idStep_of_rel _ _ _
          (rel_boot_info_req_h _ nonStart_resp (relq_rcvd msg w).toRel)
      · simp only [Option.some.injEq] at h
        exact h ▸ idStep_of_rel _ _ _ (relq_boot_info_resp_h _ (relq_rcvd msg w)).toRel
      · simp only [Option.some.injEq] at h
        exact h ▸ idStep_of_rel _ _ _
          (rel_wakelines_test_result_h _ (nonStart_cmd _ _ (by decide) (by decide))
            (relq_rcvd msg w).toRel)
      · simp only [Option.some.injEq] at h
        exact h ▸ idStep_start_trans msg alloc_ok w c4
      · exact idStep_of_relq _ _ _ (relq_ready_h _ h hP (relq_rcvd msg w))
      · simp only [Option.some.injEq] at h
        exact h ▸ idStep_of_rel _ _ _
          (relq_ack_to_cmd_h _ nonStart_done (relq_rcvd msg w)).toRel
      · simp only [Option.some.injEq] at h
        exact h ▸ idStep_of_rel _ _ _ (relq_rcvd msg w).toRel
    | c_send_done acwake =>
      exact idStep_of_relq _ _ _ (relq_c_send_done_cb _ h hP (RelQ.refl _ _))
    | d_send_done => exact (idStep_d_send_done w w2 h).1
    | d_rcv_done fill running =>
      simp only [step, Option.some.injEq] at h
      exact h ▸ idStep_of_rel _ _ _
        (relq_d_rcv_done_cb _ (relq_dma_rx_fill _ (RelQ.refl _ _))).toRel
    | port_event event =>
      simp only [step, Option.some.injEq] at h
      exact h ▸ idStep_of_rel _ _ _
        (rel_port_event_cb _ nonStart_skip nonStart_ready (RelQ.refl _ _).toRel)
    | watchdog_boot =>
      simp only [step, Option.some.injEq] at h
      exact h ▸ idStep_of_rel _ _ _ (rel_watchdog (RelQ.refl _ _).toRel)
    | watchdog_rx =>
      simp only [step, Option.some.injEq] at h
      exact h ▸ idStep_of_rel _ _ _
        (rel_watchdog ((relq_emit _ (relq_emit _ (RelQ.refl _ _))).toRel))
    | watchdog_tx =>
      simp only [step, Option.some.injEq] at h
      exact h ▸ idStep_of_rel _ _ _
        (rel_watchdog ((relq_emit _ (relq_emit _ (RelQ.refl _ _))).toRel))
    | xmit skb acwake pad_ok cow_ok =>
      exact idStep_of_relq _ _ _ (relq_ssi_pn_xmit _ _ _ _ h hP (RelQ.refl _ _))
  refine ⟨main.1, main.2.1, hsend, hrcv, main.2.2, ?_⟩
  intro hlt
  rcases main.1 with h1 | h1 | h1
  · rw [h1]
    exact hlt
  · rw [h1.2.2]
    exact Nat.mod_lt _ (by decide)
  · rw [h1.1]
    decide

/-- C9, at the data write completion of an engine that sends with the message
id 255 and has a second packet queued: the id wraps to 0 and the
`START_TRANSFER` enqueued for the second packet carries it. -/
theorem msg_id_steps_witness :
    ∃ w2, step .d_send_done engine_wrap = some w2 ∧
      (w2.prot.send_msg_id = engine_wrap.prot.send_msg_id ∨
        (w2.prot.send_msg_id = (255 + 1) % 256) ∨ w2.prot.send_msg_id = 0) ∧
      MSG_ID (slot w2 0) = w2.prot.send_msg_id % 256 := by
  have hs : step .d_send_done engine_wrap = some
      { engine_wrap with
        prot := { engine_wrap.prot with
                  send_msg_id := 0, tx_wd := true, tx_queue := [phonet_packet],
                  c_queue := [0x40000100, 0, 0, 0], tail := 1 },
        trace := engine_wrap.trace ++ [.del_timer .tx_wd, .dev_kfree_skb phonet_packet,
          .mod_timer .tx_wd, .ssi_write_c 0x40000100] } := by
    decide
  have T := msg_id_steps .d_send_done engine_wrap _ hs
  refine ⟨_, hs, ?_, T.2.2.2.2.1 0 (by decide) (by decide)⟩
  rcases T.1 with h | h | h
  · exact Or.inl h
  · exact Or.inr (Or.inl h.2.2)
  · exact Or.inr (Or.inr h.1)

/-- C10: accepting a frame.  In `ACTIVE` with an empty `rx_queue`, a
`START_TRANSFER` whose message id equals `rcv_msg_id` and whose buffer
allocation succeeds sets `rcv_msg_id` to `(rcv_msg_id + 1) mod 256`, clears
`READY_SENT` and no other flag, appends one buffer of `length * 4` bytes to
`rx_queue`, arms the RX watchdog, sets `recv_state = RECEIVING` and issues one
data read of `length` words, and nothing else. -/
theorem start_trans_accepts_frame (w : World) (msg : Nat)
    (hs : w.prot.main_state = ACTIVE) (hq : w.prot.rx_queue = [])
    (hm : MSG_ID msg = w.prot.rcv_msg_id) :
    (start_trans_h msg true w).prot.rcv_msg_id = (w.prot.rcv_msg_id + 1) % 256 ∧
    (start_trans_h msg true w).prot.flags &&& READY_SENT = 0 ∧
    (start_trans_h msg true w).prot.flags = w.prot.flags &&& bnot32 READY_SENT ∧
    (∃ skb : sk_buff, (start_trans_h msg true w).prot.rx_queue = [skb] ∧
      skb.len = PDU_LENGTH msg * 4) ∧
    (start_trans_h msg true w).prot.rx_wd = true ∧
    (start_trans_h msg true w).prot.recv_state = RECEIVING ∧
    new_effects w (start_trans_h msg true w) =
      [.mod_timer .rx_wd, .ssi_read_d (PDU_LENGTH msg)] ∧
    (start_trans_h msg true w).prot =
      { w.prot with
        rcv_msg_id := (w.prot.rcv_msg_id + 1) % 256,
        flags := w.prot.flags &&& bnot32 READY_SENT,
        rx_queue := [{ data := List.replicate (PDU_LENGTH msg * 4) 0, protocol := 0 }],
        rx_wd := true, recv_state := RECEIVING } := by
  rw [start_trans_h_accept w msg true hs hm]
  have hb : w.prot.flags &&& bnot32 READY_SENT &&& READY_SENT = 0 := by
    rw [Nat.and_assoc]
    have : bnot32 READY_SENT &&& READY_SENT = 0 := by decide
    rw [this, Nat.and_zero]
  simp [mcsaab_start_rx, upd, emit, mod_timer, hq, new_effects, and_ff, hb, sk_buff.len]

/-- C10, at an `ACTIVE` engine that expects the message id 0 and has sent
`READY`: the word `0x40000300` announces a frame of 3 words. -/
theorem start_trans_accepts_frame_witness :
    (start_trans_h 0x40000300 true
        { ssi_proto_init with
          prot := { ssi_proto_init.prot with
                    main_state := ACTIVE, flags := CMT_ONLINE ||| READY_SENT } }).prot.rx_queue =
      [{ data := [0, 0, 0, 0, 0, 0, 0, 0, 0, 0, 0, 0], protocol := 0 }] := by
  rw [(start_trans_accepts_frame _ 0x40000300 (by decide) (by decide) (by decide)).2.2.2.2.2.2.2]
  decide

/-- C11, as the code has it: back-to-back receive.  In `ACTIVE` with an empty
`rx_queue`, two `START_TRANSFER` words with consecutive message ids and the
lengths `L1` and `L2` are accepted before any data read completes: `rcv_msg_id`
has advanced twice, both buffers are queued and only the read of `L1` words has
been issued.  The first read completion disarms the RX watchdog, hands the
first buffer to `ssi_pn_rx`, and without any other event re-arms the RX
watchdog, leaves `recv_state = RECEIVING` and issues a read of exactly `L2`
words for the second buffer; the second completion hands the second buffer to
`ssi_pn_rx`, leaves the RX watchdog disarmed and `recv_state = RECV_READY`.
`ssi_pn_rx` passes a buffer on with `netif_rx` exactly when the interface is
running and the frame has at least two words, and frees it otherwise; when both
buffers are passed on, the first goes before the second. -/
theorem back_to_back_receive (w : World) (m1 m2 : Nat) (fill1 fill2 : List Nat)
    (run1 run2 : Bool)
    (hs : w.prot.main_state = ACTIVE) (hq : w.prot.rx_queue = [])
    (hc1 : COMMAND m1 = START_TRANS) (hc2 : COMMAND m2 = START_TRANS)
    (hm1 : MSG_ID m1 = w.prot.rcv_msg_id) (hm2 : MSG_ID m2 = (w.prot.rcv_msg_id + 1) % 256) :
    ∃ w1 w2 w3 w4,
      step (.c_rcv_done m1 true) w = some w1 ∧ step (.c_rcv_done m2 true) w1 = some w2 ∧
      step (.d_rcv_done fill1 run1) w2 = some w3 ∧ step (.d_rcv_done fill2 run2) w3 = some w4 ∧
      (w1.prot.rcv_msg_id = (w.prot.rcv_msg_id + 1) % 256 ∧
        w2.prot.rcv_msg_id = ((w.prot.rcv_msg_id + 1) % 256 + 1) % 256 ∧
        new_effects w w2 =
          [.ssi_read_c, .mod_timer .rx_wd, .ssi_read_d (PDU_LENGTH m1), .ssi_read_c] ∧
        w2.prot.rx_queue = [rx_buffer (PDU_LENGTH m1) [], rx_buffer (PDU_LENGTH m2) []] ∧
        w2.prot.rx_wd = true ∧ w2.prot.recv_state = RECEIVING) ∧
      (new_effects w2 w3 =
          [.del_timer .rx_wd] ++
            (if run1 = true ∧ 2 ≤ PDU_LENGTH m1 then
              [.netif_rx { data := (swap45 (rx_buffer (PDU_LENGTH m1) fill1).data).drop 1,
                           protocol := htons ETH_P_PHONET }]
             else [.dev_kfree_skb (rx_buffer (PDU_LENGTH m1) fill1)]) ++
            [.mod_timer .rx_wd, .ssi_read_d (PDU_LENGTH m2)] ∧
        w3.prot.rx_wd = true ∧ w3.prot.recv_state = RECEIVING ∧
        w3.prot.rx_queue = [rx_buffer (PDU_LENGTH m2) []]) ∧
      (new_effects w3 w4 =
          [.del_timer .rx_wd] ++
            (if run2 = true ∧ 2 ≤ PDU_LENGTH m2 then
              [.netif_rx { data := (swap45 (rx_buffer (PDU_LENGTH m2) fill2).data).drop 1,
                           protocol := htons ETH_P_PHONET }]
             else [.dev_kfree_skb (rx_buffer (PDU_LENGTH m2) fill2)]) ∧
        w4.prot.rx_wd = false ∧ w4.prot.recv_state = RECV_READY ∧ w4.prot.rx_queue = []) ∧
      (w3.netdev = (ssi_pn_rx (rx_buffer (PDU_LENGTH m1) fill1) run1 w2).netdev ∧
        w4.netdev = (ssi_pn_rx (rx_buffer (PDU_LENGTH m2) fill2) run2 w3).netdev) ∧
      (run1 = true → run2 = true → 2 ≤ PDU_LENGTH m1 → 2 ≤ PDU_LENGTH m2 →
        new_effects w2 w4 =
          [.del_timer .rx_wd,
           .netif_rx { data := (swap45 (rx_buffer (PDU_LENGTH m1) fill1).data).drop 1,
                       protocol := htons ETH_P_PHONET },
           .mod_timer .rx_wd, .ssi_read_d (PDU_LENGTH m2), .del_timer .rx_wd,
           .netif_rx { data := (swap45 (rx_buffer (PDU_LENGTH m2) fill2).data).drop 1,
                       protocol := htons ETH_P_PHONET }]) := by
  obtain ⟨w1, e1, p1, _, t1⟩ := accept_first w m1 hs hq hc1 hm1
  have hs1 : w1.prot.main_state = ACTIVE := by rw [p1]; exact hs
  have hq1 : w1.prot.rx_queue ≠ [] := by rw [p1]; simp
  have hm2b : MSG_ID m2 = w1.prot.rcv_msg_id := by rw [p1]; exact hm2
  obtain ⟨w2, e2, p2, _, t2⟩ := accept_next w1 m2 hs1 hq1 hc2 hm2b
  have hq2 : w2.prot.rx_queue = [rx_buffer (PDU_LENGTH m1) [], rx_buffer (PDU_LENGTH m2) []] := by
    rw [p2, p1]; rfl
  obtain ⟨w3, e3, p3, s3, t3⟩ := d_rcv_done_more w2 _ _ _ fill1 run1 hq2
  rw [rx_buffer_fill, rx_buffer_len, Nat.mul_div_cancel _ (by decide : 0 < 4)] at t3
  rw [rx_buffer_fill] at s3
  have hq3 : w3.prot.rx_queue = [rx_buffer (PDU_LENGTH m2) []] := by rw [p3]
  obtain ⟨w4, e4, p4, s4, t4⟩ := d_rcv_done_last w3 _ fill2 run2 hq3
  rw [rx_buffer_fill] at t4 s4
  have n3 := new_effects_append w2 w3 _ (by rw [t3, List.append_assoc, List.append_assoc])
  have n4 := new_effects_append w3 w4 _ (by rw [t4, List.append_assoc])
  rw [rx_buffer_effects] at n3 n4
  refine ⟨w1, w2, w3, w4, e1, e2, e3, e4, ⟨?_, ?_, ?_, hq2, ?_, ?_⟩, ⟨?_, ?_, ?_, hq3⟩,
    ⟨n4, ?_, ?_, ?_⟩, ⟨s3, s4⟩, ?_⟩
  · rw [p1]
  · rw [p2, p1]
  · exact new_effects_append w w2 _ (by rw [t2, t1, List.append_assoc]; rfl)
  · rw [p2, p1]
  · rw [p2, p1]
  · rw [n3, List.append_assoc]
  · rw [p3]
  · rw [p3]
  · rw [p4]
  · rw [p4]
  · rw [p4]
  · intro h1 h2 hl1 hl2
    subst h1 h2
    have d1 := ssi_pn_rx_deliver (rx_buffer (PDU_LENGTH m1) fill1) w2
      (by rw [rx_buffer_len]; omega)
    have d2 := ssi_pn_rx_deliver (rx_buffer (PDU_LENGTH m2) fill2) w3
      (by rw [rx_buffer_len]; omega)
    rw [d1] at t3
    rw [d2, t3] at t4
    exact new_effects_append w2 w4 _ (by rw [t4]; simp)

/-- C11, at two frames of 2 and 3 words with the message ids 0 and 1 received
by an engine at rest: the two packets go up in the order of their
`START_TRANSFER` words, the second read is of 3 words. -/
theorem back_to_back_receive_witness :
    ∃ w2 w4,
      run_events [.c_rcv_done 0x40000200 true, .c_rcv_done 0x40000301 true] engine_active =
        some w2 ∧
      run_events [.d_rcv_done [1, 2, 3, 4, 5, 6, 7, 8] true,
        .d_rcv_done [11, 12, 13, 14, 15, 16, 17, 18, 19, 20, 21, 22] true] w2 = some w4 ∧
      new_effects w2 w4 =
        [.del_timer .rx_wd,
         .netif_rx { data := [2, 3, 4, 6, 5, 7, 8], protocol := 62720 },
         .mod_timer .rx_wd, .ssi_read_d 3, .del_timer .rx_wd,
         .netif_rx { data := [12, 13, 14, 16, 15, 17, 18, 19, 20, 21, 22], protocol := 62720 }] ∧
      w4.prot.recv_state = RECV_READY ∧ w4.prot.rx_wd = false := by
  obtain ⟨w1, w2, w3, w4, e1, e2, e3, e4, _, _, h4, _, hd⟩ :=
    back_to_back_receive engine_active 0x40000200 0x40000301 [1, 2, 3, 4, 5, 6, 7, 8]
      [11, 12, 13, 14, 15, 16, 17, 18, 19, 20, 21, 22] true true
      (by decide) (by decide) (by decide) (by decide) (by decide) (by decide)
  refine ⟨w2, w4, ?_, ?_, ?_, h4.2.2.1, h4.2.1⟩
  · rw [run_events, e1, Option.some_bind, run_events, e2, Option.some_bind, run_events]
  · rw [run_events, e3, Option.some_bind, run_events, e4, Option.some_bind, run_events]
  · rw [hd rfl rfl (by decide) (by decide)]
    decide

/-- C11, as stated, fails: two frames of one word each are accepted by the
engine at rest and both reads complete while the interface is running; neither
buffer is delivered upward, both are freed and counted as length errors. -/
theorem back_to_back_receive_counterexample :
    ∃ w2 w4,
      run_events [.c_rcv_done 0x40000100 true, .c_rcv_done 0x40000101 true] engine_active =
        some w2 ∧
      w2.prot.rcv_msg_id = 2 ∧ w2.prot.rx_queue = [rx_buffer 1 [], rx_buffer 1 []] ∧
      run_events [.d_rcv_done [1, 2, 3, 4] true, .d_rcv_done [5, 6, 7, 8] true] w2 = some w4 ∧
      new_effects w2 w4 =
        [.del_timer .rx_wd, .dev_kfree_skb (rx_buffer 1 [1, 2, 3, 4]),
         .mod_timer .rx_wd, .ssi_read_d 1, .del_timer .rx_wd,
         .dev_kfree_skb (rx_buffer 1 [5, 6, 7, 8])] ∧
      (∀ p, Effect.netif_rx p ∉ new_effects w2 w4) ∧
      w4.netdev.stats.rx_packets = 0 ∧ w4.netdev.stats.rx_length_errors = 2 := by
  have key : ∃ w2 w4,
      run_events [.c_rcv_done 0x40000100 true, .c_rcv_done 0x40000101 true] engine_active =
        some w2 ∧
      w2.prot.rcv_msg_id = 2 ∧ w2.prot.rx_queue = [rx_buffer 1 [], rx_buffer 1 []] ∧
      run_events [.d_rcv_done [1, 2, 3, 4] true, .d_rcv_done [5, 6, 7, 8] true] w2 = some w4 ∧
      new_effects w2 w4 =
        [.del_timer .rx_wd, .dev_kfree_skb (rx_buffer 1 [1, 2, 3, 4]),
         .mod_timer .rx_wd, .ssi_read_d 1, .del_timer .rx_wd,
         .dev_kfree_skb (rx_buffer 1 [5, 6, 7, 8])] ∧
      w4.netdev.stats.rx_packets = 0 ∧ w4.netdev.stats.rx_length_errors = 2 :=
    ⟨_, _, rfl, by decide, by decide, rfl, by decide, by decide, by decide⟩
  obtain ⟨w2, w4, a, b, c, d, e, f, g⟩ := key
  refine ⟨w2, w4, a, b, c, d, e, fun p hp => ?_, f, g⟩
  rw [e] at hp
  simp at hp

/-- C12: start of transmission.  For every engine state whose `tx_queue` has
the head packet `skb` of `n` bytes with `n + 3 < 2^32`, and whose control queue
(four slots, `head` and `tail` below 4) is not full, `mcsaab_start_tx` stores
`START_TRANSFER(w, send_msg_id)` with `w = (n + 3) / 4` at `tail` and advances
`tail` (writing the word at once when the queue was empty), sets
`send_state = SENDING` and arms the TX watchdog; when the write of that word
completes, in any state where it is at `head`, the sender is `SENDING` and the
packet is still the first one queued, `c_send_done_cb` issues the data write of
the packet with the same `w` words; `w` is `n / 4` rounded up and `4 * w` is
the least multiple of 4 that is at least `n`. -/
theorem start_tx_transfer (w : World) (skb : sk_buff) (rest : List sk_buff) (acwake : Nat)
    (hq : w.prot.tx_queue = skb :: rest) (hn : skb.len + 3 < 2 ^ 32)
    (hlen : w.prot.c_queue.length = C_QUEUE_LEN)
    (hh : w.prot.head < C_QUEUE_LEN) (ht : w.prot.tail < C_QUEUE_LEN)
    (hroom : (C_QUEUE_LEN + w.prot.tail - w.prot.head) % C_QUEUE_LEN < C_QUEUE_LEN - 1) :
    ∃ w2, mcsaab_start_tx w = some w2 ∧
      (slot w2 w.prot.tail = START_TRANS_CMD ((skb.len + 3) / 4) w.prot.send_msg_id ∧
        w2.prot.tail = (w.prot.tail + 1) % C_QUEUE_LEN ∧ w2.prot.head = w.prot.head ∧
        (∀ i, i ≠ w.prot.tail → slot w2 i = slot w i) ∧
        w2.prot.send_state = SENDING ∧ w2.prot.tx_wd = true ∧
        w2.prot.tx_queue = w.prot.tx_queue ∧
        w2.prot.send_msg_id = w.prot.send_msg_id ∧
        new_effects w w2 =
          .mod_timer .tx_wd ::
            (if w.prot.head = w.prot.tail then
              [.ssi_write_c (START_TRANS_CMD ((skb.len + 3) / 4) w.prot.send_msg_id)]
            else [])) ∧
      (∀ w3 : World, w3.prot.head = w.prot.tail →
        slot w3 w3.prot.head = START_TRANS_CMD ((skb.len + 3) / 4) w.prot.send_msg_id →
        w3.prot.send_state = SENDING → w3.prot.tx_queue = skb :: rest →
        ∃ w4, step (.c_send_done acwake) w3 = some w4 ∧
          new_effects w3 w4 =
            .ssi_write_d skb.data ((skb.len + 3) / 4) ::
              (if w3.prot.tail ≠ (w3.prot.head + 1) % C_QUEUE_LEN then
                [.ssi_write_c (slot w3 ((w3.prot.head + 1) % C_QUEUE_LEN))] else [])) ∧
      (w.prot.head = w.prot.tail →
        ∃ w4, step (.c_send_done acwake) w2 = some w4 ∧
          new_effects w2 w4 = [.ssi_write_d skb.data ((skb.len + 3) / 4)]) ∧
      (skb.len ≤ 4 * ((skb.len + 3) / 4) ∧
        (∀ m, 4 ∣ m → skb.len ≤ m → 4 * ((skb.len + 3) / 4) ≤ m) ∧
        ⌈(skb.len : ℚ) / 4⌉₊ = (skb.len + 3) / 4) := by
  have hmod : (skb.len + 3) % U32 = skb.len + 3 := Nat.mod_eq_of_lt (by simpa [U32] using hn)
  have hcompl : ∀ w3 : World,
      slot w3 w3.prot.head = START_TRANS_CMD ((skb.len + 3) / 4) w.prot.send_msg_id →
      w3.prot.send_state = SENDING → w3.prot.tx_queue = skb :: rest →
      ∃ w4, step (.c_send_done acwake) w3 = some w4 ∧
        new_effects w3 w4 =
          .ssi_write_d skb.data ((skb.len + 3) / 4) ::
            (if w3.prot.tail ≠ (w3.prot.head + 1) % C_QUEUE_LEN then
              [.ssi_write_c (slot w3 ((w3.prot.head + 1) % C_QUEUE_LEN))] else []) := by
    intro w3 h2 h3 h4
    obtain ⟨w4, e, _, t⟩ := c_send_done_start_trans acwake w3 skb rest
      (by rw [h2]; exact COMMAND_START_TRANS_CMD _ _) h3 h4
    rw [hmod] at t
    exact ⟨w4, e, t⟩
  obtain ⟨E, S, O⟩ := send_c_msg_room (START_TRANS_CMD ((skb.len + 3) / 4) w.prot.send_msg_id)
    (mod_timer .tx_wd (upd (fun p => { p with send_state := SENDING }) w)) hlen hh ht hroom
  have e : mcsaab_start_tx w = some (send_c_msg
      (START_TRANS_CMD ((skb.len + 3) / 4) w.prot.send_msg_id)
      (mod_timer .tx_wd (upd (fun p => { p with send_state := SENDING }) w))) := by
    simp [mcsaab_start_tx, hq, hmod, mod_timer, upd, emit]
  have f1 : (send_c_msg (START_TRANS_CMD ((skb.len + 3) / 4) w.prot.send_msg_id)
      (mod_timer .tx_wd (upd (fun p => { p with send_state := SENDING }) w))).prot.tail =
      (w.prot.tail + 1) % C_QUEUE_LEN := by rw [E]; rfl
  have f2 : (send_c_msg (START_TRANS_CMD ((skb.len + 3) / 4) w.prot.send_msg_id)
      (mod_timer .tx_wd (upd (fun p => { p with send_state := SENDING }) w))).prot.head =
      w.prot.head := by rw [E]; rfl
  have f3 : (send_c_msg (START_TRANS_CMD ((skb.len + 3) / 4) w.prot.send_msg_id)
      (mod_timer .tx_wd (upd (fun p => { p with send_state := SENDING }) w))).prot.send_state =
      SENDING := by rw [E]; rfl
  have f4 : (send_c_msg (START_TRANS_CMD ((skb.len + 3) / 4) w.prot.send_msg_id)
      (mod_timer .tx_wd (upd (fun p => { p with send_state := SENDING }) w))).prot.tx_queue =
      w.prot.tx_queue := by rw [E]; rfl
  have S2 : slot (send_c_msg (START_TRANS_CMD ((skb.len + 3) / 4) w.prot.send_msg_id)
      (mod_timer .tx_wd (upd (fun p => { p with send_state := SENDING }) w))) w.prot.tail =
      START_TRANS_CMD ((skb.len + 3) / 4) w.prot.send_msg_id := S
  refine ⟨_, e, ⟨S2, f1, f2, O, f3, ?_, f4, ?_, ?_⟩, fun w3 _ => hcompl w3, ?_, start_tx_arith _⟩
  · rw [E]; rfl
  · rw [E]; rfl
  · apply new_effects_append
    rw [E]
    simp [mod_timer, upd, emit]
  · intro hht
    obtain ⟨w4, e4, t4⟩ := hcompl _ (by rw [f2, hht]; exact S2) f3 (by rw [f4, hq])
    refine ⟨w4, e4, ?_⟩
    rw [t4, f1, f2, hht, if_neg (by simp)]

/-- C12, at a queued packet of seven bytes and an empty control queue: the
word `START_TRANSFER(2, 0) = 0x40000200` is stored and written, and its
completion writes the packet as two words. -/
theorem start_tx_transfer_witness :
    ∃ w2 w4, mcsaab_start_tx engine_queued = some w2 ∧ slot w2 0 = 0x40000200 ∧
      c_writes (new_effects engine_queued w2) = [0x40000200] ∧
      step (.c_send_done 1) w2 = some w4 ∧
      new_effects w2 w4 = [.ssi_write_d [1, 2, 3, 4, 5, 6, 7] 2] := by
  obtain ⟨w2, e, A, _, C, _⟩ := start_tx_transfer engine_queued phonet_packet7 [] 1 rfl
    (by decide) rfl (by decide) (by decide) (by decide)
  obtain ⟨w4, e4, t4⟩ := C rfl
  exact ⟨w2, w4, e, A.1.trans (by decide), by rw [A.2.2.2.2.2.2.2.2]; decide, e4, t4⟩

/-- C13, as the code has it: packet submission.  For an online engine
(`CMT_ONLINE` set) with an empty `tx_queue` and a Phonet packet: when the
padding the packet needs fails it is counted as dropped, when the header copy
fails it is counted as dropped and freed, and the engine state is unchanged in
both cases; otherwise `ssi_pn_xmit` appends the packet to `tx_queue` (its bytes
4 and 5 exchanged when it has them) and raises the wake line.  If the wake line
is read as down, `send_state` becomes `WAIT4READY`; if it is read as up and
`send_state` is `SEND_READY`, the transmission starts: `send_state` becomes
`SENDING`, the TX watchdog is armed and `START_TRANSFER` is handed to
`send_c_msg`, which stores it at `tail` when the four-slot control queue holds
fewer than three words and drops it when it holds three.  Whenever the
transmission does not start, the TX watchdog is armed and the control queue is
untouched, so no `START_TRANSFER` is enqueued or written. -/
theorem xmit_first_packet (w : World) (skb : sk_buff) (acwake : Nat) (pad_ok cow_ok : Bool)
    (hon : w.prot.flags &&& CMT_ONLINE ≠ 0) (hq : w.prot.tx_queue = [])
    (hp : skb.protocol = htons ETH_P_PHONET) :
    (skb.len &&& 3 ≠ 0 ∧ pad_ok = false →
      ∃ w2, step (.xmit skb acwake pad_ok cow_ok) w = some w2 ∧
        w2.prot = w.prot ∧ new_effects w w2 = [] ∧
        w2.netdev.stats.tx_dropped = w.netdev.stats.tx_dropped + 1 ∧
        w2.netdev.stats.tx_packets = w.netdev.stats.tx_packets) ∧
    ((skb.len &&& 3 = 0 ∨ pad_ok = true) → cow_ok = false →
      ∃ w2, step (.xmit skb acwake pad_ok cow_ok) w = some w2 ∧
        w2.prot = w.prot ∧ new_effects w w2 = [.dev_kfree_skb skb] ∧
        w2.netdev.stats.tx_dropped = w.netdev.stats.tx_dropped + 1 ∧
        w2.netdev.stats.tx_packets = w.netdev.stats.tx_packets) ∧
    ((skb.len &&& 3 = 0 ∨ pad_ok = true) → cow_ok = true →
      ∃ w2, step (.xmit skb acwake pad_ok cow_ok) w = some w2 ∧
        w2.prot.tx_queue = [ssi_pn_xmit_swap skb] ∧
        Effect.ssi_ioctl .WAKE_UP ∈ new_effects w w2 ∧
        (acwake = 0 → w2.prot.send_state = WAIT4READY) ∧
        (acwake = 0 ∨ w.prot.send_state ≠ SEND_READY →
          (acwake ≠ 0 → w2.prot.send_state = w.prot.send_state) ∧
          w2.prot.tx_wd = true ∧
          w2.prot.c_queue = w.prot.c_queue ∧ w2.prot.head = w.prot.head ∧
          w2.prot.tail = w.prot.tail ∧
          new_effects w w2 = [.ssi_ioctl .WAKE, .ssi_ioctl .WAKE_UP, .mod_timer .tx_wd]) ∧
        (acwake ≠ 0 → w.prot.send_state = SEND_READY →
          w2.prot.send_state = SENDING ∧ w2.prot.tx_wd = true ∧
          w2.prot.head = w.prot.head ∧
          (w.prot.c_queue.length = C_QUEUE_LEN → w.prot.head < C_QUEUE_LEN →
            w.prot.tail < C_QUEUE_LEN →
            (C_QUEUE_LEN + w.prot.tail - w.prot.head) % C_QUEUE_LEN < C_QUEUE_LEN - 1 →
            slot w2 w.prot.tail =
              START_TRANS_CMD ((skb.len + 3) % U32 / 4) w.prot.send_msg_id ∧
            COMMAND (slot w2 w.prot.tail) = START_TRANS ∧
            (∀ i, i ≠ w.prot.tail → slot w2 i = slot w i) ∧
            w2.prot.tail = (w.prot.tail + 1) % C_QUEUE_LEN ∧
            new_effects w w2 =
              [.ssi_ioctl .WAKE, .ssi_ioctl .WAKE_UP, .mod_timer .tx_wd] ++
                (if w.prot.head = w.prot.tail then
                  [.ssi_write_c (START_TRANS_CMD ((skb.len + 3) % U32 / 4) w.prot.send_msg_id)]
                else [])) ∧
          (C_QUEUE_LEN - 1 ≤ (C_QUEUE_LEN + w.prot.tail - w.prot.head) % C_QUEUE_LEN →
            w2.prot.c_queue = w.prot.c_queue ∧ w2.prot.tail = w.prot.tail ∧
            new_effects w w2 =
              [.ssi_ioctl .WAKE, .ssi_ioctl .WAKE_UP, .mod_timer .tx_wd]))) := by
  refine ⟨fun hpad => ?_, fun hpad hcow => ?_, fun hpad hcow => ?_⟩
  · refine ⟨updStats (fun s => { s with tx_dropped := s.tx_dropped + 1 }) w, ?_, rfl, ?_, rfl,
      rfl⟩
    · show ssi_pn_xmit skb acwake pad_ok cow_ok w = _
      unfold ssi_pn_xmit
      rw [if_neg (not_not.mpr hp), if_pos hpad]
    · unfold new_effects updStats
      simp
  · refine ⟨ssi_pn_xmit_drop skb w, ?_, rfl, ?_, rfl, rfl⟩
    · show ssi_pn_xmit skb acwake pad_ok cow_ok w = _
      unfold ssi_pn_xmit
      rw [if_neg (not_not.mpr hp), if_neg, if_pos hcow]
      rintro ⟨h1, h2⟩
      rcases hpad with h | h
      · exact h1 h
      · rw [h] at h2; exact absurd h2 (by decide)
    · exact new_effects_append _ _ _ rfl
  · obtain ⟨w2, e, q, u, a0, hwait, hstart⟩ := xmit_queued w skb acwake pad_ok cow_ok hon hq hp
      hpad hcow
    refine ⟨w2, e, q, u, a0, hwait, fun ha hs => ?_⟩
    obtain ⟨E, s1, s2, hroom⟩ := hstart ha hs
    obtain ⟨k1, k2, k3, k4, k5, k6, k7, k8, k9⟩ :=
      send_c_msg_keeps (START_TRANS_CMD ((skb.len + 3) % U32 / 4) w.prot.send_msg_id)
        (mod_timer .tx_wd
          (upd (fun p => { p with send_state := SENDING })
            (upd (fun p => { p with main_state := ACTIVE })
              (emit (.ssi_ioctl .WAKE_UP)
                (emit (.ssi_ioctl .WAKE)
                  (upd (fun p => { p with tx_queue := [ssi_pn_xmit_swap skb] }) w))))))
    refine ⟨s1, s2, ?_, fun hlen hh ht hr => ?_, fun hfull => ?_⟩
    · rw [E]; exact k8
    · obtain ⟨r1, r2, r3⟩ := hroom hlen hh ht hr
      obtain ⟨-, -, S3⟩ :=
        send_c_msg_room (START_TRANS_CMD ((skb.len + 3) % U32 / 4) w.prot.send_msg_id)
          (mod_timer .tx_wd
            (upd (fun p => { p with send_state := SENDING })
              (upd (fun p => { p with main_state := ACTIVE })
                (emit (.ssi_ioctl .WAKE_UP)
                  (emit (.ssi_ioctl .WAKE)
                    (upd (fun p => { p with tx_queue := [ssi_pn_xmit_swap skb] }) w))))))
          hlen hh ht hr
      refine ⟨r1, by rw [r1]; exact COMMAND_START_TRANS_CMD _ _, fun i hi => ?_, r2, r3⟩
      rw [E]
      exact S3 i hi
    · have D := send_c_msg_drop (START_TRANS_CMD ((skb.len + 3) % U32 / 4) w.prot.send_msg_id)
        (mod_timer .tx_wd
          (upd (fun p => { p with send_state := SENDING })
            (upd (fun p => { p with main_state := ACTIVE })
              (emit (.ssi_ioctl .WAKE_UP)
                (emit (.ssi_ioctl .WAKE)
                  (upd (fun p => { p with tx_queue := [ssi_pn_xmit_swap skb] }) w))))))
        hfull
      rw [D] at E
      rw [E]
      exact ⟨rfl, rfl, new_effects_append _ _ _ (by
        simp [ssi_pn_xmit_out, updStats, mod_timer, upd, emit])⟩

/-- C13, at a packet of seven bytes handed to the engine at rest: with the wake
line read as up the packet is queued with the bytes 4 and 5 exchanged, the
sender is `SENDING` and `START_TRANSFER(2, 0)` is in slot 0; with the wake line
read as down the sender waits for `READY` with the TX watchdog armed. -/
theorem xmit_first_packet_witness :
    (∃ w2, step (.xmit phonet_packet7 1 true true) engine_active = some w2 ∧
      w2.prot.tx_queue = [{ data := [1, 2, 3, 4, 6, 5, 7], protocol := 62720 }] ∧
      w2.prot.send_state = SENDING ∧ slot w2 0 = 0x40000200) ∧
    (∃ w2, step (.xmit phonet_packet7 0 true true) engine_active = some w2 ∧
      w2.prot.send_state = WAIT4READY ∧ w2.prot.tx_wd = true ∧
      c_writes (new_effects engine_active w2) = []) := by
  constructor
  · obtain ⟨w2, e, hq, _, _, _, hstart⟩ :=
      (xmit_first_packet engine_active phonet_packet7 1 true true (by decide) rfl rfl).2.2
        (Or.inr rfl) rfl
    obtain ⟨hs, _, _, hroom, _⟩ := hstart (by decide) rfl
    exact ⟨w2, e, hq.trans (by decide), hs,
      (hroom rfl (by decide) (by decide) (by decide)).1.trans (by decide)⟩
  · obtain ⟨w2, e, _, _, h0, hwait, _⟩ :=
      (xmit_first_packet engine_active phonet_packet7 0 true true (by decide) rfl rfl).2.2
        (Or.inr rfl) rfl
    obtain ⟨_, hwd, _, _, _, ht⟩ := hwait (Or.inl rfl)
    exact ⟨w2, e, h0 rfl, hwd, by rw [ht]; decide⟩

/-- C13, as stated, fails: a packet submitted to the reachable engine
`engine_full_queue` (online, `SEND_READY`, nothing queued, wake line read as
up) is queued and `send_state` becomes `SENDING`, but no `START_TRANSFER` is
enqueued: the control queue holds its three `READY` words as before and nothing
is written.  A packet whose padding fails is not queued at all. -/
theorem xmit_first_packet_counterexample :
    Reachable engine_full_queue ∧
    engine_full_queue.prot.flags &&& CMT_ONLINE ≠ 0 ∧
    engine_full_queue.prot.tx_queue = [] ∧
    engine_full_queue.prot.send_state = SEND_READY ∧
    (∃ w2, step (.xmit phonet_packet7 1 true true) engine_full_queue = some w2 ∧
      w2.prot.tx_queue = [ssi_pn_xmit_swap phonet_packet7] ∧
      w2.prot.send_state = SENDING ∧
      w2.prot.c_queue = engine_full_queue.prot.c_queue ∧
      w2.prot.tail = engine_full_queue.prot.tail ∧
      w2.prot.head = engine_full_queue.prot.head ∧
      (∀ i, COMMAND (slot w2 i) ≠ START_TRANS) ∧
      c_writes (new_effects engine_full_queue w2) = []) ∧
    (∃ w2, step (.xmit phonet_packet7 1 false true) engine_full_queue = some w2 ∧
      w2.prot.tx_queue = []) := by
  refine ⟨⟨calls_full_queue, by decide⟩, by decide, by decide, by decide,
    ⟨_, rfl, by decide, by decide, by decide, by decide, by decide, ?_, by decide⟩,
    ⟨_, rfl, by decide⟩⟩
  intro i
  have h4 : ∀ j < 4, COMMAND (slot ((step (.xmit phonet_packet7 1 true true)
      engine_full_queue).getD engine_full_queue) j) ≠ START_TRANS := by decide
  by_cases hi : i < 4
  · exact h4 i hi
  · have : slot ((step (.xmit phonet_packet7 1 true true)
        engine_full_queue).getD engine_full_queue) i = 0 := by
      unfold slot
      rw [List.getD_eq_default]
      have hl : ((step (.xmit phonet_packet7 1 true true)
        engine_full_queue).getD engine_full_queue).prot.c_queue.length = 4 := by decide
      rw [hl]
      omega
    show COMMAND (slot ((step (.xmit phonet_packet7 1 true true)
        engine_full_queue).getD engine_full_queue) i) ≠ START_TRANS
    rw [this]
    decide

/-- C14, as the code has it: data write completion.  For every engine state with
a non-empty `tx_queue` (`d_send_done_cb` does not read `send_state`, so also
when it is `SENDING`), the callback removes exactly the head packet and frees
it, disarms the TX watchdog and sets `send_msg_id` to
`(send_msg_id + 1) mod 256`.  If packets remain it starts the next
transmission: `send_state` is `SENDING`, the TX watchdog is armed again and
`START_TRANSFER` with the new id and the length of the next packet is handed to
`send_c_msg`.  Otherwise `send_state` is `SENDING_SWBREAK` and `SW_BREAK`, the
word `0x00000000`, is handed to `send_c_msg`.  In both cases `send_c_msg`
stores the word at `tail` when the four-slot control queue holds fewer than
three words, and drops it, leaving the control queue as it is and writing
nothing, when it holds three.  With an empty `tx_queue` the callback returns
the world it was given. -/
theorem d_send_done_completion (w : World) (skb : sk_buff) (rest : List sk_buff)
    (hq : w.prot.tx_queue = skb :: rest) :
    ∃ w2, step .d_send_done w = some w2 ∧
      w2.prot.tx_queue = rest ∧
      w2.prot.send_msg_id = (w.prot.send_msg_id + 1) % 256 ∧
      (new_effects w w2).take 2 = [.del_timer .tx_wd, .dev_kfree_skb skb] ∧
      (rest = [] →
        SWBREAK_CMD = 0x00000000 ∧
        w2 = upd (fun p => { p with send_state := SENDING_SWBREAK })
          (send_c_msg SWBREAK_CMD
            (upd (fun p => { p with send_msg_id := (w.prot.send_msg_id + 1) % 256 })
              (emit (.dev_kfree_skb skb)
                (del_timer .tx_wd (upd (fun p => { p with tx_queue := [] }) w))))) ∧
        w2.prot.send_state = SENDING_SWBREAK ∧ w2.prot.tx_wd = false ∧
        (w.prot.c_queue.length = C_QUEUE_LEN → w.prot.head < C_QUEUE_LEN →
          w.prot.tail < C_QUEUE_LEN →
          (C_QUEUE_LEN + w.prot.tail - w.prot.head) % C_QUEUE_LEN < C_QUEUE_LEN - 1 →
          slot w2 w.prot.tail = 0x00000000 ∧ w2.prot.tail = (w.prot.tail + 1) % C_QUEUE_LEN ∧
          new_effects w w2 =
            [.del_timer .tx_wd, .dev_kfree_skb skb] ++
              (if w.prot.head = w.prot.tail then [.ssi_write_c 0x00000000] else [])) ∧
        (C_QUEUE_LEN - 1 ≤ (C_QUEUE_LEN + w.prot.tail - w.prot.head) % C_QUEUE_LEN →
          w2.prot.c_queue = w.prot.c_queue ∧ w2.prot.tail = w.prot.tail ∧
          w2.prot.head = w.prot.head ∧
          new_effects w w2 = [.del_timer .tx_wd, .dev_kfree_skb skb])) ∧
      (∀ (next : sk_buff) (more : List sk_buff), rest = next :: more →
        w2 = send_c_msg
          (START_TRANS_CMD ((next.len + 3) % U32 / 4) ((w.prot.send_msg_id + 1) % 256))
          (mod_timer .tx_wd
            (upd (fun p => { p with send_state := SENDING })
              (upd (fun p => { p with send_msg_id := (w.prot.send_msg_id + 1) % 256 })
                (emit (.dev_kfree_skb skb)
                  (del_timer .tx_wd
                    (upd (fun p => { p with tx_queue := next :: more }) w)))))) ∧
        w2.prot.send_state = SENDING ∧ w2.prot.tx_wd = true ∧
        (w.prot.c_queue.length = C_QUEUE_LEN → w.prot.head < C_QUEUE_LEN →
          w.prot.tail < C_QUEUE_LEN →
          (C_QUEUE_LEN + w.prot.tail - w.prot.head) % C_QUEUE_LEN < C_QUEUE_LEN - 1 →
          slot w2 w.prot.tail =
            START_TRANS_CMD ((next.len + 3) % U32 / 4) ((w.prot.send_msg_id + 1) % 256) ∧
          w2.prot.tail = (w.prot.tail + 1) % C_QUEUE_LEN ∧
          new_effects w w2 =
            [.del_timer .tx_wd, .dev_kfree_skb skb, .mod_timer .tx_wd] ++
              (if w.prot.head = w.prot.tail then
                [.ssi_write_c
                  (START_TRANS_CMD ((next.len + 3) % U32 / 4) ((w.prot.send_msg_id + 1) % 256))]
              else [])) ∧
        (C_QUEUE_LEN - 1 ≤ (C_QUEUE_LEN + w.prot.tail - w.prot.head) % C_QUEUE_LEN →
          w2.prot.c_queue = w.prot.c_queue ∧ w2.prot.tail = w.prot.tail ∧
          w2.prot.head = w.prot.head ∧
          new_effects w w2 = [.del_timer .tx_wd, .dev_kfree_skb skb, .mod_timer .tx_wd])) ∧
      (∀ w0 : World, w0.prot.tx_queue = [] → step .d_send_done w0 = some w0) := by
  have hempty : ∀ w0 : World, w0.prot.tx_queue = [] → step .d_send_done w0 = some w0 := by
    intro w0 h0
    simp [step, d_send_done_cb, h0]
  cases rest with
  | nil =>
    obtain ⟨k1, k2, k3, k4, k5, k6, k7, k8, k9⟩ := send_c_msg_keeps SWBREAK_CMD
      (upd (fun p => { p with send_msg_id := (w.prot.send_msg_id + 1) % 256 })
        (emit (.dev_kfree_skb skb)
          (del_timer .tx_wd (upd (fun p => { p with tx_queue := [] }) w))))
    refine ⟨_, d_send_done_last w skb hq, k5, k6, ?_, ?_, ?_, hempty⟩
    · simp only [upd, new_effects]
      rw [send_c_msg_eq]
      split_ifs <;> simp [del_timer, upd, emit]
    · intro _
      refine ⟨by decide, rfl, rfl, k3, ?_, ?_⟩
      · intro hlen hh ht hroom
        obtain ⟨E, S, _⟩ := send_c_msg_room SWBREAK_CMD
          (upd (fun p => { p with send_msg_id := (w.prot.send_msg_id + 1) % 256 })
            (emit (.dev_kfree_skb skb)
              (del_timer .tx_wd (upd (fun p => { p with tx_queue := [] }) w))))
          hlen hh ht hroom
        refine ⟨S, ?_, ?_⟩
        · show (send_c_msg _ _).prot.tail = _
          rw [E]
          rfl
        · apply new_effects_append
          show (send_c_msg _ _).trace = _
          rw [E]
          simp [del_timer, upd, emit, SWBREAK_CMD, CMD, SW_BREAK]
      · intro hfull
        have D := send_c_msg_drop SWBREAK_CMD
          (upd (fun p => { p with send_msg_id := (w.prot.send_msg_id + 1) % 256 })
            (emit (.dev_kfree_skb skb)
              (del_timer .tx_wd (upd (fun p => { p with tx_queue := [] }) w))))
          hfull
        rw [D]
        exact ⟨rfl, rfl, rfl, new_effects_append _ _ _ (by simp [del_timer, upd, emit])⟩
    · intro next more h
      exact absurd h (by simp)
  | cons next more =>
    obtain ⟨k1, k2, k3, k4, k5, k6, k7, k8, k9⟩ := send_c_msg_keeps
      (START_TRANS_CMD ((next.len + 3) % U32 / 4) ((w.prot.send_msg_id + 1) % 256))
      (mod_timer .tx_wd
        (upd (fun p => { p with send_state := SENDING })
          (upd (fun p => { p with send_msg_id := (w.prot.send_msg_id + 1) % 256 })
            (emit (.dev_kfree_skb skb)
              (del_timer .tx_wd (upd (fun p => { p with tx_queue := next :: more }) w))))))
    refine ⟨_, d_send_done_more w skb next more hq, k5, k6, ?_, ?_, ?_, hempty⟩
    · simp only [new_effects]
      rw [send_c_msg_eq]
      split_ifs <;> simp [del_timer, mod_timer, upd, emit]
    · intro h
      exact absurd h (by simp)
    · intro next2 more2 h
      obtain ⟨h1, h2⟩ := List.cons.inj h
      subst h1 h2
      refine ⟨rfl, k2, k3, ?_, ?_⟩
      · intro hlen hh ht hroom
        obtain ⟨E, S, _⟩ := send_c_msg_room
          (START_TRANS_CMD ((next.len + 3) % U32 / 4) ((w.prot.send_msg_id + 1) % 256))
          (mod_timer .tx_wd
            (upd (fun p => { p with send_state := SENDING })
              (upd (fun p => { p with send_msg_id := (w.prot.send_msg_id + 1) % 256 })
                (emit (.dev_kfree_skb skb)
                  (del_timer .tx_wd (upd (fun p => { p with tx_queue := next :: more }) w))))))
          hlen hh ht hroom
        refine ⟨S, ?_, ?_⟩
        · rw [E]
          rfl
        · apply new_effects_append
          rw [E]
          simp [del_timer, mod_timer, upd, emit]
      · intro hfull
        have D := send_c_msg_drop
          (START_TRANS_CMD ((next.len + 3) % U32 / 4) ((w.prot.send_msg_id + 1) % 256))
          (mod_timer .tx_wd
            (upd (fun p => { p with send_state := SENDING })
              (upd (fun p => { p with send_msg_id := (w.prot.send_msg_id + 1) % 256 })
                (emit (.dev_kfree_skb skb)
                  (del_timer .tx_wd (upd (fun p => { p with tx_queue := next :: more }) w))))))
          hfull
        rw [D]
        refine ⟨?_, ?_, ?_, ?_⟩
        · simp [del_timer, mod_timer, upd, emit]
        · simp [del_timer, mod_timer, upd, emit]
        · simp [del_timer, mod_timer, upd, emit]
        · apply new_effects_append
          simp [del_timer, mod_timer, upd, emit]

/-- C14, at the completion of the only queued packet (`SW_BREAK` goes to slot 1
and is written, the sender is `SENDING_SWBREAK`) and at the completion of the
first of two packets sent with the message id 255 (the id wraps to 0 and
`START_TRANSFER(1, 0)` goes to slot 0). -/
theorem d_send_done_completion_witness :
    (∃ w2, step .d_send_done engine_sending = some w2 ∧ w2.prot.tx_queue = [] ∧
      w2.prot.send_msg_id = 1 ∧ w2.prot.send_state = SENDING_SWBREAK ∧
      w2.prot.tx_wd = false ∧ slot w2 1 = 0 ∧
      new_effects engine_sending w2 =
        [.del_timer .tx_wd, .dev_kfree_skb phonet_packet7, .ssi_write_c 0]) ∧
    (∃ w2, step .d_send_done engine_wrap = some w2 ∧ w2.prot.tx_queue = [phonet_packet] ∧
      w2.prot.send_msg_id = 0 ∧ w2.prot.send_state = SENDING ∧ slot w2 0 = 0x40000100) := by
  constructor
  · obtain ⟨w2, e, hq, hid, _, hlast, _, _⟩ :=
      d_send_done_completion engine_sending phonet_packet7 [] rfl
    obtain ⟨_, _, hs, hwd, hroom, _⟩ := hlast rfl
    obtain ⟨h1, _, h3⟩ := hroom rfl (by decide) (by decide) (by decide)
    exact ⟨w2, e, hq, hid, hs, hwd, h1, h3⟩
  · obtain ⟨w2, e, hq, hid, _, _, hmore, _⟩ :=
      d_send_done_completion engine_wrap phonet_packet [phonet_packet] rfl
    obtain ⟨_, hs, _, hroom, _⟩ := hmore phonet_packet [] rfl
    obtain ⟨h1, _, _⟩ := hroom rfl (by decide) (by decide) (by decide)
    exact ⟨w2, e, hq, hid, hs, h1.trans (by decide)⟩

/-- C14, as stated, fails: the reachable engine `engine_full_sending` is in
`SENDING` with one packet queued and three `READY` words held in the control
queue; the data write completion removes the packet and sets
`SENDING_SWBREAK`, but no `SW_BREAK` is enqueued: the control queue is as
before, none of its slots holds the word `0x00000000`, and nothing is
written. -/
theorem d_send_done_completion_counterexample :
    Reachable engine_full_sending ∧
    engine_full_sending.prot.send_state = SENDING ∧
    engine_full_sending.prot.tx_queue = [ssi_pn_xmit_swap phonet_packet7] ∧
    ∃ w2, step .d_send_done engine_full_sending = some w2 ∧
      w2.prot.tx_queue = [] ∧ w2.prot.send_state = SENDING_SWBREAK ∧
      w2.prot.c_queue = engine_full_sending.prot.c_queue ∧
      w2.prot.c_queue = [0x50000000, 0x90000000, 0x50000000, 0x50000000] ∧
      w2.prot.tail = engine_full_sending.prot.tail ∧
      w2.prot.head = engine_full_sending.prot.head ∧
      (∀ i < 4, slot w2 i ≠ 0x00000000) ∧
      c_writes (new_effects engine_full_sending w2) = [] :=
  ⟨⟨calls_full_queue ++ [.event (.xmit phonet_packet7 1 true true)], by decide⟩, by decide,
    by decide,
    ⟨_, rfl, by decide, by decide, by decide, by decide, by decide, by decide, by decide,
      by decide⟩⟩

/-- C15, amended: `SW_BREAK` write completion.  When `c_send_done_cb` runs for
a `SW_BREAK` word at `head` while `send_state = SENDING_SWBREAK`: if `tx_queue`
is non-empty the transmission is started again: `send_state` is `SENDING`, the
TX watchdog is armed, `START_TRANSFER` for the head packet is handed to
`send_c_msg`, which stores it at `tail` when the four-slot control queue holds
fewer than three words and drops it when it holds three, and then `head`
advances and the next queued word, if there is one, is written; otherwise the
wake line is lowered with
`SSI_IOCTL_WAKE_DOWN` and then read back with `SSI_IOCTL_WAKE`, and
`send_state` becomes `SEND_READY` if that read gives a level other than zero
and `WAIT4READY` if it gives zero; `SSI_IOCTL_CAWAKE`, which reads the line of
the peer, is not issued.  The stack queue is woken in both cases. -/
theorem swbreak_completion (w : World) (acwake : Nat)
    (hc : COMMAND (slot w w.prot.head) = SW_BREAK) (hs : w.prot.send_state = SENDING_SWBREAK) :
    (∀ (skb : sk_buff) (rest : List sk_buff), w.prot.tx_queue = skb :: rest →
      ∃ w2, step (.c_send_done acwake) w = some w2 ∧
        w2 = c_send_next (emit .netif_wake_queue
          (send_c_msg (START_TRANS_CMD ((skb.len + 3) % U32 / 4) w.prot.send_msg_id)
            (mod_timer .tx_wd (upd (fun p => { p with send_state := SENDING }) w)))) ∧
        w2.prot.send_state = SENDING ∧ w2.prot.tx_wd = true ∧
        w2.prot.tx_queue = w.prot.tx_queue ∧
        w2.prot.head = (w.prot.head + 1) % C_QUEUE_LEN ∧
        (w.prot.c_queue.length = C_QUEUE_LEN → w.prot.head < C_QUEUE_LEN →
          w.prot.tail < C_QUEUE_LEN →
          (C_QUEUE_LEN + w.prot.tail - w.prot.head) % C_QUEUE_LEN < C_QUEUE_LEN - 1 →
          slot w2 w.prot.tail =
            START_TRANS_CMD ((skb.len + 3) % U32 / 4) w.prot.send_msg_id ∧
          COMMAND (slot w2 w.prot.tail) = START_TRANS ∧
          w2.prot.tail = (w.prot.tail + 1) % C_QUEUE_LEN ∧
          new_effects w w2 =
            if w.prot.head = w.prot.tail then
              [.mod_timer .tx_wd,
               .ssi_write_c (START_TRANS_CMD ((skb.len + 3) % U32 / 4) w.prot.send_msg_id),
               .netif_wake_queue]
            else
              [.mod_timer .tx_wd, .netif_wake_queue,
               .ssi_write_c (slot w2 ((w.prot.head + 1) % C_QUEUE_LEN))]) ∧
        (C_QUEUE_LEN - 1 ≤ (C_QUEUE_LEN + w.prot.tail - w.prot.head) % C_QUEUE_LEN →
          w2.prot.c_queue = w.prot.c_queue ∧ w2.prot.tail = w.prot.tail ∧
          new_effects w w2 =
            [.mod_timer .tx_wd, .netif_wake_queue] ++
              (if w.prot.tail ≠ (w.prot.head + 1) % C_QUEUE_LEN then
                [.ssi_write_c (slot w ((w.prot.head + 1) % C_QUEUE_LEN))] else []))) ∧
    (w.prot.tx_queue = [] →
      ∃ w2, step (.c_send_done acwake) w = some w2 ∧
        w2.prot = { w.prot with
                    send_state := if acwake = 0 then WAIT4READY else SEND_READY,
                    head := (w.prot.head + 1) % C_QUEUE_LEN } ∧
        (acwake ≠ 0 → w2.prot.send_state = SEND_READY) ∧
        (acwake = 0 → w2.prot.send_state = WAIT4READY) ∧
        new_effects w w2 =
          [.ssi_ioctl .WAKE_DOWN, .ssi_ioctl .WAKE, .netif_wake_queue] ++
            (if w.prot.tail ≠ (w.prot.head + 1) % C_QUEUE_LEN then
              [.ssi_write_c (slot w ((w.prot.head + 1) % C_QUEUE_LEN))] else []) ∧
        Effect.ssi_ioctl .CAWAKE ∉ new_effects w w2) ∧
    (w.prot.tx_queue = [] →
      ∀ lines : wake_lines, ∃ w2, c_send_done_lines lines w = some w2 ∧
        (lines.acwake ≠ 0 → w2.prot.send_state = SEND_READY) ∧
        (lines.acwake = 0 → w2.prot.send_state = WAIT4READY)) := by
  have idle : ∀ acwake : Nat, w.prot.tx_queue = [] →
      ∃ w2, step (.c_send_done acwake) w = some w2 ∧
        w2.prot = { w.prot with
                    send_state := if acwake = 0 then WAIT4READY else SEND_READY,
                    head := (w.prot.head + 1) % C_QUEUE_LEN } ∧
        (acwake ≠ 0 → w2.prot.send_state = SEND_READY) ∧
        (acwake = 0 → w2.prot.send_state = WAIT4READY) ∧
        new_effects w w2 =
          [.ssi_ioctl .WAKE_DOWN, .ssi_ioctl .WAKE, .netif_wake_queue] ++
            (if w.prot.tail ≠ (w.prot.head + 1) % C_QUEUE_LEN then
              [.ssi_write_c (slot w ((w.prot.head + 1) % C_QUEUE_LEN))] else []) ∧
        Effect.ssi_ioctl .CAWAKE ∉ new_effects w w2 := by
    intro acwake hq
    have e : step (.c_send_done acwake) w =
        some (c_send_next (emit .netif_wake_queue
          (upd (fun p => { p with send_state := if acwake = 0 then WAIT4READY else SEND_READY })
            (emit (.ssi_ioctl .WAKE) (emit (.ssi_ioctl .WAKE_DOWN) w))))) := by
      show c_send_done_cb acwake w = _
      rw [c_send_done_cb_eq, c_send_handle_swbreak_idle acwake w hc hs hq]
      rfl
    have ht : new_effects w (c_send_next (emit .netif_wake_queue
          (upd (fun p => { p with send_state := if acwake = 0 then WAIT4READY else SEND_READY })
            (emit (.ssi_ioctl .WAKE) (emit (.ssi_ioctl .WAKE_DOWN) w))))) =
          [.ssi_ioctl .WAKE_DOWN, .ssi_ioctl .WAKE, .netif_wake_queue] ++
            (if w.prot.tail ≠ (w.prot.head + 1) % C_QUEUE_LEN then
              [.ssi_write_c (slot w ((w.prot.head + 1) % C_QUEUE_LEN))] else []) := by
      apply new_effects_append
      by_cases h : w.prot.tail ≠ (w.prot.head + 1) % C_QUEUE_LEN <;>
        simp [c_send_next, upd, emit, h, slot]
    refine ⟨_, e, ?_, ?_, ?_, ht, ?_⟩
    · by_cases h : w.prot.tail ≠ (w.prot.head + 1) % C_QUEUE_LEN <;>
        simp [c_send_next, upd, emit, h]
    · intro ha
      by_cases h : w.prot.tail ≠ (w.prot.head + 1) % C_QUEUE_LEN <;>
        simp [c_send_next, upd, emit, h, ha]
    · intro ha
      by_cases h : w.prot.tail ≠ (w.prot.head + 1) % C_QUEUE_LEN <;>
        simp [c_send_next, upd, emit, h, ha]
    · rw [ht]
      split_ifs <;> simp
  refine ⟨?_, idle acwake, ?_⟩
  · intro skb rest hq
    have e : step (.c_send_done acwake) w =
        some (c_send_next (emit .netif_wake_queue
          (send_c_msg (START_TRANS_CMD ((skb.len + 3) % U32 / 4) w.prot.send_msg_id)
            (mod_timer .tx_wd (upd (fun p => { p with send_state := SENDING }) w))))) := by
      show c_send_done_cb acwake w = _
      rw [c_send_done_cb_eq, c_send_handle_swbreak_restart acwake w skb rest hc hs hq]
      rfl
    obtain ⟨n1, n2, n3, n4, n5, n6⟩ := c_send_next_spec (emit .netif_wake_queue
      (send_c_msg (START_TRANS_CMD ((skb.len + 3) % U32 / 4) w.prot.send_msg_id)
        (mod_timer .tx_wd (upd (fun p => { p with send_state := SENDING }) w))))
    obtain ⟨k1, k2, k3, k4, k5, k6, k7, k8, k9⟩ := send_c_msg_keeps
      (START_TRANS_CMD ((skb.len + 3) % U32 / 4) w.prot.send_msg_id)
      (mod_timer .tx_wd (upd (fun p => { p with send_state := SENDING }) w))
    refine ⟨_, e, rfl, n5.trans k2, ?_, n4.trans k5, n3.trans (congrArg (fun h => (h + 1) % C_QUEUE_LEN) k8), ?_, ?_⟩
    · simp only [c_send_next, upd, emit]
      split_ifs <;> exact k3
    · intro hlen hh ht hroom
      obtain ⟨E, S, _⟩ := send_c_msg_room
        (START_TRANS_CMD ((skb.len + 3) % U32 / 4) w.prot.send_msg_id)
        (mod_timer .tx_wd (upd (fun p => { p with send_state := SENDING }) w))
        hlen hh ht hroom
      have hT : (send_c_msg (START_TRANS_CMD ((skb.len + 3) % U32 / 4) w.prot.send_msg_id)
          (mod_timer .tx_wd (upd (fun p => { p with send_state := SENDING }) w))).prot.tail =
          (w.prot.tail + 1) % C_QUEUE_LEN := by rw [E]; rfl
      have hH : (send_c_msg (START_TRANS_CMD ((skb.len + 3) % U32 / 4) w.prot.send_msg_id)
          (mod_timer .tx_wd (upd (fun p => { p with send_state := SENDING }) w))).prot.head =
          w.prot.head := k8
      have hTr : (send_c_msg (START_TRANS_CMD ((skb.len + 3) % U32 / 4) w.prot.send_msg_id)
          (mod_timer .tx_wd (upd (fun p => { p with send_state := SENDING }) w))).trace =
          w.trace ++ [.mod_timer .tx_wd] ++
            (if w.prot.head = w.prot.tail then
              [.ssi_write_c (START_TRANS_CMD ((skb.len + 3) % U32 / 4) w.prot.send_msg_id)]
             else []) := by
        rw [E]
        simp [mod_timer, upd, emit]
      clear E k1 k2 k3 k4 k5 k6 k7 k8 k9 n1 n2 n3 n4 n5 n6 e
      generalize send_c_msg (START_TRANS_CMD ((skb.len + 3) % U32 / 4) w.prot.send_msg_id)
          (mod_timer .tx_wd (upd (fun p => { p with send_state := SENDING }) w)) = y
        at S hT hH hTr ⊢
      obtain ⟨m1, m2, -, -, -, m6⟩ := c_send_next_spec (emit .netif_wake_queue y)
      have hS : slot (c_send_next (emit .netif_wake_queue y)) w.prot.tail =
          START_TRANS_CMD ((skb.len + 3) % U32 / 4) w.prot.send_msg_id := by
        unfold slot
        rw [m1]
        exact S
      refine ⟨hS, by rw [hS]; exact COMMAND_START_TRANS_CMD _ _, m2.trans hT, ?_⟩
      apply new_effects_append
      rw [m6]
      show (y.trace ++ [Effect.netif_wake_queue]) ++
        (if y.prot.tail ≠ (y.prot.head + 1) % C_QUEUE_LEN then
          [Effect.ssi_write_c (slot (emit .netif_wake_queue y) ((y.prot.head + 1) % C_QUEUE_LEN))]
         else []) = _
      rw [hTr, hT, hH]
      by_cases he : w.prot.head = w.prot.tail
      · rw [if_pos he, if_pos he, if_neg (by rw [he]; exact not_not.mpr rfl)]
        simp
      · have hcond : (w.prot.tail + 1) % C_QUEUE_LEN ≠ (w.prot.head + 1) % C_QUEUE_LEN := by
          simp only [C_QUEUE_LEN] at hh ht ⊢
          omega
        rw [if_neg he, if_neg he, if_pos hcond]
        have hsl : slot (emit .netif_wake_queue y) ((w.prot.head + 1) % C_QUEUE_LEN) =
            slot (c_send_next (emit .netif_wake_queue y)) ((w.prot.head + 1) % C_QUEUE_LEN) := by
          unfold slot
          rw [m1]
        rw [hsl]
        simp
    · intro hfull
      have D := send_c_msg_drop
        (START_TRANS_CMD ((skb.len + 3) % U32 / 4) w.prot.send_msg_id)
        (mod_timer .tx_wd (upd (fun p => { p with send_state := SENDING }) w)) hfull
      rw [D]
      obtain ⟨m1, m2, -, -, -, m6⟩ := c_send_next_spec (emit .netif_wake_queue
        (mod_timer .tx_wd (upd (fun p => { p with send_state := SENDING }) w)))
      refine ⟨m1, m2, ?_⟩
      apply new_effects_append
      rw [m6]
      show ((w.trace ++ [Effect.mod_timer .tx_wd]) ++ [Effect.netif_wake_queue]) ++
        (if w.prot.tail ≠ (w.prot.head + 1) % C_QUEUE_LEN then
          [Effect.ssi_write_c (slot w ((w.prot.head + 1) % C_QUEUE_LEN))] else []) = _
      simp
  · intro hq lines
    obtain ⟨w2, e, _, h1, h0, _⟩ := idle lines.acwake hq
    exact ⟨w2, e, h1, h0⟩

/-- C15, at an engine whose `SW_BREAK` write completes with nothing queued and
`SSI_IOCTL_WAKE` reading 1 (the sender is `SEND_READY`), and at the same engine
with a packet of seven bytes queued in the meantime (`START_TRANSFER(2, 1)` goes
to slot 2 and is written); and at the reachable engine whose `SW_BREAK` has two
`READY` words behind it and a packet queued (the sender is `SENDING`, the
control queue is as before and the held `READY` is the word written). -/
theorem swbreak_completion_witness :
    (∃ w2, step (.c_send_done 1) engine_swbreak_idle = some w2 ∧
      w2.prot.send_state = SEND_READY ∧
      new_effects engine_swbreak_idle w2 =
        [.ssi_ioctl .WAKE_DOWN, .ssi_ioctl .WAKE, .netif_wake_queue]) ∧
    (∃ w2, step (.c_send_done 1)
        { engine_swbreak_idle with
          prot := { engine_swbreak_idle.prot with tx_queue := [phonet_packet7] } } = some w2 ∧
      w2.prot.send_state = SENDING ∧ slot w2 2 = 0x40000201 ∧
      c_writes (new_effects
        { engine_swbreak_idle with
          prot := { engine_swbreak_idle.prot with tx_queue := [phonet_packet7] } } w2) =
        [0x40000201]) ∧
    (Reachable engine_swbreak_full ∧
      engine_swbreak_full.prot.c_queue = [0x50000000, 0x50000000, 0x40000200, 0] ∧
      engine_swbreak_full.prot.head = 3 ∧ engine_swbreak_full.prot.tail = 2 ∧
      ∃ w2, step (.c_send_done 1) engine_swbreak_full = some w2 ∧
        w2.prot.send_state = SENDING ∧ w2.prot.tx_wd = true ∧
        w2.prot.c_queue = [0x50000000, 0x50000000, 0x40000200, 0] ∧
        w2.prot.tail = 2 ∧ w2.prot.head = 0 ∧
        new_effects engine_swbreak_full w2 =
          [.mod_timer .tx_wd, .netif_wake_queue, .ssi_write_c 0x50000000]) := by
  refine ⟨?_, ?_, ⟨calls_swbreak_full, by decide⟩, by decide, by decide, by decide, ?_⟩
  · obtain ⟨w2, e, _, h1, _, ht, _⟩ :=
      (swbreak_completion engine_swbreak_idle 1 (by decide) rfl).2.1 rfl
    exact ⟨w2, e, h1 (by decide), ht.trans (by decide)⟩
  rotate_left
  · obtain ⟨w2, e, _, hs, hwd, _, hh, _, hfull⟩ :=
      (swbreak_completion engine_swbreak_full 1 (by decide) (by decide)).1
        (ssi_pn_xmit_swap phonet_packet7) [] (by decide)
    obtain ⟨hq, ht, hn⟩ := hfull (by decide)
    exact ⟨w2, e, hs, hwd, hq.trans (by decide), ht.trans (by decide),
      hh.trans (by decide), hn.trans (by decide)⟩
  · obtain ⟨w2, e, _, hs, _, _, _, hroom, _⟩ :=
      (swbreak_completion
        { engine_swbreak_idle with
          prot := { engine_swbreak_idle.prot with tx_queue := [phonet_packet7] } } 1
        (by decide) rfl).1 phonet_packet7 [] rfl
    obtain ⟨h1, _, _, h4⟩ := hroom rfl (by decide) (by decide) (by decide)
    have h1b : slot w2 2 = 0x40000201 := h1.trans (by decide)
    refine ⟨w2, e, hs, h1b, ?_⟩
    rw [h4, if_neg (by decide)]
    show [slot w2 2] = _
    rw [h1b]

/-- C15, as stated, fails: the level that decides between `SEND_READY` and
`WAIT4READY` is the one `SSI_IOCTL_WAKE` reads, the wake line of this side that
the callback has just lowered (the line `ssi_pn_xmit` reads before it raises
it); the line of the peer is not read.  With the line of the peer up and the
line of this side down the sender goes to `WAIT4READY`, with the line of the
peer down and the line of this side still up it goes to `SEND_READY`. -/
theorem swbreak_completion_counterexample :
    (c_send_done_lines { acwake := 0, cawake := 1 } engine_swbreak_idle).map
        (fun w => (w.prot.send_state, new_effects engine_swbreak_idle w)) =
      some (WAIT4READY, [.ssi_ioctl .WAKE_DOWN, .ssi_ioctl .WAKE, .netif_wake_queue]) ∧
    (c_send_done_lines { acwake := 1, cawake := 0 } engine_swbreak_idle).map
        (fun w => (w.prot.send_state, new_effects engine_swbreak_idle w)) =
      some (SEND_READY, [.ssi_ioctl .WAKE_DOWN, .ssi_ioctl .WAKE, .netif_wake_queue]) := by
  decide

/-- C16, amended: `READY` handling.  For every engine state with
`main_state = ACTIVE` and `send_state < SENDING`, a received `READY` starts the
transmission when `tx_queue` is non-empty: `send_state` is `SENDING`, the TX
watchdog is armed, and `START_TRANSFER` for the head packet is handed to
`send_c_msg`, which stores it at `tail` when the four-slot control queue holds
fewer than three words and drops it, leaving the queue as it was, when it holds
three; with an empty `tx_queue` it sets `send_state = SEND_READY` and changes
nothing else.  For
every state with `main_state ≠ ACTIVE` or `send_state ≥ SENDING`, `ready_h`
returns the world it was given: no field changes and no call is made.  Around
`ready_h`, `c_rcv_done_cb` has only stored the word and issued the next control
read (`rcvd`). -/
theorem ready_handling (w : World) (msg : Nat) (alloc_ok : Bool) (hc : COMMAND msg = READY) :
    (w.prot.main_state = ACTIVE → w.prot.send_state < SENDING →
      (∀ (skb : sk_buff) (rest : List sk_buff), w.prot.tx_queue = skb :: rest →
        ∃ w2, step (.c_rcv_done msg alloc_ok) w = some w2 ∧
          w2 = send_c_msg (START_TRANS_CMD ((skb.len + 3) % U32 / 4) w.prot.send_msg_id)
            (mod_timer .tx_wd (upd (fun p => { p with send_state := SENDING }) (rcvd msg w))) ∧
          w2.prot.send_state = SENDING ∧ w2.prot.tx_wd = true ∧
          w2.prot.tx_queue = w.prot.tx_queue ∧
          (w.prot.c_queue.length = C_QUEUE_LEN → w.prot.head < C_QUEUE_LEN →
            w.prot.tail < C_QUEUE_LEN →
            (C_QUEUE_LEN + w.prot.tail - w.prot.head) % C_QUEUE_LEN < C_QUEUE_LEN - 1 →
            slot w2 w.prot.tail =
              START_TRANS_CMD ((skb.len + 3) % U32 / 4) w.prot.send_msg_id ∧
            COMMAND (slot w2 w.prot.tail) = START_TRANS ∧
            w2.prot.tail = (w.prot.tail + 1) % C_QUEUE_LEN ∧
            w2.prot.head = w.prot.head ∧
            new_effects w w2 =
              [.ssi_read_c, .mod_timer .tx_wd] ++
                (if w.prot.head = w.prot.tail then
                  [.ssi_write_c (START_TRANS_CMD ((skb.len + 3) % U32 / 4) w.prot.send_msg_id)]
                else [])) ∧
          (C_QUEUE_LEN - 1 ≤ (C_QUEUE_LEN + w.prot.tail - w.prot.head) % C_QUEUE_LEN →
            w2.prot.c_queue = w.prot.c_queue ∧ w2.prot.tail = w.prot.tail ∧
            w2.prot.head = w.prot.head ∧
            new_effects w w2 = [.ssi_read_c, .mod_timer .tx_wd])) ∧
      (w.prot.tx_queue = [] →
        ready_h msg w = some (upd (fun p => { p with send_state := SEND_READY }) w) ∧
        step (.c_rcv_done msg alloc_ok) w =
          some (upd (fun p => { p with send_state := SEND_READY }) (rcvd msg w)))) ∧
    (w.prot.main_state ≠ ACTIVE ∨ w.prot.send_state ≥ SENDING →
      ready_h msg w = some w ∧ step (.c_rcv_done msg alloc_ok) w = some (rcvd msg w)) := by
  have e := step_ready w msg alloc_ok hc
  refine ⟨fun hs hlt => ⟨?_, ?_⟩, ?_⟩
  · intro skb rest hq
    obtain ⟨k1, k2, k3, k4, k5, k6, k7, k8, k9⟩ := send_c_msg_keeps
      (START_TRANS_CMD ((skb.len + 3) % U32 / 4) w.prot.send_msg_id)
      (mod_timer .tx_wd (upd (fun p => { p with send_state := SENDING }) (rcvd msg w)))
    have e3 : step (.c_rcv_done msg alloc_ok) w =
        some (send_c_msg (START_TRANS_CMD ((skb.len + 3) % U32 / 4) w.prot.send_msg_id)
          (mod_timer .tx_wd (upd (fun p => { p with send_state := SENDING }) (rcvd msg w)))) :=
      e.trans (ready_h_start (rcvd msg w) msg skb rest hs hlt hq)
    refine ⟨_, e3, rfl, k2, k3, k5, ?_, ?_⟩
    · intro hlen hh ht hroom
      obtain ⟨E, S, _⟩ := send_c_msg_room
        (START_TRANS_CMD ((skb.len + 3) % U32 / 4) w.prot.send_msg_id)
        (mod_timer .tx_wd (upd (fun p => { p with send_state := SENDING }) (rcvd msg w)))
        hlen hh ht hroom
      refine ⟨S, ?_, by rw [E]; rfl, k8, ?_⟩
      · have S2 : slot (send_c_msg (START_TRANS_CMD ((skb.len + 3) % U32 / 4) w.prot.send_msg_id)
            (mod_timer .tx_wd (upd (fun p => { p with send_state := SENDING }) (rcvd msg w))))
            w.prot.tail = START_TRANS_CMD ((skb.len + 3) % U32 / 4) w.prot.send_msg_id := S
        rw [S2]
        exact COMMAND_START_TRANS_CMD _ _
      · apply new_effects_append
        rw [E]
        simp [mod_timer, upd, emit, rcvd]
    · intro hfull
      have D := send_c_msg_drop
        (START_TRANS_CMD ((skb.len + 3) % U32 / 4) w.prot.send_msg_id)
        (mod_timer .tx_wd (upd (fun p => { p with send_state := SENDING }) (rcvd msg w))) hfull
      rw [D]
      refine ⟨rfl, rfl, rfl, ?_⟩
      apply new_effects_append
      simp [mod_timer, upd, emit, rcvd]
  · intro hq
    exact ⟨ready_h_idle w msg hs hlt hq, e.trans (ready_h_idle (rcvd msg w) msg hs hlt hq)⟩
  · intro h
    exact ⟨ready_h_ignored w msg h, e.trans (ready_h_ignored (rcvd msg w) msg h)⟩

/-- C16, at the word `0x50000000` received by an engine that waits for `READY`
with a packet of seven bytes queued (`START_TRANSFER(2, 0)` is stored in slot 0
and written, the sender is `SENDING`), and by an engine that is `SENDING`
(nothing happens beyond the reception). -/
theorem ready_handling_witness :
    (∃ w2, step (.c_rcv_done 0x50000000 true)
        { engine_queued with prot := { engine_queued.prot with send_state := WAIT4READY } } =
        some w2 ∧
      w2.prot.send_state = SENDING ∧ w2.prot.tx_wd = true ∧ slot w2 0 = 0x40000200) ∧
    step (.c_rcv_done 0x50000000 true) engine_sending = some (rcvd 0x50000000 engine_sending) := by
  constructor
  · obtain ⟨w2, e, _, hs, hwd, _, hroom, _⟩ :=
      ((ready_handling
        { engine_queued with prot := { engine_queued.prot with send_state := WAIT4READY } }
        0x50000000 true (by decide)).1 rfl (by decide)).1 phonet_packet7 [] rfl
    exact ⟨w2, e, hs, hwd,
      (hroom rfl (by decide) (by decide) (by decide)).1.trans (by decide)⟩
  · exact ((ready_handling engine_sending 0x50000000 true (by decide)).2
      (Or.inr (by decide))).2

/-- C16, as stated, fails: the engine reached from construction by the
handshake and six edges of the peer's wake line holds three `READY` words in
its control queue; with a packet of seven bytes queued while it waits for
`READY`, the received `READY` makes it `SENDING` and arms the TX watchdog, but
`START_TRANSFER` is dropped: the control queue is as it was, no slot holds a
`START_TRANSFER` word and no control word is written. -/
theorem ready_handling_counterexample :
    Reachable engine_full_waiting ∧
    engine_full_waiting.prot.main_state = ACTIVE ∧
    engine_full_waiting.prot.send_state = WAIT4READY ∧
    engine_full_waiting.prot.send_state < SENDING ∧
    engine_full_waiting.prot.tx_queue = [ssi_pn_xmit_swap phonet_packet7] ∧
    COMMAND 0x50000000 = READY ∧
    ∃ w2, step (.c_rcv_done 0x50000000 true) engine_full_waiting = some w2 ∧
      w2.prot.send_state = SENDING ∧ w2.prot.tx_wd = true ∧
      w2.prot.c_queue = engine_full_waiting.prot.c_queue ∧
      w2.prot.c_queue = [0x50000000, 0x90000000, 0x50000000, 0x50000000] ∧
      w2.prot.tail = engine_full_waiting.prot.tail ∧
      w2.prot.head = engine_full_waiting.prot.head ∧
      (∀ i, COMMAND (slot w2 i) ≠ START_TRANS) ∧
      c_writes (new_effects engine_full_waiting w2) = [] := by
  refine ⟨⟨calls_full_queue ++ [.event (.xmit phonet_packet7 0 true true)], by decide⟩,
    by decide, by decide, by decide, by decide, by decide,
    _, rfl, by decide, by decide, by decide, by decide, by decide, by decide, ?_, by decide⟩
  intro i
  have h : ∀ j, j < 4 → COMMAND (slot ((step (.c_rcv_done 0x50000000 true)
      engine_full_waiting).getD engine_full_waiting) j) ≠ START_TRANS := by decide
  by_cases hi : i < 4
  · exact h i hi
  · have : slot ((step (.c_rcv_done 0x50000000 true)
        engine_full_waiting).getD engine_full_waiting) i = 0 := by
      unfold slot
      rw [List.getD_eq_default]
      have hl : ((step (.c_rcv_done 0x50000000 true)
        engine_full_waiting).getD engine_full_waiting).prot.c_queue.length = 4 := by decide
      rw [hl]
      omega
    show COMMAND (slot ((step (.c_rcv_done 0x50000000 true)
        engine_full_waiting).getD engine_full_waiting) i) ≠ START_TRANS
    rw [this]
    decide

/-- C17, amended: watchdog firing.  For every engine state, the expiry of the
RX or of the TX watchdog issues the RX flush and the TX flush, reads the two
wake lines for the dump, runs `reset_mcsaab` (whose calls `reset_calls` cancel
the data read and the data write when the data channel is bound and the control
write when the control channel is bound) and lowers the wake line as its last
call; the expiry of the boot watchdog does the same without the two flushes.
Each expiry leaves `main_state = INIT`, no flag, empty queues and the three
watchdogs disarmed, and reports carrier-down exactly once.  In particular, when
a Phonet packet is submitted to an online engine with both channels bound, an
empty `tx_queue` and `send_state = WAIT4READY`, the packet waits with the TX
watchdog armed and no control word written, and the expiry of the TX watchdog
leaves `main_state = INIT` and `tx_queue` empty, frees the packet, cancels the
data read, the data write and the control write, and reports carrier-down
exactly once. -/
theorem watchdog_firing :
    (∀ w : World, ∃ w2, step .watchdog_boot w = some w2 ∧
      w2.prot = (reset_mcsaab w).prot ∧
      new_effects w w2 =
        [.ssi_ioctl .WAKE, .ssi_ioctl .CAWAKE] ++ reset_calls w.prot ++
          [.ssi_ioctl .WAKE_DOWN] ∧
      Effect.ssi_ioctl .FLUSH_RX ∉ new_effects w w2 ∧
      Effect.ssi_ioctl .FLUSH_TX ∉ new_effects w w2) ∧
    (∀ (e : Event) (w : World), e = .watchdog_rx ∨ e = .watchdog_tx →
      ∃ w2, step e w = some w2 ∧ w2.prot = (reset_mcsaab w).prot ∧
        new_effects w w2 =
          [.ssi_ioctl .FLUSH_RX, .ssi_ioctl .FLUSH_TX, .ssi_ioctl .WAKE, .ssi_ioctl .CAWAKE] ++
            reset_calls w.prot ++ [.ssi_ioctl .WAKE_DOWN]) ∧
    (∀ (e : Event) (w : World), e = .watchdog_boot ∨ e = .watchdog_rx ∨ e = .watchdog_tx →
      ∃ w2, step e w = some w2 ∧
        (w2.prot.main_state = INIT ∧ w2.prot.flags = 0 ∧ w2.prot.send_msg_id = 0 ∧
          w2.prot.rcv_msg_id = 0 ∧ w2.prot.head = 0 ∧ w2.prot.tail = 0 ∧
          w2.prot.tx_queue = [] ∧ w2.prot.rx_queue = [] ∧
          w2.prot.boot_wd = false ∧ w2.prot.tx_wd = false ∧ w2.prot.rx_wd = false) ∧
        (new_effects w w2).getLast? = some (.ssi_ioctl .WAKE_DOWN) ∧
        (new_effects w w2).count Effect.netif_carrier_off = 1 ∧
        (w.prot.dev_d_ch = true →
          Effect.ssi_read_cancel_d ∈ new_effects w w2 ∧
          Effect.ssi_write_cancel_d ∈ new_effects w w2) ∧
        (w.prot.dev_c_ch = true → Effect.ssi_write_cancel_c ∈ new_effects w w2) ∧
        (∀ skb ∈ w.prot.tx_queue, Effect.dev_kfree_skb skb ∈ new_effects w w2)) ∧
    (∀ (w : World) (skb : sk_buff) (acwake : Nat) (pad_ok cow_ok : Bool),
      w.prot.flags &&& CMT_ONLINE ≠ 0 → w.prot.tx_queue = [] →
      w.prot.send_state = WAIT4READY → w.prot.dev_d_ch = true → w.prot.dev_c_ch = true →
      skb.protocol = htons ETH_P_PHONET → (skb.len &&& 3 = 0 ∨ pad_ok = true) →
      cow_ok = true →
      ∃ w1 w2, step (.xmit skb acwake pad_ok cow_ok) w = some w1 ∧
        (w1.prot.tx_queue = [ssi_pn_xmit_swap skb] ∧ w1.prot.send_state = WAIT4READY ∧
          w1.prot.tx_wd = true ∧ c_writes (new_effects w w1) = []) ∧
        step .watchdog_tx w1 = some w2 ∧
        w2.prot.main_state = INIT ∧ w2.prot.tx_queue = [] ∧ w2.prot.tx_wd = false ∧
        Effect.ssi_read_cancel_d ∈ new_effects w1 w2 ∧
        Effect.ssi_write_cancel_d ∈ new_effects w1 w2 ∧
        Effect.ssi_write_cancel_c ∈ new_effects w1 w2 ∧
        Effect.dev_kfree_skb (ssi_pn_xmit_swap skb) ∈ new_effects w1 w2 ∧
        (new_effects w1 w2).count Effect.netif_carrier_off = 1 ∧
        (new_effects w1 w2).getLast? = some (.ssi_ioctl .WAKE_DOWN)) := by
  have hboot : ∀ w : World,
      (mcsaab_watchdog w).trace = w.trace ++ ([.ssi_ioctl .WAKE, .ssi_ioctl .CAWAKE] ++
        reset_calls w.prot ++ [.ssi_ioctl .WAKE_DOWN]) := fun w => (mcsaab_watchdog_eq w).2.2
  have htx : ∀ w : World,
      (mcsaab_watchdog_tx w).trace = w.trace ++ ([.ssi_ioctl .FLUSH_RX, .ssi_ioctl .FLUSH_TX,
        .ssi_ioctl .WAKE, .ssi_ioctl .CAWAKE] ++ reset_calls w.prot ++
        [.ssi_ioctl .WAKE_DOWN]) := fun w => (mcsaab_watchdog_tx_eq w).2.2
  refine ⟨?_, ?_, ?_, ?_⟩
  · intro w
    have hn := new_effects_append w _ _ (hboot w)
    refine ⟨_, rfl, (mcsaab_watchdog_eq w).1, hn, ?_, ?_⟩ <;>
    · rw [hn]
      have := reset_calls_no_flush w.prot
      simp [this]
  · rintro e w (rfl | rfl)
    · exact ⟨_, rfl, (mcsaab_watchdog_tx_eq w).1, new_effects_append w _ _ (htx w)⟩
    · exact ⟨_, rfl, (mcsaab_watchdog_tx_eq w).1, new_effects_append w _ _ (htx w)⟩
  · rintro e w (rfl | rfl | rfl)
    · exact ⟨_, rfl, watchdog_outcome w _ _ (mcsaab_watchdog_eq w).1 (hboot w) (by simp)⟩
    · exact ⟨_, rfl, watchdog_outcome w _ _ (mcsaab_watchdog_tx_eq w).1 (htx w) (by simp)⟩
    · exact ⟨_, rfl, watchdog_outcome w _ _ (mcsaab_watchdog_tx_eq w).1 (htx w) (by simp)⟩
  · intro w skb acwake pad_ok cow_ok hon hq hs hd hc hp hpad hcow
    have e1 : step (.xmit skb acwake pad_ok cow_ok) w = _ :=
      (ssi_pn_xmit_first skb acwake pad_ok cow_ok w hp hpad hcow hon hq).trans
        (ssi_pn_xmit_wake_wait (ssi_pn_xmit_swap skb) acwake _
          (Or.inr (by simp [upd, emit, hs, WAIT4READY, SEND_READY])))
    obtain ⟨o1, o2, o3, o4, o5, o6⟩ := watchdog_outcome _ _ _
      (mcsaab_watchdog_tx_eq _).1 (htx _) (by simp)
    refine ⟨_, _, e1, ⟨?_, ?_, ?_, ?_⟩, rfl, o1.1, o1.2.2.2.2.2.2.1, o1.2.2.2.2.2.2.2.2.2.1, ?_, ?_,
      ?_, ?_, o3, o2⟩
    · simp [ssi_pn_xmit_out, updStats, mod_timer, upd, emit, hq]
    · by_cases ha : acwake = 0 <;>
        simp [ssi_pn_xmit_out, updStats, mod_timer, upd, emit, hs, ha]
    · simp [ssi_pn_xmit_out, updStats, mod_timer, upd, emit]
    · simp [ssi_pn_xmit_out, updStats, mod_timer, upd, emit, new_effects, c_writes]
    · exact (o4 (by simpa [ssi_pn_xmit_out, updStats, mod_timer, upd, emit] using hd)).1
    · exact (o4 (by simpa [ssi_pn_xmit_out, updStats, mod_timer, upd, emit] using hd)).2
    · exact o5 (by simpa [ssi_pn_xmit_out, updStats, mod_timer, upd, emit] using hc)
    · exact o6 _ (by simp [ssi_pn_xmit_out, updStats, mod_timer, upd, emit, hq])

/-- C17, at a packet of seven bytes submitted to an online engine that waits
for `READY`, followed by the expiry of the TX watchdog. -/
theorem watchdog_firing_witness :
    ∃ w1 w2, step (.xmit phonet_packet7 1 true true) engine_waiting = some w1 ∧
      w1.prot.tx_wd = true ∧ step .watchdog_tx w1 = some w2 ∧
      w2.prot.main_state = INIT ∧ w2.prot.tx_queue = [] ∧
      Effect.ssi_read_cancel_d ∈ new_effects w1 w2 ∧
      Effect.ssi_write_cancel_d ∈ new_effects w1 w2 ∧
      Effect.ssi_write_cancel_c ∈ new_effects w1 w2 ∧
      (new_effects w1 w2).count Effect.netif_carrier_off = 1 := by
  obtain ⟨w1, w2, e1, ⟨_, _, hwd, _⟩, e2, h1, h2, _, h4, h5, h6, _, h8, _⟩ :=
    watchdog_firing.2.2.2 engine_waiting phonet_packet7 1 true true (by decide) rfl rfl rfl rfl
      rfl (Or.inr rfl) rfl
  exact ⟨w1, w2, e1, hwd, e2, h1, h2, h4, h5, h6, h8⟩

/-- C17, as stated, fails for the boot watchdog: its expiry in `HANDSHAKE` with
both channels bound reads the wake lines, resets and lowers the wake line, and
issues neither the RX flush nor the TX flush. -/
theorem watchdog_firing_counterexample :
    (step .watchdog_boot engine_handshake_bound).map
        (fun w => new_effects engine_handshake_bound w) =
      some [.ssi_ioctl .WAKE, .ssi_ioctl .CAWAKE, .clk_disable, .del_timer .boot_wd,
        .del_timer .rx_wd, .del_timer .tx_wd, .ssi_read_cancel_d, .ssi_write_cancel_d,
        .ssi_write_cancel_c, .netif_carrier_off, .ssi_ioctl .WAKE_DOWN] ∧
    (step .watchdog_tx engine_handshake_bound).map
        (fun w => new_effects engine_handshake_bound w) =
      some [.ssi_ioctl .FLUSH_RX, .ssi_ioctl .FLUSH_TX, .ssi_ioctl .WAKE, .ssi_ioctl .CAWAKE,
        .clk_disable, .del_timer .boot_wd, .del_timer .rx_wd, .del_timer .tx_wd,
        .ssi_read_cancel_d, .ssi_write_cancel_d, .ssi_write_cancel_c, .netif_carrier_off,
        .ssi_ioctl .WAKE_DOWN] := by
  decide

/-- C18, amended: boot watchdog lifecycle.  A `BOOT_INFO_REQ` handled in
`INIT`, `HANDSHAKE` or `ACTIVE` (the only handler that sends `BOOT_INFO_RESP`)
leaves `main_state = HANDSHAKE` with the boot watchdog armed, arming it as its
last call; a `BOOT_INFO_RESP` received in `INIT` enters `HANDSHAKE` and leaves
the boot watchdog as it was.  A `WAKE_TEST_RESULT` with the failure bit clear
received in `HANDSHAKE` hands `FREQ_CHANGE_REQ` to `send_c_msg` and leaves
`main_state` and the boot watchdog as they were: when it was armed it stays
armed.  The boot watchdog is disarmed when the write of `FREQ_CHANGE_DONE`
completes in `HANDSHAKE`, the step that makes the link `ACTIVE`, and when a
`WAKE_TEST_RESULT` with the failure bit set is received in `HANDSHAKE`. -/
theorem boot_watchdog_lifecycle :
    (∀ (w : World) (msg : Nat) (alloc_ok : Bool), COMMAND msg = BOOT_INFO_REQ →
      w.prot.main_state = INIT ∨ w.prot.main_state = HANDSHAKE ∨ w.prot.main_state = ACTIVE →
      ∃ w2, step (.c_rcv_done msg alloc_ok) w = some w2 ∧
        w2.prot.main_state = HANDSHAKE ∧ w2.prot.boot_wd = true ∧
        (new_effects w w2).getLast? = some (.mod_timer .boot_wd)) ∧
    (∀ (w : World) (msg : Nat) (alloc_ok : Bool), COMMAND msg = BOOT_INFO_RESP →
      w.prot.main_state = INIT →
      ∃ w2, step (.c_rcv_done msg alloc_ok) w = some w2 ∧
        w2.prot.main_state = HANDSHAKE ∧ w2.prot.boot_wd = w.prot.boot_wd ∧
        Effect.mod_timer .boot_wd ∉ new_effects w w2) ∧
    (∀ (w : World) (msg : Nat) (alloc_ok : Bool), COMMAND msg = WAKE_TEST_RES →
      w.prot.main_state = HANDSHAKE → PAYLOAD msg &&& WAKE_TEST_FAILED = 0 →
      ∃ w2, step (.c_rcv_done msg alloc_ok) w = some w2 ∧
        w2 = send_c_msg (FQ_CHANGE_REQ_CMD w.prot.cmt_tx_speed) (rcvd msg w) ∧
        w2.prot.main_state = HANDSHAKE ∧ w2.prot.boot_wd = w.prot.boot_wd ∧
        Effect.del_timer .boot_wd ∉ new_effects w w2) ∧
    (∀ (w : World) (acwake : Nat), COMMAND (slot w w.prot.head) = FQ_CHANGE_DONE →
      w.prot.main_state = HANDSHAKE →
      ∃ w2, step (.c_send_done acwake) w = some w2 ∧
        w2.prot.main_state = ACTIVE ∧ w2.prot.boot_wd = false ∧
        Effect.del_timer .boot_wd ∈ new_effects w w2) ∧
    (∀ (w : World) (msg : Nat) (alloc_ok : Bool), COMMAND msg = WAKE_TEST_RES →
      w.prot.main_state = HANDSHAKE → PAYLOAD msg &&& WAKE_TEST_FAILED ≠ 0 →
      ∃ w2, step (.c_rcv_done msg alloc_ok) w = some w2 ∧
        w2.prot.main_state = INIT ∧ w2.prot.boot_wd = false) := by
  refine ⟨?_, ?_, ?_, ?_, ?_⟩
  · intro w msg alloc_ok hc hs
    obtain ⟨a1, a2, _⟩ := boot_info_req_h_arms (rcvd msg w) msg hs
    obtain ⟨es, he⟩ := boot_info_req_h_last (rcvd msg w) msg hs
    refine ⟨_, step_boot_info_req w msg alloc_ok hc, a2, a1, ?_⟩
    have ht : (boot_info_req_h msg (rcvd msg w)).trace =
        w.trace ++ (.ssi_read_c :: es ++ [.mod_timer .boot_wd]) := by
      rw [he]
      simp [rcvd, emit, upd]
    rw [new_effects_append w _ _ ht, List.getLast?_concat]
  · intro w msg alloc_ok hc hs
    refine ⟨_, step_boot_info_resp w msg alloc_ok hc, ?_, ?_, ?_⟩
    · simp [boot_info_resp_h, rcvd, upd, emit, hs]
    · by_cases hk : w.prot.flags &&& CLK_ENABLE = 0 <;>
        simp [boot_info_resp_h, mcsaab_clk_enable, rcvd, upd, emit, hs, hk]
    · by_cases hk : w.prot.flags &&& CLK_ENABLE = 0 <;>
        simp [boot_info_resp_h, mcsaab_clk_enable, rcvd, upd, emit, hs, hk, new_effects]
  · intro w msg alloc_ok hc hs hok
    have e : step (.c_rcv_done msg alloc_ok) w =
        some (send_c_msg (FQ_CHANGE_REQ_CMD w.prot.cmt_tx_speed) (rcvd msg w)) :=
      (step_wake_test w msg alloc_ok hc).trans
        (congrArg some (wakelines_test_ok (rcvd msg w) msg hs hok))
    obtain ⟨k1, _, _, k4, _⟩ :=
      send_c_msg_keeps (FQ_CHANGE_REQ_CMD w.prot.cmt_tx_speed) (rcvd msg w)
    obtain ⟨es, he, hw⟩ := send_c_msg_trace (FQ_CHANGE_REQ_CMD w.prot.cmt_tx_speed) (rcvd msg w)
    refine ⟨_, e, rfl, k1.trans hs, k4, ?_⟩
    have ht : (send_c_msg (FQ_CHANGE_REQ_CMD w.prot.cmt_tx_speed) (rcvd msg w)).trace =
        w.trace ++ (.ssi_read_c :: es) := by
      rw [he]
      simp [rcvd, emit, upd]
    rw [new_effects_append w _ _ ht]
    intro hmem
    rcases List.mem_cons.mp hmem with h | h
    · exact Effect.noConfusion h
    · obtain ⟨c, hcw⟩ := hw _ h
      exact Effect.noConfusion hcw
  · intro w acwake hc hs
    obtain ⟨w2, e, h1, h2, _, h4, _⟩ := c_send_done_fq_done acwake w hc hs
    exact ⟨w2, e, h1, h2, h4⟩
  · intro w msg alloc_ok hc hs hf
    have hm2 : PAYLOAD msg % 2 = 1 := by
      rw [Nat.and_one_is_mod] at hf
      omega
    refine ⟨_, step_wake_test w msg alloc_ok hc, ?_, ?_⟩ <;>
      simp [rcvd, upd, emit, wakelines_test_result_h, hs, mcsaab_watchdog_dump,
        reset_mcsaab_eq, hm2, mcsaab_clk_disable, del_timer]

/-- C18, at the handshake of the constructed engine: `BOOT_INFO_REQ` arms the
boot watchdog, and the completion of the `FREQ_CHANGE_DONE` write in
`HANDSHAKE` disarms it. -/
theorem boot_watchdog_lifecycle_witness :
    (∃ w2, step (.c_rcv_done 0x10000001 true) ssi_proto_init = some w2 ∧
      w2.prot.main_state = HANDSHAKE ∧ w2.prot.boot_wd = true) ∧
    (∃ w2, step (.c_send_done 0)
        { engine_handshake with
          prot := { engine_handshake.prot with
                    c_queue := [0x20000001, 0x80000037, 0x90000000, 0], head := 2, tail := 3 } } =
        some w2 ∧
      w2.prot.main_state = ACTIVE ∧ w2.prot.boot_wd = false) := by
  constructor
  · obtain ⟨w2, e, h1, h2, _⟩ :=
      boot_watchdog_lifecycle.1 ssi_proto_init 0x10000001 true (by decide) (Or.inl rfl)
    exact ⟨w2, e, h1, h2⟩
  · obtain ⟨w2, e, h1, h2, _⟩ :=
      boot_watchdog_lifecycle.2.2.2.1
        { engine_handshake with
          prot := { engine_handshake.prot with
                    c_queue := [0x20000001, 0x80000037, 0x90000000, 0], head := 2, tail := 3 } }
        0 (by decide) rfl
    exact ⟨w2, e, h1, h2⟩

/-- C18, as stated, fails: in `HANDSHAKE` with the boot watchdog armed, a
`WAKE_TEST_RESULT` with the failure bit clear writes `FREQ_CHANGE_REQ` and
leaves the boot watchdog armed; and a `BOOT_INFO_RESP` received by the
constructed engine enters `HANDSHAKE` without arming it. -/
theorem boot_watchdog_lifecycle_counterexample :
    (step (.c_rcv_done 0x30000000 true) engine_handshake).map
        (fun w => (w.prot.main_state, w.prot.boot_wd, new_effects engine_handshake w)) =
      some (HANDSHAKE, true, [.ssi_read_c, .ssi_write_c 0x80000037]) ∧
    (step (.c_rcv_done 0x20000001 true) ssi_proto_init).map
        (fun w => (w.prot.main_state, w.prot.boot_wd, new_effects ssi_proto_init w)) =
      some (HANDSHAKE, false, [.ssi_read_c, .clk_enable]) := by
  decide

/-- C19: reboot detection.  For every engine state with `main_state = ACTIVE`
(and the four-slot control queue), a received `BOOT_INFO_REQ` leaves exactly the
engine state that `reset_mcsaab` followed by the `INIT` handling of
`BOOT_INFO_REQ` leaves: `main_state = HANDSHAKE`, `CLK_ENABLE` the only flag,
both message ids 0, `tx_queue` and `rx_queue` empty, the control queue holding
the single word `BOOT_INFO_RESP(1) = 0x20000001` in slot 0 (`head = 0`,
`tail = 1`) with its write issued as the only control write, the boot watchdog
armed and the TX and RX watchdogs disarmed.  On the way the wake lines are read
for the dump and the wake line is raised. -/
theorem reboot_detection (w : World) (msg : Nat) (alloc_ok : Bool)
    (hc : COMMAND msg = BOOT_INFO_REQ) (hs : w.prot.main_state = ACTIVE)
    (hlen : w.prot.c_queue.length = C_QUEUE_LEN) :
    ∃ w2, step (.c_rcv_done msg alloc_ok) w = some w2 ∧
      (reset_mcsaab (rcvd msg w)).prot.main_state = INIT ∧
      w2.prot = (boot_info_req_h msg (reset_mcsaab (rcvd msg w))).prot ∧
      w2.netdev = (boot_info_req_h msg (reset_mcsaab (rcvd msg w))).netdev ∧
      (w2.prot.main_state = HANDSHAKE ∧ w2.prot.flags = CLK_ENABLE ∧
        w2.prot.send_msg_id = 0 ∧ w2.prot.rcv_msg_id = 0 ∧
        w2.prot.tx_queue = [] ∧ w2.prot.rx_queue = [] ∧
        w2.prot.head = 0 ∧ w2.prot.tail = 1 ∧
        slot w2 0 = BOOT_INFO_RESP_CMD 1 ∧ BOOT_INFO_RESP_CMD 1 = 0x20000001 ∧
        w2.prot.boot_wd = true ∧ w2.prot.tx_wd = false ∧ w2.prot.rx_wd = false) ∧
      c_writes (new_effects w w2) = [0x20000001] ∧
      new_effects w w2 =
        [.ssi_read_c, .ssi_ioctl .WAKE, .ssi_ioctl .CAWAKE] ++ reset_calls w.prot ++
          [.clk_enable, .ssi_ioctl .WAKE_UP, .ssi_write_c 0x20000001, .mod_timer .boot_wd] := by
  have hq : ∃ q0 q1 q2 q3, w.prot.c_queue = [q0, q1, q2, q3] := length_four _ hlen
  obtain ⟨q0, q1, q2, q3, hq⟩ := hq
  have hb : BOOT_INFO_RESP_CMD 1 = 0x20000001 := by decide
  have e := step_boot_info_req w msg alloc_ok hc
  have hw2 : boot_info_req_h msg (rcvd msg w) =
      { prot := { w.prot with
                  rcv_c_msg := msg, main_state := HANDSHAKE, send_msg_id := 0, rcv_msg_id := 0,
                  send_state := RECV_READY, recv_state := SEND_READY, flags := CLK_ENABLE,
                  head := 0, tail := 1, boot_wd := true, rx_wd := false, tx_wd := false,
                  tx_queue := [], rx_queue := [], c_queue := [0x20000001, q1, q2, q3] },
        netdev := w.netdev,
        trace := w.trace ++ ([.ssi_read_c, .ssi_ioctl .WAKE, .ssi_ioctl .CAWAKE] ++
          reset_calls w.prot ++
          [.clk_enable, .ssi_ioctl .WAKE_UP, .ssi_write_c 0x20000001, .mod_timer .boot_wd]) } := by
    simp [boot_info_req_h, rcvd, hs, mcsaab_watchdog_dump, reset_mcsaab_eq, mcsaab_clk_enable,
      send_c_msg, mod_timer, upd, emit, hq, hb, reset_calls, C_QUEUE_LEN, LOCAL_D_VER_ID,
      ACTIVE, INIT, HANDSHAKE, CLK_ENABLE]
  have hr : (boot_info_req_h msg (reset_mcsaab (rcvd msg w))).prot =
      { w.prot with
        rcv_c_msg := msg, main_state := HANDSHAKE, send_msg_id := 0, rcv_msg_id := 0,
        send_state := RECV_READY, recv_state := SEND_READY, flags := CLK_ENABLE,
        head := 0, tail := 1, boot_wd := true, rx_wd := false, tx_wd := false,
        tx_queue := [], rx_queue := [], c_queue := [0x20000001, q1, q2, q3] } ∧
      (boot_info_req_h msg (reset_mcsaab (rcvd msg w))).netdev = w.netdev := by
    simp [boot_info_req_h, rcvd, mcsaab_watchdog_dump, reset_mcsaab_eq, mcsaab_clk_enable,
      send_c_msg, mod_timer, upd, emit, hq, hb, C_QUEUE_LEN, LOCAL_D_VER_ID,
      ACTIVE, INIT, HANDSHAKE, CLK_ENABLE]
  refine ⟨_, e, ?_, ?_, ?_, ?_, ?_, ?_⟩
  · rw [reset_mcsaab_prot]
  · rw [hw2, hr.1]
  · rw [hw2, hr.2]
  · rw [hw2]
    simp [slot, hb]
  · rw [new_effects_append w _ _ (by rw [hw2])]
    simp only [c_writes_append, c_writes_reset_calls]
    simp [c_writes]
  · exact new_effects_append w _ _ (by rw [hw2])

/-- C19, at an engine that is sending its only packet when the peer restarts:
the word `0x10000001` leaves it in `HANDSHAKE` with the clock held, the packet
freed and `BOOT_INFO_RESP` written. -/
theorem reboot_detection_witness :
    ∃ w2, step (.c_rcv_done 0x10000001 true) engine_sending = some w2 ∧
      w2.prot.main_state = HANDSHAKE ∧ w2.prot.flags = CLK_ENABLE ∧ w2.prot.tx_queue = [] ∧
      slot w2 0 = 0x20000001 ∧ w2.prot.boot_wd = true ∧ w2.prot.tx_wd = false ∧
      c_writes (new_effects engine_sending w2) = [0x20000001] := by
  obtain ⟨w2, e, _, _, _, h, hw, _⟩ :=
    reboot_detection engine_sending 0x10000001 true (by decide) rfl rfl
  exact ⟨w2, e, h.1, h.2.1, h.2.2.2.2.1, h.2.2.2.2.2.2.2.2.1.trans h.2.2.2.2.2.2.2.2.2.1,
    h.2.2.2.2.2.2.2.2.2.2.1, h.2.2.2.2.2.2.2.2.2.2.2.1, hw⟩

/-- C20: hardware break.  For every engine state (with the four-slot control
queue), the port event `BREAK_DETECTED` runs `reset_mcsaab`, raises the wake
line and sends the recovery word: afterwards `main_state = INIT`, no flag is
set, both message ids are 0, `tx_queue` and `rx_queue` are empty, the three
watchdogs are disarmed, and the control queue holds exactly one word,
`SKIP = 0xf0030006`, in slot 0 (`head = 0`, `tail = 1`, the other slots
untouched), for which exactly one control write has been issued. -/
theorem hardware_break (w : World) (hlen : w.prot.c_queue.length = C_QUEUE_LEN) :
    ∃ w2, step (.port_event .BREAK_DETECTED) w = some w2 ∧
      w2.prot = { (reset_mcsaab w).prot with
                  c_queue := w.prot.c_queue.set 0 SKIP, tail := 1 } ∧
      (w2.prot.main_state = INIT ∧ w2.prot.flags = 0 ∧
        w2.prot.send_msg_id = 0 ∧ w2.prot.rcv_msg_id = 0 ∧
        w2.prot.tx_queue = [] ∧ w2.prot.rx_queue = [] ∧
        w2.prot.boot_wd = false ∧ w2.prot.tx_wd = false ∧ w2.prot.rx_wd = false) ∧
      (w2.prot.head = 0 ∧ w2.prot.tail = 1 ∧
        (C_QUEUE_LEN + w2.prot.tail - w2.prot.head) % C_QUEUE_LEN = 1 ∧
        slot w2 0 = 0xf0030006 ∧ ∀ i, i ≠ 0 → slot w2 i = slot w i) ∧
      Effect.ssi_ioctl .WAKE_UP ∈ new_effects w w2 ∧
      c_writes (new_effects w w2) = [0xf0030006] ∧
      new_effects w w2 =
        [.ssi_ioctl .WAKE, .ssi_ioctl .CAWAKE] ++ reset_calls w.prot ++
          [.ssi_ioctl .WAKE_UP, .ssi_write_c 0xf0030006] := by
  obtain ⟨q0, q1, q2, q3, hq⟩ := length_four _ hlen
  have hw2 : port_event_cb .BREAK_DETECTED w =
      { prot := { w.prot with
                  main_state := INIT, send_msg_id := 0, rcv_msg_id := 0,
                  send_state := RECV_READY, recv_state := SEND_READY, flags := 0,
                  head := 0, tail := 1, boot_wd := false, rx_wd := false, tx_wd := false,
                  tx_queue := [], rx_queue := [], c_queue := [0xf0030006, q1, q2, q3] },
        netdev := w.netdev,
        trace := w.trace ++ ([.ssi_ioctl .WAKE, .ssi_ioctl .CAWAKE] ++ reset_calls w.prot ++
          [.ssi_ioctl .WAKE_UP, .ssi_write_c 0xf0030006]) } := by
    simp [port_event_cb, mcsaab_watchdog_dump, reset_mcsaab_eq, send_c_msg, upd, emit, hq,
      reset_calls, C_QUEUE_LEN, SKIP]
  have hn := new_effects_append w (port_event_cb .BREAK_DETECTED w) _ (by rw [hw2])
  refine ⟨_, rfl, ?_, ?_, ?_, ?_, ?_, hn⟩
  · rw [hw2, reset_mcsaab_prot, hq]
    simp [SKIP]
  · rw [hw2]
    simp
  · rw [hw2]
    refine ⟨rfl, rfl, ?_, rfl, ?_⟩
    · simp [C_QUEUE_LEN]
    intro i hi
    cases i with
    | zero => exact absurd rfl hi
    | succ n => simp [slot, hq]
  · rw [hn]
    simp
  · rw [hn]
    simp only [c_writes_append, c_writes_reset_calls]
    simp [c_writes]

/-- C20, at a break detected while the engine is sending its only packet: the
packet is freed, the engine is back in `INIT` and `0xf0030006` is the one word
written. -/
theorem hardware_break_witness :
    ∃ w2, step (.port_event .BREAK_DETECTED) engine_sending = some w2 ∧
      w2.prot.main_state = INIT ∧ w2.prot.tx_queue = [] ∧
      w2.prot.head = 0 ∧ w2.prot.tail = 1 ∧ slot w2 0 = 0xf0030006 ∧
      c_writes (new_effects engine_sending w2) = [0xf0030006] := by
  obtain ⟨w2, e, _, h1, h2, _, hw, _⟩ := hardware_break engine_sending rfl
  exact ⟨w2, e, h1.1, h1.2.2.2.2.1, h2.1, h2.2.1, h2.2.2.2.1, hw⟩

/-- C21, amended: a rising edge of the peer's wake line in `ACTIVE`: with
`READY_SENT` set the event only clears `READY_SENT` (nothing is called, no other
field changes); with `READY_SENT` clear it sets `READY_SENT`, takes the clock
(`CLK_ENABLE` set, the clock requested when it was not held), arms the RX
watchdog and hands `READY` (the word `0x50000000`) to `send_c_msg`, which
stores it at `tail` when the four-slot control queue holds fewer than three
words (and writes it at once when the queue is empty) and drops it, leaving
the queue as it was and writing nothing, when it holds three.  A second rising
edge right after that one calls nothing, leaves the control queue as it is and
clears `READY_SENT`: the two edges enqueue one `READY` when the queue has room
and none when it is full. -/
theorem wake_up_active (w : World) (hs : w.prot.main_state = ACTIVE) :
    (w.prot.flags &&& READY_SENT ≠ 0 →
      step (.port_event .CAWAKE_UP) w =
        some { w with prot := { w.prot with flags := w.prot.flags &&& bnot32 READY_SENT } } ∧
      (w.prot.flags &&& bnot32 READY_SENT) &&& READY_SENT = 0 ∧
      (w.prot.flags &&& bnot32 READY_SENT) &&& CLK_ENABLE = w.prot.flags &&& CLK_ENABLE) ∧
    (w.prot.flags &&& READY_SENT = 0 →
      ∃ w2, step (.port_event .CAWAKE_UP) w = some w2 ∧
        w2 = mod_timer .rx_wd (send_c_msg READY_CMD (mcsaab_clk_enable
              (upd (fun p => { p with flags := p.flags ||| READY_SENT }) w))) ∧
        READY_CMD = 0x50000000 ∧
        w2.prot.flags &&& READY_SENT ≠ 0 ∧ w2.prot.flags &&& CLK_ENABLE ≠ 0 ∧
        w2.prot.rx_wd = true ∧ w2.prot.main_state = ACTIVE ∧
        (w.prot.c_queue.length = C_QUEUE_LEN → w.prot.head < C_QUEUE_LEN →
          w.prot.tail < C_QUEUE_LEN →
          (C_QUEUE_LEN + w.prot.tail - w.prot.head) % C_QUEUE_LEN < C_QUEUE_LEN - 1 →
          slot w2 w.prot.tail = 0x50000000 ∧
          (∀ i, i ≠ w.prot.tail → slot w2 i = slot w i) ∧
          w2.prot.tail = (w.prot.tail + 1) % C_QUEUE_LEN ∧
          new_effects w w2 =
            (if w.prot.flags &&& CLK_ENABLE = 0 then [Effect.clk_enable] else []) ++
            (if w.prot.head = w.prot.tail then [Effect.ssi_write_c 0x50000000] else []) ++
            [.mod_timer .rx_wd]) ∧
        (C_QUEUE_LEN - 1 ≤ (C_QUEUE_LEN + w.prot.tail - w.prot.head) % C_QUEUE_LEN →
          w2.prot.c_queue = w.prot.c_queue ∧ w2.prot.tail = w.prot.tail ∧
          w2.prot.head = w.prot.head ∧
          new_effects w w2 =
            (if w.prot.flags &&& CLK_ENABLE = 0 then [Effect.clk_enable] else []) ++
            [.mod_timer .rx_wd] ∧
          c_writes (new_effects w w2) = []) ∧
        ∃ w3, step (.port_event .CAWAKE_UP) w2 = some w3 ∧
          w3 = { w2 with prot := { w2.prot with flags := w2.prot.flags &&& bnot32 READY_SENT } } ∧
          new_effects w2 w3 = [] ∧ w3.prot.flags &&& READY_SENT = 0 ∧
          c_writes (new_effects w w3) = c_writes (new_effects w w2)) := by
  have hclear : ∀ x : Nat, (x &&& bnot32 READY_SENT) &&& READY_SENT = 0 := fun x => by
    rw [and_bnot_and]; exact Nat.and_zero x
  have hset : ∀ v : World, v.prot.main_state = ACTIVE → v.prot.flags &&& READY_SENT ≠ 0 →
      step (.port_event .CAWAKE_UP) v =
        some { v with prot := { v.prot with flags := v.prot.flags &&& bnot32 READY_SENT } } := by
    intro v hv hf
    show some (wake_up_event v) = _
    unfold wake_up_event
    rw [if_neg (by rw [hv]; decide), if_neg (by rw [hv]; decide), if_pos hv, if_pos hf]
    rfl
  refine ⟨fun hf => ⟨hset w hs hf, hclear _, ?_⟩, fun hf => ?_⟩
  · rw [and_bnot_and]; rfl
  · have e : step (.port_event .CAWAKE_UP) w =
        some (mod_timer .rx_wd (send_c_msg READY_CMD (mcsaab_clk_enable
          (upd (fun p => { p with flags := p.flags ||| READY_SENT }) w)))) := by
      show some (wake_up_event w) = _
      unfold wake_up_event
      rw [if_neg (by rw [hs]; decide), if_neg (by rw [hs]; decide), if_pos hs,
        if_neg (not_not.mpr hf)]
    have hw1 : (upd (fun p => { p with flags := p.flags ||| READY_SENT }) w).prot.flags =
        w.prot.flags ||| READY_SENT := rfl
    have hw1c : (upd (fun p => { p with flags := p.flags ||| READY_SENT }) w).prot.flags
        &&& CLK_ENABLE = w.prot.flags &&& CLK_ENABLE := by
      rw [hw1]; exact or_and_disjoint _ _ _ (by decide)
    obtain ⟨hE1, hE2⟩ := mcsaab_clk_enable_flags
      (upd (fun p => { p with flags := p.flags ||| READY_SENT }) w)
    have hEeq := mcsaab_clk_enable_eq
      (upd (fun p => { p with flags := p.flags ||| READY_SENT }) w)
    rw [hw1c] at hEeq
    have hEm : (mcsaab_clk_enable
        (upd (fun p => { p with flags := p.flags ||| READY_SENT }) w)).prot.main_state = ACTIVE := by
      rw [hEeq]; exact hs
    have hEt : (mcsaab_clk_enable
        (upd (fun p => { p with flags := p.flags ||| READY_SENT }) w)).trace =
        w.trace ++ if w.prot.flags &&& CLK_ENABLE = 0 then [Effect.clk_enable] else [] := by
      rw [hEeq]; rfl
    have hEq : (mcsaab_clk_enable
        (upd (fun p => { p with flags := p.flags ||| READY_SENT }) w)).prot.c_queue =
        w.prot.c_queue ∧ (mcsaab_clk_enable
        (upd (fun p => { p with flags := p.flags ||| READY_SENT }) w)).prot.head = w.prot.head ∧
        (mcsaab_clk_enable
        (upd (fun p => { p with flags := p.flags ||| READY_SENT }) w)).prot.tail = w.prot.tail := by
      rw [hEeq]; exact ⟨rfl, rfl, rfl⟩
    have hEr : (mcsaab_clk_enable
        (upd (fun p => { p with flags := p.flags ||| READY_SENT }) w)).prot.flags
        &&& READY_SENT ≠ 0 := by
      rw [hE2 READY_SENT (by decide), hw1, or_and_self]; decide
    clear hEeq hw1c hw1
    generalize mcsaab_clk_enable
      (upd (fun p => { p with flags := p.flags ||| READY_SENT }) w) = v at e hE1 hEm hEt hEq hEr
    obtain ⟨k1, k2, -, -, -, -, k7, k8, -⟩ := send_c_msg_keeps READY_CMD v
    have f2 : (mod_timer .rx_wd (send_c_msg READY_CMD v)).prot.flags = v.prot.flags := k7
    have m2 : (mod_timer .rx_wd (send_c_msg READY_CMD v)).prot.main_state = ACTIVE :=
      k1.trans hEm
    have r2 : (mod_timer .rx_wd (send_c_msg READY_CMD v)).prot.flags &&& READY_SENT ≠ 0 := by
      rw [f2]; exact hEr
    refine ⟨_, e, rfl, ready_word, r2, by rw [f2]; exact hE1, rfl, m2, ?_, ?_, ?_⟩
    · intro hlen hh ht hroom
      obtain ⟨q1, q2, q3⟩ := hEq
      rw [← q1] at hlen
      rw [← q2] at hh
      rw [← q3] at ht
      rw [← q3, ← q2] at hroom
      obtain ⟨s1, s2, s3⟩ := send_c_msg_room READY_CMD v hlen hh ht hroom
      rw [q3] at s2 s3
      refine ⟨?_, ?_, ?_, ?_⟩
      · show slot (send_c_msg READY_CMD v) w.prot.tail = _
        rw [s2]; exact ready_word
      · intro i hi
        show slot (send_c_msg READY_CMD v) i = _
        rw [s3 i hi]; unfold slot; rw [q1]
      · show (send_c_msg READY_CMD v).prot.tail = _
        rw [s1]; show (v.prot.tail + 1) % C_QUEUE_LEN = _; rw [q3]
      · apply new_effects_append
        rw [mod_timer_trace, s1]
        show (v.trace ++ _) ++ _ = _
        rw [hEt, q2, q3, ready_word]
        simp only [List.append_assoc]
    · intro hfull
      obtain ⟨q1, q2, q3⟩ := hEq
      rw [← q3, ← q2] at hfull
      have D := send_c_msg_drop READY_CMD v hfull
      have hn : new_effects w (mod_timer .rx_wd (send_c_msg READY_CMD v)) =
          (if w.prot.flags &&& CLK_ENABLE = 0 then [Effect.clk_enable] else []) ++
          [.mod_timer .rx_wd] := by
        apply new_effects_append
        rw [mod_timer_trace, D, hEt]
        simp only [List.append_assoc]
      refine ⟨?_, ?_, ?_, hn, ?_⟩
      · rw [D]; exact q1
      · rw [D]; exact q3
      · rw [D]; exact q2
      · rw [hn]
        split_ifs <;> rfl
    · refine ⟨_, hset _ m2 r2, rfl, ?_, hclear _, ?_⟩
      · unfold new_effects; simp
      · rfl

/-- C21, at two rising edges on the engine at rest: one `READY` is written and
`READY_SENT` ends clear. -/
theorem wake_up_active_witness :
    engine_active.prot.main_state = ACTIVE ∧ engine_active.prot.flags &&& READY_SENT = 0 ∧
    ∃ w2 w3, step (.port_event .CAWAKE_UP) engine_active = some w2 ∧
      step (.port_event .CAWAKE_UP) w2 = some w3 ∧
      new_effects engine_active w2 =
        [.clk_enable, .ssi_write_c 0x50000000, .mod_timer .rx_wd] ∧
      c_writes (new_effects engine_active w3) = [0x50000000] ∧
      w3.prot.flags &&& READY_SENT = 0 := by
  refine ⟨rfl, by decide, ?_⟩
  obtain ⟨w2, e2, -, -, -, -, -, -, hroom, -, w3, e3, -, -, h3, hw⟩ :=
    (wake_up_active engine_active rfl).2 (by decide)
  obtain ⟨-, -, -, ht⟩ := hroom rfl (by decide) (by decide) (by decide)
  refine ⟨w2, w3, e2, e3, ht, ?_, h3⟩
  rw [hw, ht]
  rfl

/-- C21, as stated, fails: the engine reached from construction by the
handshake and six rising edges of the peer's wake line is `ACTIVE` with
`READY_SENT` clear and three `READY` words held in its control queue.  The
next rising edge sets `READY_SENT`, holds the clock and arms the RX watchdog,
but `READY` is dropped: the control queue, `head` and `tail` are as before and
nothing is written.  The edge after it clears `READY_SENT`: the two edges have
sent no `READY`. -/
theorem wake_up_active_counterexample :
    Reachable engine_full_queue ∧
    engine_full_queue.prot.main_state = ACTIVE ∧
    engine_full_queue.prot.flags &&& READY_SENT = 0 ∧
    ∃ w2 w3, step (.port_event .CAWAKE_UP) engine_full_queue = some w2 ∧
      step (.port_event .CAWAKE_UP) w2 = some w3 ∧
      w2.prot.flags &&& READY_SENT ≠ 0 ∧ w2.prot.flags &&& CLK_ENABLE ≠ 0 ∧
      w2.prot.rx_wd = true ∧
      w2.prot.c_queue = engine_full_queue.prot.c_queue ∧
      w2.prot.tail = engine_full_queue.prot.tail ∧
      w2.prot.head = engine_full_queue.prot.head ∧
      new_effects engine_full_queue w2 = [.mod_timer .rx_wd] ∧
      w3.prot.flags &&& READY_SENT = 0 ∧
      w3.prot.c_queue = engine_full_queue.prot.c_queue ∧
      w3.prot.tail = engine_full_queue.prot.tail ∧
      new_effects engine_full_queue w3 = [.mod_timer .rx_wd] ∧
      c_writes (new_effects engine_full_queue w3) = [] :=
  ⟨⟨calls_full_queue, by decide⟩, by decide, by decide,
    _, _, rfl, rfl, by decide, by decide, by decide, by decide, by decide, by decide,
    by decide, by decide, by decide, by decide, by decide, by decide⟩

/-- C22: the wake-line down test runs once per handshake.  A falling edge
of the peer's wake line in `HANDSHAKE` with `WAKEDOWN_TEST` clear lowers the
local wake line (`SSI_IOCTL_WAKE_DOWN`) and sets the flag, and a further falling
edge right after it changes nothing; with the flag set a falling edge changes
nothing; in `INIT` and in `ACTIVE` a falling edge changes nothing.  A rising
edge in `HANDSHAKE` raises the local wake line (`SSI_IOCTL_WAKE_UP`) when the
flag is set and changes nothing when it is clear; in `INIT` it always raises
the line. -/
theorem wake_down_test (w : World) :
    (w.prot.main_state = HANDSHAKE → w.prot.flags &&& WAKEDOWN_TEST = 0 →
      ∃ w2, step (.port_event .CAWAKE_DOWN) w = some w2 ∧
        w2 = { w with prot := { w.prot with flags := w.prot.flags ||| WAKEDOWN_TEST },
                      trace := w.trace ++ [.ssi_ioctl .WAKE_DOWN] } ∧
        w2.prot.flags &&& WAKEDOWN_TEST ≠ 0 ∧
        step (.port_event .CAWAKE_DOWN) w2 = some w2 ∧
        step (.port_event .CAWAKE_UP) w2 = some (emit (.ssi_ioctl .WAKE_UP) w2)) ∧
    (w.prot.main_state = HANDSHAKE → w.prot.flags &&& WAKEDOWN_TEST ≠ 0 →
      step (.port_event .CAWAKE_DOWN) w = some w ∧
      step (.port_event .CAWAKE_UP) w = some (emit (.ssi_ioctl .WAKE_UP) w)) ∧
    (w.prot.main_state = INIT ∨ w.prot.main_state = ACTIVE →
      step (.port_event .CAWAKE_DOWN) w = some w) ∧
    (w.prot.main_state = HANDSHAKE → w.prot.flags &&& WAKEDOWN_TEST = 0 →
      step (.port_event .CAWAKE_UP) w = some w) ∧
    (w.prot.main_state = INIT →
      step (.port_event .CAWAKE_UP) w = some (emit (.ssi_ioctl .WAKE_UP) w)) := by
  have hdown : ∀ v : World, v.prot.main_state = HANDSHAKE → v.prot.flags &&& WAKEDOWN_TEST ≠ 0 →
      step (.port_event .CAWAKE_DOWN) v = some v := by
    intro v hv hf
    show some (wake_down_event v) = _
    unfold wake_down_event
    rw [if_neg (by rw [hv]; decide), if_pos hv, if_neg hf]
  have hup : ∀ v : World, v.prot.main_state = HANDSHAKE → v.prot.flags &&& WAKEDOWN_TEST ≠ 0 →
      step (.port_event .CAWAKE_UP) v = some (emit (.ssi_ioctl .WAKE_UP) v) := by
    intro v hv hf
    show some (wake_up_event v) = _
    unfold wake_up_event
    rw [if_neg (by rw [hv]; decide), if_pos hv, if_pos hf]
  refine ⟨fun hs hf => ?_, fun hs hf => ⟨hdown w hs hf, hup w hs hf⟩, fun hs => ?_,
    fun hs hf => ?_, fun hs => ?_⟩
  · have e : step (.port_event .CAWAKE_DOWN) w =
        some { w with prot := { w.prot with flags := w.prot.flags ||| WAKEDOWN_TEST },
                      trace := w.trace ++ [.ssi_ioctl .WAKE_DOWN] } := by
      show some (wake_down_event w) = _
      unfold wake_down_event
      rw [if_neg (by rw [hs]; decide), if_pos hs, if_pos hf]
      rfl
    have hset : (w.prot.flags ||| WAKEDOWN_TEST) &&& WAKEDOWN_TEST ≠ 0 := by
      rw [or_and_self]; decide
    exact ⟨_, e, rfl, hset, hdown _ hs hset, hup _ hs hset⟩
  · show some (wake_down_event w) = _
    unfold wake_down_event
    rcases hs with hs | hs
    · rw [if_pos hs]
    · rw [if_neg (by rw [hs]; decide), if_neg (by rw [hs]; decide)]
  · show some (wake_up_event w) = _
    unfold wake_up_event
    rw [if_neg (by rw [hs]; decide), if_pos hs, if_neg (not_not.mpr hf)]
  · show some (wake_up_event w) = _
    unfold wake_up_event
    rw [if_pos hs]

/-- C22, at an engine in `HANDSHAKE`: the first falling edge lowers the local
wake line, the second does nothing. -/
theorem wake_down_test_witness :
    engine_handshake.prot.main_state = HANDSHAKE ∧
    engine_handshake.prot.flags &&& WAKEDOWN_TEST = 0 ∧
    ∃ w2, step (.port_event .CAWAKE_DOWN) engine_handshake = some w2 ∧
      new_effects engine_handshake w2 = [.ssi_ioctl .WAKE_DOWN] ∧
      w2.prot.flags = CLK_ENABLE ||| WAKEDOWN_TEST ∧
      step (.port_event .CAWAKE_DOWN) w2 = some w2 := by
  refine ⟨rfl, by decide, ?_⟩
  obtain ⟨w2, e, h2, -, e2, -⟩ := (wake_down_test engine_handshake).1 rfl (by decide)
  refine ⟨w2, e, ?_, ?_, e2⟩
  · rw [h2]; decide
  · rw [h2]; rfl

/-- C23: the post-processing of a received buffer by `ssi_pn_rx` while the
interface is running.  A buffer of `n ≥ 6` bytes is counted as received
(`rx_packets` plus one, `rx_bytes` plus `n`, the error counters as before) and
handed to `netif_rx` with the bytes at offsets 4 and 5 exchanged and the first
byte removed: the packet delivered has `n - 1` bytes, the old bytes 5 and 4 at
its offsets 3 and 4, every other byte moved down by one, and the protocol
`htons(ETH_P_PHONET)`.  A buffer of less than 6 bytes is freed and counted as a
receive error and a receive length error (`rx_errors` and `rx_length_errors`
plus one each, `rx_packets` and `rx_bytes` as before), and nothing is handed to
`netif_rx`.  The engine state is the same in both cases. -/
theorem ssi_pn_rx_post (skb : sk_buff) (w : World) :
    (6 ≤ skb.len →
      ∃ p : sk_buff,
        ssi_pn_rx skb true w =
          emit (.netif_rx p)
            (updStats (fun s => { s with rx_packets := s.rx_packets + 1,
                                         rx_bytes := s.rx_bytes + skb.len }) w) ∧
        new_effects w (ssi_pn_rx skb true w) = [.netif_rx p] ∧
        p.len = skb.len - 1 ∧
        p.protocol = htons ETH_P_PHONET ∧ htons ETH_P_PHONET = 0xF500 ∧
        p.data.getD 3 0 = skb.data.getD 5 0 ∧
        p.data.getD 4 0 = skb.data.getD 4 0 ∧
        (∀ i, i ≠ 3 → i ≠ 4 → p.data.getD i 0 = skb.data.getD (i + 1) 0) ∧
        (ssi_pn_rx skb true w).netdev.stats =
          { w.netdev.stats with rx_packets := w.netdev.stats.rx_packets + 1,
                                rx_bytes := w.netdev.stats.rx_bytes + skb.len } ∧
        (ssi_pn_rx skb true w).netdev.stats.rx_packets = w.netdev.stats.rx_packets + 1 ∧
        (ssi_pn_rx skb true w).netdev.stats.rx_bytes = w.netdev.stats.rx_bytes + skb.len ∧
        (ssi_pn_rx skb true w).netdev.stats.rx_errors = w.netdev.stats.rx_errors ∧
        (ssi_pn_rx skb true w).netdev.stats.rx_length_errors =
          w.netdev.stats.rx_length_errors ∧
        (ssi_pn_rx skb true w).netdev.stats.rx_dropped = w.netdev.stats.rx_dropped) ∧
    (skb.len < 6 →
      ssi_pn_rx skb true w =
        emit (.dev_kfree_skb skb)
          (updStats (fun s => { s with rx_errors := s.rx_errors + 1,
                                       rx_length_errors := s.rx_length_errors + 1 }) w) ∧
      new_effects w (ssi_pn_rx skb true w) = [.dev_kfree_skb skb] ∧
      (∀ p, Effect.netif_rx p ∉ new_effects w (ssi_pn_rx skb true w)) ∧
      (ssi_pn_rx skb true w).netdev.stats =
        { w.netdev.stats with rx_errors := w.netdev.stats.rx_errors + 1,
                              rx_length_errors := w.netdev.stats.rx_length_errors + 1 } ∧
      (ssi_pn_rx skb true w).netdev.stats.rx_errors = w.netdev.stats.rx_errors + 1 ∧
      (ssi_pn_rx skb true w).netdev.stats.rx_length_errors =
        w.netdev.stats.rx_length_errors + 1 ∧
      (ssi_pn_rx skb true w).netdev.stats.rx_packets = w.netdev.stats.rx_packets ∧
      (ssi_pn_rx skb true w).netdev.stats.rx_bytes = w.netdev.stats.rx_bytes ∧
      (ssi_pn_rx skb true w).netdev.stats.rx_dropped = w.netdev.stats.rx_dropped) ∧
    (ssi_pn_rx skb true w).prot = w.prot := by
  refine ⟨fun h => ?_, fun h => ?_, ssi_pn_rx_prot _ _ _⟩
  · have hl : 6 ≤ skb.data.length := h
    obtain ⟨d1, d2, d3, d4⟩ := swap45_drop skb.data hl
    have e : ssi_pn_rx skb true w =
        emit (.netif_rx { data := (swap45 skb.data).drop 1, protocol := htons ETH_P_PHONET })
          (updStats (fun s => { s with rx_packets := s.rx_packets + 1,
                                       rx_bytes := s.rx_bytes + skb.len }) w) := by
      unfold ssi_pn_rx
      have h6 : ¬ skb.len < 6 := by omega
      simp [h6, h]
    refine ⟨_, e, ssi_pn_rx_deliver skb w h, d1, rfl, by decide, d2, d3, d4, ?_, ?_, ?_, ?_, ?_,
      ?_⟩ <;> rw [e] <;> rfl
  · have e : ssi_pn_rx skb true w =
        emit (.dev_kfree_skb skb)
          (updStats (fun s => { s with rx_errors := s.rx_errors + 1,
                                       rx_length_errors := s.rx_length_errors + 1 }) w) := by
      unfold ssi_pn_rx
      simp [h]
    have hn : new_effects w (ssi_pn_rx skb true w) = [.dev_kfree_skb skb] := by
      rw [e]; exact new_effects_append _ _ _ rfl
    refine ⟨e, hn, fun p => by rw [hn]; simp, ?_, ?_, ?_, ?_, ?_, ?_⟩ <;> rw [e] <;> rfl

/-- C23, at two buffers received by the engine at rest, whose counters are
zero: the packet of seven bytes `1 … 7` is delivered as the six bytes
`2, 3, 4, 6, 5, 7` and counted as one packet of seven bytes; a packet of four
bytes is freed, counted as one receive error and one length error, and not
delivered. -/
theorem ssi_pn_rx_post_witness :
    new_effects engine_active (ssi_pn_rx phonet_packet7 true engine_active) =
      [.netif_rx { data := [2, 3, 4, 6, 5, 7], protocol := 0xF500 }] ∧
    (ssi_pn_rx phonet_packet7 true engine_active).netdev.stats.rx_packets = 1 ∧
    (ssi_pn_rx phonet_packet7 true engine_active).netdev.stats.rx_bytes = 7 ∧
    new_effects engine_active (ssi_pn_rx phonet_packet true engine_active) =
      [.dev_kfree_skb phonet_packet] ∧
    (ssi_pn_rx phonet_packet true engine_active).netdev.stats.rx_errors = 1 ∧
    (ssi_pn_rx phonet_packet true engine_active).netdev.stats.rx_length_errors = 1 ∧
    (ssi_pn_rx phonet_packet true engine_active).netdev.stats.rx_packets = 0 := by
  have h2 := (ssi_pn_rx_post phonet_packet engine_active).2.1 (by decide)
  exact ⟨by decide, by decide, by decide, h2.2.1, by decide, by decide, by decide⟩

/-- C24: control words that arrive out of sequence, and words with an
unsupported command, are dropped.  `SW_BREAK` or `START_TRANSFER` outside
`ACTIVE`, `BOOT_INFO_RESP` outside `INIT`, `WAKE_TEST_RESULT` outside
`HANDSHAKE`, an `ACK` of a command other than `FQ_CHANGE_REQ` or outside
`HANDSHAKE`, `DUMMY`, and every command outside the handled set: the handler
returns the world it got, so that the callback only stores the word received
in `rcv_c_msg` and issues the next control read.  No other field changes,
nothing is written and nothing is reset.  `SW_BREAK` in `ACTIVE` releases the
clock when it is held and clears `CLK_ENABLE`, and changes nothing else. -/
theorem ignored_commands (w : World) (msg : Nat) (alloc_ok : Bool) :
    ((COMMAND msg = SW_BREAK ∧ w.prot.main_state ≠ ACTIVE) ∨
      (COMMAND msg = START_TRANS ∧ w.prot.main_state ≠ ACTIVE) ∨
      (COMMAND msg = BOOT_INFO_RESP ∧ w.prot.main_state ≠ INIT) ∨
      (COMMAND msg = WAKE_TEST_RES ∧ w.prot.main_state ≠ HANDSHAKE) ∨
      (COMMAND msg = ACK ∧
        (ACK_TO_CMD msg % 256 ≠ FQ_CHANGE_REQ ∨ w.prot.main_state ≠ HANDSHAKE)) ∨
      COMMAND msg = DUMMY ∨
      COMMAND msg ∉ [SW_BREAK, BOOT_INFO_REQ, BOOT_INFO_RESP, WAKE_TEST_RES, START_TRANS,
        READY, ACK, DUMMY] →
      step (.c_rcv_done msg alloc_ok) w = some (rcvd msg w)) ∧
    (rcvd msg w).prot = { w.prot with rcv_c_msg := msg } ∧
    (rcvd msg w).netdev = w.netdev ∧
    new_effects w (rcvd msg w) = [.ssi_read_c] ∧
    (w.prot.main_state ≠ ACTIVE → swbreak_h w = w ∧ start_trans_h msg alloc_ok w = w) ∧
    (w.prot.main_state ≠ INIT → boot_info_resp_h msg w = w) ∧
    (w.prot.main_state ≠ HANDSHAKE → wakelines_test_result_h msg w = w) ∧
    (ACK_TO_CMD msg % 256 ≠ FQ_CHANGE_REQ ∨ w.prot.main_state ≠ HANDSHAKE →
      ack_to_cmd_h msg w = w) ∧
    (COMMAND msg = SW_BREAK → w.prot.main_state = ACTIVE →
      ∃ w2, step (.c_rcv_done msg alloc_ok) w = some w2 ∧
        w2.prot = { w.prot with
                    rcv_c_msg := msg,
                    flags := if w.prot.flags &&& CLK_ENABLE ≠ 0
                             then w.prot.flags &&& bnot32 CLK_ENABLE else w.prot.flags } ∧
        w2.prot.flags &&& CLK_ENABLE = 0 ∧
        (∀ k, k &&& CLK_ENABLE = 0 → k < U32 → w2.prot.flags &&& k = w.prot.flags &&& k) ∧
        w2.netdev = w.netdev ∧
        new_effects w w2 =
          .ssi_read_c :: if w.prot.flags &&& CLK_ENABLE ≠ 0 then [.clk_disable] else []) := by
  have hsw : ∀ v : World, v.prot.main_state ≠ ACTIVE → swbreak_h v = v := fun v hv => by
    unfold swbreak_h; rw [if_pos hv]
  have hst : ∀ v : World, v.prot.main_state ≠ ACTIVE → start_trans_h msg alloc_ok v = v :=
    fun v hv => by unfold start_trans_h; simp only []; rw [if_pos hv]
  have hbr : ∀ v : World, v.prot.main_state ≠ INIT → boot_info_resp_h msg v = v :=
    fun v hv => by unfold boot_info_resp_h; rw [if_pos hv]
  have hwt : ∀ v : World, v.prot.main_state ≠ HANDSHAKE → wakelines_test_result_h msg v = v :=
    fun v hv => by unfold wakelines_test_result_h; rw [if_pos hv]
  have hack : ∀ v : World, ACK_TO_CMD msg % 256 ≠ FQ_CHANGE_REQ ∨ v.prot.main_state ≠ HANDSHAKE →
      ack_to_cmd_h msg v = v := fun v hv => by
    unfold ack_to_cmd_h; simp only []
    rcases hv with hv | hv
    · rw [if_neg hv]
    · rw [if_neg hv]; simp
  refine ⟨?_, rfl, rfl, new_effects_append _ _ _ rfl, fun h => ⟨hsw w h, hst w h⟩, hbr w, hwt w,
    hack w, ?_⟩
  · intro h
    rw [step_c_rcv_done]
    rcases h with ⟨hc, hs⟩ | ⟨hc, hs⟩ | ⟨hc, hs⟩ | ⟨hc, hs⟩ | ⟨hc, hs⟩ | hc | hc
    · rw [if_pos hc, hsw (rcvd msg w) hs]
    · rw [hc, hst (rcvd msg w) hs]; rfl
    · rw [hc, hbr (rcvd msg w) hs]; rfl
    · rw [hc, hwt (rcvd msg w) hs]; rfl
    · rw [hc, hack (rcvd msg w) hs]; rfl
    · rw [hc]; rfl
    · simp only [List.mem_cons, List.mem_singleton, List.not_mem_nil, or_false, not_or] at hc
      obtain ⟨c0, c1, c2, c3, c4, c5, c10, -⟩ := hc
      rw [if_neg c0, if_neg c1, if_neg c2, if_neg c3, if_neg c4, if_neg c5, if_neg c10]
  · intro hc hs
    have e : step (.c_rcv_done msg alloc_ok) w = some (mcsaab_clk_disable (rcvd msg w)) := by
      rw [step_c_rcv_done, if_pos hc]
      have hs2 : (rcvd msg w).prot.main_state = ACTIVE := hs
      unfold swbreak_h
      rw [if_neg (not_not.mpr hs2)]
    obtain ⟨f1, f2⟩ := mcsaab_clk_disable_flags (rcvd msg w)
    refine ⟨_, e, ?_, f1, f2, ?_, ?_⟩
    · rw [mcsaab_clk_disable_eq]; rfl
    · rw [mcsaab_clk_disable_eq]; rfl
    · apply new_effects_append
      rw [mcsaab_clk_disable_eq]
      show (w.trace ++ [Effect.ssi_read_c]) ++ _ = _
      rw [List.append_assoc]; rfl

/-- C24, at an engine in `HANDSHAKE`: a `START_TRANSFER` and a word with the
unsupported command 7 only re-issue the control read. -/
theorem ignored_commands_witness :
    new_effects engine_handshake_bound (rcvd 0x40000100 engine_handshake_bound) = [.ssi_read_c] ∧
    step (.c_rcv_done 0x40000100 true) engine_handshake_bound =
      some (rcvd 0x40000100 engine_handshake_bound) ∧
    step (.c_rcv_done 0x70000000 true) engine_handshake_bound =
      some (rcvd 0x70000000 engine_handshake_bound) :=
  ⟨by decide,
   (ignored_commands engine_handshake_bound 0x40000100 true).1
     (Or.inr (Or.inl ⟨by decide, by decide⟩)),
   (ignored_commands engine_handshake_bound 0x70000000 true).1
     (Or.inr (Or.inr (Or.inr (Or.inr (Or.inr (Or.inr (by decide)))))))⟩

/-- C25: a control write completion that arrives right after a reset, when
the control queue is empty (`head = tail = 0`) and the write it belongs to has
been cancelled, is not ignored: `c_send_done_cb` has no test for an empty queue,
it advances `head` to 1 and, `tail` being different from `head` now, writes the
stale word of slot 1 on the control channel.  The queue then counts three
words, so that `send_c_msg` drops every word it is given. -/
theorem late_completion_after_reset (w : World) (acwake : Nat) :
    (reset_mcsaab w).prot.head = (reset_mcsaab w).prot.tail ∧
    ∃ w2, step (.c_send_done acwake) (reset_mcsaab w) = some w2 ∧
      w2.prot = { (reset_mcsaab w).prot with head := 1 } ∧
      w2.prot.head ≠ w2.prot.tail ∧
      new_effects (reset_mcsaab w) w2 = [.ssi_write_c (slot w 1)] ∧
      ∀ c_msg, send_c_msg c_msg w2 = w2 := by
  have hp := reset_mcsaab_prot w
  generalize reset_mcsaab w = r at hp
  have hs : r.prot.send_state = RECV_READY := by rw [hp]
  have hm : r.prot.main_state = INIT := by rw [hp]
  have hh : r.prot.head = 0 := by rw [hp]
  have ht : r.prot.tail = 0 := by rw [hp]
  have hq : r.prot.c_queue = w.prot.c_queue := by rw [hp]
  have e1 : c_send_handle acwake r = some r := by
    unfold c_send_handle
    simp only []
    rw [if_neg (by rw [hs]; rintro ⟨-, h⟩; exact absurd h (by decide)),
      if_neg (by rw [hs]; rintro ⟨-, h⟩; exact absurd h (by decide)),
      if_neg (by rw [hm]; rintro ⟨-, h⟩; exact absurd h (by decide))]
  have e2 : c_send_next r =
      { r with prot := { r.prot with head := 1 },
               trace := r.trace ++ [.ssi_write_c (slot w 1)] } := by
    unfold c_send_next
    simp only [upd, emit, hh, ht, slot, hq]
    rfl
  have e : step (.c_send_done acwake) r =
      some { r with prot := { r.prot with head := 1 },
                    trace := r.trace ++ [.ssi_write_c (slot w 1)] } := by
    show c_send_done_cb acwake r = _
    rw [c_send_done_cb_eq, e1, Option.map_some', e2]
  refine ⟨by rw [hh, ht], _, e, rfl, ?_, new_effects_append _ _ _ rfl, fun c_msg => ?_⟩
  · show (1 : Nat) ≠ r.prot.tail
    rw [ht]; decide
  · rw [send_c_msg_eq]
    show (if 3 ≤ (4 + r.prot.tail - 1) % 4 then _ else _) = _
    rw [ht]
    rfl

/-- C26: `ACTIVE` is entered only at the completion of `FQ_CHANGE_DONE`.
In every reachable world the engine is online (`CMT_ONLINE` set) only in
`ACTIVE`; an event that takes the main state from a value other than `ACTIVE`
to `ACTIVE` is a control write completion, the word at `head` is
`FQ_CHANGE_DONE`, the main state was `HANDSHAKE`, and after the step the
wake-line test flag is clear, `CMT_ONLINE` is set and carrier-up has been
reported; a packet submission leaves the main state as it is; and neither a
probe nor a removal enters `ACTIVE`. -/
theorem active_entry (w : World) (hw : Reachable w) :
    (w.prot.flags &&& CMT_ONLINE ≠ 0 → w.prot.main_state = ACTIVE) ∧
    (∀ e w2, step e w = some w2 → w.prot.main_state ≠ ACTIVE → w2.prot.main_state = ACTIVE →
      (∃ acwake, e = .c_send_done acwake) ∧
      COMMAND (slot w w.prot.head) = FQ_CHANGE_DONE ∧ w.prot.main_state = HANDSHAKE ∧
      w2.prot.flags &&& WAKEDOWN_TEST = 0 ∧ w2.prot.flags &&& CMT_ONLINE ≠ 0 ∧
      Effect.netif_carrier_on ∈ new_effects w w2) ∧
    (∀ skb acwake pad_ok cow_ok w2, step (.xmit skb acwake pad_ok cow_ok) w = some w2 →
      w2.prot.main_state = w.prot.main_state) ∧
    (∀ c w2, call c w = some w2 → w.prot.main_state ≠ ACTIVE → w2.prot.main_state = ACTIVE →
      ∃ acwake, c = .event (.c_send_done acwake)) := by
  have ho : OnlineActive w := (reachable_link w hw).1
  refine ⟨ho, fun e w2 h hn ha => ?_, fun skb acwake pad_ok cow_ok w2 h => ?_,
    fun c w2 h hn ha => ?_⟩
  · rcases keeps_step e w w2 ho h with k | ⟨a, hc, hs, -, ft, fo, co⟩
    · exact absurd ((keeps_spec k).2.2 ha) hn
    · exact ⟨a, hc, hs, ft, fo, co⟩
  · rcases ssi_pn_xmit_main_state skb acwake pad_ok cow_ok h with k | ⟨f, m⟩
    · exact k
    · rw [m, ho f]
  · rcases keeps_call c w w2 ho h with k | ⟨e, rfl, ⟨a, rfl⟩, -⟩
    · exact absurd ((keeps_spec k).2.2 ha) hn
    · exact ⟨a, rfl⟩

/-- C26, at the probed engine that has answered `BOOT_INFO_REQ` and received
the `ACK` of `FQ_CHANGE_REQ`: it is reachable and in `HANDSHAKE`, and the
completion of its `FQ_CHANGE_DONE` makes it `ACTIVE` and online and reports
carrier-up. -/
theorem active_entry_witness :
    ∃ w w2, Reachable w ∧ w.prot.main_state = HANDSHAKE ∧
      step (.c_send_done 0) w = some w2 ∧ w2.prot.main_state = ACTIVE ∧
      COMMAND (slot w w.prot.head) = FQ_CHANGE_DONE ∧
      w2.prot.flags &&& CMT_ONLINE ≠ 0 ∧ Effect.netif_carrier_on ∈ new_effects w w2 := by
  have hw : Reachable (send_c_msg FQ_CHANGE_DONE_CMD (rcvd 0xa0000008
      (c_send_next (boot_info_req_h 0x10000001 (rcvd 0x10000001 engine_probed))))) :=
    ⟨[.probe 0 0 0 0 0 0, .probe 3 0 0 0 0 0, .event (.c_rcv_done 0x10000001 true),
      .event (.c_send_done 0), .event (.c_rcv_done 0xa0000008 true)], by decide⟩
  have hm : (send_c_msg FQ_CHANGE_DONE_CMD (rcvd 0xa0000008
      (c_send_next (boot_info_req_h 0x10000001 (rcvd 0x10000001 engine_probed))))).prot.main_state
      = HANDSHAKE := by decide
  obtain ⟨w2, e2, m2, -⟩ := c_send_done_fq_done 0 _ (by decide) hm
  obtain ⟨-, hc, -, -, fo, co⟩ := (active_entry _ hw).2.1 (.c_send_done 0) w2 e2 (by rw [hm]; decide) m2
  exact ⟨_, w2, hw, hm, e2, m2, hc, fo, co⟩

/-- C27, as the code has it.  One event stores a `FQ_CHANGE_DONE` word in
the control queue only when it is an `ACK` of `FQ_CHANGE_REQ` received in
`HANDSHAKE`, and a `FQ_CHANGE_REQ` word only when it is a `WAKE_TEST_RESULT`
without the failure bit received in `HANDSHAKE`.  The `ACK` handler looks at
nothing else: in every world in `HANDSHAKE` an `ACK` of `FQ_CHANGE_REQ` hands
`FQ_CHANGE_DONE` (the word `0x90000000`) to `send_c_msg`, whether or not a
`WAKE_TEST_RESULT` has been received or `FQ_CHANGE_REQ` sent; `send_c_msg`
stores the word at `tail` when the four-slot control queue holds fewer than
three words, writing it at once when the queue is empty, and drops it when the
queue holds three, so that the event only receives the word.  The completion
of a control write in `HANDSHAKE` with a `FQ_CHANGE_DONE` word at `head` makes
the engine `ACTIVE` and online, disarms the boot watchdog and reports
carrier-up. -/
theorem fq_change_done_origin (e : Event) (w w2 : World) (h : step e w = some w2) :
    (∀ i, slot w2 i ≠ slot w i → COMMAND (slot w2 i) = FQ_CHANGE_DONE →
      ∃ msg b, e = .c_rcv_done msg b ∧ COMMAND msg = ACK ∧
        ACK_TO_CMD msg % 256 = FQ_CHANGE_REQ ∧ w.prot.main_state = HANDSHAKE) ∧
    (∀ i, slot w2 i ≠ slot w i → COMMAND (slot w2 i) = FQ_CHANGE_REQ →
      ∃ msg b, e = .c_rcv_done msg b ∧ COMMAND msg = WAKE_TEST_RES ∧
        PAYLOAD msg &&& WAKE_TEST_FAILED = 0 ∧ w.prot.main_state = HANDSHAKE) ∧
    (∀ msg b, e = .c_rcv_done msg b → COMMAND msg = ACK →
      ACK_TO_CMD msg % 256 = FQ_CHANGE_REQ → w.prot.main_state = HANDSHAKE →
      w2 = send_c_msg FQ_CHANGE_DONE_CMD (rcvd msg w) ∧ FQ_CHANGE_DONE_CMD = 0x90000000 ∧
      COMMAND 0x90000000 = FQ_CHANGE_DONE ∧ w2.prot.main_state = HANDSHAKE ∧
      (w.prot.c_queue.length = C_QUEUE_LEN → w.prot.head < C_QUEUE_LEN →
        w.prot.tail < C_QUEUE_LEN →
        (C_QUEUE_LEN + w.prot.tail - w.prot.head) % C_QUEUE_LEN < C_QUEUE_LEN - 1 →
        slot w2 w.prot.tail = 0x90000000 ∧
        (∀ i, i ≠ w.prot.tail → slot w2 i = slot w i) ∧
        w2.prot.tail = (w.prot.tail + 1) % C_QUEUE_LEN ∧ w2.prot.head = w.prot.head ∧
        new_effects w w2 =
          [.ssi_read_c] ++
            (if w.prot.head = w.prot.tail then [Effect.ssi_write_c 0x90000000] else [])) ∧
      (C_QUEUE_LEN - 1 ≤ (C_QUEUE_LEN + w.prot.tail - w.prot.head) % C_QUEUE_LEN →
        w2 = rcvd msg w ∧ w2.prot.c_queue = w.prot.c_queue ∧
        w2.prot.tail = w.prot.tail ∧ w2.prot.head = w.prot.head ∧
        new_effects w w2 = [.ssi_read_c] ∧ c_writes (new_effects w w2) = [])) ∧
    (∀ acwake, e = .c_send_done acwake → COMMAND (slot w w.prot.head) = FQ_CHANGE_DONE →
      w.prot.main_state = HANDSHAKE →
      w2.prot.main_state = ACTIVE ∧ w2.prot.flags &&& CMT_ONLINE ≠ 0 ∧
      w2.prot.boot_wd = false ∧ Effect.netif_carrier_on ∈ new_effects w w2) := by
  have cResp : COMMAND (BOOT_INFO_RESP_CMD LOCAL_D_VER_ID) = 2 := COMMAND_CMD _ _ (by decide)
  have cSw : COMMAND SWBREAK_CMD = 0 := COMMAND_CMD _ _ (by decide)
  have cReady : COMMAND READY_CMD = 5 := COMMAND_CMD _ _ (by decide)
  have cSkip : COMMAND SKIP = 15 := by rw [COMMAND_eq]; decide
  have cReq : ∀ s, COMMAND (FQ_CHANGE_REQ_CMD s) = 8 := fun s => COMMAND_CMD _ _ (by decide)
  have cDone : COMMAND FQ_CHANGE_DONE_CMD = 9 := COMMAND_CMD _ _ (by decide)
  have cStart : ∀ len id, COMMAND (START_TRANS_CMD len id) = 4 := COMMAND_START_TRANS_CMD
  refine ⟨fun i hne hc => ?_, fun i hne hc => ?_, fun msg b he hc ha hs => ?_,
    fun acwake he hc hs => ?_⟩
  · by_contra hno
    have key := slots_step (P := fun c => COMMAND c ≠ FQ_CHANGE_DONE) e w w2 h
      (by show _ ≠ _; rw [cResp]; decide) (fun len id => by show _ ≠ _; rw [cStart]; decide)
      (by show _ ≠ _; rw [cSw]; decide) (by show _ ≠ _; rw [cReady]; decide)
      (by show _ ≠ _; rw [cSkip]; decide)
      (Or.inl (by show _ ≠ _; rw [cReq]; decide))
      (Or.inr fun msg b he hc ⟨hs, ha⟩ => hno ⟨msg, b, he, hc, ha, hs⟩)
    rcases key i with k | k
    · exact hne k
    · exact k hc
  · by_contra hno
    have key := slots_step (P := fun c => COMMAND c ≠ FQ_CHANGE_REQ) e w w2 h
      (by show _ ≠ _; rw [cResp]; decide) (fun len id => by show _ ≠ _; rw [cStart]; decide)
      (by show _ ≠ _; rw [cSw]; decide) (by show _ ≠ _; rw [cReady]; decide)
      (by show _ ≠ _; rw [cSkip]; decide)
      (Or.inr fun msg b he hc ⟨hs, ha⟩ => hno ⟨msg, b, he, hc, ha, hs⟩)
      (Or.inl (by show _ ≠ _; rw [cDone]; decide))
    rcases key i with k | k
    · exact hne k
    · exact k hc
  · subst he
    have hw2 : w2 = send_c_msg FQ_CHANGE_DONE_CMD (rcvd msg w) := by
      rw [step_c_rcv_done, hc] at h
      simp only [ACK, Nat.reduceEqDiff, if_false, if_true, Option.some.injEq] at h
      rw [← h]
      have hs2 : (rcvd msg w).prot.main_state = HANDSHAKE := hs
      unfold ack_to_cmd_h
      simp only []
      rw [if_pos ha, if_pos hs2]
    clear h
    subst hw2
    have hv : FQ_CHANGE_DONE_CMD = 0x90000000 := by decide
    obtain ⟨k1, -, -, -, -, -, -, k8, -⟩ := send_c_msg_keeps FQ_CHANGE_DONE_CMD (rcvd msg w)
    refine ⟨rfl, hv, by decide, k1.trans hs, ?_, ?_⟩
    · intro hlen hh ht hroom
      obtain ⟨E, S, S3⟩ := send_c_msg_room FQ_CHANGE_DONE_CMD (rcvd msg w) hlen hh ht hroom
      refine ⟨S.trans hv, fun i hi => S3 i hi, by rw [E]; rfl, k8, ?_⟩
      apply new_effects_append
      rw [E, ← hv]
      simp [upd, emit, rcvd]
    · intro hfull
      have D := send_c_msg_drop FQ_CHANGE_DONE_CMD (rcvd msg w) hfull
      rw [D]
      have hn : new_effects w (rcvd msg w) = [.ssi_read_c] :=
        new_effects_append _ _ _ rfl
      refine ⟨rfl, rfl, rfl, rfl, hn, ?_⟩
      rw [hn]
      rfl
  · subst he
    obtain ⟨w3, e3, a, b, c, -, f⟩ := c_send_done_fq_done acwake w hc hs
    have e4 : step (.c_send_done acwake) w = some w3 := e3
    have hw : w3 = w2 := Option.some.inj (e4.symm.trans h)
    subst hw
    exact ⟨a, c, b, f⟩

/-- C27, at an `ACK` of `FQ_CHANGE_REQ` received by an engine in `HANDSHAKE`
that has sent nothing but `BOOT_INFO_RESP`: `FQ_CHANGE_DONE` is stored in
slot 1; and at the same `ACK` received by the engine that has been asked for
its boot information three times and holds three `BOOT_INFO_RESP` words:
nothing is stored and nothing is written. -/
theorem fq_change_done_origin_witness :
    (step (.c_rcv_done 0xa0000008 true) engine_handshake_bound =
      some (send_c_msg FQ_CHANGE_DONE_CMD (rcvd 0xa0000008 engine_handshake_bound)) ∧
    slot (send_c_msg FQ_CHANGE_DONE_CMD (rcvd 0xa0000008 engine_handshake_bound)) 1 =
      0x90000000 ∧
    ∃ msg b, Event.c_rcv_done 0xa0000008 true = .c_rcv_done msg b ∧ COMMAND msg = ACK ∧
      ACK_TO_CMD msg % 256 = FQ_CHANGE_REQ ∧
      engine_handshake_bound.prot.main_state = HANDSHAKE) ∧
    (Reachable engine_handshake_full ∧
      engine_handshake_full.prot.main_state = HANDSHAKE ∧
      engine_handshake_full.prot.c_queue = [0x20000001, 0x20000001, 0x20000001, 0] ∧
      step (.c_rcv_done 0xa0000008 true) engine_handshake_full =
        some (rcvd 0xa0000008 engine_handshake_full) ∧
      (rcvd 0xa0000008 engine_handshake_full).prot.c_queue =
        engine_handshake_full.prot.c_queue ∧
      c_writes (new_effects engine_handshake_full (rcvd 0xa0000008 engine_handshake_full)) =
        []) := by
  refine ⟨⟨by decide, by decide,
   (fq_change_done_origin (.c_rcv_done 0xa0000008 true) engine_handshake_bound
      (send_c_msg FQ_CHANGE_DONE_CMD (rcvd 0xa0000008 engine_handshake_bound)) (by decide)).1 1
      (by decide) (by decide)⟩,
    ⟨calls_handshake_full, by decide⟩, by decide, by decide, by decide, ?_⟩
  obtain ⟨-, -, -, -, -, hfull⟩ :=
    (fq_change_done_origin (.c_rcv_done 0xa0000008 true) engine_handshake_full
      (rcvd 0xa0000008 engine_handshake_full) (by decide)).2.2.1 0xa0000008 true rfl
      (by decide) (by decide) (by decide)
  obtain ⟨-, hq, -, -, -, hw⟩ := hfull (by decide)
  exact ⟨hq, hw⟩

/-- C27, as stated, fails: from the probed engine, `BOOT_INFO_REQ` and then an
`ACK` of `FQ_CHANGE_REQ`, each followed by the completion of the write it causes: the
engine is `ACTIVE` and online, it has written `BOOT_INFO_RESP` and
`FQ_CHANGE_DONE` and no `FQ_CHANGE_REQ`, and no `WAKE_TEST_RESULT` has been
received. -/
theorem fq_change_done_counterexample :
    ∃ w2, run_events [.c_rcv_done 0x10000001 true, .c_send_done 0,
        .c_rcv_done 0xa0000008 true, .c_send_done 0] engine_probed = some w2 ∧
      w2.prot.main_state = ACTIVE ∧ w2.prot.flags &&& CMT_ONLINE ≠ 0 ∧
      c_writes (new_effects engine_probed w2) = [0x20000001, 0x90000000] ∧
      Effect.netif_carrier_on ∈ new_effects engine_probed w2 := by
  refine ⟨_, rfl, ?_, ?_, ?_, ?_⟩ <;> decide

/-- C29: after `reset_mcsaab` the send machine is below `SENDING` and
nothing is queued for reception, but `recv_state` is not `RECV_READY`: the
function assigns `RECV_READY` to `send_state` and `SEND_READY` to `recv_state`,
and `SEND_READY` is the number of `RECEIVING`.  The module initialisation and
`mcsaab_remove` assign `SEND_READY` to `send_state` and `RECV_READY` to
`recv_state`. -/
theorem reset_recv_state (w : World) :
    (reset_mcsaab w).prot.recv_state = RECEIVING ∧
    (reset_mcsaab w).prot.recv_state ≠ RECV_READY ∧
    (reset_mcsaab w).prot.send_state = WAIT4READY ∧
    (reset_mcsaab w).prot.send_state < SENDING ∧
    (reset_mcsaab w).prot.rx_queue = [] ∧ (reset_mcsaab w).prot.rx_wd = false ∧
    (w.prot.dev_d_ch = true → Effect.ssi_read_cancel_d ∈ new_effects w (reset_mcsaab w)) ∧
    (∀ n, Effect.ssi_read_d n ∉ new_effects w (reset_mcsaab w)) ∧
    ssi_proto_init.prot.recv_state = RECV_READY ∧
    ssi_proto_init.prot.send_state = SEND_READY ∧
    (w.prot.dev_c_ch = true →
      (mcsaab_remove .control w).prot.recv_state = RECV_READY ∧
      (mcsaab_remove .control w).prot.send_state = SEND_READY) := by
  have hp := reset_mcsaab_prot w
  have ht := reset_mcsaab_trace w
  have hn : new_effects w (reset_mcsaab w) = reset_calls w.prot := new_effects_append _ _ _ ht
  have h1 : (reset_mcsaab w).prot.recv_state = SEND_READY := by rw [hp]
  have h2 : (reset_mcsaab w).prot.send_state = RECV_READY := by rw [hp]
  refine ⟨h1, by rw [h1]; decide, h2, by rw [h2]; decide, by rw [hp], by rw [hp],
    fun hd => ?_, fun n => ?_, rfl, rfl, fun hc => ?_⟩
  · rw [hn]; unfold reset_calls; simp [hd]
  · rw [hn]; unfold reset_calls
    simp only [List.mem_append, List.mem_map, not_or]
    refine ⟨⟨⟨⟨⟨⟨?_, ?_⟩, ?_⟩, ?_⟩, ?_⟩, ?_⟩, ?_⟩
    · split_ifs <;> simp
    · simp
    · split_ifs <;> simp
    · split_ifs <;> simp
    · simp
    · simp
    · simp
  · unfold mcsaab_remove
    simp only []
    by_cases hf : w.prot.flags &&& CMT_ONLINE ≠ 0
    · have hc2 : (emit .netif_carrier_off w).prot.dev_c_ch = true := hc
      rw [if_pos hf, if_pos ⟨trivial, hc2⟩]
      exact ⟨rfl, rfl⟩
    · rw [if_neg hf, if_pos ⟨trivial, hc⟩]
      exact ⟨rfl, rfl⟩

/-- C30: the head packet the transmit path reads is always there.  In
every reachable world the send machine is in `SENDING` only with a packet in
`tx_queue`, and every event is handled to its end: no call of
`mcsaab_start_tx` and no `START_TRANSFER` completion in `SENDING` finds
`tx_queue` empty (the model has no next world exactly when `skb_peek` returns
`NULL` there).  The same holds for the worlds the event leads to. -/
theorem head_packet_defined (w : World) (hw : Reachable w) :
    (w.prot.send_state = SENDING → w.prot.tx_queue ≠ []) ∧
    (∀ e, ∃ w2, step e w = some w2 ∧ Reachable w2 ∧
      (w2.prot.send_state = SENDING → w2.prot.tx_queue ≠ [])) ∧
    (w.prot.tx_queue ≠ [] → ∃ w2, mcsaab_start_tx w = some w2) ∧
    (∀ acwake, COMMAND (slot w w.prot.head) = START_TRANS → w.prot.send_state = SENDING →
      ∃ skb w2, w.prot.tx_queue.head? = some skb ∧ c_send_done_cb acwake w = some w2 ∧
        Effect.ssi_write_d skb.data ((skb.len + 3) % U32 / 4) ∈ new_effects w w2) := by
  have hp : HeadPacket w := (reachable_link w hw).2
  refine ⟨hp, fun e => ?_, start_tx_some w, fun acwake hc hs => ?_⟩
  · obtain ⟨w2, h⟩ := step_total w hp e
    have hw2 : Reachable w2 := reachable_call (.event e) hw h
    exact ⟨w2, h, hw2, (reachable_link w2 hw2).2⟩
  · cases hq : w.prot.tx_queue with
    | nil => exact absurd hq (hp hs)
    | cons skb rest =>
      obtain ⟨w2, e, -, ht⟩ := c_send_done_start_trans acwake w skb rest hc hs hq
      refine ⟨skb, w2, rfl, e, ?_⟩
      rw [ht]
      simp

/-- C30, at the engine that sends its first packet, which is reachable: the
completion of its `START_TRANSFER` finds the packet and leads to a world with the packet still
queued. -/
theorem head_packet_defined_witness :
    Reachable engine_first_packet ∧ engine_first_packet.prot.send_state = SENDING ∧
    engine_first_packet.prot.tx_queue = [ssi_pn_xmit_swap phonet_packet7] ∧
    ∃ w2, step (.c_send_done 1) engine_first_packet = some w2 ∧ Reachable w2 ∧
      (w2.prot.send_state = SENDING → w2.prot.tx_queue ≠ []) := by
  have hw : Reachable engine_first_packet := ⟨calls_first_packet, by decide⟩
  exact ⟨hw, by decide, by decide, (head_packet_defined _ hw).2.1 (.c_send_done 1)⟩

end McSAAB
